import Mathlib

/-!
# Krypton certificate authority: certificate templates, CSR validation, device issuance
and tenant signing certificates

A shallow embedding of the certificate issuance engine of `krypton-ca`
(`service/common`, `service/certmgr/kms_providers`, `service/certmgr/certstore`,
`service/rpc`).

Conventions of the embedding

* Go functions that read the wall clock, the system random source, the
  certificate store, the file system or the KMS are functions from a `World`
  to a result and the next `World`.
* A Go result `(v, err)` is an `Except Error α`; a bare `error` is an
  `Option Error` (`none` is Go's `nil`).
* Byte strings are lists of naturals, each read modulo 256 where its value
  matters. A byte slice that the code compares with `nil` is an `Option`.
* An instant (`time.Time`) is an `Int`: nanoseconds since the Unix epoch. The
  times that the code handles come from `time.Now` and are in the location
  `time.Local`, which is `localZone` of the `World`; a location is given by
  its method `lookup`.
* Calls into the Go standard library and third party packages whose result is
  determined by cryptography or by an encoding (`crypto/x509`, `crypto/rsa`,
  `pkcs7`, `encoding/pem`) are fields of `Lib`; the certificate store and the
  KMS client, which the code reaches through Go interfaces, are records of
  operations over an abstract state.
* Two packages are written out, as `crypto/rand.Int` and `time` are: the wire
  format of `encoding/gob` for a `SigningCertificate`, and a bucket of `bbolt`
  as the key-value pairs it holds, since what the embedded store returns is
  determined by them.
* A Go string is the text that its bytes spell in UTF-8.
* Logging and metrics, with the clock readings taken only for them, are not
  modelled.
-/

namespace KryptonCA

/-! ## Plain data -/

abbrev Bytes := List Nat

/-- Go `error` values the code distinguishes. The three sentinel errors come
from `common/errors.go`; `NotFoundException` is the KMS error type that
`errors.As` looks for; every other error is `other` with its message. -/
inductive Error where
  | ErrCertStoreNotFound
  | ErrInvalidCertStore
  | ErrInvalidKmsProvider
  | NotFoundException (msg : String)
  | other (msg : String)
  deriving DecidableEq

/-- Enumeration `x509.SignatureAlgorithm`. -/
inductive SignatureAlgorithm where
  | UnknownSignatureAlgorithm
  | MD2WithRSA
  | MD5WithRSA
  | SHA1WithRSA
  | SHA256WithRSA
  | SHA384WithRSA
  | SHA512WithRSA
  | DSAWithSHA1
  | DSAWithSHA256
  | ECDSAWithSHA1
  | ECDSAWithSHA256
  | ECDSAWithSHA384
  | ECDSAWithSHA512
  | SHA256WithRSAPSS
  | SHA384WithRSAPSS
  | SHA512WithRSAPSS
  | PureEd25519
  deriving DecidableEq

/-- Enumeration `x509.PublicKeyAlgorithm`. -/
inductive PublicKeyAlgorithm where
  | UnknownPublicKeyAlgorithm
  | RSA
  | DSA
  | ECDSA
  | Ed25519
  deriving DecidableEq

/-- Enumeration `x509.ExtKeyUsage` (the first values). -/
inductive ExtKeyUsage where
  | ExtKeyUsageAny
  | ExtKeyUsageServerAuth
  | ExtKeyUsageClientAuth
  | ExtKeyUsageCodeSigning
  | ExtKeyUsageEmailProtection
  deriving DecidableEq

/-- Bit set `x509.KeyUsage`: `KeyUsageDigitalSignature = 1 << 0`. -/
def KeyUsageDigitalSignature : Nat := 1

/-- Bit `x509.KeyUsageCertSign = 1 << 5`. -/
def KeyUsageCertSign : Nat := 32

/-- A public key as Go's `crypto.PublicKey` holds it: the dynamic type is the
constructor. -/
inductive PublicKey where
  | rsa (n : Nat) (e : Nat)
  | ecdsa (x : Nat) (y : Nat)
  | ed25519 (k : Bytes)
  deriving DecidableEq

/-- Key `rsa.PrivateKey`: the public half and the private exponent. -/
structure RSAPrivateKey where
  N : Nat
  E : Nat
  D : Nat
  deriving DecidableEq

/-- Public half `&key.PublicKey` of an RSA private key. -/
def RSAPrivateKey.PublicKey (k : RSAPrivateKey) : PublicKey := .rsa k.N k.E

/-- Attribute `pkix.AttributeTypeAndValue` (`Typ` is its field `Type`); the
code only stores strings as values. -/
structure AttributeTypeAndValue where
  Typ : List Nat
  Value : String
  deriving DecidableEq

/-- Distinguished name `pkix.Name`. -/
structure Name where
  Country : List String := []
  Organization : List String := []
  OrganizationalUnit : List String := []
  Locality : List String := []
  Province : List String := []
  StreetAddress : List String := []
  PostalCode : List String := []
  SerialNumber : String := ""
  CommonName : String := ""
  ExtraNames : List AttributeTypeAndValue := []
  deriving DecidableEq

/-- Extension `pkix.Extension`. -/
structure Extension where
  Id : List Nat
  Critical : Bool
  Value : Bytes := []
  deriving DecidableEq


/-- The fields of `x509.Certificate` the service reads or writes; the defaults
are Go's zero values. -/
structure Certificate where
  Raw : Bytes := []
  Signature : Bytes := []
  SignatureAlgorithm : SignatureAlgorithm := .UnknownSignatureAlgorithm
  PublicKeyAlgorithm : PublicKeyAlgorithm := .UnknownPublicKeyAlgorithm
  PublicKey : Option PublicKey := none
  SerialNumber : Option Nat := none
  Issuer : Name := {}
  Subject : Name := {}
  NotBefore : Int := 0
  NotAfter : Int := 0
  KeyUsage : Nat := 0
  ExtraExtensions : List Extension := []
  ExtKeyUsage : List ExtKeyUsage := []
  BasicConstraintsValid : Bool := false
  IsCA : Bool := false
  SubjectKeyId : Bytes := []
  deriving DecidableEq

/-- The fields of `x509.CertificateRequest` the service reads. -/
structure CertificateRequest where
  Raw : Bytes := []
  Signature : Bytes := []
  SignatureAlgorithm : SignatureAlgorithm := .UnknownSignatureAlgorithm
  PublicKeyAlgorithm : PublicKeyAlgorithm := .UnknownPublicKeyAlgorithm
  PublicKey : Option PublicKey := none
  Subject : Name := {}
  deriving DecidableEq

/-- Type `common.CertTemplateConfig`. -/
structure CertTemplateConfig where
  IssuerName : String
  Country : String
  Province : String
  Locality : String
  StreetAddress : String
  PostalCode : String
  Organization : String
  deriving DecidableEq

/-- Type `common.SigningCertificate`, the entry kept in the certificate store. -/
structure SigningCertificate where
  TenantID : String := ""
  KmsKeyID : String := ""
  Certificate : Bytes := []
  deriving DecidableEq

/-! ## Constants of `common/ca.go` and `common/cert_templates.go` -/

def CACertificateLifetimeYears : Int := 10
def TenantCertificateLifetimeYears : Int := 10
def DeviceCertificateLifetimeYears : Int := 1

def CommonSigningKeyId : String := "SharedTenantSigningKey"
def CommonTenantDeviceCertificateIssuer : String := "HP Device Certificate Issuer"

/-- Format `TenantDeviceCertificateIssuer = "Device Certificate Issuer: %s"`
applied with `fmt.Sprintf` to one string argument. -/
def TenantDeviceCertificateIssuer (tenantName : String) : String :=
  "Device Certificate Issuer: " ++ tenantName

def CACertificateOid : List Nat := [1, 3, 6, 1, 4, 1, 58515, 7, 1, 1, 1]
def TenantCertificateOid : List Nat := [1, 3, 6, 1, 4, 1, 58515, 7, 1, 1, 2]
def DeviceCertificateOid : List Nat := [1, 3, 6, 1, 4, 1, 58515, 7, 1, 1, 3]

/-! ## Wall clock and calendar (Go `time`) -/

def nsPerSecond : Int := 1000000000
def secondsPerDay : Int := 86400
def nsPerDay : Int := 86400000000000

/-- Days from 0001-01-01 to 1970-01-01. -/
def unixEpochDays : Int := 719162

/-- Function `isLeap` of Go's `time`. -/
def isLeap (year : Int) : Bool :=
  year % 4 == 0 && (year % 100 != 0 || year % 400 == 0)

/-- Table `daysBefore` of Go's `time`: days in a non-leap year before month
`m + 1` starts. -/
def daysBefore (m : Int) : Int :=
  if m ≤ 0 then 0
  else if m = 1 then 31
  else if m = 2 then 59
  else if m = 3 then 90
  else if m = 4 then 120
  else if m = 5 then 151
  else if m = 6 then 181
  else if m = 7 then 212
  else if m = 8 then 243
  else if m = 9 then 273
  else if m = 10 then 304
  else if m = 11 then 334
  else 365

/-- Function `daysSinceEpoch` of Go's `time`, counted from 0001-01-01: days
before 1 January of `year`. Go counts from a year congruent to 1 modulo 400
far in the past so that its unsigned divisions round down; over `Int` the
division already rounds down. -/
def daysSinceEpoch (year : Int) : Int :=
  let y := year - 1
  let n400 := y / 400
  let y := y - 400 * n400
  let d := 146097 * n400
  let n100 := y / 100
  let y := y - 100 * n100
  let d := d + 36524 * n100
  let n4 := y / 4
  let y := y - 4 * n4
  let d := d + 1461 * n4
  d + 365 * y

/-- Year and zero-based day of year of the day `days` after 0001-01-01
(the first half of Go's `absDate`). -/
def absYearDay (days : Int) : Int × Int :=
  let n400 := days / 146097
  let d := days - 146097 * n400
  let n := d / 36524
  let n100 := n - n / 4
  let d := d - 36524 * n100
  let n4 := d / 1461
  let d := d - 1461 * n4
  let n := d / 365
  let n1 := n - n / 4
  let d := d - 365 * n1
  (400 * n400 + 100 * n100 + 4 * n4 + n1 + 1, d)

/-- Month (1 to 12) and day of month from the year and the zero-based day of
year (the second half of Go's `absDate`). -/
def monthDay (year : Int) (yday : Int) : Int × Int :=
  if isLeap year && yday == 31 + 29 - 1 then (2, 29)
  else
    let day := if isLeap year && yday > 31 + 29 - 1 then yday - 1 else yday
    let month := day / 31
    let fin := daysBefore (month + 1)
    if day ≥ fin then (month + 2, day - fin + 1)
    else (month + 1, day - daysBefore month + 1)

/-- Function `absDate` of Go's `time`, on a wall-clock reading in nanoseconds
(the instant that shows this date and time of day in UTC): year, month and
day. -/
def absDate (wall : Int) : Int × Int × Int :=
  let yd := absYearDay (wall / nsPerDay + unixEpochDays)
  let md := monthDay yd.1 yd.2
  (yd.1, md.1, md.2)

/-- Function `absClock` of Go's `time`, on a wall-clock reading in
nanoseconds, together with the nanosecond: hour, minute, second and nanosecond
within the day. -/
def absClock (wall : Int) : Int × Int × Int × Int :=
  let ns := wall % nsPerDay
  let s := ns / nsPerSecond
  (s / 3600, (s % 3600) / 60, s % 60, ns % nsPerSecond)

/-- The first half of function `time.Date`: the wall-clock reading of a
calendar date and a time of day, before the zone offset is taken off; a month
outside 1 to 12 overflows into the year, a day outside the month and a time
outside the day overflow linearly. -/
def wallOfDate (year month day hour min sec nsec : Int) : Int :=
  let m := month - 1
  let year := year + m / 12
  let m := m % 12
  let d := daysSinceEpoch year + daysBefore m
  let d := if isLeap year && m + 1 ≥ 3 then d + 1 else d
  let d := d + (day - 1)
  ((d - unixEpochDays) * secondsPerDay + hour * 3600 + min * 60 + sec) * nsPerSecond + nsec

/-- The calendar step of `Time.AddDate` on a wall-clock reading: the date is
split, the years, months and days are added, and the wall-clock reading of the
outcome is formed. -/
def addDateWall (wall : Int) (years months days : Int) : Int :=
  let ymd := absDate wall
  let c := absClock wall
  wallOfDate (ymd.1 + years) (ymd.2.1 + months) (ymd.2.2 + days) c.1 c.2.1 c.2.2.1 c.2.2.2

/-- What method `lookup` of a `*time.Location` returns for an instant, in
seconds since the Unix epoch: the offset east of UTC in seconds that is in
force at the instant, and the span of instants, from `zoneStart` up to but not
including `zoneEnd`, over which it is in force. -/
structure ZoneSpan where
  offset : Int
  zoneStart : Int
  zoneEnd : Int

/-- A time zone, a `*time.Location` of Go, by its method `lookup`. Which zone
`time.Local` is depends on the machine the process runs on. -/
structure Location where
  lookup : Int → ZoneSpan

/-- The location `time.UTC`: offset zero from `alpha` to `omega`. -/
def utcLocation : Location :=
  { lookup := fun _ => { offset := 0, zoneStart := -(2 ^ 63), zoneEnd := 2 ^ 63 - 1 } }

/-- The offset, in seconds, that method `Time.abs` adds to the instant `t`
(nanoseconds since the Unix epoch) of a time in the location. -/
def zoneOffset (loc : Location) (t : Int) : Int :=
  (loc.lookup (t / nsPerSecond)).offset

/-- Method `Time.abs`, in nanoseconds: the wall-clock reading of the instant
`t` in the location. -/
def timeAbs (loc : Location) (t : Int) : Int :=
  t + zoneOffset loc t * nsPerSecond

/-- The second half of function `time.Date` (as in Go 1.17 and later): the
offset, in seconds, that is taken off the wall-clock seconds `unix`. The zone
is looked up at `unix` as if it were an instant; when the instant corrected by
that offset falls outside the span found, the zone is looked up again at the
corrected instant. -/
def dateOffset (loc : Location) (unix : Int) : Int :=
  let z := loc.lookup unix
  if z.offset ≠ 0 then
    let utc := unix - z.offset
    if utc < z.zoneStart ∨ utc ≥ z.zoneEnd then (loc.lookup utc).offset else z.offset
  else 0

/-- Method `Time.Date`: year, month and day of an instant in the location. -/
def Date (loc : Location) (t : Int) : Int × Int × Int :=
  absDate (timeAbs loc t)

/-- Method `Time.Clock` together with `Time.Nanosecond`: hour, minute, second
and nanosecond within the day, in the location. -/
def Clock (loc : Location) (t : Int) : Int × Int × Int × Int :=
  absClock (timeAbs loc t)

/-- Function `time.Date`: the instant of a calendar date and a time of day in
the location. -/
def mkDate (year month day hour min sec nsec : Int) (loc : Location) : Int :=
  let wall := wallOfDate year month day hour min sec nsec
  wall - dateOffset loc (wall / nsPerSecond) * nsPerSecond

/-- Method `Time.AddDate` of a time in the location `loc`. -/
def AddDate (loc : Location) (t : Int) (years months days : Int) : Int :=
  let ymd := Date loc t
  let c := Clock loc t
  mkDate (ymd.1 + years) (ymd.2.1 + months) (ymd.2.2 + days) c.1 c.2.1 c.2.2.1 c.2.2.2 loc

/-- The offset, in seconds, that `time.Date` takes off inside `Time.AddDate`. -/
def addDateOffset (loc : Location) (t : Int) (years months days : Int) : Int :=
  dateOffset loc (addDateWall (timeAbs loc t) years months days / nsPerSecond)

/-! ## The world the service runs in -/

/-- A call that reached the certificate store. -/
inductive StoreCall where
  | AddCertificate (entry : SigningCertificate)
  | GetCertificate (certID : String)
  | DeleteCertificate (certID : String)
  deriving DecidableEq

/-- A call that reached the KMS client. -/
inductive KmsCall where
  | DescribeKey (keyId : String)
  | CreateKey (description : String)
  | CreateAlias (targetKeyId : String) (aliasName : String)
  | DeleteAlias (aliasName : String)
  | ScheduleKeyDeletion (keyId : String) (pendingWindowInDays : Nat)
  | GetPublicKey (keyId : String)
  | Sign (keyId : String) (digest : Bytes)
  deriving DecidableEq

/-- Everything outside the process that the code reads or writes. `σ` is the
state behind the certificate store and `κ` the state behind the KMS client.
`templateConfig` is the package variable of `common/cert_templates.go`, set by
`InitTemplateConfiguration` from `certmgr.Init` before any template is built.
`files` is the content of each file that exists and `fileErrors` the error, if
any, with which the file system refuses to open a file for writing or to
remove it. `localZone` is the time zone of the machine, the location of every
time that `time.Now` returns. -/
structure World (σ κ : Type) where
  wallClock : Nat → Int
  clockReads : Nat
  localZone : Location
  randReader : Nat → Option Nat
  randPos : Nat
  uuidSource : Nat → String
  uuidDraws : Nat
  templateConfig : CertTemplateConfig
  files : String → Option Bytes
  fileErrors : String → Option Error
  store : σ
  storeCalls : List StoreCall
  kms : κ
  kmsCalls : List KmsCall

variable {σ κ : Type}

/-- Function `time.Now`: the next reading of the wall clock. The time it
returns is in the location `time.Local`, which is `localZone` of the world. -/
def timeNow (w : World σ κ) : Int × World σ κ :=
  (w.wallClock w.clockReads, { w with clockReads := w.clockReads + 1 })

/-- Function `uuid.NewString`. -/
def uuidNewString (w : World σ κ) : String × World σ κ :=
  (w.uuidSource w.uuidDraws, { w with uuidDraws := w.uuidDraws + 1 })

/-- The next `k` bytes of a byte source from position `pos`; `none` when one of
the reads fails. -/
def readBytes (src : Nat → Option Nat) (pos : Nat) : Nat → Option Bytes
  | 0 => some []
  | k + 1 =>
    match src pos with
    | none => none
    | some b =>
      match readBytes src (pos + 1) k with
      | none => none
      | some bs => some (b % 256 :: bs)

/-- Call `io.ReadFull(rand.Reader, buf)` with `len(buf) = k`. -/
def readFull (k : Nat) (w : World σ κ) : Except Error Bytes × World σ κ :=
  match readBytes w.randReader w.randPos k with
  | none => (.error (.other "read of random source failed"), { w with randPos := w.randPos + k })
  | some bs => (.ok bs, { w with randPos := w.randPos + k })

/-- Method `big.Int.SetBytes`: the big-endian value of a byte string. -/
def setBytes (bs : Bytes) : Nat :=
  bs.foldl (fun acc b => acc * 256 + b % 256) 0

/-- The number of binary digits of `n`, by halving at most `fuel` times. -/
def bitLenAux : Nat → Nat → Nat
  | 0, _ => 0
  | fuel + 1, n => if n = 0 then 0 else bitLenAux fuel (n / 2) + 1

/-- Method `big.Int.BitLen`: the number of binary digits. -/
def bitLen (n : Nat) : Nat := bitLenAux n n

/-- Statement `bytes[0] &= uint8(int(1<<b) - 1)` of `crypto/rand.Int`. -/
def clearHighBits (b : Nat) : Bytes → Bytes
  | [] => []
  | b0 :: rest => (b0 % 2 ^ b) :: rest

/-- The loop of `crypto/rand.Int`: read `k` bytes, clear the high bits of the
first byte, accept the candidate when it is below `max`, else draw again.
`none` when `fuel` rounds did not produce a candidate below `max`. -/
def randIntLoop (max k b : Nat) : Nat → World σ κ → Option (Except Error Nat × World σ κ)
  | 0, _ => none
  | fuel + 1, w =>
    match readFull k w with
    | (.error e, w1) => some (.error e, w1)
    | (.ok bytes, w1) =>
      let n := setBytes (clearHighBits b bytes)
      if n < max then some (.ok n, w1) else randIntLoop max k b fuel w1

/-- Function `crypto/rand.Int(rand.Reader, max)` for `max > 0`. -/
def randInt (fuel : Nat) (max : Nat) (w : World σ κ) : Option (Except Error Nat × World σ κ) :=
  let bits := bitLen (max - 1)
  if bits = 0 then some (.ok 0, w)
  else
    let k := (bits + 7) / 8
    let b := if bits % 8 = 0 then 8 else bits % 8
    randIntLoop max k b fuel w

/-- Variable `maxSerialNumber = 2^130` of `common/certutils.go`. -/
def maxSerialNumber : Nat := 2 ^ 130

/-- One round of the loop of `rand.Int` for the bound `2^130`: seventeen bytes
are read and the first is cut to its two low bits. -/
def serialFromRead (w : World σ κ) : Except Error Nat × World σ κ :=
  match readFull 17 w with
  | (.error e, w1) => (.error e, w1)
  | (.ok bytes, w1) => (.ok (setBytes (clearHighBits 2 bytes)), w1)

/-- Function `NewSerialNumber` of `common/certutils.go`. One round of the loop
of `rand.Int` always ends it for this bound (`randInt_maxSerialNumber`), so the
fuel never runs out. -/
def NewSerialNumber (w : World σ κ) : Except Error Nat × World σ κ :=
  (randInt 1 maxSerialNumber w).getD (.error (.other "rand.Int did not return"), w)

/-! ## Certificate templates (`common/cert_templates.go`) -/

/-- Function `NewCACertificateTemplate`. -/
def NewCACertificateTemplate (w : World σ κ) : Except Error Certificate × World σ κ :=
  let r1 := timeNow w
  let r2 := timeNow r1.2
  let caCert : Certificate :=
    { SerialNumber := none
      Subject :=
        { Country := [w.templateConfig.Country]
          Province := [w.templateConfig.Province]
          Locality := [w.templateConfig.Locality]
          StreetAddress := [w.templateConfig.StreetAddress]
          PostalCode := [w.templateConfig.PostalCode]
          Organization := [w.templateConfig.Organization]
          OrganizationalUnit := [w.templateConfig.IssuerName] }
      NotBefore := r1.1
      NotAfter := AddDate w.localZone r2.1 CACertificateLifetimeYears 0 0
      IsCA := true
      ExtKeyUsage := [.ExtKeyUsageClientAuth, .ExtKeyUsageServerAuth]
      KeyUsage := KeyUsageDigitalSignature ||| KeyUsageCertSign
      BasicConstraintsValid := true
      SignatureAlgorithm := .SHA256WithRSA
      ExtraExtensions := [{ Id := CACertificateOid, Critical := false }] }
  match NewSerialNumber r2.2 with
  | (.error err, w3) => (.error err, w3)
  | (.ok n, w3) => (.ok { caCert with SerialNumber := some n }, w3)

/-- Function `NewTenantSigningCertificateTemplate`. -/
def NewTenantSigningCertificateTemplate (tenantID : String) (tenantName : String)
    (w : World σ κ) : Except Error Certificate × World σ κ :=
  let r1 := timeNow w
  let r2 := timeNow r1.2
  let tenantCert : Certificate :=
    { SerialNumber := none
      Subject := { Organization := [tenantName], CommonName := "", ExtraNames := [] }
      NotBefore := r1.1
      NotAfter := AddDate w.localZone r2.1 TenantCertificateLifetimeYears 0 0
      IsCA := true
      ExtKeyUsage := [.ExtKeyUsageClientAuth, .ExtKeyUsageServerAuth]
      KeyUsage := KeyUsageDigitalSignature ||| KeyUsageCertSign
      BasicConstraintsValid := true
      SignatureAlgorithm := .SHA256WithRSA
      ExtraExtensions := [{ Id := TenantCertificateOid, Critical := false }] }
  let tenantCert : Certificate :=
    if tenantID = CommonSigningKeyId then
      { tenantCert with
        Subject := { tenantCert.Subject with CommonName := CommonTenantDeviceCertificateIssuer } }
    else
      { tenantCert with
        Subject :=
          { tenantCert.Subject with
            CommonName := TenantDeviceCertificateIssuer tenantName
            ExtraNames := [{ Typ := [2, 5, 4, 10], Value := tenantID }] } }
  match NewSerialNumber r2.2 with
  | (.error err, w3) => (.error err, w3)
  | (.ok n, w3) => (.ok { tenantCert with SerialNumber := some n }, w3)

/-- Function `NewDeviceCertificateTemplate`. -/
def NewDeviceCertificateTemplate (tenantID : String) (deviceID : String)
    (deviceCSR : CertificateRequest) (w : World σ κ) : Except Error Certificate × World σ κ :=
  let r1 := timeNow w
  let r2 := timeNow r1.2
  let deviceCertTpl : Certificate :=
    { SerialNumber := none
      Subject :=
        { CommonName := deviceID
          ExtraNames := [{ Typ := [2, 5, 4, 10], Value := tenantID }] }
      NotBefore := r1.1
      NotAfter := AddDate w.localZone r2.1 DeviceCertificateLifetimeYears 0 0
      IsCA := false
      KeyUsage := KeyUsageDigitalSignature
      ExtKeyUsage := [.ExtKeyUsageClientAuth, .ExtKeyUsageServerAuth]
      BasicConstraintsValid := true
      Signature := deviceCSR.Signature
      SignatureAlgorithm := .SHA256WithRSA
      PublicKeyAlgorithm := .RSA
      PublicKey := deviceCSR.PublicKey
      ExtraExtensions := [{ Id := DeviceCertificateOid, Critical := false }] }
  match NewSerialNumber r2.2 with
  | (.error err, w3) => (.error err, w3)
  | (.ok n, w3) => (.ok { deviceCertTpl with SerialNumber := some n }, w3)

/-! ## Library operations -/

/-- Operations of Go's standard library and of third party packages that the
service calls and whose results the embedding does not compute: parsing and
signing of X.509 objects, PKCS#7 bundling, PEM and path handling. Every
theorem holds for every such library. `CreateCertificate` is
`x509.CreateCertificate` with an RSA private key; `tbsDigest` and
`assembleCertificate` are the two halves of `x509.CreateCertificate` around the
call of `Sign` on a `crypto.Signer` whose public key is the fourth argument.
`GenerateKey` is `rsa.GenerateKey` over a random source read from a position:
it yields the key or an error, and the position after its reads.
`MarshalPKCS1PrivateKey` yields `none` for Go's `nil`; `pemEncode` is the text
that `pem.Encode` writes for a block of the given type. -/
structure Lib where
  ParseCertificateRequest : Bytes → Except Error CertificateRequest
  CheckSignature : CertificateRequest → Option Error
  ParseCertificate : Bytes → Except Error Certificate
  CreateCertificate :
    Certificate → Certificate → Option PublicKey → RSAPrivateKey → Except Error Bytes
  tbsDigest : Certificate → Certificate → Option PublicKey → PublicKey → Except Error Bytes
  assembleCertificate :
    Certificate → Certificate → Option PublicKey → PublicKey → Bytes → Except Error Bytes
  DegenerateCertificate : Bytes → Except Error Bytes
  ParsePKIXPublicKey : Bytes → Except Error PublicKey
  pemDecode : Bytes → Option Bytes
  ParsePKCS1PrivateKey : Bytes → Except Error RSAPrivateKey
  filepathClean : String → String
  GenerateKey : (Nat → Option Nat) → Nat → Nat → Except Error RSAPrivateKey × Nat
  MarshalPKCS1PrivateKey : RSAPrivateKey → Option Bytes
  pemEncode : String → Bytes → Bytes

/-! ## CSR validation (`common/csrutils.go`) -/

/-- Function `validateCertificateSigningRequest`. -/
def validateCertificateSigningRequest (deviceCSR : CertificateRequest) : Option Error :=
  if deviceCSR.SignatureAlgorithm ≠ .SHA256WithRSA then
    some (.other "unsupported signature algorithm")
  else if deviceCSR.PublicKeyAlgorithm ≠ .RSA then
    some (.other "unsupported public key algorithm")
  else none

/-- Function `ParseDeviceCertificateSigningRequest`. -/
def ParseDeviceCertificateSigningRequest (lib : Lib) (deviceCSR : Bytes) :
    Except Error CertificateRequest :=
  match lib.ParseCertificateRequest deviceCSR with
  | .error _ => .error (.other "failed to parse csr")
  | .ok parsedCSR =>
    match lib.CheckSignature parsedCSR with
    | some _ => .error (.other "failed to check csr signature")
    | none =>
      match validateCertificateSigningRequest parsedCSR with
      | some _ => .error (.other "failed to validate csr")
      | none => .ok parsedCSR

/-- A CSR uses ECDSA or SHA-1 when its key is an ECDSA key or its signature
algorithm is an ECDSA one or one over SHA-1. -/
def usesECDSAorSHA1 (csr : CertificateRequest) : Bool :=
  csr.PublicKeyAlgorithm == .ECDSA ||
    csr.SignatureAlgorithm ∈
      [.ECDSAWithSHA1, .ECDSAWithSHA256, .ECDSAWithSHA384, .ECDSAWithSHA512,
        .SHA1WithRSA, .DSAWithSHA1]

/-! ## Certificate store and KMS client interfaces -/

/-- Interface `certstore.CertStore` over the state `σ` behind it. -/
structure CertStore (σ : Type) where
  AddCertificate : σ → SigningCertificate → Option Error × σ
  GetCertificate : σ → String → Except Error SigningCertificate × σ
  DeleteCertificate : σ → String → Option Error × σ

/-- Call `store.GetCertificate(certID)`, recorded in `storeCalls`. -/
def storeGetCertificate (store : CertStore σ) (certID : String) (w : World σ κ) :
    Except Error SigningCertificate × World σ κ :=
  let r := store.GetCertificate w.store certID
  (r.1, { w with store := r.2, storeCalls := w.storeCalls ++ [.GetCertificate certID] })

/-- Call `store.AddCertificate(entry)`, recorded in `storeCalls`. -/
def storeAddCertificate (store : CertStore σ) (entry : SigningCertificate) (w : World σ κ) :
    Option Error × World σ κ :=
  let r := store.AddCertificate w.store entry
  (r.1, { w with store := r.2, storeCalls := w.storeCalls ++ [.AddCertificate entry] })

/-- Call `store.DeleteCertificate(certID)`, recorded in `storeCalls`. -/
def storeDeleteCertificate (store : CertStore σ) (certID : String) (w : World σ κ) :
    Option Error × World σ κ :=
  let r := store.DeleteCertificate w.store certID
  (r.1, { w with store := r.2, storeCalls := w.storeCalls ++ [.DeleteCertificate certID] })

/-- The methods of interface `KMSClient` (`aws_kms/kms.go`) that the provider
calls, over the state `κ` behind the client. `CreateKey` takes the description
of the key (its key spec is always `RSA_4096` and its usage `SIGN_VERIFY`) and
`DescribeKey` a key id or alias; both yield the `KeyMetadata.KeyId` of the
answer. -/
structure KMSClient (κ : Type) where
  CreateKey : κ → String → Except Error String × κ
  CreateAlias : κ → String → String → Option Error × κ
  DeleteAlias : κ → String → Option Error × κ
  DescribeKey : κ → String → Except Error String × κ
  ScheduleKeyDeletion : κ → String → Nat → Option Error × κ
  GetPublicKey : κ → String → Except Error Bytes × κ
  Sign : κ → String → Bytes → Except Error Bytes × κ

/-- Call `client.DescribeKey`, recorded in `kmsCalls`. -/
def kmsDescribeKey (client : KMSClient κ) (keyId : String) (w : World σ κ) :
    Except Error String × World σ κ :=
  let r := client.DescribeKey w.kms keyId
  (r.1, { w with kms := r.2, kmsCalls := w.kmsCalls ++ [.DescribeKey keyId] })

/-- Call `client.CreateKey`, recorded in `kmsCalls`. -/
def kmsCreateKey (client : KMSClient κ) (description : String) (w : World σ κ) :
    Except Error String × World σ κ :=
  let r := client.CreateKey w.kms description
  (r.1, { w with kms := r.2, kmsCalls := w.kmsCalls ++ [.CreateKey description] })

/-- Call `client.CreateAlias`, recorded in `kmsCalls`. -/
def kmsCreateAlias (client : KMSClient κ) (targetKeyId aliasName : String) (w : World σ κ) :
    Option Error × World σ κ :=
  let r := client.CreateAlias w.kms targetKeyId aliasName
  (r.1, { w with kms := r.2, kmsCalls := w.kmsCalls ++ [.CreateAlias targetKeyId aliasName] })

/-- Call `client.DeleteAlias`, recorded in `kmsCalls`. -/
def kmsDeleteAlias (client : KMSClient κ) (aliasName : String) (w : World σ κ) :
    Option Error × World σ κ :=
  let r := client.DeleteAlias w.kms aliasName
  (r.1, { w with kms := r.2, kmsCalls := w.kmsCalls ++ [.DeleteAlias aliasName] })

/-- Call `client.ScheduleKeyDeletion`, recorded in `kmsCalls`. -/
def kmsScheduleKeyDeletion (client : KMSClient κ) (keyId : String) (pendingWindowInDays : Nat)
    (w : World σ κ) : Option Error × World σ κ :=
  let r := client.ScheduleKeyDeletion w.kms keyId pendingWindowInDays
  (r.1, { w with kms := r.2,
                 kmsCalls := w.kmsCalls ++ [.ScheduleKeyDeletion keyId pendingWindowInDays] })

/-- Call `client.GetPublicKey`, recorded in `kmsCalls`. -/
def kmsGetPublicKey (client : KMSClient κ) (keyID : String) (w : World σ κ) :
    Except Error Bytes × World σ κ :=
  let r := client.GetPublicKey w.kms keyID
  (r.1, { w with kms := r.2, kmsCalls := w.kmsCalls ++ [.GetPublicKey keyID] })

/-- Call `client.Sign`, recorded in `kmsCalls`. -/
def kmsSign (client : KMSClient κ) (keyID : String) (digest : Bytes) (w : World σ κ) :
    Except Error Bytes × World σ κ :=
  let r := client.Sign w.kms keyID digest
  (r.1, { w with kms := r.2, kmsCalls := w.kmsCalls ++ [.Sign keyID digest] })

/-! ## Results of the device certificate operations -/

/-- The five results `(string, []byte, []byte, time.Time, error)` of
`CreateDeviceCertificate` and `RenewDeviceCertificate`. -/
structure DeviceCertResult where
  deviceID : String
  deviceCert : Bytes
  parentCerts : Bytes
  expiresAt : Int
  err : Option Error
  deriving DecidableEq

/-- The statement `return "", nil, nil, time.Now(), err`. -/
def failDevice (err : Error) (w : World σ κ) : DeviceCertResult × World σ κ :=
  let r := timeNow w
  ({ deviceID := "", deviceCert := [], parentCerts := [], expiresAt := r.1, err := some err },
    r.2)

/-! ## Local KMS provider (`kms_providers/local_kms`) -/

/-- Type `LocalProvider` after a successful `Init`: the pointers it holds are
set. -/
structure LocalProvider (σ : Type) where
  caPrivateKey : RSAPrivateKey
  caCert : Certificate
  caCertBytes : Bytes
  commonSigningCert : Certificate
  commonSigningCertPkey : RSAPrivateKey
  perTenantSigningEnabled : Bool
  store : CertStore σ

/-- Method `LocalProvider.getTenantPrivateKey`: read and parse the key file
`<tenantID>.key`. -/
def LocalProvider.getTenantPrivateKey (lib : Lib) (tenantID : String) (w : World σ κ) :
    Except Error RSAPrivateKey :=
  match w.files (lib.filepathClean (tenantID ++ ".key")) with
  | none => .error (.other "open: no such file or directory")
  | some pemPkey =>
    match lib.pemDecode pemPkey with
    | none => .error (.other "failed to decode private key for the tenant signing certificate")
    | some block => lib.ParsePKCS1PrivateKey block

/-- Method `LocalProvider.generateDeviceCertificate`. The first step is the
block that looks the tenant up: it yields the tenant's signing certificate and
key, or nothing when the local variables `tenantSigningCert` and `tenantPkey`
stay `nil` (per-tenant signing disabled, or no entry for the tenant), or the
error of an early return. -/
def LocalProvider.generateDeviceCertificate (lib : Lib) (p : LocalProvider σ)
    (tenantID : String) (deviceID : String) (parsedCSR : CertificateRequest) (w : World σ κ) :
    DeviceCertResult × World σ κ :=
  let lookup : Except Error (Option (Certificate × RSAPrivateKey)) × World σ κ :=
    if p.perTenantSigningEnabled then
      match storeGetCertificate p.store tenantID w with
      | (.error err, w1) =>
        if err ≠ .ErrCertStoreNotFound then (.error err, w1) else (.ok none, w1)
      | (.ok certEntry, w1) =>
        match lib.ParseCertificate certEntry.Certificate with
        | .error err => (.error err, w1)
        | .ok tenantSigningCert =>
          match LocalProvider.getTenantPrivateKey lib certEntry.TenantID w1 with
          | .error err => (.error err, w1)
          | .ok tenantPkey => (.ok (some (tenantSigningCert, tenantPkey)), w1)
    else (.ok none, w)
  match lookup with
  | (.error err, w1) => failDevice err w1
  | (.ok found, w1) =>
    let tenantSigningCert :=
      match found with
      | none => p.commonSigningCert
      | some ck => ck.1
    let tenantPkey :=
      match found with
      | none => p.commonSigningCertPkey
      | some ck => ck.2
    match NewDeviceCertificateTemplate tenantID deviceID parsedCSR w1 with
    | (.error err, w2) => failDevice err w2
    | (.ok deviceCertTpl, w2) =>
      match lib.CreateCertificate deviceCertTpl tenantSigningCert parsedCSR.PublicKey
          tenantPkey with
      | .error err => failDevice err w2
      | .ok deviceCertBytes =>
        let parentCerts := ([] ++ tenantSigningCert.Raw) ++ p.caCertBytes
        match lib.DegenerateCertificate parentCerts with
        | .error err => failDevice err w2
        | .ok parentCerts =>
          ({ deviceID := deviceID, deviceCert := deviceCertBytes, parentCerts := parentCerts,
             expiresAt := deviceCertTpl.NotAfter, err := none }, w2)

/-- Method `LocalProvider.CreateDeviceCertificate`. -/
def LocalProvider.CreateDeviceCertificate (lib : Lib) (p : LocalProvider σ) (tenantID : String)
    (deviceCSR : Option Bytes) (w : World σ κ) : DeviceCertResult × World σ κ :=
  match deviceCSR with
  | none => failDevice (.other "invalid parameter") w
  | some csr =>
    if tenantID = "" then failDevice (.other "invalid parameter") w
    else
      match ParseDeviceCertificateSigningRequest lib csr with
      | .error err => failDevice err w
      | .ok parsedCSR =>
        let u := uuidNewString w
        p.generateDeviceCertificate lib tenantID u.1 parsedCSR u.2

/-- Method `LocalProvider.RenewDeviceCertificate`. -/
def LocalProvider.RenewDeviceCertificate (lib : Lib) (p : LocalProvider σ) (tenantID : String)
    (deviceID : String) (deviceCSR : Option Bytes) (w : World σ κ) :
    DeviceCertResult × World σ κ :=
  match deviceCSR with
  | none => failDevice (.other "invalid parameter") w
  | some csr =>
    if tenantID = "" ∨ deviceID = "" then failDevice (.other "invalid parameter") w
    else
      match ParseDeviceCertificateSigningRequest lib csr with
      | .error err => failDevice err w
      | .ok parsedCSR => p.generateDeviceCertificate lib tenantID deviceID parsedCSR w

/-! ## AWS KMS provider (`kms_providers/aws_kms`) -/

/-- Type `AwsKmsProvider` after a successful `Init`. Its context is
`context.Background()`, which is never done, so the `select` on `ctx.Done()`
that opens each KMS helper always takes its default branch. -/
structure AwsKmsProvider (σ κ : Type) where
  client : KMSClient κ
  caKeyID : String
  caCert : Certificate
  caCertBytes : Bytes
  commonSigningCert : SigningCertificate
  store : CertStore σ

/-- Type `KMSSigner`: the key id and the public key fetched for it. -/
structure KMSSigner where
  keyID : String
  publicKey : PublicKey
  deriving DecidableEq

/-- Function `newKMSSigner`. -/
def newKMSSigner (lib : Lib) (client : KMSClient κ) (keyID : String) (w : World σ κ) :
    Except Error KMSSigner × World σ κ :=
  match kmsGetPublicKey client keyID w with
  | (.error err, w1) => (.error err, w1)
  | (.ok publicKey, w1) =>
    match lib.ParsePKIXPublicKey publicKey with
    | .error err => (.error err, w1)
    | .ok key => (.ok { keyID := keyID, publicKey := key }, w1)

/-- Method `KMSSigner.Sign`. -/
def KMSSigner.Sign (client : KMSClient κ) (s : KMSSigner) (digest : Bytes) (w : World σ κ) :
    Except Error Bytes × World σ κ :=
  kmsSign client s.keyID digest w

/-- Call `x509.CreateCertificate(rand.Reader, template, parent, pub, signer)`
with a `KMSSigner`: the library prepares the digest of the certificate to be
signed, has the signer sign it, and assembles the certificate. -/
def createCertificateWithSigner (lib : Lib) (client : KMSClient κ) (template : Certificate)
    (parent : Certificate) (pub : Option PublicKey) (signer : KMSSigner) (w : World σ κ) :
    Except Error Bytes × World σ κ :=
  match lib.tbsDigest template parent pub signer.publicKey with
  | .error err => (.error err, w)
  | .ok digest =>
    match KMSSigner.Sign client signer digest w with
    | (.error err, w1) => (.error err, w1)
    | (.ok signature, w1) =>
      (lib.assembleCertificate template parent pub signer.publicKey signature, w1)

/-- Method `AwsKmsProvider.CreateDeviceCertificate`. -/
def AwsKmsProvider.CreateDeviceCertificate (lib : Lib) (p : AwsKmsProvider σ κ)
    (tenantID : String) (deviceCSR : Option Bytes) (w : World σ κ) :
    DeviceCertResult × World σ κ :=
  match deviceCSR with
  | none => failDevice (.other "invalid parameter") w
  | some csr =>
    if tenantID = "" then failDevice (.other "invalid parameter") w
    else
      match ParseDeviceCertificateSigningRequest lib csr with
      | .error err => failDevice err w
      | .ok parsedCSR =>
        let found : Except Error SigningCertificate × World σ κ :=
          match storeGetCertificate p.store tenantID w with
          | (.error err, w1) =>
            if err = .ErrCertStoreNotFound then (.ok p.commonSigningCert, w1)
            else (.error err, w1)
          | (.ok certEntry, w1) => (.ok certEntry, w1)
        match found with
        | (.error err, w1) => failDevice err w1
        | (.ok certEntry, w1) =>
          match lib.ParseCertificate certEntry.Certificate with
          | .error err => failDevice err w1
          | .ok tenantSigningCert =>
            let u := uuidNewString w1
            match NewDeviceCertificateTemplate tenantID u.1 parsedCSR u.2 with
            | (.error err, w2) => failDevice err w2
            | (.ok deviceCertTpl, w2) =>
              match newKMSSigner lib p.client certEntry.KmsKeyID w2 with
              | (.error err, w3) => failDevice err w3
              | (.ok deviceSigner, w3) =>
                match createCertificateWithSigner lib p.client deviceCertTpl tenantSigningCert
                    parsedCSR.PublicKey deviceSigner w3 with
                | (.error err, w4) => failDevice err w4
                | (.ok deviceCertBytes, w4) =>
                  let parentCerts := ([] ++ p.caCertBytes) ++ tenantSigningCert.Raw
                  match lib.DegenerateCertificate parentCerts with
                  | .error err => failDevice err w4
                  | .ok parentCerts =>
                    ({ deviceID := u.1, deviceCert := deviceCertBytes,
                       parentCerts := parentCerts, expiresAt := deviceCertTpl.NotAfter,
                       err := none }, w4)

/-- Method `AwsKmsProvider.RenewDeviceCertificate`. -/
def AwsKmsProvider.RenewDeviceCertificate (lib : Lib) (p : AwsKmsProvider σ κ)
    (tenantID : String) (deviceID : String) (deviceCSR : Option Bytes) (w : World σ κ) :
    DeviceCertResult × World σ κ :=
  match deviceCSR with
  | none => failDevice (.other "invalid parameter") w
  | some csr =>
    if tenantID = "" ∨ deviceID = "" then failDevice (.other "invalid parameter") w
    else
      match ParseDeviceCertificateSigningRequest lib csr with
      | .error err => failDevice err w
      | .ok parsedCSR =>
        let found : Except Error SigningCertificate × World σ κ :=
          match storeGetCertificate p.store tenantID w with
          | (.error err, w1) =>
            if err = .ErrCertStoreNotFound then (.ok p.commonSigningCert, w1)
            else (.error err, w1)
          | (.ok certEntry, w1) => (.ok certEntry, w1)
        match found with
        | (.error err, w1) => failDevice err w1
        | (.ok certEntry, w1) =>
          match lib.ParseCertificate certEntry.Certificate with
          | .error err => failDevice err w1
          | .ok tenantSigningCert =>
            match NewDeviceCertificateTemplate tenantID deviceID parsedCSR w1 with
            | (.error err, w2) => failDevice err w2
            | (.ok deviceCertTpl, w2) =>
              match newKMSSigner lib p.client certEntry.KmsKeyID w2 with
              | (.error err, w3) => failDevice err w3
              | (.ok deviceSigner, w3) =>
                match createCertificateWithSigner lib p.client deviceCertTpl tenantSigningCert
                    parsedCSR.PublicKey deviceSigner w3 with
                | (.error err, w4) => failDevice err w4
                | (.ok deviceCertBytes, w4) =>
                  let parentCerts := ([] ++ tenantSigningCert.Raw) ++ p.caCertBytes
                  match lib.DegenerateCertificate parentCerts with
                  | .error err => failDevice err w4
                  | .ok parentCerts =>
                    ({ deviceID := deviceID, deviceCert := deviceCertBytes,
                       parentCerts := parentCerts, expiresAt := deviceCertTpl.NotAfter,
                       err := none }, w4)

/-! ## Go strings as bytes -/

/-- The UTF-8 encoding of the code point `c`. -/
def utf8EncodeChar (c : Nat) : Bytes :=
  if c < 0x80 then [c]
  else if c < 0x800 then [0xC0 + c / 64, 0x80 + c % 64]
  else if c < 0x10000 then [0xE0 + c / 4096, 0x80 + c / 64 % 64, 0x80 + c % 64]
  else [0xF0 + c / 262144, 0x80 + c / 4096 % 64, 0x80 + c / 64 % 64, 0x80 + c % 64]

/-- Conversion `[]byte(s)`: the bytes of a Go string. The embedding writes a
Go string as the text that its bytes spell in UTF-8. -/
def stringBytes (s : String) : Bytes :=
  s.data.flatMap (fun c => utf8EncodeChar c.toNat)

/-- The state of a UTF-8 reader: the characters read so far, the newest first,
the number of continuation bytes that the current character still needs, and
the bits gathered for it. -/
structure Utf8State where
  out : List Char
  need : Nat
  acc : Nat

/-- One byte read by the UTF-8 reader. A byte that cannot stand where it is
found yields the replacement character. -/
def utf8Step (st : Utf8State) (b : Nat) : Utf8State :=
  if st.need = 0 then
    if b % 256 < 0x80 then { out := Char.ofNat (b % 256) :: st.out, need := 0, acc := 0 }
    else if b % 256 / 32 = 6 then { out := st.out, need := 1, acc := b % 256 % 32 }
    else if b % 256 / 16 = 14 then { out := st.out, need := 2, acc := b % 256 % 16 }
    else if b % 256 / 8 = 30 then { out := st.out, need := 3, acc := b % 256 % 8 }
    else { out := Char.ofNat 0xFFFD :: st.out, need := 0, acc := 0 }
  else if b % 256 / 64 = 2 then
    if st.need = 1 then
      { out := Char.ofNat (st.acc * 64 + b % 256 % 64) :: st.out, need := 0, acc := 0 }
    else { out := st.out, need := st.need - 1, acc := st.acc * 64 + b % 256 % 64 }
  else { out := Char.ofNat 0xFFFD :: st.out, need := 0, acc := 0 }

/-- Conversion `string(b)`. A Go string holds the bytes as they are; here it
is the text that the bytes spell in UTF-8, with the replacement character for
bytes that spell none. -/
def bytesString (b : Bytes) : String :=
  ⟨(b.foldl utf8Step { out := [], need := 0, acc := 0 }).out.reverse⟩

/-! ## Signing certificate entries on the wire (`common/signing_certificate.go`)

`EncodeSigningCertificate` and `DecodeSigningCertificate` run a fresh encoder
and a fresh decoder of package `encoding/gob` on a `SigningCertificate`. The
stream of a fresh encoder is the message that defines the struct type followed
by the message that holds the value; what follows is that wire format for
structs whose fields are strings and byte slices. -/

/-- Constant `tooBig` of `encoding/gob` on a 64-bit platform: no message and
no string is as long as this. -/
def gobTooBig : Nat := 2 ^ 33

/-- The big-endian bytes of `x` without leading zeros, at most `k` of them. -/
def bigEndian : Nat → Nat → Bytes
  | 0, _ => []
  | k + 1, x => if x = 0 then [] else bigEndian k (x / 256) ++ [x % 256]

/-- Method `encoderState.encodeUint`: a value below 128 is one byte, any other
is its big-endian bytes after a byte that holds their number, negated. -/
def gobEncodeUint (x : Nat) : Bytes :=
  if x ≤ 0x7F then [x]
  else (256 - (bigEndian 8 (x % 2 ^ 64)).length) :: bigEndian 8 (x % 2 ^ 64)

/-- Method `encoderState.encodeInt`: the sign goes to the lowest bit. -/
def gobEncodeInt (i : Int) : Bytes :=
  if i < 0 then gobEncodeUint ((-i - 1).toNat * 2 + 1) else gobEncodeUint (i.toNat * 2)

/-- Method `decoderState.decodeUint`, with the bytes left over. -/
def gobDecodeUint : Bytes → Option (Nat × Bytes)
  | [] => none
  | b :: rest =>
    if b % 256 ≤ 0x7F then some (b % 256, rest)
    else if 8 < 256 - b % 256 then none
    else if rest.length < 256 - b % 256 then none
    else some (setBytes (rest.take (256 - b % 256)), rest.drop (256 - b % 256))

/-- Method `decoderState.decodeInt`. -/
def gobDecodeInt (bs : Bytes) : Option (Int × Bytes) :=
  match gobDecodeUint bs with
  | none => none
  | some (x, rest) =>
    if x % 2 = 1 then some (-((x / 2 : Nat) : Int) - 1, rest)
    else some (((x / 2 : Nat) : Int), rest)

/-- A count followed by that many bytes: how a string and a byte slice are
sent, and how a message is framed. -/
def gobEncodeCounted (b : Bytes) : Bytes :=
  gobEncodeUint b.length ++ b

/-- The counted bytes at the head of a stream, and what follows them. -/
def gobDecodeCounted (bs : Bytes) : Option (Bytes × Bytes) :=
  match gobDecodeUint bs with
  | none => none
  | some (n, rest) =>
    if gobTooBig ≤ n ∨ rest.length < n then none else some (rest.take n, rest.drop n)

/-- Type `fieldType` of `encoding/gob`: the name of a struct field and the id
of its type. -/
structure GobFieldType where
  Name : String
  Id : Int
  deriving DecidableEq

/-- Type `structType` of `encoding/gob` with its embedded `CommonType`. -/
structure GobStructType where
  Name : String
  Id : Int
  Field : List GobFieldType
  deriving DecidableEq

/-- The ids of the types `[]byte` and `string`. -/
def gobBytesId : Int := 5
def gobStringId : Int := 6

/-- The id that the first struct type of a process gets; `SigningCertificate`
is the only type that the service encodes. -/
def gobFirstStructId : Int := 65

/-- Go type `SigningCertificate` as `encoding/gob` describes it. -/
def signingCertificateType : GobStructType :=
  { Name := "SigningCertificate"
    Id := gobFirstStructId
    Field :=
      [{ Name := "TenantID", Id := gobStringId }, { Name := "KmsKeyID", Id := gobStringId },
        { Name := "Certificate", Id := gobBytesId }] }

/-- A struct value with the two fields `Name` and `Id`, both set (a
`CommonType` or a `fieldType`): each field after the distance from the field
before it, then the end mark. -/
def gobEncodeNameId (name : String) (id : Int) : Bytes :=
  [1] ++ gobEncodeCounted (stringBytes name) ++ [1] ++ gobEncodeInt id ++ [0]

/-- The `wireType` value that describes a struct type: its field `StructT`
(the third), in it the `CommonType` and the slice `Field`. -/
def gobEncodeWireType (t : GobStructType) : Bytes :=
  [3, 1] ++ gobEncodeNameId t.Name t.Id ++ [1] ++ gobEncodeUint t.Field.length
    ++ t.Field.flatMap (fun f => gobEncodeNameId f.Name f.Id) ++ [0, 0]

/-- The fields of a struct value as they are sent: a field that holds the zero
value is left out, every other is sent after the distance of its number from
the number of the field sent before it. -/
def gobEncodeFields : Int → List (Int × Bytes) → Bytes
  | _, [] => []
  | last, (num, payload) :: rest =>
    if payload.length = 0 then gobEncodeFields last rest
    else
      gobEncodeUint (num - last).toNat ++ gobEncodeCounted payload ++ gobEncodeFields num rest

/-- The body of the message that holds a `SigningCertificate`. -/
def gobEncodeValue (entry : SigningCertificate) : Bytes :=
  gobEncodeInt gobFirstStructId
    ++ gobEncodeFields (-1)
        [(0, stringBytes entry.TenantID), (1, stringBytes entry.KmsKeyID),
          (2, entry.Certificate)]
    ++ [0]

/-- Method `Encoder.writeMessage`: the body after its length. -/
def gobMessage (body : Bytes) : Except Error Bytes :=
  if gobTooBig ≤ body.length then .error (.other "gob: encoder: message too big")
  else .ok (gobEncodeCounted body)

/-- Function `EncodeSigningCertificate`. -/
def EncodeSigningCertificate (entry : SigningCertificate) : Except Error Bytes :=
  match gobMessage (gobEncodeInt (-gobFirstStructId) ++ gobEncodeWireType signingCertificateType)
  with
  | .error err => .error err
  | .ok typeMessage =>
    match gobMessage (gobEncodeValue entry) with
    | .error err => .error err
    | .ok valueMessage => .ok (typeMessage ++ valueMessage)

/-- A struct value with the fields `Name` (a string) and `Id` (an int) read
from the wire, either of which may be left out. -/
def gobDecodeNameId (bs : Bytes) : Option ((String × Int) × Bytes) :=
  match gobDecodeUint bs with
  | none => none
  | some (d1, r1) =>
    if d1 = 0 then some (("", 0), r1)
    else if d1 = 1 then
      match gobDecodeCounted r1 with
      | none => none
      | some (name, r2) =>
        match gobDecodeUint r2 with
        | none => none
        | some (d2, r3) =>
          if d2 = 0 then some ((bytesString name, 0), r3)
          else if d2 = 1 then
            match gobDecodeInt r3 with
            | none => none
            | some (id, r4) =>
              match gobDecodeUint r4 with
              | none => none
              | some (d3, r5) => if d3 = 0 then some ((bytesString name, id), r5) else none
          else none
    else if d1 = 2 then
      match gobDecodeInt r1 with
      | none => none
      | some (id, r2) =>
        match gobDecodeUint r2 with
        | none => none
        | some (d2, r3) => if d2 = 0 then some (("", id), r3) else none
    else none

/-- The `n` elements of the slice `structType.Field`. -/
def gobDecodeFieldTypes : Nat → Bytes → Option (List GobFieldType × Bytes)
  | 0, bs => some ([], bs)
  | n + 1, bs =>
    match gobDecodeNameId bs with
    | none => none
    | some (f, r) =>
      match gobDecodeFieldTypes n r with
      | none => none
      | some (fs, r2) => some ({ Name := f.1, Id := f.2 } :: fs, r2)

/-- The end of a `structType` and of the `wireType` around it, after which the
message holds nothing more. -/
def gobDecodeWireTypeEnd (t : GobStructType) (bs : Bytes) : Option GobStructType :=
  match gobDecodeUint bs with
  | none => none
  | some (d1, r1) =>
    if d1 ≠ 0 then none
    else
      match gobDecodeUint r1 with
      | none => none
      | some (d2, r2) => if d2 = 0 ∧ r2.length = 0 then some t else none

/-- A `wireType` value read from the wire. Only a value that describes a
struct type is read; every other is refused. -/
def gobDecodeWireType (bs : Bytes) : Option GobStructType :=
  match gobDecodeUint bs with
  | none => none
  | some (d, r) =>
    if d ≠ 3 then none
    else
      match gobDecodeUint r with
      | none => none
      | some (d1, r1) =>
        if d1 ≠ 1 then none
        else
          match gobDecodeNameId r1 with
          | none => none
          | some (common, r2) =>
            match gobDecodeUint r2 with
            | none => none
            | some (d2, r3) =>
              if d2 = 0 then
                gobDecodeWireTypeEnd { Name := common.1, Id := common.2, Field := [] } (0 :: r3)
              else if d2 ≠ 1 then none
              else
                match gobDecodeUint r3 with
                | none => none
                | some (n, r4) =>
                  if r4.length < n then none
                  else
                    match gobDecodeFieldTypes n r4 with
                    | none => none
                    | some (fields, r5) =>
                      gobDecodeWireTypeEnd
                        { Name := common.1, Id := common.2, Field := fields } r5

/-- The id of the type that `SigningCertificate` has for a field of this name. -/
def signingCertificateFieldId (name : String) : Option Int :=
  (signingCertificateType.Field.find? (fun f => f.Name = name)).map (fun f => f.Id)

/-- Whether a value of the struct type received can be decoded into a
`SigningCertificate`: a field that both types have has the same type in both,
and they have a field in common unless the type received has none. A field
that only the type received has is skipped; here it has to be a string or a
byte slice. -/
def gobCompatible (wire : List GobFieldType) : Bool :=
  wire.all (fun f =>
      match signingCertificateFieldId f.Name with
      | some id => f.Id = id
      | none => f.Id = gobStringId ∨ f.Id = gobBytesId)
    && (wire.isEmpty || wire.any (fun f => (signingCertificateFieldId f.Name).isSome))

/-- The field of a `SigningCertificate` that has the given name, set to the
value received; a value for a name it has no field for is dropped. -/
def gobStoreField (entry : SigningCertificate) (name : String) (payload : Bytes) :
    SigningCertificate :=
  if name = "TenantID" then { entry with TenantID := bytesString payload }
  else if name = "KmsKeyID" then { entry with KmsKeyID := bytesString payload }
  else if name = "Certificate" then { entry with Certificate := payload }
  else entry

/-- Method `Decoder.decodeStruct`: the fields of a value, each after the
distance of its number from the one before, up to the end mark. Every field
consumes a byte at least, so `fuel` above the length of the input never runs
out. -/
def gobDecodeStruct (wire : List GobFieldType) :
    Nat → Int → Bytes → SigningCertificate → Option SigningCertificate
  | 0, _, _, _ => none
  | fuel + 1, fieldnum, bs, entry =>
    match gobDecodeUint bs with
    | none => none
    | some (delta, r) =>
      if delta = 0 then some entry
      else
        match wire.get? (fieldnum + delta).toNat with
        | none => none
        | some f =>
          match gobDecodeCounted r with
          | none => none
          | some (payload, r2) =>
            gobDecodeStruct wire fuel (fieldnum + delta) r2 (gobStoreField entry f.Name payload)

/-- Method `Decoder.Decode` into a `SigningCertificate`: messages that define
struct types, up to the first message that holds a value, which has to be of
one of the types defined. Every message consumes a byte at least, so `fuel`
above the length of the input never runs out. -/
def gobDecodeMessages :
    Nat → List (Int × GobStructType) → Bytes → Except Error SigningCertificate
  | 0, _, _ => .error (.other "gob: out of fuel")
  | fuel + 1, types, bs =>
    match gobDecodeCounted bs with
    | none => .error (.other "EOF")
    | some (body, rest) =>
      match gobDecodeInt body with
      | none => .error (.other "gob: bad data")
      | some (id, r) =>
        if id < 0 then
          if -id < 64 ∨ (types.find? (fun t => t.1 = -id)).isSome then
            .error (.other "gob: duplicate type received")
          else
            match gobDecodeWireType r with
            | none => .error (.other "gob: bad type definition")
            | some t => gobDecodeMessages fuel (types ++ [(-id, t)]) rest
        else
          match types.find? (fun t => t.1 = id) with
          | none => .error (.other "gob: type mismatch")
          | some t =>
            if gobCompatible t.2.Field then
              match gobDecodeStruct t.2.Field (r.length + 1) (-1) r
                  { TenantID := "", KmsKeyID := "", Certificate := [] } with
              | none => .error (.other "gob: bad data")
              | some entry => .ok entry
            else .error (.other "gob: type mismatch")

/-- Function `DecodeSigningCertificate`. -/
def DecodeSigningCertificate (encodedEntry : Bytes) : Except Error SigningCertificate :=
  gobDecodeMessages (encodedEntry.length + 1) [] encodedEntry

/-! ## Embedded key-value store (`certstore/localdb` over `go.etcd.io/bbolt`) -/

/-- Constants `MaxKeySize` and `MaxValueSize` of `bbolt`. -/
def boltMaxKeySize : Nat := 32768
def boltMaxValueSize : Nat := 2 ^ 31 - 2

/-- The database behind `LocalDbProvider.dbHandle` after a successful `Init`:
it is open and has the bucket `SigningCertificates`, whose key-value pairs are
`bucket`. `diskError` is the error, if any, with which the disk refuses the
commit of a writing transaction. -/
structure BoltDB where
  bucket : List (Bytes × Bytes)
  diskError : Option Error

/-- Method `Bucket.Get`: `none` (Go's `nil`) when the bucket has no such key. -/
def bucketGet (b : List (Bytes × Bytes)) (key : Bytes) : Option Bytes :=
  (b.find? (fun kv => kv.1 = key)).map (fun kv => kv.2)

/-- Method `Bucket.Put`: the value replaces the one stored under the key. -/
def bucketPut (b : List (Bytes × Bytes)) (key value : Bytes) :
    Except Error (List (Bytes × Bytes)) :=
  if key.length = 0 then .error (.other "key required")
  else if boltMaxKeySize < key.length then .error (.other "key too large")
  else if boltMaxValueSize < value.length then .error (.other "value too large")
  else .ok ((key, value) :: b.filter (fun kv => kv.1 ≠ key))

/-- Method `Bucket.Delete`: no error when the bucket has no such key. -/
def bucketDelete (b : List (Bytes × Bytes)) (key : Bytes) : List (Bytes × Bytes) :=
  b.filter (fun kv => kv.1 ≠ key)

/-- Method `DB.Update`: the function runs on the bucket inside a writing
transaction, which is rolled back when the function returns an error or the
commit fails. -/
def boltUpdate (db : BoltDB)
    (fn : List (Bytes × Bytes) → Except Error (List (Bytes × Bytes))) : Option Error × BoltDB :=
  match fn db.bucket with
  | .error err => (some err, db)
  | .ok b =>
    match db.diskError with
    | some err => (some err, db)
    | none => (none, { db with bucket := b })

/-- Method `LocalDbProvider.AddCertificate`. -/
def LocalDbProvider.AddCertificate (db : BoltDB) (entry : SigningCertificate) :
    Option Error × BoltDB :=
  boltUpdate db (fun b =>
    match EncodeSigningCertificate entry with
    | .error err => .error err
    | .ok encodedEntry => bucketPut b (stringBytes entry.TenantID) encodedEntry)

/-- Method `LocalDbProvider.GetCertificate`, inside a reading transaction. -/
def LocalDbProvider.GetCertificate (db : BoltDB) (certID : String) :
    Except Error SigningCertificate × BoltDB :=
  match bucketGet db.bucket (stringBytes certID) with
  | none => (.error .ErrCertStoreNotFound, db)
  | some encodedEntry => (DecodeSigningCertificate encodedEntry, db)

/-- Method `LocalDbProvider.DeleteCertificate`. -/
def LocalDbProvider.DeleteCertificate (db : BoltDB) (certID : String) : Option Error × BoltDB :=
  boltUpdate db (fun b => .ok (bucketDelete b (stringBytes certID)))

/-- Type `LocalDbProvider` behind the `CertStore` interface. -/
def LocalDbProvider.toCertStore : CertStore BoltDB :=
  { AddCertificate := LocalDbProvider.AddCertificate
    GetCertificate := LocalDbProvider.GetCertificate
    DeleteCertificate := LocalDbProvider.DeleteCertificate }

/-! ## Key files (`common/certutils.go`, package `os`)

`World.files` and `World.fileErrors` are keyed by cleaned paths: the service
opens and reads the files it names by the cleaned path, and the file system
resolves a path that was not cleaned to the file that its cleaned form names. -/

/-- The file system with the content of one file replaced. -/
def writeFile (name : String) (content : Option Bytes) (w : World σ κ) : World σ κ :=
  { w with files := fun n => if n = name then content else w.files n }

/-- Call `os.OpenFile(name, os.O_WRONLY|os.O_CREATE|os.O_TRUNC, 0600)` with a
cleaned path: the file exists and is empty afterwards. -/
def osOpenFileTrunc (name : String) (w : World σ κ) : Option Error × World σ κ :=
  match w.fileErrors name with
  | some err => (some err, w)
  | none => (none, writeFile name (some []) w)

/-- Call `os.Remove(name)`. -/
def osRemove (lib : Lib) (name : String) (w : World σ κ) : Option Error × World σ κ :=
  match w.files (lib.filepathClean name) with
  | none => (some (.other "remove: no such file or directory"), w)
  | some _ =>
    match w.fileErrors (lib.filepathClean name) with
    | some err => (some err, w)
    | none => (none, writeFile (lib.filepathClean name) none w)

/-- Function `EncodeAndStorePrivateKey`. Once the file is open, writing the
PEM text into it and closing it do not fail. -/
def EncodeAndStorePrivateKey (lib : Lib) (fileName : String) (key : RSAPrivateKey)
    (w : World σ κ) : Option Error × World σ κ :=
  match osOpenFileTrunc (lib.filepathClean fileName) w with
  | (some err, w1) => (some err, w1)
  | (none, w1) =>
    match lib.MarshalPKCS1PrivateKey key with
    | none => (some (.other "failed to marshal private key"), w1)
    | some pKeyBytes =>
      (none, writeFile (lib.filepathClean fileName)
        (some (lib.pemEncode "RSA PRIVATE KEY" pKeyBytes)) w1)

/-! ## Tenant signing certificates of the local provider
(`local_kms/tenant_certificate.go`) -/

/-- Constant `KeySize` of `common/ca.go`. -/
def KeySize : Nat := 4096

/-- Call `rsa.GenerateKey(rand.Reader, bits)`. -/
def rsaGenerateKey (lib : Lib) (bits : Nat) (w : World σ κ) :
    Except Error RSAPrivateKey × World σ κ :=
  let r := lib.GenerateKey w.randReader w.randPos bits
  (r.1, { w with randPos := r.2 })

/-- Function `storeTenantSigningCertificatePrivateKey`. -/
def storeTenantSigningCertificatePrivateKey (lib : Lib) (tenantID : String)
    (tenantPrivateKey : RSAPrivateKey) (w : World σ κ) : Option Error × World σ κ :=
  EncodeAndStorePrivateKey lib (tenantID ++ ".key") tenantPrivateKey w

/-- Method `LocalProvider.CreateTenantSigningCertificate`. -/
def LocalProvider.CreateTenantSigningCertificate (lib : Lib) (p : LocalProvider σ)
    (tenantID tenantName : String) (w : World σ κ) : Except Error String × World σ κ :=
  match rsaGenerateKey lib KeySize w with
  | (.error err, w1) => (.error err, w1)
  | (.ok tenantPrivateKey, w1) =>
    match NewTenantSigningCertificateTemplate tenantID tenantName w1 with
    | (.error err, w2) => (.error err, w2)
    | (.ok tenantCertTpl, w2) =>
      match lib.CreateCertificate tenantCertTpl p.caCert (some tenantPrivateKey.PublicKey)
          p.caPrivateKey with
      | .error err => (.error err, w2)
      | .ok tenantCertBytes =>
        match storeTenantSigningCertificatePrivateKey lib tenantID tenantPrivateKey w2 with
        | (some err, w3) => (.error err, w3)
        | (none, w3) =>
          match storeAddCertificate p.store
              { Certificate := tenantCertBytes, TenantID := tenantID, KmsKeyID := "" } w3 with
          | (some err, w4) => (.error err, w4)
          | (none, w4) => (.ok (bytesString tenantCertTpl.SubjectKeyId), w4)

/-- Method `LocalProvider.GetTenantSigningCertificate`. -/
def LocalProvider.GetTenantSigningCertificate (p : LocalProvider σ) (tenantID : String)
    (w : World σ κ) : Except Error Bytes × World σ κ :=
  match storeGetCertificate p.store tenantID w with
  | (.error err, w1) => (.error err, w1)
  | (.ok tenantCert, w1) => (.ok tenantCert.Certificate, w1)

/-- Method `LocalProvider.DeleteTenantSigningCertificate`. -/
def LocalProvider.DeleteTenantSigningCertificate (lib : Lib) (p : LocalProvider σ)
    (tenantID : String) (w : World σ κ) : Option Error × World σ κ :=
  match storeDeleteCertificate p.store tenantID w with
  | (some err, w1) => (some err, w1)
  | (none, w1) =>
    match osRemove lib (tenantID ++ ".key") w1 with
    | (some err, w2) => (some err, w2)
    | (none, w2) => (none, w2)

/-- Method `LocalProvider.createCommonSigningCertificate`. -/
def LocalProvider.createCommonSigningCertificate (lib : Lib) (p : LocalProvider σ)
    (w : World σ κ) : Except Error String × World σ κ :=
  p.CreateTenantSigningCertificate lib CommonSigningKeyId "" w

/-- Method `LocalProvider.getCommonSigningCertificate`. -/
def LocalProvider.getCommonSigningCertificate (lib : Lib) (p : LocalProvider σ)
    (w : World σ κ) : Except Error SigningCertificate × World σ κ :=
  match storeGetCertificate p.store CommonSigningKeyId w with
  | (.ok tenantCert, w1) => (.ok tenantCert, w1)
  | (.error _, w1) =>
    match p.createCommonSigningCertificate lib w1 with
    | (.error err, w2) => (.error err, w2)
    | (.ok _, w2) =>
      match storeGetCertificate p.store CommonSigningKeyId w2 with
      | (.error err, w3) => (.error err, w3)
      | (.ok tenantCert, w3) => (.ok tenantCert, w3)

/-! ## Keys in AWS KMS (`aws_kms/kms.go`) -/

/-- Constants of `aws_kms/kms.go` and `aws_kms/tenant_certificate.go`. -/
def awsKmsKeyDeletionPendingWindowDays : Nat := 7
def awsKmsCAKeyAlias : String := "alias/CAKey"

/-- Format `keyAliasFormat`, filled in with a tenant id. -/
def keyAliasFormat (tenantID : String) : String := "alias/" ++ tenantID

/-- Whether `errors.As` finds a `types.NotFoundException` in the error. -/
def isNotFoundException : Error → Bool
  | .NotFoundException _ => true
  | _ => false

/-- Method `AwsKmsProvider.newKmsKey`. -/
def AwsKmsProvider.newKmsKey (p : AwsKmsProvider σ κ) (keyDescription keyAlias : String)
    (w : World σ κ) : Except Error String × World σ κ :=
  match kmsDescribeKey p.client keyAlias w with
  | (.ok keyId, w1) => (.ok keyId, w1)
  | (.error err, w1) =>
    if ¬ isNotFoundException err then (.error err, w1)
    else
      match kmsCreateKey p.client keyDescription w1 with
      | (.error err, w2) => (.error err, w2)
      | (.ok createdKeyId, w2) =>
        match kmsCreateAlias p.client createdKeyId keyAlias w2 with
        | (some err, w3) => (.error err, w3)
        | (none, w3) => (.ok createdKeyId, w3)

/-- Method `AwsKmsProvider.deleteKmsKey`. -/
def AwsKmsProvider.deleteKmsKey (p : AwsKmsProvider σ κ) (keyAlias : String) (w : World σ κ) :
    Option Error × World σ κ :=
  match kmsDescribeKey p.client keyAlias w with
  | (.error err, w1) => (some err, w1)
  | (.ok keyId, w1) =>
    match kmsScheduleKeyDeletion p.client keyId awsKmsKeyDeletionPendingWindowDays w1 with
    | (some err, w2) => (some err, w2)
    | (none, w2) =>
      match kmsDeleteAlias p.client keyAlias w2 with
      | (some err, w3) => (some err, w3)
      | (none, w3) => (none, w3)

/-- Method `AwsKmsProvider.getKmsPublicKey`. -/
def AwsKmsProvider.getKmsPublicKey (lib : Lib) (p : AwsKmsProvider σ κ) (keyID : String)
    (w : World σ κ) : Except Error PublicKey × World σ κ :=
  match kmsGetPublicKey p.client keyID w with
  | (.error _, w1) => (.error (.other "cannot get public key"), w1)
  | (.ok publicKey, w1) =>
    match lib.ParsePKIXPublicKey publicKey with
    | .error _ => (.error (.other "cannot parse tenant public key"), w1)
    | .ok key => (.ok key, w1)

/-! ## Tenant signing certificates of the AWS provider
(`aws_kms/tenant_certificate.go`) -/

/-- Method `AwsKmsProvider.CreateTenantSigningCertificate`. -/
def AwsKmsProvider.CreateTenantSigningCertificate (lib : Lib) (p : AwsKmsProvider σ κ)
    (tenantID tenantName : String) (w : World σ κ) : Except Error String × World σ κ :=
  match p.newKmsKey ("Signing key: " ++ tenantID) (keyAliasFormat tenantID) w with
  | (.error err, w1) => (.error err, w1)
  | (.ok tenantKeyID, w1) =>
    match NewTenantSigningCertificateTemplate tenantID tenantName w1 with
    | (.error err, w2) => (.error err, w2)
    | (.ok tenantCertTpl, w2) =>
      match newKMSSigner lib p.client p.caKeyID w2 with
      | (.error err, w3) => (.error err, w3)
      | (.ok tenantSigner, w3) =>
        match p.getKmsPublicKey lib tenantKeyID w3 with
        | (.error err, w4) => (.error err, w4)
        | (.ok tenantPublicKey, w4) =>
          match createCertificateWithSigner lib p.client tenantCertTpl p.caCert
              (some tenantPublicKey) tenantSigner w4 with
          | (.error err, w5) => (.error err, w5)
          | (.ok tenantCertBytes, w5) =>
            match storeAddCertificate p.store
                { Certificate := tenantCertBytes, TenantID := tenantID,
                  KmsKeyID := tenantKeyID } w5 with
            | (some err, w6) => (.error err, w6)
            | (none, w6) => (.ok (bytesString tenantCertTpl.SubjectKeyId), w6)

/-- Method `AwsKmsProvider.GetTenantSigningCertificate`. -/
def AwsKmsProvider.GetTenantSigningCertificate (p : AwsKmsProvider σ κ) (tenantID : String)
    (w : World σ κ) : Except Error Bytes × World σ κ :=
  match storeGetCertificate p.store tenantID w with
  | (.error err, w1) => (.error err, w1)
  | (.ok tenantCert, w1) => (.ok tenantCert.Certificate, w1)

/-- Method `AwsKmsProvider.DeleteTenantSigningCertificate`. -/
def AwsKmsProvider.DeleteTenantSigningCertificate (p : AwsKmsProvider σ κ) (tenantID : String)
    (w : World σ κ) : Option Error × World σ κ :=
  match storeDeleteCertificate p.store tenantID w with
  | (some err, w1) => (some err, w1)
  | (none, w1) =>
    match p.deleteKmsKey (keyAliasFormat tenantID) w1 with
    | (some err, w2) => (some err, w2)
    | (none, w2) => (none, w2)

/-- Method `AwsKmsProvider.createCommonSigningCertificate`. -/
def AwsKmsProvider.createCommonSigningCertificate (lib : Lib) (p : AwsKmsProvider σ κ)
    (w : World σ κ) : Except Error String × World σ κ :=
  p.CreateTenantSigningCertificate lib CommonSigningKeyId "" w

/-- Method `AwsKmsProvider.getCommonSigningCertificate`. -/
def AwsKmsProvider.getCommonSigningCertificate (lib : Lib) (p : AwsKmsProvider σ κ)
    (w : World σ κ) : Except Error SigningCertificate × World σ κ :=
  match storeGetCertificate p.store CommonSigningKeyId w with
  | (.ok tenantCert, w1) => (.ok tenantCert, w1)
  | (.error _, w1) =>
    match p.createCommonSigningCertificate lib w1 with
    | (.error err, w2) => (.error err, w2)
    | (.ok _, w2) =>
      match storeGetCertificate p.store CommonSigningKeyId w2 with
      | (.error err, w3) => (.error err, w3)
      | (.ok tenantCert, w3) => (.ok tenantCert, w3)

/-! ## RPC layer (`service/rpc`) -/

/-- The methods of interface `kms_providers.KmsProvider` that serve requests. -/
structure KmsProvider (σ κ : Type) where
  CreateTenantSigningCertificate :
    String → String → World σ κ → Except Error String × World σ κ
  GetTenantSigningCertificate : String → World σ κ → Except Error Bytes × World σ κ
  DeleteTenantSigningCertificate : String → World σ κ → Option Error × World σ κ
  CreateDeviceCertificate :
    String → Option Bytes → World σ κ → DeviceCertResult × World σ κ
  RenewDeviceCertificate :
    String → String → Option Bytes → World σ κ → DeviceCertResult × World σ κ

/-- The local provider behind the `KmsProvider` interface. -/
def LocalProvider.toKmsProvider (lib : Lib) (p : LocalProvider σ) : KmsProvider σ κ :=
  { CreateTenantSigningCertificate := p.CreateTenantSigningCertificate lib
    GetTenantSigningCertificate := p.GetTenantSigningCertificate
    DeleteTenantSigningCertificate := p.DeleteTenantSigningCertificate lib
    CreateDeviceCertificate := p.CreateDeviceCertificate lib
    RenewDeviceCertificate := p.RenewDeviceCertificate lib }

/-- The AWS provider behind the `KmsProvider` interface. -/
def AwsKmsProvider.toKmsProvider (lib : Lib) (p : AwsKmsProvider σ κ) : KmsProvider σ κ :=
  { CreateTenantSigningCertificate := p.CreateTenantSigningCertificate lib
    GetTenantSigningCertificate := p.GetTenantSigningCertificate
    DeleteTenantSigningCertificate := p.DeleteTenantSigningCertificate
    CreateDeviceCertificate := p.CreateDeviceCertificate lib
    RenewDeviceCertificate := p.RenewDeviceCertificate lib }

/-- Type `CertificateAuthorityServer`: the provider it dispatches to. -/
structure CertificateAuthorityServer (σ κ : Type) where
  kmsProvider : KmsProvider σ κ

def CaProtocolVersion : String := "v1"

/-- Status codes of `google.golang.org/grpc/codes`. -/
def codesOK : Nat := 0
def codesInvalidArgument : Nat := 3
def codesInternal : Nat := 13

/-- Message `pb.CaRequestHeader`. -/
structure CaRequestHeader where
  ProtocolVersion : String
  RequestId : String
  deriving DecidableEq

/-- Message `pb.CaResponseHeader`. -/
structure CaResponseHeader where
  ProtocolVersion : String
  Status : Nat
  StatusMessage : String
  RequestId : String
  ResponseTime : Int
  deriving DecidableEq

/-- Message `pb.CreateDeviceCertificateRequest`. -/
structure CreateDeviceCertificateRequest where
  Header : Option CaRequestHeader
  Version : String
  Tid : String
  Csr : Option Bytes
  deriving DecidableEq

/-- Message `pb.RenewDeviceCertificateRequest`. -/
structure RenewDeviceCertificateRequest where
  Header : Option CaRequestHeader
  Version : String
  Tid : String
  DeviceId : String
  Csr : Option Bytes
  deriving DecidableEq

/-- Messages `pb.CreateDeviceCertificateResponse` and
`pb.RenewDeviceCertificateResponse`, which have the same fields. -/
structure DeviceCertificateResponse where
  Header : CaResponseHeader
  IssuedTime : Option Int := none
  ExpiryTime : Option Int := none
  DeviceId : String := ""
  DeviceCertificate : Bytes := []
  ParentCertificates : Bytes := []
  deriving DecidableEq

/-- Function `isValidRequestHeader`. -/
def isValidRequestHeader (header : Option CaRequestHeader) (w : World σ κ) :
    (String × Bool) × World σ κ :=
  match header with
  | none => (("", false), w)
  | some header =>
    if header.ProtocolVersion ≠ CaProtocolVersion then (("", false), w)
    else if header.RequestId = "" then
      let u := uuidNewString w
      ((u.1, true), u.2)
    else ((header.RequestId, true), w)

/-- A response that carries only a header with the given status and message
(`invalid…Response` and `internalError…Response`). -/
def failureResponse (status : Nat) (message : String) (requestID : String) (w : World σ κ) :
    DeviceCertificateResponse × World σ κ :=
  let r := timeNow w
  ({ Header :=
      { ProtocolVersion := CaProtocolVersion, Status := status, StatusMessage := message,
        RequestId := requestID, ResponseTime := r.1 } }, r.2)

def invalidCreateDeviceCertificateResponse (requestID : String) (w : World σ κ) :
    DeviceCertificateResponse × World σ κ :=
  failureResponse codesInvalidArgument "CreateDeviceCertificate RPC failed" requestID w

def internalErrorCreateDeviceCertificateResponse (requestID : String) (w : World σ κ) :
    DeviceCertificateResponse × World σ κ :=
  failureResponse codesInternal "CreateDeviceCertificate RPC failed" requestID w

def invalidRenewDeviceCertificateResponse (requestID : String) (w : World σ κ) :
    DeviceCertificateResponse × World σ κ :=
  failureResponse codesInvalidArgument "RenewDeviceCertificate RPC failed" requestID w

def internalErrorRenewDeviceCertificateResponse (requestID : String) (w : World σ κ) :
    DeviceCertificateResponse × World σ κ :=
  failureResponse codesInternal "RenewDeviceCertificate RPC failed" requestID w

/-- The body shared by `successCreateDeviceCertificateResponse` and
`successRenewDeviceCertificateResponse`. -/
def successResponse (message : String) (requestID : String) (deviceID : String)
    (deviceCert : Bytes) (parentCerts : Bytes) (expiresAt : Int) (w : World σ κ) :
    DeviceCertificateResponse × World σ κ :=
  let r1 := timeNow w
  let r2 := timeNow r1.2
  ({ Header :=
      { ProtocolVersion := CaProtocolVersion, Status := codesOK, StatusMessage := message,
        RequestId := requestID, ResponseTime := r1.1 }
     IssuedTime := some r2.1
     ExpiryTime := some expiresAt
     DeviceId := deviceID
     DeviceCertificate := deviceCert
     ParentCertificates := parentCerts }, r2.2)

def successCreateDeviceCertificateResponse (requestID : String) (deviceID : String)
    (deviceCert : Bytes) (parentCerts : Bytes) (expiresAt : Int) (w : World σ κ) :
    DeviceCertificateResponse × World σ κ :=
  successResponse "CreateDeviceCertificate RPC successful" requestID deviceID deviceCert
    parentCerts expiresAt w

def successRenewDeviceCertificateResponse (requestID : String) (deviceID : String)
    (deviceCert : Bytes) (parentCerts : Bytes) (expiresAt : Int) (w : World σ κ) :
    DeviceCertificateResponse × World σ κ :=
  successResponse "RenewDeviceCertificate RPC successful" requestID deviceID deviceCert
    parentCerts expiresAt w

/-- RPC `CertificateAuthorityServer.CreateDeviceCertificate`. -/
def CertificateAuthorityServer.CreateDeviceCertificate (s : CertificateAuthorityServer σ κ)
    (request : CreateDeviceCertificateRequest) (w : World σ κ) :
    DeviceCertificateResponse × World σ κ :=
  match isValidRequestHeader request.Header w with
  | ((requestID, false), w1) => invalidCreateDeviceCertificateResponse requestID w1
  | ((requestID, true), w1) =>
    if request.Tid = "" ∨ request.Csr = none then
      invalidCreateDeviceCertificateResponse requestID w1
    else
      match s.kmsProvider.CreateDeviceCertificate request.Tid request.Csr w1 with
      | (r, w2) =>
        match r.err with
        | some _ => internalErrorCreateDeviceCertificateResponse requestID w2
        | none =>
          successCreateDeviceCertificateResponse requestID r.deviceID r.deviceCert r.parentCerts
            r.expiresAt w2

/-- RPC `CertificateAuthorityServer.RenewDeviceCertificate`. -/
def CertificateAuthorityServer.RenewDeviceCertificate (s : CertificateAuthorityServer σ κ)
    (request : RenewDeviceCertificateRequest) (w : World σ κ) :
    DeviceCertificateResponse × World σ κ :=
  match isValidRequestHeader request.Header w with
  | ((requestID, false), w1) => invalidRenewDeviceCertificateResponse requestID w1
  | ((requestID, true), w1) =>
    if request.Tid = "" ∨ request.DeviceId = "" ∨ request.Csr = none then
      invalidRenewDeviceCertificateResponse requestID w1
    else
      match s.kmsProvider.RenewDeviceCertificate request.Tid request.DeviceId request.Csr w1 with
      | (r, w2) =>
        match r.err with
        | some _ => internalErrorRenewDeviceCertificateResponse requestID w2
        | none =>
          successRenewDeviceCertificateResponse requestID request.DeviceId r.deviceCert
            r.parentCerts r.expiresAt w2

/-! ## Auxiliary calendar functions used in the proofs -/

/-- Zero-based day of the year that a month and a day of the month stand for. -/
def ydayOf (leap : Bool) (md : Int × Int) : Int :=
  daysBefore (md.1 - 1) + (if leap && md.1 ≥ 3 then 1 else 0) + (md.2 - 1)

/-- Days from 1 January of year 1 to the first of month `m` of `year`. -/
def monthStart (year m : Int) : Int :=
  daysSinceEpoch year + daysBefore (m - 1) + (if isLeap year && decide (m ≥ 3) then 1 else 0)

/-! ## RPCs for tenant signing certificates (`service/rpc`) -/

/-- Message `pb.CreateTenantSigningCertificateRequest`. -/
structure CreateTenantSigningCertificateRequest where
  Header : Option CaRequestHeader
  Version : String
  Tid : String
  Name : String
  DomainName : String
  deriving DecidableEq

/-- Message `pb.CreateTenantSigningCertificateResponse`. -/
structure CreateTenantSigningCertificateResponse where
  Header : CaResponseHeader
  CreateTime : Option Int := none
  deriving DecidableEq

/-- Message `pb.GetTenantSigningCertificateRequest`. -/
structure GetTenantSigningCertificateRequest where
  Header : Option CaRequestHeader
  Version : String
  Tid : String
  deriving DecidableEq

/-- Message `pb.GetTenantSigningCertificateResponse`. -/
structure GetTenantSigningCertificateResponse where
  Header : CaResponseHeader
  SigningCertificate : Bytes := []
  deriving DecidableEq

/-- Message `pb.DeleteTenantSigningCertificateRequest`. -/
structure DeleteTenantSigningCertificateRequest where
  Header : Option CaRequestHeader
  Version : String
  Tid : String
  deriving DecidableEq

/-- Message `pb.DeleteTenantSigningCertificateResponse`. -/
structure DeleteTenantSigningCertificateResponse where
  Header : CaResponseHeader
  DeleteTime : Option Int := none
  deriving DecidableEq

/-- A response header stamped with the next reading of the clock. -/
def responseHeader (status : Nat) (message : String) (requestID : String) (w : World σ κ) :
    CaResponseHeader × World σ κ :=
  let r := timeNow w
  ({ ProtocolVersion := CaProtocolVersion, Status := status, StatusMessage := message,
     RequestId := requestID, ResponseTime := r.1 }, r.2)

def invalidCreateTenantSigningCertificateResponse (requestID : String) (w : World σ κ) :
    CreateTenantSigningCertificateResponse × World σ κ :=
  let h := responseHeader codesInvalidArgument "CreateTenantSigningCertificate RPC failed"
    requestID w
  ({ Header := h.1 }, h.2)

/-- Function `successCreateTenantSigningCertificateResponse`; the certificate
id it is given goes into no field of the response. -/
def successCreateTenantSigningCertificateResponse (requestID : String) (_certID : String)
    (w : World σ κ) : CreateTenantSigningCertificateResponse × World σ κ :=
  let h := responseHeader codesOK "CreateTenantSigningCertificate RPC successful" requestID w
  let r := timeNow h.2
  ({ Header := h.1, CreateTime := some r.1 }, r.2)

def internalErrorCreateTenantSigningCertificateResponse (requestID : String) (w : World σ κ) :
    CreateTenantSigningCertificateResponse × World σ κ :=
  let h := responseHeader codesInternal "CreateTenantSigningCertificate RPC failed" requestID w
  ({ Header := h.1 }, h.2)

/-- RPC `CertificateAuthorityServer.CreateTenantSigningCertificate`. -/
def CertificateAuthorityServer.CreateTenantSigningCertificate
    (s : CertificateAuthorityServer σ κ) (request : CreateTenantSigningCertificateRequest)
    (w : World σ κ) : CreateTenantSigningCertificateResponse × World σ κ :=
  match isValidRequestHeader request.Header w with
  | ((requestID, false), w1) => invalidCreateTenantSigningCertificateResponse requestID w1
  | ((requestID, true), w1) =>
    if request.Tid = "" ∨ request.Name = "" then
      invalidCreateTenantSigningCertificateResponse requestID w1
    else
      match s.kmsProvider.CreateTenantSigningCertificate request.Tid request.Name w1 with
      | (.error _, w2) => internalErrorCreateTenantSigningCertificateResponse requestID w2
      | (.ok certID, w2) => successCreateTenantSigningCertificateResponse requestID certID w2

def invalidGetTenantSigningCertificateResponse (requestID : String) (w : World σ κ) :
    GetTenantSigningCertificateResponse × World σ κ :=
  let h := responseHeader codesInvalidArgument "GetTenantSigningCertificate RPC failed"
    requestID w
  ({ Header := h.1, SigningCertificate := [] }, h.2)

def successGetTenantSigningCertificateResponse (requestID : String) (certBytes : Bytes)
    (w : World σ κ) : GetTenantSigningCertificateResponse × World σ κ :=
  let h := responseHeader codesOK "GetTenantSigningCertificate RPC successful" requestID w
  ({ Header := h.1, SigningCertificate := certBytes }, h.2)

def internalErrorGetTenantSigningCertificateResponse (requestID : String) (w : World σ κ) :
    GetTenantSigningCertificateResponse × World σ κ :=
  let h := responseHeader codesInternal "GetTenantSigningCertificate RPC failed" requestID w
  ({ Header := h.1, SigningCertificate := [] }, h.2)

/-- RPC `CertificateAuthorityServer.GetTenantSigningCertificate`. -/
def CertificateAuthorityServer.GetTenantSigningCertificate
    (s : CertificateAuthorityServer σ κ) (request : GetTenantSigningCertificateRequest)
    (w : World σ κ) : GetTenantSigningCertificateResponse × World σ κ :=
  match isValidRequestHeader request.Header w with
  | ((requestID, false), w1) => invalidGetTenantSigningCertificateResponse requestID w1
  | ((requestID, true), w1) =>
    if request.Tid = "" then invalidGetTenantSigningCertificateResponse requestID w1
    else
      match s.kmsProvider.GetTenantSigningCertificate request.Tid w1 with
      | (.error _, w2) => internalErrorGetTenantSigningCertificateResponse requestID w2
      | (.ok certBytes, w2) => successGetTenantSigningCertificateResponse requestID certBytes w2

def invalidDeleteTenantSigningCertificateResponse (requestID : String) (w : World σ κ) :
    DeleteTenantSigningCertificateResponse × World σ κ :=
  let h := responseHeader codesInvalidArgument "DeleteTenantSigningCertificate RPC failed"
    requestID w
  ({ Header := h.1 }, h.2)

def successDeleteTenantSigningCertificateResponse (requestID : String) (w : World σ κ) :
    DeleteTenantSigningCertificateResponse × World σ κ :=
  let h := responseHeader codesOK "DeleteTenantSigningCertificate RPC successful" requestID w
  let r := timeNow h.2
  ({ Header := h.1, DeleteTime := some r.1 }, r.2)

def internalErrorDeleteTenantSigningCertificateResponse (requestID : String) (w : World σ κ) :
    DeleteTenantSigningCertificateResponse × World σ κ :=
  let h := responseHeader codesInternal "DeleteTenantSigningCertificate RPC failed" requestID w
  ({ Header := h.1 }, h.2)

/-- RPC `CertificateAuthorityServer.DeleteTenantSigningCertificate`. -/
def CertificateAuthorityServer.DeleteTenantSigningCertificate
    (s : CertificateAuthorityServer σ κ) (request : DeleteTenantSigningCertificateRequest)
    (w : World σ κ) : DeleteTenantSigningCertificateResponse × World σ κ :=
  match isValidRequestHeader request.Header w with
  | ((requestID, false), w1) => invalidDeleteTenantSigningCertificateResponse requestID w1
  | ((requestID, true), w1) =>
    if request.Tid = "" then invalidDeleteTenantSigningCertificateResponse requestID w1
    else
      match s.kmsProvider.DeleteTenantSigningCertificate request.Tid w1 with
      | (some _, w2) => internalErrorDeleteTenantSigningCertificateResponse requestID w2
      | (none, w2) => successDeleteTenantSigningCertificateResponse requestID w2


/-! ## Run-time panics -/

/-- How a Go call ends: it returns its results, or a run-time panic unwinds
it. No function of the service recovers from a panic, so a panic during the
initialisation ends the process. -/
inductive Outcome (α : Type) where
  | returned (a : α)
  | panicked (msg : String)

/-- Whether the call ended in a panic. -/
def Outcome.isPanicked {α : Type} : Outcome α → Bool
  | .returned _ => false
  | .panicked _ => true

/-! ## Configuration (`service/config`) -/

def KmsProviderLocal : String := "local_kms"
def KmsProviderAws : String := "aws_kms"
def CertStoreLocalDb : String := "localdb"
def CertStoreDynamoDb : String := "dynamodb"

/-- Type `config.Server`. -/
structure Server where
  Host : String
  RpcPort : Int
  RestPort : Int
  DebugLogRestRequests : Bool
  deriving DecidableEq

/-- The struct of field `Config.CertificateAuthority`; `CertTemplateConfig` is
embedded in it. -/
structure CertificateAuthoritySettings where
  KmsProvider : String
  CertStoreProvider : String
  PerTenantSigningEnabled : Bool
  CertTemplateConfig : CertTemplateConfig
  AwsAccessKeyId : String
  AwsSecretAccessKey : String
  deriving DecidableEq

/-- Type `config.Config`; `Server` is embedded in it. -/
structure Config where
  ConfigFilePath : String
  Server : Server
  CertificateAuthority : CertificateAuthoritySettings
  TestMode : Bool
  deriving DecidableEq

/-- Type `config.ConfigMgr`. -/
structure ConfigMgr where
  config : Config
  serviceName : String
  deriving DecidableEq

/-- Function `strconv.ParseBool`; `none` for its syntax error. -/
def strconvParseBool (str : String) : Option Bool :=
  if str ∈ ["1", "t", "T", "true", "TRUE", "True"] then some true
  else if str ∈ ["0", "f", "F", "false", "FALSE", "False"] then some false
  else none

/-- The value of a string of decimal digits, appended to `acc`; `none` when a
character is not a digit. -/
def decimalValue : List Char → Nat → Option Nat
  | [], acc => some acc
  | ch :: rest, acc =>
    if ch.isDigit then decimalValue rest (acc * 10 + (ch.toNat - 48)) else none

/-- Function `strconv.Atoi` where `int` has 64 bits: an optional sign, then
decimal digits only, at least one, and a value that fits in an `int`; `none`
for its errors. -/
def strconvAtoi (s : String) : Option Int :=
  let cs := s.toList
  let digits := if cs.head? = some '-' ∨ cs.head? = some '+' then cs.tail else cs
  if digits = [] then none
  else
    match decimalValue digits 0 with
    | none => none
    | some n =>
      if cs.head? = some '-' then (if n ≤ 2 ^ 63 then some (-(n : Int)) else none)
      else if n < 2 ^ 63 then some (n : Int)
      else none

/-- Function `replaceConfigValue` on a `*string`. -/
def replaceConfigString (envValue : String) (_old : String) : String := envValue

/-- Function `replaceConfigValue` on a `*bool`: a bad value is logged and the
setting kept. -/
def replaceConfigBool (envValue : String) (old : Bool) : Bool :=
  match strconvParseBool envValue with
  | none => old
  | some b => b

/-- Function `replaceConfigValue` on a `*int`: a bad value is logged and the
setting kept. -/
def replaceConfigInt (envValue : String) (old : Int) : Int :=
  match strconvAtoi envValue with
  | none => old
  | some i => i

/-- One round of the loop of `overrideFromEnvironment`: a variable that is set
to a text that is not empty replaces the setting. `environ` is `os.Getenv`. -/
def overrideSetting {α : Type} (environ : String → String) (k : String)
    (replace : String → α → α) (old : α) : α :=
  if environ k ≠ "" then replace (environ k) old else old

/-- Function `overrideFromEnvironment`. The eight variables of its map write
eight different fields, so the order in which Go ranges over the map does not
matter. -/
def overrideFromEnvironment (environ : String → String) (c : Config) : Config :=
  { c with
    Server :=
      { Host := overrideSetting environ "CA_SERVER" replaceConfigString c.Server.Host
        RpcPort := overrideSetting environ "CA_RPC_PORT" replaceConfigInt c.Server.RpcPort
        RestPort := overrideSetting environ "CA_REST_PORT" replaceConfigInt c.Server.RestPort
        DebugLogRestRequests :=
          overrideSetting environ "CA_DEBUG_LOG_REST_REQUESTS" replaceConfigBool
            c.Server.DebugLogRestRequests }
    CertificateAuthority :=
      { c.CertificateAuthority with
        KmsProvider :=
          overrideSetting environ "CA_KMS_PROVIDER" replaceConfigString
            c.CertificateAuthority.KmsProvider
        CertStoreProvider :=
          overrideSetting environ "CA_CERT_STORE_PROVIDER" replaceConfigString
            c.CertificateAuthority.CertStoreProvider
        PerTenantSigningEnabled :=
          overrideSetting environ "CA_PER_TENANT_SIGNING_ENABLED" replaceConfigBool
            c.CertificateAuthority.PerTenantSigningEnabled }
    TestMode := overrideSetting environ "CA_TEST_MODE" replaceConfigBool c.TestMode }

/-- Method `ConfigMgr.loadEnvironmentVariableOverrides`: the error it returns
and the configuration manager after the overrides. -/
def ConfigMgr.loadEnvironmentVariableOverrides (environ : String → String) (c : ConfigMgr) :
    Option Error × ConfigMgr :=
  let c1 : ConfigMgr := { c with config := overrideFromEnvironment environ c.config }
  if c1.config.CertificateAuthority.KmsProvider = KmsProviderAws ∨
      c1.config.CertificateAuthority.KmsProvider = KmsProviderLocal then
    if c1.config.CertificateAuthority.CertStoreProvider = CertStoreDynamoDb ∨
        c1.config.CertificateAuthority.CertStoreProvider = CertStoreLocalDb then
      (none, c1)
    else (some .ErrInvalidCertStore, c1)
  else (some .ErrInvalidKmsProvider, c1)

def ConfigMgr.GetKmsProvider (c : ConfigMgr) : String :=
  c.config.CertificateAuthority.KmsProvider

def ConfigMgr.GetCertStoreProvider (c : ConfigMgr) : String :=
  c.config.CertificateAuthority.CertStoreProvider

def ConfigMgr.IsPerTenantSigningEnabled (c : ConfigMgr) : Bool :=
  c.config.CertificateAuthority.PerTenantSigningEnabled

def ConfigMgr.IsTestModeEnabled (c : ConfigMgr) : Bool := c.config.TestMode

def ConfigMgr.GetIssuerName (c : ConfigMgr) : String :=
  c.config.CertificateAuthority.CertTemplateConfig.IssuerName

def ConfigMgr.GetCertificateTemplateConfig (c : ConfigMgr) : CertTemplateConfig :=
  c.config.CertificateAuthority.CertTemplateConfig

/-- Method `ConfigMgr.validateCertificateTemplateSettings`. -/
def ConfigMgr.validateCertificateTemplateSettings (c : ConfigMgr) : Bool :=
  if c.config.CertificateAuthority.CertTemplateConfig.IssuerName = "" ∨
      c.config.CertificateAuthority.CertTemplateConfig.Country = "" ∨
      c.config.CertificateAuthority.CertTemplateConfig.Province = "" ∨
      c.config.CertificateAuthority.CertTemplateConfig.Locality = "" ∨
      c.config.CertificateAuthority.CertTemplateConfig.StreetAddress = "" ∨
      c.config.CertificateAuthority.CertTemplateConfig.PostalCode = "" ∨
      c.config.CertificateAuthority.CertTemplateConfig.Organization = "" then
    false
  else true

/-- Function `InitTemplateConfiguration` of `common/cert_templates.go`. -/
def InitTemplateConfiguration (tplConfig : CertTemplateConfig) (w : World σ κ) : World σ κ :=
  { w with templateConfig := tplConfig }

/-! ## Start of the certificate store (`certstore/certstore.go`) -/

/-- What the process finds around it when it starts. `awsClient` is the outcome
of `config.LoadDefaultConfig` followed by `kms.NewFromConfig`; for each of the
two store providers there is its `Init` method, over the state behind the
store, and the store that the provider is once `Init` has succeeded. -/
structure Backends (σ κ : Type) where
  awsClient : Except Error (KMSClient κ)
  dynamoDbInit : σ → Option Error × σ
  dynamoDb : CertStore σ
  localDbInit : σ → Option Error × σ
  localDb : CertStore σ

/-- Function `certstore.Init`. -/
def certstore.Init (b : Backends σ κ) (certStoreProviderName : String) (w : World σ κ) :
    Except Error (CertStore σ) × World σ κ :=
  if certStoreProviderName = CertStoreDynamoDb then
    match b.dynamoDbInit w.store with
    | (some err, s) => (.error err, { w with store := s })
    | (none, s) => (.ok b.dynamoDb, { w with store := s })
  else if certStoreProviderName = CertStoreLocalDb then
    match b.localDbInit w.store with
    | (some err, s) => (.error err, { w with store := s })
    | (none, s) => (.ok b.localDb, { w with store := s })
  else (.error .ErrInvalidCertStore, w)

/-- Method `LocalDbProvider.Init`, once `bolt.Open` has opened the file: a
writing transaction creates the bucket if the file has none, and keeps the
pairs of the bucket that is there. -/
def LocalDbProvider.Init (db : BoltDB) : Option Error × BoltDB :=
  boltUpdate db (fun b => .ok b)

/-! ## Start of the local provider (`local_kms/init.go`,
`local_kms/ca_certificate.go`) -/

def pemCAPrivateKeyFile : String := "ca.key"
def pemCACertificateFile : String := "ca.cert"

/-- Call `os.Create(name)`: the file exists and is empty afterwards. -/
def osCreate (lib : Lib) (name : String) (w : World σ κ) : Option Error × World σ κ :=
  osOpenFileTrunc (lib.filepathClean name) w

/-- Method `LocalProvider.encodeLocalCACertificate`. Once a file is open,
writing the PEM text into it does not fail. -/
def LocalProvider.encodeLocalCACertificate (lib : Lib) (p : LocalProvider σ) (w : World σ κ) :
    Option Error × World σ κ :=
  match osCreate lib pemCACertificateFile w with
  | (some err, w1) => (some err, w1)
  | (none, w1) =>
    let w2 := writeFile (lib.filepathClean pemCACertificateFile)
      (some (lib.pemEncode "CERTIFICATE" p.caCertBytes)) w1
    match osCreate lib pemCAPrivateKeyFile w2 with
    | (some err, w3) => (some err, w3)
    | (none, w3) =>
      (none, writeFile (lib.filepathClean pemCAPrivateKeyFile)
        (some (lib.pemEncode "RSA PRIVATE KEY"
          ((lib.MarshalPKCS1PrivateKey p.caPrivateKey).getD []))) w3)

/-- Method `LocalProvider.generateLocalCACertificate`: the provider with its
root key, certificate and certificate bytes set, or the error. -/
def LocalProvider.generateLocalCACertificate (lib : Lib) (p : LocalProvider σ)
    (w : World σ κ) : Except Error (LocalProvider σ) × World σ κ :=
  match rsaGenerateKey lib KeySize w with
  | (.error err, w1) => (.error err, w1)
  | (.ok caPrivateKey, w1) =>
    match NewCACertificateTemplate w1 with
    | (.error err, w2) => (.error err, w2)
    | (.ok caCertTpl, w2) =>
      match lib.CreateCertificate caCertTpl caCertTpl (some caPrivateKey.PublicKey)
          caPrivateKey with
      | .error err => (.error err, w2)
      | .ok caCertBytes =>
        match lib.ParseCertificate caCertBytes with
        | .error err => (.error err, w2)
        | .ok caCert =>
          let p1 : LocalProvider σ :=
            { p with caPrivateKey := caPrivateKey, caCert := caCert, caCertBytes := caCertBytes }
          match p1.encodeLocalCACertificate lib w2 with
          | (some err, w3) => (.error err, w3)
          | (none, w3) => (.ok p1, w3)

/-- Method `LocalProvider.Init` on the zero value `LocalProvider{}` that
`certmgr.Init` makes: the provider it leaves, or the error. The fields that
are not set yet hold Go's zero values; a provider whose `Init` failed is not
used. -/
def LocalProvider.Init (lib : Lib) (b : Backends σ κ) (cfgMgr : ConfigMgr) (w : World σ κ) :
    Except Error (LocalProvider σ) × World σ κ :=
  match certstore.Init b cfgMgr.GetCertStoreProvider w with
  | (.error err, w1) => (.error err, w1)
  | (.ok store, w1) =>
    let p0 : LocalProvider σ :=
      { caPrivateKey := { N := 0, E := 0, D := 0 }
        caCert := {}
        caCertBytes := []
        commonSigningCert := {}
        commonSigningCertPkey := { N := 0, E := 0, D := 0 }
        perTenantSigningEnabled := cfgMgr.IsPerTenantSigningEnabled
        store := store }
    match p0.generateLocalCACertificate lib w1 with
    | (.error err, w2) => (.error err, w2)
    | (.ok p1, w2) =>
      match p1.getCommonSigningCertificate lib w2 with
      | (.error err, w3) => (.error err, w3)
      | (.ok commonSigningCert, w3) =>
        match lib.ParseCertificate commonSigningCert.Certificate with
        | .error err => (.error err, w3)
        | .ok cert =>
          match LocalProvider.getTenantPrivateKey lib commonSigningCert.TenantID w3 with
          | .error err => (.error err, w3)
          | .ok pkey =>
            (.ok { p1 with commonSigningCert := cert, commonSigningCertPkey := pkey }, w3)

/-! ## Start of the AWS provider (`aws_kms/init.go`, `aws_kms/ca_certificate.go`) -/

/-- Method `AwsKmsProvider.getCAKey`. -/
def AwsKmsProvider.getCAKey (lib : Lib) (p : AwsKmsProvider σ κ) (w : World σ κ) :
    Except Error PublicKey × World σ κ :=
  match p.getKmsPublicKey lib p.caKeyID w with
  | (.error err, w1) => (.error err, w1)
  | (.ok caPublicKey, w1) => (.ok caPublicKey, w1)

/-- Method `AwsKmsProvider.generateCAKey`. -/
def AwsKmsProvider.generateCAKey (p : AwsKmsProvider σ κ) (issuerName : String)
    (w : World σ κ) : Except Error String × World σ κ :=
  p.newKmsKey issuerName p.caKeyID w

/-- Type assertion `key.(*rsa.PublicKey)` in its form with one result, on the
`PublicKey` field of a parsed certificate: it yields the modulus and exponent
of the RSA key, and panics when the field holds a key of another type or no
key (`nil`, for an algorithm that `crypto/x509` does not know). -/
def assertRSAPublicKey (key : Option PublicKey) : Outcome (Nat × Nat) :=
  match key with
  | some (.rsa n e) => .returned (n, e)
  | some (.ecdsa _ _) =>
    .panicked "interface conversion: interface \x7b\x7d is *ecdsa.PublicKey, not *rsa.PublicKey"
  | some (.ed25519 _) =>
    .panicked "interface conversion: interface \x7b\x7d is ed25519.PublicKey, not *rsa.PublicKey"
  | none => .panicked "interface conversion: interface \x7b\x7d is nil, not *rsa.PublicKey"

/-- Method `(*rsa.PublicKey).Equal` on the key with modulus `n` and exponent
`e`. -/
def rsaPublicKeyEqual (n e : Nat) (x : PublicKey) : Bool :=
  match x with
  | .rsa n2 e2 => n == n2 && e == e2
  | _ => false

/-- The error that `getCACertificate` makes with `fmt.Errorf`. -/
def errKeyMismatch : Error :=
  .other "key mismatch: CA certificate public key doesn\x27t match CA key in KMS"

/-- Method `AwsKmsProvider.getCACertificate`: the provider with its root
certificate set, or the error, or the panic of the type assertion. -/
def AwsKmsProvider.getCACertificate (lib : Lib) (p : AwsKmsProvider σ κ) (w : World σ κ) :
    Outcome (Except Error (AwsKmsProvider σ κ)) × World σ κ :=
  match p.getCAKey lib w with
  | (.error err, w1) => (.returned (.error err), w1)
  | (.ok caPublicKey, w1) =>
    match storeGetCertificate p.store p.caKeyID w1 with
    | (.error err, w2) => (.returned (.error err), w2)
    | (.ok certEntry, w2) =>
      match lib.ParseCertificate certEntry.Certificate with
      | .error err => (.returned (.error err), w2)
      | .ok caCert =>
        match assertRSAPublicKey caCert.PublicKey with
        | .panicked msg => (.panicked msg, w2)
        | .returned (n, e) =>
          if ¬ rsaPublicKeyEqual n e caPublicKey then (.returned (.error errKeyMismatch), w2)
          else (.returned (.ok { p with caCert := caCert }), w2)

/-- Method `AwsKmsProvider.generateCACertificate` (test mode). A signer that
`newKMSSigner` returned holds a public key, so the check of `Public()` against
`nil` does not fire. -/
def AwsKmsProvider.generateCACertificate (lib : Lib) (p : AwsKmsProvider σ κ)
    (issuerName : String) (w : World σ κ) : Except Error (AwsKmsProvider σ κ) × World σ κ :=
  match NewCACertificateTemplate w with
  | (.error err, w1) => (.error err, w1)
  | (.ok caCertTpl, w1) =>
    let keyed : Except Error (AwsKmsProvider σ κ) × World σ κ :=
      match p.getCAKey lib w1 with
      | (.ok _, w2) => (.ok p, w2)
      | (.error _, w2) =>
        match p.generateCAKey issuerName w2 with
        | (.error err, w3) => (.error err, w3)
        | (.ok caKeyID, w3) => (.ok { p with caKeyID := caKeyID }, w3)
    match keyed with
    | (.error err, w3) => (.error err, w3)
    | (.ok p1, w3) =>
      match newKMSSigner lib p1.client p1.caKeyID w3 with
      | (.error err, w4) => (.error err, w4)
      | (.ok caSigner, w4) =>
        match createCertificateWithSigner lib p1.client caCertTpl caCertTpl
            (some caSigner.publicKey) caSigner w4 with
        | (.error err, w5) => (.error err, w5)
        | (.ok caCertBytes, w5) =>
          match lib.ParseCertificate caCertBytes with
          | .error err => (.error err, w5)
          | .ok caCert =>
            (.ok { p1 with
                   caCertBytes := caCertBytes
                   caCert := { caCert with PublicKey := some caSigner.publicKey } }, w5)

/-- Method `AwsKmsProvider.Init` on the zero value `AwsKmsProvider{}` that
`certmgr.Init` makes: the provider it leaves, or the error, or the panic. The
fields that are not set yet hold Go's zero values; a provider whose `Init`
failed is not used. -/
def AwsKmsProvider.Init (lib : Lib) (b : Backends σ κ) (cfgMgr : ConfigMgr) (w : World σ κ) :
    Outcome (Except Error (AwsKmsProvider σ κ)) × World σ κ :=
  match b.awsClient with
  | .error err => (.returned (.error err), w)
  | .ok client =>
    match certstore.Init b cfgMgr.GetCertStoreProvider w with
    | (.error err, w1) => (.returned (.error err), w1)
    | (.ok store, w1) =>
      let p0 : AwsKmsProvider σ κ :=
        { client := client
          caKeyID := awsKmsCAKeyAlias
          caCert := {}
          caCertBytes := []
          commonSigningCert := {}
          store := store }
      let ca : Outcome (Except Error (AwsKmsProvider σ κ)) × World σ κ :=
        if cfgMgr.IsTestModeEnabled then
          match p0.generateCACertificate lib cfgMgr.GetIssuerName w1 with
          | (r, w2) => (.returned r, w2)
        else p0.getCACertificate lib w1
      match ca with
      | (.panicked msg, w2) => (.panicked msg, w2)
      | (.returned (.error err), w2) => (.returned (.error err), w2)
      | (.returned (.ok p1), w2) =>
        match p1.getCommonSigningCertificate lib w2 with
        | (.error err, w3) => (.returned (.error err), w3)
        | (.ok commonSigningCert, w3) =>
          (.returned (.ok { p1 with commonSigningCert := commonSigningCert }), w3)

/-! ## Certificate manager (`certmgr/certmgr.go`) -/

/-- Function `certmgr.Init`: the provider behind the `KmsProvider` interface,
or the error with no provider (`nil`), or the panic. -/
def certmgr.Init (lib : Lib) (b : Backends σ κ) (cfgMgr : ConfigMgr) (w : World σ κ) :
    Outcome (Except Error (KmsProvider σ κ)) × World σ κ :=
  let w0 := InitTemplateConfiguration cfgMgr.GetCertificateTemplateConfig w
  if cfgMgr.GetKmsProvider = KmsProviderAws then
    match AwsKmsProvider.Init lib b cfgMgr w0 with
    | (.panicked msg, w1) => (.panicked msg, w1)
    | (.returned (.error err), w1) => (.returned (.error err), w1)
    | (.returned (.ok provider), w1) => (.returned (.ok (provider.toKmsProvider lib)), w1)
  else if cfgMgr.GetKmsProvider = KmsProviderLocal then
    match LocalProvider.Init lib b cfgMgr w0 with
    | (.error err, w1) => (.returned (.error err), w1)
    | (.ok provider, w1) => (.returned (.ok (provider.toKmsProvider lib)), w1)
  else (.returned (.error (.other "unsupported kms provider requested")), w0)

/-! ## Sequences of public operations -/

/-- A call of one of the five operations that interface `KmsProvider` offers
to the RPC layer, with its arguments. -/
inductive PublicOp where
  | CreateTenantSigningCertificate (tenantID tenantName : String)
  | GetTenantSigningCertificate (tenantID : String)
  | DeleteTenantSigningCertificate (tenantID : String)
  | CreateDeviceCertificate (tenantID : String) (deviceCSR : Option Bytes)
  | RenewDeviceCertificate (tenantID deviceID : String) (deviceCSR : Option Bytes)
  deriving DecidableEq

/-- The tenant id that the call names. -/
def PublicOp.tenantID : PublicOp → String
  | .CreateTenantSigningCertificate tenantID _ => tenantID
  | .GetTenantSigningCertificate tenantID => tenantID
  | .DeleteTenantSigningCertificate tenantID => tenantID
  | .CreateDeviceCertificate tenantID _ => tenantID
  | .RenewDeviceCertificate tenantID _ _ => tenantID

/-- The world after the provider served the call, whatever it returned. -/
def KmsProvider.perform (kp : KmsProvider σ κ) (op : PublicOp) (w : World σ κ) : World σ κ :=
  match op with
  | .CreateTenantSigningCertificate tenantID tenantName =>
    (kp.CreateTenantSigningCertificate tenantID tenantName w).2
  | .GetTenantSigningCertificate tenantID => (kp.GetTenantSigningCertificate tenantID w).2
  | .DeleteTenantSigningCertificate tenantID => (kp.DeleteTenantSigningCertificate tenantID w).2
  | .CreateDeviceCertificate tenantID deviceCSR =>
    (kp.CreateDeviceCertificate tenantID deviceCSR w).2
  | .RenewDeviceCertificate tenantID deviceID deviceCSR =>
    (kp.RenewDeviceCertificate tenantID deviceID deviceCSR w).2

/-- The world after the provider served the calls one after the other. -/
def KmsProvider.performAll (kp : KmsProvider σ κ) (ops : List PublicOp) (w : World σ κ) :
    World σ κ :=
  ops.foldl (fun w1 op => kp.perform op w1) w

/-! ## DynamoDB certificate store (`certmgr/certstore/dynamodb`) -/

/-- Type `DynamoEntry`: an item of the table `SigningCertificates`, with the
attributes `cert_id` and `cert`. -/
structure DynamoEntry where
  CertID : String
  SigningCertBytes : Bytes
  deriving DecidableEq

/-- The calls of `*dynamodb.Client` that the store makes on the table
`SigningCertificates`, over the state `δ` of the service. An item is held as
the `DynamoEntry` it stands for: `attributevalue.MarshalMap` and
`attributevalue.UnmarshalMap` of a `DynamoEntry`, and `GetKey` of a string,
are taken not to fail and to be inverse to each other. `GetItem` answers
`none` for a result with `Item == nil`. -/
structure DynamoClient (δ : Type) where
  PutItem : δ → DynamoEntry → Option Error × δ
  GetItem : δ → String → Except Error (Option DynamoEntry) × δ
  DeleteItem : δ → String → Option Error × δ

/-- Method `DynamoDbProvider.AddCertificate`. The latency metric is left out,
here as in the other two methods. -/
def DynamoDbProvider.AddCertificate {δ : Type} (client : DynamoClient δ) (s : δ)
    (entry : SigningCertificate) : Option Error × δ :=
  match EncodeSigningCertificate entry with
  | .error err => (some err, s)
  | .ok encodedEntry =>
    client.PutItem s { CertID := entry.TenantID, SigningCertBytes := encodedEntry }

/-- Method `DynamoDbProvider.GetCertificate`. -/
def DynamoDbProvider.GetCertificate {δ : Type} (client : DynamoClient δ) (s : δ)
    (certID : String) : Except Error SigningCertificate × δ :=
  match client.GetItem s certID with
  | (.error err, s1) => (.error err, s1)
  | (.ok none, s1) => (.error .ErrCertStoreNotFound, s1)
  | (.ok (some item), s1) => (DecodeSigningCertificate item.SigningCertBytes, s1)

/-- Method `DynamoDbProvider.DeleteCertificate`. -/
def DynamoDbProvider.DeleteCertificate {δ : Type} (client : DynamoClient δ) (s : δ)
    (certID : String) : Option Error × δ :=
  client.DeleteItem s certID

/-- Type `DynamoDbProvider` behind the `CertStore` interface. -/
def DynamoDbProvider.toCertStore {δ : Type} (client : DynamoClient δ) : CertStore δ :=
  { AddCertificate := DynamoDbProvider.AddCertificate client
    GetCertificate := DynamoDbProvider.GetCertificate client
    DeleteCertificate := DynamoDbProvider.DeleteCertificate client }

/-- A template configuration with every field set. -/
def demoConfig : CertTemplateConfig :=
  { IssuerName := "HP Device Certificate Authority"
    Country := "US"
    Province := "California"
    Locality := "Palo Alto"
    StreetAddress := "1501 Page Mill Road"
    PostalCode := "94304"
    Organization := "HP Inc" }

/-- A world whose clock reads `clock`, on a machine whose time zone is UTC,
whose random source yields the byte `randByte` for ever, with an empty file
system, over the given store and KMS
states. -/
def demoWorld {σ κ : Type} (clock : Nat → Int) (randByte : Nat) (store : σ) (kms : κ) :
    World σ κ :=
  { wallClock := clock
    clockReads := 0
    localZone := utcLocation
    randReader := fun _ => some randByte
    randPos := 0
    uuidSource := fun _ => "7c9e6679-7425-40de-944b-e07fc1f90ae7"
    uuidDraws := 0
    templateConfig := demoConfig
    files := fun _ => none
    fileErrors := fun _ => none
    store := store
    storeCalls := []
    kms := kms
    kmsCalls := [] }

/-- A parsed CSR with an RSA key, signed with SHA-256 and RSA. -/
def demoCSR : CertificateRequest :=
  { Raw := [48, 1]
    Signature := [7, 7]
    SignatureAlgorithm := .SHA256WithRSA
    PublicKeyAlgorithm := .RSA
    PublicKey := some (.rsa 3233 17) }

/-- The device template that `NewDeviceCertificateTemplate "t1" "d1" demoCSR`
builds when both clock readings are the epoch and the random bytes are zero. -/
def demoDeviceTemplate : Certificate :=
  { SerialNumber := some 0
    Subject := { CommonName := "d1", ExtraNames := [{ Typ := [2, 5, 4, 10], Value := "t1" }] }
    NotBefore := 0
    NotAfter := 31536000000000000
    IsCA := false
    KeyUsage := 1
    ExtKeyUsage := [.ExtKeyUsageClientAuth, .ExtKeyUsageServerAuth]
    BasicConstraintsValid := true
    Signature := [7, 7]
    SignatureAlgorithm := .SHA256WithRSA
    PublicKeyAlgorithm := .RSA
    PublicKey := some (.rsa 3233 17)
    ExtraExtensions := [{ Id := [1, 3, 6, 1, 4, 1, 58515, 7, 1, 1, 3], Critical := false }] }

/-- The tenant template built for tenant `t2` named `Acme` in the same world. -/
def demoTenantTemplate : Certificate :=
  { SerialNumber := some 0
    Subject :=
      { Organization := ["Acme"]
        CommonName := "Device Certificate Issuer: Acme"
        ExtraNames := [{ Typ := [2, 5, 4, 10], Value := "t2" }] }
    NotBefore := 0
    NotAfter := 315532800000000000
    IsCA := true
    ExtKeyUsage := [.ExtKeyUsageClientAuth, .ExtKeyUsageServerAuth]
    KeyUsage := 33
    BasicConstraintsValid := true
    SignatureAlgorithm := .SHA256WithRSA
    ExtraExtensions := [{ Id := [1, 3, 6, 1, 4, 1, 58515, 7, 1, 1, 2], Critical := false }] }

/-- The root template built in the same world. -/
def demoCATemplate : Certificate :=
  { SerialNumber := some 0
    Subject :=
      { Country := ["US"]
        Province := ["California"]
        Locality := ["Palo Alto"]
        StreetAddress := ["1501 Page Mill Road"]
        PostalCode := ["94304"]
        Organization := ["HP Inc"]
        OrganizationalUnit := ["HP Device Certificate Authority"] }
    NotBefore := 0
    NotAfter := 315532800000000000
    IsCA := true
    ExtKeyUsage := [.ExtKeyUsageClientAuth, .ExtKeyUsageServerAuth]
    KeyUsage := 33
    BasicConstraintsValid := true
    SignatureAlgorithm := .SHA256WithRSA
    ExtraExtensions := [{ Id := [1, 3, 6, 1, 4, 1, 58515, 7, 1, 1, 1], Critical := false }] }

/-- A clock whose first reading is the epoch and whose later readings are
three days after it. -/
def steppedClock (i : Nat) : Int := if i = 0 then 0 else 3 * nsPerDay

/-- A zone with the transitions of New York from 2023 to 2024: five hours
behind UTC in winter, four in summer; the summer of 2023 ends at
2023-11-05 06:00 UTC and the summer of 2024 at 2024-11-03 06:00 UTC. -/
def demoZone : Location :=
  { lookup := fun s =>
      if s < 1678604400 then
        { offset := -18000, zoneStart := -(2 ^ 63), zoneEnd := 1678604400 }
      else if s < 1699164000 then
        { offset := -14400, zoneStart := 1678604400, zoneEnd := 1699164000 }
      else if s < 1710054000 then
        { offset := -18000, zoneStart := 1699164000, zoneEnd := 1710054000 }
      else if s < 1730613600 then
        { offset := -14400, zoneStart := 1710054000, zoneEnd := 1730613600 }
      else
        { offset := -18000, zoneStart := 1730613600, zoneEnd := 2 ^ 63 - 1 } }

/-- A world on a machine in that zone whose clock stands at
2023-11-04 16:00 UTC, noon of the last summer day. -/
def demoZoneWorld : World Unit Unit :=
  { (demoWorld (fun _ => 1699113600000000000) 0 () () : World Unit Unit) with
    localZone := demoZone }

/-- The device template that `NewDeviceCertificateTemplate "t1" "d1" demoCSR`
builds in that world: it ends at 2024-11-04 17:00 UTC, noon of a winter day. -/
def demoZoneTemplate : Certificate :=
  { SerialNumber := some 0
    Subject := { CommonName := "d1", ExtraNames := [{ Typ := [2, 5, 4, 10], Value := "t1" }] }
    NotBefore := 1699113600000000000
    NotAfter := 1730739600000000000
    IsCA := false
    KeyUsage := 1
    ExtKeyUsage := [.ExtKeyUsageClientAuth, .ExtKeyUsageServerAuth]
    BasicConstraintsValid := true
    Signature := [7, 7]
    SignatureAlgorithm := .SHA256WithRSA
    PublicKeyAlgorithm := .RSA
    PublicKey := some (.rsa 3233 17)
    ExtraExtensions := [{ Id := [1, 3, 6, 1, 4, 1, 58515, 7, 1, 1, 3], Critical := false }] }

/-- A parsed CSR with an ECDSA key, signed with ECDSA and SHA-256. -/
def demoEcdsaCSR : CertificateRequest :=
  { Raw := [48, 2]
    Signature := [9]
    SignatureAlgorithm := .ECDSAWithSHA256
    PublicKeyAlgorithm := .ECDSA
    PublicKey := some (.ecdsa 5 1) }

/-- A parsed CSR with an RSA key, signed with SHA-1 and RSA. -/
def demoSha1CSR : CertificateRequest :=
  { Raw := [48, 3]
    Signature := [8]
    SignatureAlgorithm := .SHA1WithRSA
    PublicKeyAlgorithm := .RSA
    PublicKey := some (.rsa 3233 17) }

/-- A small library: three byte strings parse as the three CSRs above, every
signature checks, every byte string parses as a certificate whose encoding it
is, and signing and bundling yield fixed encodings. -/
def demoLib : Lib :=
  { ParseCertificateRequest := fun b =>
      if b = [48, 1] then .ok demoCSR
      else if b = [48, 2] then .ok demoEcdsaCSR
      else if b = [48, 3] then .ok demoSha1CSR
      else .error (.other "asn1: syntax error")
    CheckSignature := fun _ => none
    ParseCertificate := fun b => .ok { Raw := b }
    CreateCertificate := fun _ parent _ _ => .ok (48 :: 130 :: parent.Raw)
    tbsDigest := fun _ parent _ _ => .ok (32 :: parent.Raw)
    assembleCertificate := fun _ _ _ _ signature => .ok (48 :: 131 :: signature)
    DegenerateCertificate := fun b => .ok (48 :: 128 :: b)
    ParsePKIXPublicKey := fun _ => .ok (.rsa 3233 17)
    pemDecode := fun b => some b
    ParsePKCS1PrivateKey := fun _ => .ok { N := 3233, E := 17, D := 2753 }
    filepathClean := fun s => s
    GenerateKey := fun _ pos _ => (.ok { N := 3233, E := 17, D := 2753 }, pos + 2)
    MarshalPKCS1PrivateKey := fun k => some [k.N % 256, k.E % 256, k.D % 256]
    pemEncode := fun _ b => 45 :: b }

/-- The device template built when the first clock reading is the epoch and
the second is three days later. -/
def demoLateTemplate : Certificate :=
  { demoDeviceTemplate with NotAfter := 31795200000000000 }

/-- An in-memory certificate store: a list of entries, the newest first. -/
def memStore : CertStore (List SigningCertificate) :=
  { AddCertificate := fun s entry => (none, entry :: s)
    GetCertificate := fun s certID =>
      match s.find? (fun e => e.TenantID == certID) with
      | some e => (.ok e, s)
      | none => (.error .ErrCertStoreNotFound, s)
    DeleteCertificate := fun s certID => (none, s.filter (fun e => e.TenantID != certID)) }

/-- A certificate store whose reads time out. -/
def brokenStore : CertStore (List SigningCertificate) :=
  { AddCertificate := fun s entry => (none, entry :: s)
    GetCertificate := fun s _ => (.error (.other "i/o timeout"), s)
    DeleteCertificate := fun s _ => (none, s) }

/-- A KMS client that knows every key and signs by prefixing a zero byte. -/
def demoKmsClient : KMSClient Unit :=
  { CreateKey := fun _ _ => (.ok "key-new", ())
    CreateAlias := fun _ _ _ => (none, ())
    DeleteAlias := fun _ _ => (none, ())
    DescribeKey := fun _ keyId => (.ok keyId, ())
    ScheduleKeyDeletion := fun _ _ _ => (none, ())
    GetPublicKey := fun _ _ => (.ok [48, 5], ())
    Sign := fun _ _ digest => (.ok (0 :: digest), ()) }

/-- The entry of the common signing certificate. -/
def demoCommonEntry : SigningCertificate :=
  { TenantID := "SharedTenantSigningKey", KmsKeyID := "key-common", Certificate := [48, 7] }

/-- A local provider with per-tenant signing enabled. -/
def demoLocalProvider (store : CertStore (List SigningCertificate)) :
    LocalProvider (List SigningCertificate) :=
  { caPrivateKey := { N := 3233, E := 17, D := 2753 }
    caCert := { Raw := [48, 9] }
    caCertBytes := [48, 9]
    commonSigningCert :=
      { Raw := [48, 7], Subject := { CommonName := "HP Device Certificate Issuer" } }
    commonSigningCertPkey := { N := 3233, E := 17, D := 2753 }
    perTenantSigningEnabled := true
    store := store }

/-- An AWS provider over the in-memory store. -/
def demoAwsProvider : AwsKmsProvider (List SigningCertificate) Unit :=
  { client := demoKmsClient
    caKeyID := "alias/CAKey"
    caCert := { Raw := [48, 9] }
    caCertBytes := [48, 9]
    commonSigningCert := demoCommonEntry
    store := memStore }

/-- The world of the service at rest: clock at the epoch, zero random bytes,
an empty store. -/
def demoServiceWorld : World (List SigningCertificate) Unit :=
  demoWorld (fun _ => 0) 0 [] ()

/-- A request header of protocol version `v1` with a request id. -/
def demoHeader : CaRequestHeader := { ProtocolVersion := "v1", RequestId := "req-1" }

/-- A create request for tenant `t1` with the given CSR bytes. -/
def demoCreateRequest (csr : Option Bytes) : CreateDeviceCertificateRequest :=
  { Header := some demoHeader, Version := "v1", Tid := "t1", Csr := csr }

/-- A renew request for tenant `t1` and device `d1` with an RSA CSR. -/
def demoRenewRequest : RenewDeviceCertificateRequest :=
  { Header := some demoHeader, Version := "v1", Tid := "t1", DeviceId := "d1",
    Csr := some [48, 1] }

/-- An empty embedded database on a disk that takes every write. -/
def demoBolt : BoltDB := { bucket := [], diskError := none }

/-- A local provider over the embedded database, with per-tenant signing
disabled. -/
def demoLocalDbProvider : LocalProvider BoltDB :=
  { caPrivateKey := { N := 3233, E := 17, D := 2753 }
    caCert := { Raw := [48, 9] }
    caCertBytes := [48, 9]
    commonSigningCert :=
      { Raw := [48, 7], Subject := { CommonName := "HP Device Certificate Issuer" } }
    commonSigningCertPkey := { N := 3233, E := 17, D := 2753 }
    perTenantSigningEnabled := false
    store := LocalDbProvider.toCertStore }

/-- The world of the service over the embedded database: clock at the epoch,
zero random bytes, no file, an empty bucket. -/
def demoBoltWorld : World BoltDB Unit :=
  demoWorld (fun _ => 0) 0 demoBolt ()

/-- A KMS that holds the aliases listed with the key each stands for. It signs
by prefixing a zero byte. -/
def memKms : KMSClient (List (String × String)) :=
  { CreateKey := fun s description => (.ok ("key:" ++ description), s)
    CreateAlias := fun s targetKeyId aliasName => (none, (aliasName, targetKeyId) :: s)
    DeleteAlias := fun s aliasName => (none, s.filter (fun a => a.1 ≠ aliasName))
    DescribeKey := fun s keyId =>
      match s.find? (fun a => a.1 = keyId) with
      | some a => (.ok a.2, s)
      | none => (.error (.NotFoundException ("Alias " ++ keyId ++ " is not found.")), s)
    ScheduleKeyDeletion := fun s _ _ => (none, s)
    GetPublicKey := fun s _ => (.ok [48, 5], s)
    Sign := fun s _ digest => (.ok (0 :: digest), s) }

/-- An AWS provider over the embedded database and the KMS above. -/
def demoAwsDbProvider : AwsKmsProvider BoltDB (List (String × String)) :=
  { client := memKms
    caKeyID := "alias/CAKey"
    caCert := { Raw := [48, 9] }
    caCertBytes := [48, 9]
    commonSigningCert := demoCommonEntry
    store := LocalDbProvider.toCertStore }

/-- The world of the AWS provider at rest: the KMS holds the key of the root
CA only, the bucket is empty. -/
def demoAwsDbWorld : World BoltDB (List (String × String)) :=
  demoWorld (fun _ => 0) 0 demoBolt [("alias/CAKey", "key-ca")]

/-- The entry of a signing certificate of its own for tenant `t1`. -/
def demoTenantEntry : SigningCertificate :=
  { TenantID := "t1", KmsKeyID := "key-t1", Certificate := [48, 11] }

/-- The world at rest with a store that holds an entry of its own for tenant
`t1`. -/
def demoDedicatedWorld : World (List SigningCertificate) Unit :=
  demoWorld (fun _ => 0) 0 [demoTenantEntry] ()

/-- The demonstration library with a key generator that fails. -/
def demoNoKeyLib : Lib :=
  { demoLib with
    GenerateKey := fun _ pos _ => (.error (.other "rsa: key generation failed"), pos) }

/-- The demonstration library with a signing operation that fails. -/
def demoNoSignLib : Lib :=
  { demoLib with
    CreateCertificate := fun _ _ _ _ => .error (.other "x509: signing failed")
    assembleCertificate := fun _ _ _ _ _ => .error (.other "x509: signing failed") }

/-- The world after the local provider created the signing certificate of
tenant `t2`: the bucket holds its entry and the file `t2.key` its key. -/
def demoLocalCreatedWorld : World BoltDB (List (String × String)) :=
  (demoLocalDbProvider.CreateTenantSigningCertificate demoLib "t2" "Acme" demoAwsDbWorld).2

/-- The world after the AWS provider created the signing certificate of tenant
`t2`: the bucket holds its entry and the KMS the alias `alias/t2`. -/
def demoAwsCreatedWorld : World BoltDB (List (String × String)) :=
  (demoAwsDbProvider.CreateTenantSigningCertificate demoLib "t2" "Acme" demoAwsDbWorld).2

/-- The world after the local provider created the signing certificate of
tenant `t2`, on a disk that has since turned read-only. -/
def demoReadOnlyWorld : World BoltDB (List (String × String)) :=
  { demoLocalCreatedWorld with
    store := { demoLocalCreatedWorld.store with diskError := some (.other "read-only file system") } }

/-- Requests for tenant `t2` with a valid header. -/
def demoDeleteRequest : DeleteTenantSigningCertificateRequest :=
  { Header := some demoHeader, Version := "v1", Tid := "t2" }

def demoGetRequest : GetTenantSigningCertificateRequest :=
  { Header := some demoHeader, Version := "v1", Tid := "t2" }


/-! ## Concrete instances for the start of the service -/

/-- A configuration manager with the given KMS provider and certificate store
and a full template configuration. -/
def demoConfigMgr (kmsProvider certStore : String) : ConfigMgr :=
  { config :=
      { ConfigFilePath := ""
        Server := { Host := "localhost", RpcPort := 6969, RestPort := 6970,
                    DebugLogRestRequests := false }
        CertificateAuthority :=
          { KmsProvider := kmsProvider
            CertStoreProvider := certStore
            PerTenantSigningEnabled := false
            CertTemplateConfig := demoConfig
            AwsAccessKeyId := ""
            AwsSecretAccessKey := "" }
        TestMode := false }
    serviceName := "HP Device Certificate Authority" }

/-- A certificate store that cannot be reached: every call times out. -/
def unreachableStore {σ : Type} : CertStore σ :=
  { AddCertificate := fun s _ => (some (.other "i/o timeout"), s)
    GetCertificate := fun s _ => (.error (.other "i/o timeout"), s)
    DeleteCertificate := fun s _ => (some (.other "i/o timeout"), s) }

/-- A start on a machine with the embedded database and the KMS that keeps a
list of aliases; the table of the remote document store does not exist. -/
def demoBackends : Backends BoltDB (List (String × String)) :=
  { awsClient := .ok memKms
    dynamoDbInit := fun s => (some (.other "ResourceNotFoundException"), s)
    dynamoDb := unreachableStore
    localDbInit := LocalDbProvider.Init
    localDb := LocalDbProvider.toCertStore }

/-- The world before the first start of the service: an empty bucket, no
file, and a KMS without aliases. -/
def demoBoltKmsWorld : World BoltDB (List (String × String)) :=
  demoWorld (fun _ => 0) 0 demoBolt []

/-- A request to create the signing certificate of tenant `t2`, named `Acme`,
with a valid header. -/
def demoCreateTenantRequest : CreateTenantSigningCertificateRequest :=
  { Header := some demoHeader, Version := "v1", Tid := "t2", Name := "Acme",
    DomainName := "acme.example" }

/-- The kind and the byte that stand for a public key in the certificates of
`keyLib`: kind 1 is RSA, 2 ECDSA, 3 Ed25519, 0 no key. -/
def keyBytes : Option PublicKey → Nat × Nat
  | some (.rsa n _) => (1, n)
  | some (.ecdsa x _) => (2, x)
  | some (.ed25519 k) => (3, k.headD 0)
  | none => (0, 0)

/-- The public key that a kind and a byte stand for. -/
def keyOfBytes (kind k : Nat) : Option PublicKey :=
  if kind = 1 then some (.rsa k 17)
  else if kind = 2 then some (.ecdsa k 1)
  else if kind = 3 then some (.ed25519 [k])
  else none

/-- A library whose certificates say who signed them. A certificate is five
bytes: `48`, `130`, the kind and the byte of the subject key, and the modulus
of the RSA key that signed it. A generated key has the next random byte as its
modulus, a key file is the byte `45` before modulus and exponents, and the
public key that the KMS sends is `48` before the modulus (`49` before the
coordinate of an ECDSA key). -/
def keyLib : Lib :=
  { demoLib with
    ParseCertificate := fun b =>
      match b with
      | [h1, h2, kind, k, s] =>
        if h1 = 48 ∧ h2 = 130 then
          .ok { Raw := b, PublicKey := keyOfBytes kind k, Signature := [s] }
        else .error (.other "x509: malformed certificate")
      | _ => .error (.other "x509: malformed certificate")
    CreateCertificate := fun _ _ pub priv =>
      .ok [48, 130, (keyBytes pub).1, (keyBytes pub).2, priv.N]
    tbsDigest := fun _ _ pub _ => .ok [32, (keyBytes pub).1, (keyBytes pub).2]
    assembleCertificate := fun _ _ pub signerPub _ =>
      .ok [48, 130, (keyBytes pub).1, (keyBytes pub).2, (keyBytes (some signerPub)).2]
    ParsePKIXPublicKey := fun b =>
      match b with
      | [h, k] =>
        if h = 48 then .ok (.rsa k 17)
        else if h = 49 then .ok (.ecdsa k 1)
        else .error (.other "x509: failed to parse public key")
      | _ => .error (.other "x509: failed to parse public key")
    pemDecode := fun b =>
      match b with
      | h :: rest => if h = 45 then some rest else none
      | [] => none
    ParsePKCS1PrivateKey := fun b =>
      match b with
      | [n, e, d] => .ok { N := n, E := e, D := d }
      | _ => .error (.other "x509: failed to parse private key")
    GenerateKey := fun src pos _ =>
      match src pos with
      | none => (.error (.other "read of random source failed"), pos + 1)
      | some n => (.ok { N := n, E := 17, D := 1 }, pos + 1)
    MarshalPKCS1PrivateKey := fun k => some [k.N, k.E, k.D]
    pemEncode := fun _ b => 45 :: b }

/-- The world of a start in production: the bucket holds, under `alias/CAKey`,
an entry with the given certificate bytes, and the KMS holds the alias
`alias/CAKey`; its key is the RSA key that `[48, 5]` stands for. -/
def demoProductionWorld (certificate : Bytes) : World BoltDB (List (String × String)) :=
  demoWorld (fun _ => 0) 0
    (LocalDbProvider.AddCertificate demoBolt
      { TenantID := "alias/CAKey", KmsKeyID := "key-ca", Certificate := certificate }).2
    [("alias/CAKey", "key-ca")]

/-- The AWS provider as `Init` has it when it turns to the root certificate:
client, key alias and store are set. -/
def demoStartingProvider : AwsKmsProvider BoltDB (List (String × String)) :=
  { client := memKms
    caKeyID := awsKmsCAKeyAlias
    caCert := {}
    caCertBytes := []
    commonSigningCert := {}
    store := LocalDbProvider.toCertStore }

/-! ## Auxiliary relations used in the proofs about sequences of operations -/

/-- Whether the call removes something from the KMS. -/
def KmsCall.removes : KmsCall → Bool
  | .DeleteAlias _ => true
  | .ScheduleKeyDeletion _ _ => true
  | _ => false

/-- Whether the call removes the alias `alias/CAKey` or schedules the deletion
of the key with the given id. -/
def KmsCall.harmsRootKey (caKeyId : String) : KmsCall → Bool
  | .DeleteAlias aliasName => aliasName == awsKmsCAKeyAlias
  | .ScheduleKeyDeletion keyId _ => keyId == caKeyId
  | _ => false

/-- The record of the KMS calls of `w'` is that of `w` followed by calls that
all satisfy `P`. -/
def KmsAdded (P : KmsCall → Prop) (w w' : World σ κ) : Prop :=
  ∃ new, w'.kmsCalls = w.kmsCalls ++ new ∧ ∀ c ∈ new, P c

/-- The state `s'` of the store is the state `s`, or `s` after one call of the
store for the given tenant id. -/
def StoreStep (store : CertStore σ) (tenantID : String) (s s' : σ) : Prop :=
  s' = s ∨ s' = (store.GetCertificate s tenantID).2 ∨
    s' = (store.DeleteCertificate s tenantID).2 ∨
    ∃ e : SigningCertificate, e.TenantID = tenantID ∧ s' = (store.AddCertificate s e).2

/-- What a call of the KMS that a provider makes for a tenant can be: a call
that removes nothing, the removal of the alias of the tenant, or the scheduled
deletion of a key that `DescribeKey` returned for the alias of the tenant. -/
def TenantKmsCall (client : KMSClient κ) (tenantID : String) (c : KmsCall) : Prop :=
  c.removes = false ∨ c = .DeleteAlias (keyAliasFormat tenantID) ∨
    ∃ (k k1 : κ) (keyId : String),
      client.DescribeKey k (keyAliasFormat tenantID) = (.ok keyId, k1) ∧
      c = .ScheduleKeyDeletion keyId awsKmsKeyDeletionPendingWindowDays

/-! ## Concrete starts of the two providers -/

/-- The world before the first start of the service, with a random source
whose bytes differ from place to place. -/
def demoStartWorld : World BoltDB (List (String × String)) :=
  { demoBoltKmsWorld with randReader := fun i => some (i % 250 + 2) }

/-- The first start of the local provider, over an empty store. -/
def demoLocalStart : Except Error (LocalProvider BoltDB) × World BoltDB (List (String × String)) :=
  LocalProvider.Init keyLib demoBackends (demoConfigMgr "local_kms" "localdb") demoStartWorld

/-- The provider that the first start leaves. -/
def demoStartedLocal : LocalProvider BoltDB :=
  match demoLocalStart.1 with
  | .ok p => p
  | .error _ => demoLocalDbProvider

/-- The start of the AWS provider in production, over a store that holds the
root certificate with the key of the KMS. -/
def demoAwsStart :
    Outcome (Except Error (AwsKmsProvider BoltDB (List (String × String)))) ×
      World BoltDB (List (String × String)) :=
  AwsKmsProvider.Init keyLib demoBackends (demoConfigMgr "aws_kms" "localdb")
    (demoProductionWorld [48, 130, 1, 5, 5])

/-- The provider that this start leaves. -/
def demoStartedAws : AwsKmsProvider BoltDB (List (String × String)) :=
  match demoAwsStart.1 with
  | .returned (.ok p) => p
  | _ => demoAwsDbProvider

/-- Whether the start returned a provider. -/
def Outcome.isReturnedOk {ε α : Type} : Outcome (Except ε α) → Bool
  | .returned (.ok _) => true
  | _ => false

/-- A request to delete the signing certificate of a tenant, with a valid
header. -/
def demoDeleteRequestFor (tenantID : String) : DeleteTenantSigningCertificateRequest :=
  { Header := some demoHeader, Version := "v1", Tid := tenantID }

/-- A life of tenant `t2`: its signing certificate is created, a device
certificate is issued and renewed, the signing certificate is read and
deleted. -/
def demoOps : List PublicOp :=
  [.CreateTenantSigningCertificate "t2" "Acme",
   .CreateDeviceCertificate "t2" (some [48, 1]),
   .RenewDeviceCertificate "t2" "d1" (some [48, 1]),
   .GetTenantSigningCertificate "t2",
   .DeleteTenantSigningCertificate "t2"]

/-- A KMS that names each key after the alias it is made for: the key behind
the alias `a` has the id `key:a`. Its state is the list of the aliases that
exist. The provider describes the key of a tenant as `Signing key: ` before
the tenant id and gives it the alias `alias/` before the tenant id, so the id
of a new key is `key:alias/` before the description without its first
thirteen characters. -/
def namingKms : KMSClient (List String) :=
  { CreateKey := fun s description => (.ok ("key:alias/" ++ description.drop 13), s)
    CreateAlias := fun s _ aliasName => (none, aliasName :: s)
    DeleteAlias := fun s aliasName => (none, s.filter (fun a => a ≠ aliasName))
    DescribeKey := fun s keyId =>
      if keyId ∈ s then (.ok ("key:" ++ keyId), s)
      else (.error (.NotFoundException ("Alias " ++ keyId ++ " is not found.")), s)
    ScheduleKeyDeletion := fun s _ _ => (none, s)
    GetPublicKey := fun s _ => (.ok [48, 5], s)
    Sign := fun s _ digest => (.ok (0 :: digest), s) }

/-- An AWS provider over the embedded database and the naming KMS. -/
def demoNamingProvider : AwsKmsProvider BoltDB (List String) :=
  { client := namingKms
    caKeyID := "alias/CAKey"
    caCert := { Raw := [48, 130, 1, 5, 5], PublicKey := some (.rsa 5 17), Signature := [5] }
    caCertBytes := [48, 130, 1, 5, 5]
    commonSigningCert := demoCommonEntry
    store := LocalDbProvider.toCertStore }

/-- A world in which the bucket holds the root certificate under `alias/CAKey`
and the naming KMS the alias `alias/CAKey`. -/
def demoNamingWorld : World BoltDB (List String) :=
  demoWorld (fun _ => 0) 0
    (LocalDbProvider.AddCertificate demoBolt
      { TenantID := "alias/CAKey", KmsKeyID := "key:alias/CAKey",
        Certificate := [48, 130, 1, 5, 5] }).2
    ["alias/CAKey"]

/-! ## A restart of the local provider, and a store that fails -/

/-- The second start of the local provider, in the world that the first start
left: the bucket holds the common signing entry of the first run, and the file
`SharedTenantSigningKey.key` its key. -/
def demoLocalRestart :
    Except Error (LocalProvider BoltDB) × World BoltDB (List (String × String)) :=
  LocalProvider.Init keyLib demoBackends (demoConfigMgr "local_kms" "localdb") demoLocalStart.2

/-- The provider that the second start leaves. -/
def demoRestartedLocal : LocalProvider BoltDB :=
  match demoLocalRestart.1 with
  | .ok p => p
  | .error _ => demoLocalDbProvider

/-- The public key in a certificate, when the bytes parse and carry one. -/
def certificatePublicKey (lib : Lib) (der : Bytes) : Option PublicKey :=
  match lib.ParseCertificate der with
  | .ok cert => cert.PublicKey
  | .error _ => none

/-- The public key in the certificate of the entry that the embedded store
holds under an id. -/
def entryPublicKey (lib : Lib) (db : BoltDB) (id : String) : Option PublicKey :=
  match (LocalDbProvider.GetCertificate db id).1 with
  | .ok entry => certificatePublicKey lib entry.Certificate
  | .error _ => none

/-- The public half of the key in the key file of a tenant. -/
def keyFilePublicKey (lib : Lib) (tenantID : String) (w : World σ κ) : Option PublicKey :=
  match LocalProvider.getTenantPrivateKey lib tenantID w with
  | .ok pkey => some pkey.PublicKey
  | .error _ => none

/-- The world after the started local provider created the signing
certificate of tenant `t2`. -/
def demoTenantWorld : World BoltDB (List (String × String)) :=
  (demoStartedLocal.CreateTenantSigningCertificate keyLib "t2" "Acme" demoLocalStart.2).2

/-- The same world on a disk that has turned read-only: the embedded database
commits no write. -/
def demoTenantReadOnlyWorld : World BoltDB (List (String × String)) :=
  { demoTenantWorld with
    store := { demoTenantWorld.store with diskError := some (.other "read-only file system") } }

/-! # Theorems

## Calendar lemmas -/

theorem isLeap_iff (y : Int) :
    isLeap y = true ↔ (y % 4 = 0 ∧ (y % 100 ≠ 0 ∨ y % 400 = 0)) := by
  simp [isLeap]

theorem isLeap_false_iff (y : Int) :
    isLeap y = false ↔ ¬ (y % 4 = 0 ∧ (y % 100 ≠ 0 ∨ y % 400 = 0)) := by
  rw [← isLeap_iff]
  simp

theorem daysBefore_vals :
    daysBefore 0 = 0 ∧ daysBefore 1 = 31 ∧ daysBefore 2 = 59 ∧ daysBefore 3 = 90 ∧
    daysBefore 4 = 120 ∧ daysBefore 5 = 151 ∧ daysBefore 6 = 181 ∧ daysBefore 7 = 212 ∧
    daysBefore 8 = 243 ∧ daysBefore 9 = 273 ∧ daysBefore 10 = 304 ∧ daysBefore 11 = 334 ∧
    daysBefore 12 = 365 := by decide

theorem monthDay_common (year yday : Int) (hl : isLeap year = false) (h0 : 0 ≤ yday)
    (h1 : yday < 365) :
    1 ≤ (monthDay year yday).1 ∧ (monthDay year yday).1 ≤ 12 ∧
      ydayOf false (monthDay year yday) = yday := by
  obtain ⟨v0, v1, v2, v3, v4, v5, v6, v7, v8, v9, v10, v11, v12⟩ := daysBefore_vals
  simp only [monthDay, hl, Bool.false_and, Bool.false_eq_true, if_false, ydayOf]
  have hq0 : 0 ≤ yday / 31 := by omega
  have hq1 : yday / 31 ≤ 11 := by omega
  generalize hq : yday / 31 = q at *
  interval_cases q <;> norm_num only [v0, v1, v2, v3, v4, v5, v6, v7, v8, v9, v10, v11, v12] <;>
    split <;> (try norm_num only [v0, v1, v2, v3, v4, v5, v6, v7, v8, v9, v10, v11, v12]) <;>
    (try simp only [true_and, decide_True, decide_False, if_true, if_false,
      Bool.false_eq_true]) <;> (try omega)

theorem monthDay_leap (year yday : Int) (hl : isLeap year = true) (h0 : 0 ≤ yday)
    (h1 : yday < 366) :
    1 ≤ (monthDay year yday).1 ∧ (monthDay year yday).1 ≤ 12 ∧
      ydayOf true (monthDay year yday) = yday := by
  obtain ⟨v0, v1, v2, v3, v4, v5, v6, v7, v8, v9, v10, v11, v12⟩ := daysBefore_vals
  simp only [monthDay, hl, Bool.true_and, ydayOf]
  by_cases h59 : yday = 59
  · subst h59
    norm_num [v1]
  · have hne : (yday == 31 + 29 - 1) = false := by simpa using h59
    simp only [hne, Bool.false_eq_true, if_false]
    by_cases hgt : yday > 59
    · have hd : decide (yday > 31 + 29 - 1) = true := by simpa using hgt
      simp only [hd, if_true]
      have hq0 : 0 ≤ (yday - 1) / 31 := by omega
      have hq1 : (yday - 1) / 31 ≤ 11 := by omega
      generalize hq : (yday - 1) / 31 = q at *
      interval_cases q <;> norm_num only [v0, v1, v2, v3, v4, v5, v6, v7, v8, v9, v10, v11, v12] <;>
        split <;> (try norm_num only [v0, v1, v2, v3, v4, v5, v6, v7, v8, v9, v10, v11, v12]) <;>
        (try simp only [true_and, decide_True, decide_False, if_true, if_false,
          Bool.false_eq_true]) <;> (try omega)
    · have hd : decide (yday > 31 + 29 - 1) = false := by simpa using hgt
      simp only [hd, Bool.false_eq_true, if_false]
      have hq0 : 0 ≤ yday / 31 := by omega
      have hq1 : yday / 31 ≤ 1 := by omega
      generalize hq : yday / 31 = q at *
      interval_cases q <;> norm_num only [v0, v1, v2, v3, v4, v5, v6, v7, v8, v9, v10, v11, v12] <;>
        split <;> (try norm_num only [v0, v1, v2, v3, v4, v5, v6, v7, v8, v9, v10, v11, v12]) <;>
        (try simp only [true_and, decide_True, decide_False, if_true, if_false,
          Bool.false_eq_true]) <;> (try omega)

theorem monthDay_spec (year yday : Int) (h0 : 0 ≤ yday)
    (h1 : yday < (if isLeap year then 366 else 365)) :
    1 ≤ (monthDay year yday).1 ∧ (monthDay year yday).1 ≤ 12 ∧
      ydayOf (isLeap year) (monthDay year yday) = yday := by
  cases hl : isLeap year
  · exact monthDay_common year yday hl h0 (by simpa [hl] using h1)
  · exact monthDay_leap year yday hl h0 (by simpa [hl] using h1)

theorem daysSinceEpoch_closed (year : Int) :
    daysSinceEpoch year =
      365 * (year - 1) + (year - 1) / 4 - (year - 1) / 100 + (year - 1) / 400 := by
  simp only [daysSinceEpoch]
  omega

theorem absYearDay_cases (days : Int) :
    ∃ n400 n100 n4 n1 d : Int,
      absYearDay days = (400 * n400 + 100 * n100 + 4 * n4 + n1 + 1, d) ∧
      days = 146097 * n400 + 36524 * n100 + 1461 * n4 + 365 * n1 + d ∧
      0 ≤ n100 ∧ n100 ≤ 3 ∧ 0 ≤ n4 ∧ n4 ≤ 24 ∧ 0 ≤ n1 ∧ n1 ≤ 3 ∧ 0 ≤ d ∧
      (d ≤ 364 ∨ (d = 365 ∧ n1 = 3 ∧ (n4 < 24 ∨ n100 = 3))) := by
  refine ⟨days / 146097, _, _, _, _, rfl, ?_⟩
  generalize hc : (days - 146097 * (days / 146097)) / 36524 = c
  have hc0 : 0 ≤ c := by omega
  have hc4 : c ≤ 4 := by omega
  generalize he : (days - 146097 * (days / 146097) - 36524 * (c - c / 4)) / 1461 = e
  generalize hf : (days - 146097 * (days / 146097) - 36524 * (c - c / 4) - 1461 * e) / 365 = f
  have hf0 : 0 ≤ f := by omega
  have hf4 : f ≤ 4 := by omega
  interval_cases c <;> interval_cases f <;> omega

theorem absYearDay_spec (days : Int) :
    daysSinceEpoch (absYearDay days).1 + (absYearDay days).2 = days ∧
      0 ≤ (absYearDay days).2 ∧
      (absYearDay days).2 < (if isLeap (absYearDay days).1 then 366 else 365) := by
  obtain ⟨n400, n100, n4, n1, d, he, hd, h1, h2, h3, h4, h5, h6, h7, h8⟩ := absYearDay_cases days
  rw [he]
  simp only [daysSinceEpoch_closed]
  refine ⟨by omega, h7, ?_⟩
  cases hl : isLeap (400 * n400 + 100 * n100 + 4 * n4 + n1 + 1)
  · rw [isLeap_false_iff] at hl
    simp only [Bool.false_eq_true, if_false]
    omega
  · simp only [if_true]
    omega

theorem monthStart_succ_year (y m : Int) :
    365 ≤ monthStart (y + 1) m - monthStart y m ∧
      monthStart (y + 1) m - monthStart y m ≤ 366 := by
  simp only [monthStart, daysSinceEpoch_closed]
  by_cases hm : m ≥ 3 <;> cases h1 : isLeap (y + 1) <;> cases h2 : isLeap y <;>
    simp only [hm, decide_True, decide_False, Bool.and_true, Bool.and_false, if_true, if_false,
      Bool.false_eq_true] <;>
    (first
      | rw [isLeap_iff] at h1
      | rw [isLeap_false_iff] at h1) <;>
    (first
      | rw [isLeap_iff] at h2
      | rw [isLeap_false_iff] at h2) <;>
    omega

theorem monthStart_ten_years (y m : Int) :
    3651 ≤ monthStart (y + 10) m - monthStart y m ∧
      monthStart (y + 10) m - monthStart y m ≤ 3653 := by
  simp only [monthStart, daysSinceEpoch_closed]
  by_cases hm : m ≥ 3 <;> cases h1 : isLeap (y + 10) <;> cases h2 : isLeap y <;>
    simp only [hm, decide_True, decide_False, Bool.and_true, Bool.and_false, if_true, if_false,
      Bool.false_eq_true] <;>
    (first
      | rw [isLeap_iff] at h1
      | rw [isLeap_false_iff] at h1) <;>
    (first
      | rw [isLeap_iff] at h2
      | rw [isLeap_false_iff] at h2) <;>
    omega

theorem wallOfDate_eq (year m day h mi s ns : Int) (hm1 : 1 ≤ m) (hm12 : m ≤ 12) :
    wallOfDate year m day h mi s ns =
      ((monthStart year m + (day - 1) - unixEpochDays) * secondsPerDay + h * 3600 + mi * 60 + s)
        * nsPerSecond + ns := by
  have hq : (m - 1) / 12 = 0 := by omega
  have hr : (m - 1) % 12 = m - 1 := by omega
  have hd : decide (m - 1 + 1 ≥ 3) = decide (m ≥ 3) := by
    congr 1
    apply propext
    constructor <;> intro h <;> omega
  simp only [wallOfDate, monthStart, hq, hr, hd, add_zero]
  split <;> ring

theorem absDate_month_range (t : Int) : 1 ≤ (absDate t).2.1 ∧ (absDate t).2.1 ≤ 12 := by
  obtain ⟨_, h0, h1⟩ := absYearDay_spec (t / nsPerDay + unixEpochDays)
  obtain ⟨a, b, _⟩ := monthDay_spec _ _ h0 h1
  exact ⟨a, b⟩

theorem monthStart_absDate (t : Int) :
    monthStart (absDate t).1 (absDate t).2.1 + ((absDate t).2.2 - 1)
      = t / nsPerDay + unixEpochDays := by
  obtain ⟨hs, h0, h1⟩ := absYearDay_spec (t / nsPerDay + unixEpochDays)
  obtain ⟨_, _, hy⟩ := monthDay_spec _ _ h0 h1
  simp only [ydayOf] at hy
  simp only [absDate, monthStart]
  omega

theorem absClock_spec (t : Int) :
    (((absClock t).1 * 3600 + (absClock t).2.1 * 60 + (absClock t).2.2.1) * nsPerSecond
      + (absClock t).2.2.2) = t % nsPerDay := by
  simp only [absClock, nsPerDay, nsPerSecond]
  omega

theorem wallOfDate_absDate_absClock (t : Int) :
    wallOfDate (absDate t).1 (absDate t).2.1 (absDate t).2.2 (absClock t).1 (absClock t).2.1
      (absClock t).2.2.1 (absClock t).2.2.2 = t := by
  obtain ⟨hm1, hm12⟩ := absDate_month_range t
  rw [wallOfDate_eq _ _ _ _ _ _ _ hm1 hm12]
  have h1 := monthStart_absDate t
  have h2 := absClock_spec t
  have h3 : monthStart (absDate t).1 (absDate t).2.1 + ((absDate t).2.2 - 1) - unixEpochDays
      = t / nsPerDay := by omega
  rw [h3]
  simp only [nsPerDay, nsPerSecond, secondsPerDay] at *
  omega

theorem addDateWall_years (t : Int) (years : Int) :
    addDateWall t years 0 0 - t =
      (monthStart ((absDate t).1 + years) (absDate t).2.1
          - monthStart (absDate t).1 (absDate t).2.1)
        * nsPerDay := by
  obtain ⟨hm1, hm12⟩ := absDate_month_range t
  have hrt := wallOfDate_absDate_absClock t
  rw [wallOfDate_eq _ _ _ _ _ _ _ hm1 hm12] at hrt
  simp only [addDateWall, add_zero]
  rw [wallOfDate_eq _ _ _ _ _ _ _ hm1 hm12]
  simp only [nsPerDay, nsPerSecond, secondsPerDay] at *
  omega

theorem addDateWall_one_year (t : Int) :
    365 * nsPerDay ≤ addDateWall t 1 0 0 - t ∧ addDateWall t 1 0 0 - t ≤ 366 * nsPerDay := by
  rw [addDateWall_years]
  obtain ⟨h1, h2⟩ := monthStart_succ_year (absDate t).1 (absDate t).2.1
  simp only [nsPerDay]
  omega

theorem addDateWall_ten_years (t : Int) :
    3651 * nsPerDay ≤ addDateWall t 10 0 0 - t ∧
      addDateWall t 10 0 0 - t ≤ 3653 * nsPerDay := by
  rw [addDateWall_years]
  obtain ⟨h1, h2⟩ := monthStart_ten_years (absDate t).1 (absDate t).2.1
  simp only [nsPerDay]
  omega

theorem AddDate_eq (loc : Location) (t years months days : Int) :
    AddDate loc t years months days
      = addDateWall (timeAbs loc t) years months days
        - addDateOffset loc t years months days * nsPerSecond :=
  rfl

theorem AddDate_years (loc : Location) (t years : Int) :
    AddDate loc t years 0 0 - t
        - (zoneOffset loc t - addDateOffset loc t years 0 0) * nsPerSecond
      = addDateWall (timeAbs loc t) years 0 0 - timeAbs loc t := by
  rw [AddDate_eq]
  simp only [timeAbs]
  ring

theorem AddDate_one_year (loc : Location) (t : Int) :
    365 * nsPerDay ≤ AddDate loc t 1 0 0 - t
        - (zoneOffset loc t - addDateOffset loc t 1 0 0) * nsPerSecond ∧
      AddDate loc t 1 0 0 - t
        - (zoneOffset loc t - addDateOffset loc t 1 0 0) * nsPerSecond ≤ 366 * nsPerDay := by
  rw [AddDate_years]
  exact addDateWall_one_year _

theorem AddDate_ten_years (loc : Location) (t : Int) :
    3651 * nsPerDay ≤ AddDate loc t 10 0 0 - t
        - (zoneOffset loc t - addDateOffset loc t 10 0 0) * nsPerSecond ∧
      AddDate loc t 10 0 0 - t
        - (zoneOffset loc t - addDateOffset loc t 10 0 0) * nsPerSecond ≤ 3653 * nsPerDay := by
  rw [AddDate_years]
  exact addDateWall_ten_years _

theorem dateOffset_single (loc : Location)
    (h : ∀ s s', (loc.lookup s).offset = (loc.lookup s').offset) (unix unix' : Int) :
    dateOffset loc unix = (loc.lookup unix').offset := by
  unfold dateOffset
  dsimp only
  split
  · split
    · exact h _ _
    · exact h _ _
  · rename_i h0
    have h1 : (loc.lookup unix).offset = 0 := by
      by_contra hne
      exact h0 hne
    rw [← h1]
    exact h _ _

theorem addDateOffset_single (loc : Location)
    (h : ∀ s s', (loc.lookup s).offset = (loc.lookup s').offset) (t years months days : Int) :
    zoneOffset loc t = addDateOffset loc t years months days :=
  (dateOffset_single loc h _ _).symm


/-! ## Serial numbers -/

set_option maxRecDepth 100000 in
theorem bitLen_maxSerialNumber : bitLen (maxSerialNumber - 1) = 130 := by decide

theorem setBytes_foldl_lt (bs : Bytes) (acc : Nat) :
    bs.foldl (fun acc b => acc * 256 + b % 256) acc < (acc + 1) * 256 ^ bs.length := by
  induction bs generalizing acc with
  | nil => simp
  | cons b bs ih =>
    simp only [List.foldl_cons, List.length_cons]
    calc List.foldl (fun acc b => acc * 256 + b % 256) (acc * 256 + b % 256) bs
        < (acc * 256 + b % 256 + 1) * 256 ^ bs.length := ih _
      _ ≤ ((acc + 1) * 256) * 256 ^ bs.length := by
          apply Nat.mul_le_mul_right
          have := Nat.mod_lt b (show 0 < 256 by norm_num)
          omega
      _ = (acc + 1) * 256 ^ (bs.length + 1) := by ring

theorem readBytes_length (src : Nat → Option Nat) (pos k : Nat) (bs : Bytes)
    (h : readBytes src pos k = some bs) : bs.length = k := by
  induction k generalizing pos bs with
  | zero =>
    simp only [readBytes, Option.some.injEq] at h
    simp [← h]
  | succ k ih =>
    simp only [readBytes] at h
    split at h
    · cases h
    · split at h
      · cases h
      · rename_i bs1 h1
        cases h
        simp [ih _ _ h1]

/-- The candidate that `rand.Int` forms from seventeen bytes, the first cut to
its two low bits, is below `2^130`. -/
theorem masked_candidate_lt (bytes : Bytes) (h : bytes.length = 17) :
    setBytes (clearHighBits 2 bytes) < maxSerialNumber := by
  match bytes, h with
  | b0 :: rest, h =>
    have hr : rest.length = 16 := by simpa using h
    have hb : b0 % 2 ^ 2 % 256 ≤ 3 := by omega
    have := setBytes_foldl_lt rest (0 * 256 + b0 % 2 ^ 2 % 256)
    simp only [setBytes, clearHighBits, List.foldl_cons, maxSerialNumber]
    rw [hr] at this
    calc _ < (0 * 256 + b0 % 2 ^ 2 % 256 + 1) * 256 ^ 16 := this
      _ ≤ 4 * 256 ^ 16 := Nat.mul_le_mul_right _ (by omega)
      _ = 2 ^ 130 := by norm_num

theorem randInt_eq_loop (fuel : Nat) (w : World σ κ) :
    randInt fuel maxSerialNumber w = randIntLoop maxSerialNumber 17 2 fuel w := by
  have hb := bitLen_maxSerialNumber
  simp only [randInt, hb]
  rfl

/-- One round of the loop of `rand.Int` for the serial number bound: the read
of seventeen bytes fails, or the candidate it yields is accepted. -/
theorem randIntLoop_maxSerialNumber (fuel : Nat) (w : World σ κ) :
    randIntLoop maxSerialNumber 17 2 (fuel + 1) w = some (serialFromRead w) := by
  simp only [randIntLoop, serialFromRead, readFull]
  cases hr : readBytes w.randReader w.randPos 17 with
  | none => rfl
  | some bytes =>
    have hlt := masked_candidate_lt bytes (readBytes_length _ _ _ _ hr)
    simp only [hlt, if_true]

/-- What `NewSerialNumber` computes: one read of seventeen bytes. -/
theorem NewSerialNumber_eq (w : World σ κ) : NewSerialNumber w = serialFromRead w := by
  have h := randIntLoop_maxSerialNumber 0 w
  rw [Nat.zero_add] at h
  unfold NewSerialNumber
  rw [randInt_eq_loop, h, Option.getD_some]

/-- Any positive number of rounds gives `rand.Int` the same result for the
serial number bound: the loop never needs a second round. -/
theorem randInt_maxSerialNumber (fuel : Nat) (w : World σ κ) :
    randInt (fuel + 1) maxSerialNumber w = some (NewSerialNumber w) := by
  rw [NewSerialNumber_eq, randInt_eq_loop, randIntLoop_maxSerialNumber]

theorem NewSerialNumber_lt (w w' : World σ κ) (n : Nat)
    (h : NewSerialNumber w = (.ok n, w')) : n < 2 ^ 130 := by
  rw [NewSerialNumber_eq] at h
  simp only [serialFromRead, readFull] at h
  cases hr : readBytes w.randReader w.randPos 17 with
  | none => simp [hr] at h
  | some bytes =>
    have hlt := masked_candidate_lt bytes (readBytes_length _ _ _ _ hr)
    simp only [hr, Prod.mk.injEq, Except.ok.injEq] at h
    rw [← h.1]
    exact hlt

theorem NewSerialNumber_world (w : World σ κ) :
    (NewSerialNumber w).2 = { w with randPos := w.randPos + 17 } := by
  rw [NewSerialNumber_eq]
  simp only [serialFromRead, readFull]
  cases readBytes w.randReader w.randPos 17 <;> rfl

/-! ## Certificate templates -/

/-- The template that `NewCACertificateTemplate` drafts before it draws the
serial number. -/
theorem NewCACertificateTemplate_ok (w w' : World σ κ) (tpl : Certificate)
    (h : NewCACertificateTemplate w = (.ok tpl, w')) :
    ∃ n, n < 2 ^ 130 ∧ tpl =
      { SerialNumber := some n
        Subject :=
          { Country := [w.templateConfig.Country]
            Province := [w.templateConfig.Province]
            Locality := [w.templateConfig.Locality]
            StreetAddress := [w.templateConfig.StreetAddress]
            PostalCode := [w.templateConfig.PostalCode]
            Organization := [w.templateConfig.Organization]
            OrganizationalUnit := [w.templateConfig.IssuerName] }
        NotBefore := w.wallClock w.clockReads
        NotAfter :=
          AddDate w.localZone (w.wallClock (w.clockReads + 1)) CACertificateLifetimeYears 0 0
        IsCA := true
        ExtKeyUsage := [.ExtKeyUsageClientAuth, .ExtKeyUsageServerAuth]
        KeyUsage := KeyUsageDigitalSignature ||| KeyUsageCertSign
        BasicConstraintsValid := true
        SignatureAlgorithm := .SHA256WithRSA
        ExtraExtensions := [{ Id := CACertificateOid, Critical := false }] } := by
  unfold NewCACertificateTemplate at h
  dsimp only at h
  cases hs : NewSerialNumber (timeNow (timeNow w).2).2 with
  | mk r w3 =>
    rw [hs] at h
    cases r with
    | error e => cases h
    | ok n =>
      dsimp only at h
      simp only [Prod.mk.injEq, Except.ok.injEq] at h
      exact ⟨n, NewSerialNumber_lt _ _ _ hs, h.1.symm⟩

theorem NewTenantSigningCertificateTemplate_ok (tenantID tenantName : String)
    (w w' : World σ κ) (tpl : Certificate)
    (h : NewTenantSigningCertificateTemplate tenantID tenantName w = (.ok tpl, w')) :
    ∃ n, n < 2 ^ 130 ∧ tpl =
      { SerialNumber := some n
        Subject :=
          { Organization := [tenantName]
            CommonName :=
              if tenantID = CommonSigningKeyId then CommonTenantDeviceCertificateIssuer
              else TenantDeviceCertificateIssuer tenantName
            ExtraNames :=
              if tenantID = CommonSigningKeyId then []
              else [{ Typ := [2, 5, 4, 10], Value := tenantID }] }
        NotBefore := w.wallClock w.clockReads
        NotAfter :=
          AddDate w.localZone (w.wallClock (w.clockReads + 1)) TenantCertificateLifetimeYears
            0 0
        IsCA := true
        ExtKeyUsage := [.ExtKeyUsageClientAuth, .ExtKeyUsageServerAuth]
        KeyUsage := KeyUsageDigitalSignature ||| KeyUsageCertSign
        BasicConstraintsValid := true
        SignatureAlgorithm := .SHA256WithRSA
        ExtraExtensions := [{ Id := TenantCertificateOid, Critical := false }] } := by
  unfold NewTenantSigningCertificateTemplate at h
  dsimp only at h
  cases hs : NewSerialNumber (timeNow (timeNow w).2).2 with
  | mk r w3 =>
    rw [hs] at h
    cases r with
    | error e => cases h
    | ok n =>
      dsimp only at h
      simp only [Prod.mk.injEq, Except.ok.injEq] at h
      refine ⟨n, NewSerialNumber_lt _ _ _ hs, ?_⟩
      rw [← h.1]
      by_cases hc : tenantID = CommonSigningKeyId <;> simp [hc, timeNow]

theorem NewDeviceCertificateTemplate_ok (tenantID deviceID : String)
    (deviceCSR : CertificateRequest) (w w' : World σ κ) (tpl : Certificate)
    (h : NewDeviceCertificateTemplate tenantID deviceID deviceCSR w = (.ok tpl, w')) :
    ∃ n, n < 2 ^ 130 ∧ tpl =
      { SerialNumber := some n
        Subject :=
          { CommonName := deviceID
            ExtraNames := [{ Typ := [2, 5, 4, 10], Value := tenantID }] }
        NotBefore := w.wallClock w.clockReads
        NotAfter :=
          AddDate w.localZone (w.wallClock (w.clockReads + 1)) DeviceCertificateLifetimeYears
            0 0
        IsCA := false
        KeyUsage := KeyUsageDigitalSignature
        ExtKeyUsage := [.ExtKeyUsageClientAuth, .ExtKeyUsageServerAuth]
        BasicConstraintsValid := true
        Signature := deviceCSR.Signature
        SignatureAlgorithm := .SHA256WithRSA
        PublicKeyAlgorithm := .RSA
        PublicKey := deviceCSR.PublicKey
        ExtraExtensions := [{ Id := DeviceCertificateOid, Critical := false }] } := by
  unfold NewDeviceCertificateTemplate at h
  dsimp only at h
  cases hs : NewSerialNumber (timeNow (timeNow w).2).2 with
  | mk r w3 =>
    rw [hs] at h
    cases r with
    | error e => cases h
    | ok n =>
      dsimp only at h
      simp only [Prod.mk.injEq, Except.ok.injEq] at h
      exact ⟨n, NewSerialNumber_lt _ _ _ hs, h.1.symm⟩

/-- A template builder leaves the store, the KMS and the call records alone;
it takes two clock readings and seventeen random bytes. -/
theorem NewDeviceCertificateTemplate_world (tenantID deviceID : String)
    (deviceCSR : CertificateRequest) (w : World σ κ) :
    (NewDeviceCertificateTemplate tenantID deviceID deviceCSR w).2 =
      { w with clockReads := w.clockReads + 1 + 1, randPos := w.randPos + 17 } := by
  unfold NewDeviceCertificateTemplate
  dsimp only
  have hw := NewSerialNumber_world (timeNow (timeNow w).2).2
  cases hs : NewSerialNumber (timeNow (timeNow w).2).2 with
  | mk r w3 =>
    rw [hs] at hw
    cases r <;> exact hw

/-- Whether the builders succeed depends only on the random source: they
succeed when the next seventeen bytes can be read. -/
theorem NewSerialNumber_ok_of_read (w : World σ κ) (bytes : Bytes)
    (h : readBytes w.randReader w.randPos 17 = some bytes) :
    NewSerialNumber w =
      (.ok (setBytes (clearHighBits 2 bytes)), { w with randPos := w.randPos + 17 }) := by
  rw [NewSerialNumber_eq]
  simp only [serialFromRead, readFull, h]

/-- The builders succeed when the next seventeen random bytes can be read. -/
theorem NewDeviceCertificateTemplate_of_read (tenantID deviceID : String)
    (deviceCSR : CertificateRequest) (w : World σ κ) (bytes : Bytes)
    (h : readBytes w.randReader w.randPos 17 = some bytes) :
    NewDeviceCertificateTemplate tenantID deviceID deviceCSR w =
      (.ok
        { SerialNumber := some (setBytes (clearHighBits 2 bytes))
          Subject :=
            { CommonName := deviceID
              ExtraNames := [{ Typ := [2, 5, 4, 10], Value := tenantID }] }
          NotBefore := w.wallClock w.clockReads
          NotAfter :=
            AddDate w.localZone (w.wallClock (w.clockReads + 1)) DeviceCertificateLifetimeYears 0 0
          IsCA := false
          KeyUsage := KeyUsageDigitalSignature
          ExtKeyUsage := [.ExtKeyUsageClientAuth, .ExtKeyUsageServerAuth]
          BasicConstraintsValid := true
          Signature := deviceCSR.Signature
          SignatureAlgorithm := .SHA256WithRSA
          PublicKeyAlgorithm := .RSA
          PublicKey := deviceCSR.PublicKey
          ExtraExtensions := [{ Id := DeviceCertificateOid, Critical := false }] },
        { w with clockReads := w.clockReads + 1 + 1, randPos := w.randPos + 17 }) := by
  unfold NewDeviceCertificateTemplate
  dsimp only
  rw [NewSerialNumber_ok_of_read (timeNow (timeNow w).2).2 bytes h]
  rfl

theorem NewTenantSigningCertificateTemplate_of_read (tenantID tenantName : String)
    (w : World σ κ) (bytes : Bytes)
    (h : readBytes w.randReader w.randPos 17 = some bytes) :
    NewTenantSigningCertificateTemplate tenantID tenantName w =
      (.ok
        { SerialNumber := some (setBytes (clearHighBits 2 bytes))
          Subject :=
            { Organization := [tenantName]
              CommonName :=
                if tenantID = CommonSigningKeyId then CommonTenantDeviceCertificateIssuer
                else TenantDeviceCertificateIssuer tenantName
              ExtraNames :=
                if tenantID = CommonSigningKeyId then []
                else [{ Typ := [2, 5, 4, 10], Value := tenantID }] }
          NotBefore := w.wallClock w.clockReads
          NotAfter :=
            AddDate w.localZone (w.wallClock (w.clockReads + 1)) TenantCertificateLifetimeYears 0 0
          IsCA := true
          ExtKeyUsage := [.ExtKeyUsageClientAuth, .ExtKeyUsageServerAuth]
          KeyUsage := KeyUsageDigitalSignature ||| KeyUsageCertSign
          BasicConstraintsValid := true
          SignatureAlgorithm := .SHA256WithRSA
          ExtraExtensions := [{ Id := TenantCertificateOid, Critical := false }] },
        { w with clockReads := w.clockReads + 1 + 1, randPos := w.randPos + 17 }) := by
  unfold NewTenantSigningCertificateTemplate
  dsimp only
  rw [NewSerialNumber_ok_of_read (timeNow (timeNow w).2).2 bytes h]
  by_cases hc : tenantID = CommonSigningKeyId <;> simp [hc, timeNow]

theorem NewCACertificateTemplate_of_read (w : World σ κ) (bytes : Bytes)
    (h : readBytes w.randReader w.randPos 17 = some bytes) :
    NewCACertificateTemplate w =
      (.ok
        { SerialNumber := some (setBytes (clearHighBits 2 bytes))
          Subject :=
            { Country := [w.templateConfig.Country]
              Province := [w.templateConfig.Province]
              Locality := [w.templateConfig.Locality]
              StreetAddress := [w.templateConfig.StreetAddress]
              PostalCode := [w.templateConfig.PostalCode]
              Organization := [w.templateConfig.Organization]
              OrganizationalUnit := [w.templateConfig.IssuerName] }
          NotBefore := w.wallClock w.clockReads
          NotAfter :=
            AddDate w.localZone (w.wallClock (w.clockReads + 1)) CACertificateLifetimeYears 0 0
          IsCA := true
          ExtKeyUsage := [.ExtKeyUsageClientAuth, .ExtKeyUsageServerAuth]
          KeyUsage := KeyUsageDigitalSignature ||| KeyUsageCertSign
          BasicConstraintsValid := true
          SignatureAlgorithm := .SHA256WithRSA
          ExtraExtensions := [{ Id := CACertificateOid, Critical := false }] },
        { w with clockReads := w.clockReads + 1 + 1, randPos := w.randPos + 17 }) := by
  unfold NewCACertificateTemplate
  dsimp only
  rw [NewSerialNumber_ok_of_read (timeNow (timeNow w).2).2 bytes h]
  rfl

/-- The three templates built in the world whose clock stands at the epoch
and whose random bytes are zero. -/
theorem demo_device_template :
    NewDeviceCertificateTemplate "t1" "d1" demoCSR
        (demoWorld (fun _ => 0) 0 () () : World Unit Unit) =
      (.ok demoDeviceTemplate,
        { (demoWorld (fun _ => 0) 0 () () : World Unit Unit) with
          clockReads := 2, randPos := 17 }) := by
  rw [NewDeviceCertificateTemplate_of_read _ _ _ _ (List.replicate 17 0) (by decide)]
  have h1 : setBytes (clearHighBits 2 (List.replicate 17 0)) = 0 := by decide
  have h2 : AddDate utcLocation 0 DeviceCertificateLifetimeYears 0 0 = 31536000000000000 := by
    decide
  simp only [h1, demoWorld, h2]
  rfl

theorem demo_tenant_template :
    NewTenantSigningCertificateTemplate "t2" "Acme"
        (demoWorld (fun _ => 0) 0 () () : World Unit Unit) =
      (.ok demoTenantTemplate,
        { (demoWorld (fun _ => 0) 0 () () : World Unit Unit) with
          clockReads := 2, randPos := 17 }) := by
  rw [NewTenantSigningCertificateTemplate_of_read _ _ _ (List.replicate 17 0) (by decide)]
  have h1 : setBytes (clearHighBits 2 (List.replicate 17 0)) = 0 := by decide
  have h2 : AddDate utcLocation 0 TenantCertificateLifetimeYears 0 0 = 315532800000000000 := by
    decide
  have h3 : ("t2" = CommonSigningKeyId) = False := by decide
  simp only [h1, demoWorld, h2, h3, if_false]
  rfl

theorem demo_ca_template :
    NewCACertificateTemplate (demoWorld (fun _ => 0) 0 () () : World Unit Unit) =
      (.ok demoCATemplate,
        { (demoWorld (fun _ => 0) 0 () () : World Unit Unit) with
          clockReads := 2, randPos := 17 }) := by
  rw [NewCACertificateTemplate_of_read _ (List.replicate 17 0) (by decide)]
  have h1 : setBytes (clearHighBits 2 (List.replicate 17 0)) = 0 := by decide
  have h2 : AddDate utcLocation 0 CACertificateLifetimeYears 0 0 = 315532800000000000 := by
    decide
  simp only [h1, demoWorld, h2]
  rfl

/-! ## Claims about the templates -/

/-- Claim C1. Whenever `NewDeviceCertificateTemplate` succeeds, the template
is not a CA, has valid basic constraints, is marked SHA256WithRSA, has key
usage digitalSignature and nothing else (so not certSign), has the device id
as common name, exactly the extra name (2.5.4.10, tenantId), the public key of
the CSR, and exactly one extra extension, not critical, with OID
1.3.6.1.4.1.58515.7.1.1.3. -/
theorem device_template_policy (tenantID deviceID : String) (deviceCSR : CertificateRequest)
    (w w' : World σ κ) (tpl : Certificate)
    (h : NewDeviceCertificateTemplate tenantID deviceID deviceCSR w = (.ok tpl, w')) :
    tpl.IsCA = false ∧ tpl.BasicConstraintsValid = true ∧
      tpl.SignatureAlgorithm = .SHA256WithRSA ∧
      tpl.KeyUsage = KeyUsageDigitalSignature ∧ tpl.KeyUsage &&& KeyUsageCertSign = 0 ∧
      tpl.Subject.CommonName = deviceID ∧
      tpl.Subject.ExtraNames = [{ Typ := [2, 5, 4, 10], Value := tenantID }] ∧
      tpl.PublicKey = deviceCSR.PublicKey ∧
      tpl.ExtraExtensions =
        [{ Id := [1, 3, 6, 1, 4, 1, 58515, 7, 1, 1, 3], Critical := false, Value := [] }] := by
  obtain ⟨n, _, rfl⟩ := NewDeviceCertificateTemplate_ok _ _ _ _ _ _ h
  have hk : KeyUsageDigitalSignature &&& KeyUsageCertSign = 0 := by decide
  exact ⟨rfl, rfl, rfl, rfl, hk, rfl, rfl, rfl, rfl⟩

/-- Claim C1 at a concrete request: tenant `t1`, device `d1`, an RSA CSR. -/
theorem device_template_policy_witness :
    NewDeviceCertificateTemplate "t1" "d1" demoCSR
        (demoWorld (fun _ => 0) 0 () () : World Unit Unit) =
      (.ok demoDeviceTemplate,
        { (demoWorld (fun _ => 0) 0 () () : World Unit Unit) with
          clockReads := 2, randPos := 17 }) ∧
    (demoDeviceTemplate.IsCA = false ∧ demoDeviceTemplate.BasicConstraintsValid = true ∧
      demoDeviceTemplate.SignatureAlgorithm = .SHA256WithRSA ∧
      demoDeviceTemplate.KeyUsage = KeyUsageDigitalSignature ∧
      demoDeviceTemplate.KeyUsage &&& KeyUsageCertSign = 0 ∧
      demoDeviceTemplate.Subject.CommonName = "d1" ∧
      demoDeviceTemplate.Subject.ExtraNames = [{ Typ := [2, 5, 4, 10], Value := "t1" }] ∧
      demoDeviceTemplate.PublicKey = demoCSR.PublicKey ∧
      demoDeviceTemplate.ExtraExtensions =
        [{ Id := [1, 3, 6, 1, 4, 1, 58515, 7, 1, 1, 3], Critical := false, Value := [] }]) :=
  ⟨demo_device_template, device_template_policy _ _ _ _ _ _ demo_device_template⟩

/-- Claim C2. Whenever `NewTenantSigningCertificateTemplate` succeeds, the
template is a CA with organization `[tenantName]` and the single extension
OID 1.3.6.1.4.1.58515.7.1.1.2; for the tenant id `SharedTenantSigningKey` the
common name is `HP Device Certificate Issuer` and there is no extra name, for
every other tenant id the common name is `Device Certificate Issuer: ` followed
by the tenant name and the extra names are exactly (2.5.4.10, tenantId). -/
theorem tenant_template_policy (tenantID tenantName : String) (w w' : World σ κ)
    (tpl : Certificate)
    (h : NewTenantSigningCertificateTemplate tenantID tenantName w = (.ok tpl, w')) :
    tpl.IsCA = true ∧ tpl.Subject.Organization = [tenantName] ∧
      tpl.ExtraExtensions =
        [{ Id := [1, 3, 6, 1, 4, 1, 58515, 7, 1, 1, 2], Critical := false, Value := [] }] ∧
      (tenantID = "SharedTenantSigningKey" →
        tpl.Subject.CommonName = "HP Device Certificate Issuer" ∧
          tpl.Subject.ExtraNames = []) ∧
      (tenantID ≠ "SharedTenantSigningKey" →
        tpl.Subject.CommonName = "Device Certificate Issuer: " ++ tenantName ∧
          tpl.Subject.ExtraNames = [{ Typ := [2, 5, 4, 10], Value := tenantID }]) := by
  obtain ⟨n, _, rfl⟩ := NewTenantSigningCertificateTemplate_ok _ _ _ _ _ h
  refine ⟨rfl, rfl, rfl, ?_, ?_⟩
  · intro hc
    have hc' : tenantID = CommonSigningKeyId := hc
    simp [hc', CommonTenantDeviceCertificateIssuer]
  · intro hc
    have hc' : ¬ tenantID = CommonSigningKeyId := hc
    simp [hc', TenantDeviceCertificateIssuer]

/-- Claim C2 at a concrete request: tenant `t2` named `Acme`. -/
theorem tenant_template_policy_witness :
    NewTenantSigningCertificateTemplate "t2" "Acme"
        (demoWorld (fun _ => 0) 0 () () : World Unit Unit) =
      (.ok demoTenantTemplate,
        { (demoWorld (fun _ => 0) 0 () () : World Unit Unit) with
          clockReads := 2, randPos := 17 }) ∧
    (demoTenantTemplate.IsCA = true ∧ demoTenantTemplate.Subject.Organization = ["Acme"] ∧
      demoTenantTemplate.ExtraExtensions =
        [{ Id := [1, 3, 6, 1, 4, 1, 58515, 7, 1, 1, 2], Critical := false, Value := [] }] ∧
      ("t2" = "SharedTenantSigningKey" →
        demoTenantTemplate.Subject.CommonName = "HP Device Certificate Issuer" ∧
          demoTenantTemplate.Subject.ExtraNames = []) ∧
      ("t2" ≠ "SharedTenantSigningKey" →
        demoTenantTemplate.Subject.CommonName = "Device Certificate Issuer: " ++ "Acme" ∧
          demoTenantTemplate.Subject.ExtraNames = [{ Typ := [2, 5, 4, 10], Value := "t2" }])) :=
  ⟨demo_tenant_template, tenant_template_policy _ _ _ _ _ demo_tenant_template⟩

/-- Claim C3. Whenever `NewCACertificateTemplate` succeeds, the template is a
CA with valid basic constraints, marked SHA256WithRSA, with key usage
digitalSignature and keyCertSign, extended key usage clientAuth and
serverAuth, the single extension OID 1.3.6.1.4.1.58515.7.1.1.1, organizational
unit `[IssuerName]`, and country, province, locality, street address, postal
code and organization each the one-element list of the configured value. -/
theorem ca_template_policy (w w' : World σ κ) (tpl : Certificate)
    (h : NewCACertificateTemplate w = (.ok tpl, w')) :
    tpl.IsCA = true ∧ tpl.BasicConstraintsValid = true ∧
      tpl.SignatureAlgorithm = .SHA256WithRSA ∧
      tpl.KeyUsage = KeyUsageDigitalSignature ||| KeyUsageCertSign ∧
      tpl.ExtKeyUsage = [.ExtKeyUsageClientAuth, .ExtKeyUsageServerAuth] ∧
      tpl.ExtraExtensions =
        [{ Id := [1, 3, 6, 1, 4, 1, 58515, 7, 1, 1, 1], Critical := false, Value := [] }] ∧
      tpl.Subject.OrganizationalUnit = [w.templateConfig.IssuerName] ∧
      tpl.Subject.Country = [w.templateConfig.Country] ∧
      tpl.Subject.Province = [w.templateConfig.Province] ∧
      tpl.Subject.Locality = [w.templateConfig.Locality] ∧
      tpl.Subject.StreetAddress = [w.templateConfig.StreetAddress] ∧
      tpl.Subject.PostalCode = [w.templateConfig.PostalCode] ∧
      tpl.Subject.Organization = [w.templateConfig.Organization] := by
  obtain ⟨n, _, rfl⟩ := NewCACertificateTemplate_ok _ _ _ h
  exact ⟨rfl, rfl, rfl, rfl, rfl, rfl, rfl, rfl, rfl, rfl, rfl, rfl, rfl⟩

/-- Claim C3 at a concrete configuration. -/
theorem ca_template_policy_witness :
    NewCACertificateTemplate (demoWorld (fun _ => 0) 0 () () : World Unit Unit) =
      (.ok demoCATemplate,
        { (demoWorld (fun _ => 0) 0 () () : World Unit Unit) with
          clockReads := 2, randPos := 17 }) ∧
    (demoCATemplate.IsCA = true ∧ demoCATemplate.BasicConstraintsValid = true ∧
      demoCATemplate.SignatureAlgorithm = .SHA256WithRSA ∧
      demoCATemplate.KeyUsage = KeyUsageDigitalSignature ||| KeyUsageCertSign ∧
      demoCATemplate.ExtKeyUsage = [.ExtKeyUsageClientAuth, .ExtKeyUsageServerAuth] ∧
      demoCATemplate.ExtraExtensions =
        [{ Id := [1, 3, 6, 1, 4, 1, 58515, 7, 1, 1, 1], Critical := false, Value := [] }] ∧
      demoCATemplate.Subject.OrganizationalUnit = ["HP Device Certificate Authority"] ∧
      demoCATemplate.Subject.Country = ["US"] ∧
      demoCATemplate.Subject.Province = ["California"] ∧
      demoCATemplate.Subject.Locality = ["Palo Alto"] ∧
      demoCATemplate.Subject.StreetAddress = ["1501 Page Mill Road"] ∧
      demoCATemplate.Subject.PostalCode = ["94304"] ∧
      demoCATemplate.Subject.Organization = ["HP Inc"]) :=
  ⟨demo_ca_template, ca_template_policy _ _ _ demo_ca_template⟩

/-! ## Claims about lifetimes and serial numbers -/

/-- Claim C4, as stated, fails: on a machine whose zone is UTC, when the first
clock reading is the epoch and the second is three days later, the device
template runs from the epoch to 368 days after it, which is more than 24 hours
away from every year length (365 to 366 days). -/
theorem template_lifetime_counterexample :
    NewDeviceCertificateTemplate "t1" "d1" demoCSR
        (demoWorld steppedClock 0 () () : World Unit Unit) =
      (.ok demoLateTemplate,
        { (demoWorld steppedClock 0 () () : World Unit Unit) with
          clockReads := 2, randPos := 17 }) ∧
    demoLateTemplate.NotAfter - demoLateTemplate.NotBefore = 368 * nsPerDay ∧
    ¬ (∃ year : Int, 365 * nsPerDay ≤ year ∧ year ≤ 366 * nsPerDay ∧
        |demoLateTemplate.NotAfter - demoLateTemplate.NotBefore - year| ≤ 24 * 3600 * nsPerSecond) := by
  refine ⟨?_, by decide, ?_⟩
  · rw [NewDeviceCertificateTemplate_of_read _ _ _ _ (List.replicate 17 0) (by decide)]
    have h1 : setBytes (clearHighBits 2 (List.replicate 17 0)) = 0 := by decide
    have h2 : AddDate utcLocation (steppedClock (0 + 1)) DeviceCertificateLifetimeYears 0 0
        = 31795200000000000 := by decide
    have h3 : steppedClock 0 = 0 := by decide
    simp only [h1, demoWorld, h2, h3]
    rfl
  · rintro ⟨year, h1, h2, h3⟩
    have h4 : demoLateTemplate.NotAfter - demoLateTemplate.NotBefore = 368 * nsPerDay := by
      decide
    rw [h4, abs_le] at h3
    simp only [nsPerDay, nsPerSecond] at h1 h2 h3
    omega

/-- The device template built in the zone with summer time, at noon of the
last summer day of 2023: the two clock readings coincide, and the template
lasts 366 days and one hour, because its last day is a winter day. -/
theorem demo_zone_template :
    NewDeviceCertificateTemplate "t1" "d1" demoCSR demoZoneWorld =
      (.ok demoZoneTemplate, { demoZoneWorld with clockReads := 2, randPos := 17 }) ∧
    demoZoneWorld.wallClock 1 = demoZoneWorld.wallClock 0 ∧
    zoneOffset demoZone (demoZoneWorld.wallClock 1) = -14400 ∧
    addDateOffset demoZone (demoZoneWorld.wallClock 1) 1 0 0 = -18000 ∧
    demoZoneTemplate.NotAfter - demoZoneTemplate.NotBefore
      = 366 * nsPerDay + 3600 * nsPerSecond := by
  refine ⟨?_, rfl, by decide, by decide, by decide⟩
  rw [NewDeviceCertificateTemplate_of_read _ _ _ _ (List.replicate 17 0) (by decide)]
  have h1 : setBytes (clearHighBits 2 (List.replicate 17 0)) = 0 := by decide
  have h2 : AddDate demoZone 1699113600000000000 DeviceCertificateLifetimeYears 0 0
      = 1730739600000000000 := by decide
  simp only [h1, demoZoneWorld, demoWorld, h2]
  rfl

/-- Claim C4, amended. In each builder `NotBefore` is the first clock reading
and `NotAfter` is the second reading advanced by 10, 10 and 1 calendar years
(root, tenant, device) in the local time zone. So `NotAfter − NotBefore` is
the gap between the two readings, plus the length of those calendar years,
which is 3651 to 3653 days for root and tenant and 365 to 366 days for device,
plus the zone offset at the second reading minus the zone offset that
`time.Date` applies to `NotAfter`. When the two readings are equal and the two
offsets are equal, it is within 24 hours of 3652, 3652 and 365 days; the two
offsets are equal in every zone that has a single offset. -/
theorem template_lifetime (tenantID tenantName deviceID : String)
    (deviceCSR : CertificateRequest) (w : World σ κ) :
    (∀ tpl w', NewCACertificateTemplate w = (.ok tpl, w') →
      tpl.NotBefore = w.wallClock w.clockReads ∧
      tpl.NotAfter = AddDate w.localZone (w.wallClock (w.clockReads + 1)) 10 0 0 ∧
      3651 * nsPerDay ≤ (tpl.NotAfter - tpl.NotBefore)
        - (w.wallClock (w.clockReads + 1) - w.wallClock w.clockReads)
        - (zoneOffset w.localZone (w.wallClock (w.clockReads + 1))
            - addDateOffset w.localZone (w.wallClock (w.clockReads + 1)) 10 0 0)
          * nsPerSecond ∧
      (tpl.NotAfter - tpl.NotBefore)
        - (w.wallClock (w.clockReads + 1) - w.wallClock w.clockReads)
        - (zoneOffset w.localZone (w.wallClock (w.clockReads + 1))
            - addDateOffset w.localZone (w.wallClock (w.clockReads + 1)) 10 0 0)
          * nsPerSecond ≤ 3653 * nsPerDay ∧
      (w.wallClock (w.clockReads + 1) = w.wallClock w.clockReads →
        zoneOffset w.localZone (w.wallClock (w.clockReads + 1))
          = addDateOffset w.localZone (w.wallClock (w.clockReads + 1)) 10 0 0 →
        |tpl.NotAfter - tpl.NotBefore - 3652 * nsPerDay| ≤ 24 * 3600 * nsPerSecond)) ∧
    (∀ tpl w', NewTenantSigningCertificateTemplate tenantID tenantName w = (.ok tpl, w') →
      tpl.NotBefore = w.wallClock w.clockReads ∧
      tpl.NotAfter = AddDate w.localZone (w.wallClock (w.clockReads + 1)) 10 0 0 ∧
      3651 * nsPerDay ≤ (tpl.NotAfter - tpl.NotBefore)
        - (w.wallClock (w.clockReads + 1) - w.wallClock w.clockReads)
        - (zoneOffset w.localZone (w.wallClock (w.clockReads + 1))
            - addDateOffset w.localZone (w.wallClock (w.clockReads + 1)) 10 0 0)
          * nsPerSecond ∧
      (tpl.NotAfter - tpl.NotBefore)
        - (w.wallClock (w.clockReads + 1) - w.wallClock w.clockReads)
        - (zoneOffset w.localZone (w.wallClock (w.clockReads + 1))
            - addDateOffset w.localZone (w.wallClock (w.clockReads + 1)) 10 0 0)
          * nsPerSecond ≤ 3653 * nsPerDay ∧
      (w.wallClock (w.clockReads + 1) = w.wallClock w.clockReads →
        zoneOffset w.localZone (w.wallClock (w.clockReads + 1))
          = addDateOffset w.localZone (w.wallClock (w.clockReads + 1)) 10 0 0 →
        |tpl.NotAfter - tpl.NotBefore - 3652 * nsPerDay| ≤ 24 * 3600 * nsPerSecond)) ∧
    (∀ tpl w', NewDeviceCertificateTemplate tenantID deviceID deviceCSR w = (.ok tpl, w') →
      tpl.NotBefore = w.wallClock w.clockReads ∧
      tpl.NotAfter = AddDate w.localZone (w.wallClock (w.clockReads + 1)) 1 0 0 ∧
      365 * nsPerDay ≤ (tpl.NotAfter - tpl.NotBefore)
        - (w.wallClock (w.clockReads + 1) - w.wallClock w.clockReads)
        - (zoneOffset w.localZone (w.wallClock (w.clockReads + 1))
            - addDateOffset w.localZone (w.wallClock (w.clockReads + 1)) 1 0 0)
          * nsPerSecond ∧
      (tpl.NotAfter - tpl.NotBefore)
        - (w.wallClock (w.clockReads + 1) - w.wallClock w.clockReads)
        - (zoneOffset w.localZone (w.wallClock (w.clockReads + 1))
            - addDateOffset w.localZone (w.wallClock (w.clockReads + 1)) 1 0 0)
          * nsPerSecond ≤ 366 * nsPerDay ∧
      (w.wallClock (w.clockReads + 1) = w.wallClock w.clockReads →
        zoneOffset w.localZone (w.wallClock (w.clockReads + 1))
          = addDateOffset w.localZone (w.wallClock (w.clockReads + 1)) 1 0 0 →
        |tpl.NotAfter - tpl.NotBefore - 365 * nsPerDay| ≤ 24 * 3600 * nsPerSecond)) ∧
    ((∀ s s', (w.localZone.lookup s).offset = (w.localZone.lookup s').offset) →
      ∀ t years, zoneOffset w.localZone t = addDateOffset w.localZone t years 0 0) := by
  refine ⟨?_, ?_, ?_, ?_⟩
  · intro tpl w' h
    obtain ⟨n, _, rfl⟩ := NewCACertificateTemplate_ok _ _ _ h
    obtain ⟨hlo, hhi⟩ := AddDate_ten_years w.localZone (w.wallClock (w.clockReads + 1))
    refine ⟨rfl, rfl, ?_, ?_, ?_⟩
    · show 3651 * nsPerDay ≤ _
      dsimp only [CACertificateLifetimeYears]
      omega
    · show _ ≤ 3653 * nsPerDay
      dsimp only [CACertificateLifetimeYears]
      omega
    · intro heq hoff
      show |_| ≤ _
      dsimp only [CACertificateLifetimeYears]
      rw [hoff, sub_self, zero_mul, sub_zero] at hlo hhi
      rw [abs_le]
      simp only [nsPerDay, nsPerSecond] at *
      omega
  · intro tpl w' h
    obtain ⟨n, _, rfl⟩ := NewTenantSigningCertificateTemplate_ok _ _ _ _ _ h
    obtain ⟨hlo, hhi⟩ := AddDate_ten_years w.localZone (w.wallClock (w.clockReads + 1))
    refine ⟨rfl, rfl, ?_, ?_, ?_⟩
    · show 3651 * nsPerDay ≤ _
      dsimp only [TenantCertificateLifetimeYears]
      omega
    · show _ ≤ 3653 * nsPerDay
      dsimp only [TenantCertificateLifetimeYears]
      omega
    · intro heq hoff
      show |_| ≤ _
      dsimp only [TenantCertificateLifetimeYears]
      rw [hoff, sub_self, zero_mul, sub_zero] at hlo hhi
      rw [abs_le]
      simp only [nsPerDay, nsPerSecond] at *
      omega
  · intro tpl w' h
    obtain ⟨n, _, rfl⟩ := NewDeviceCertificateTemplate_ok _ _ _ _ _ _ h
    obtain ⟨hlo, hhi⟩ := AddDate_one_year w.localZone (w.wallClock (w.clockReads + 1))
    refine ⟨rfl, rfl, ?_, ?_, ?_⟩
    · show 365 * nsPerDay ≤ _
      dsimp only [DeviceCertificateLifetimeYears]
      omega
    · show _ ≤ 366 * nsPerDay
      dsimp only [DeviceCertificateLifetimeYears]
      omega
    · intro heq hoff
      show |_| ≤ _
      dsimp only [DeviceCertificateLifetimeYears]
      rw [hoff, sub_self, zero_mul, sub_zero] at hlo hhi
      rw [abs_le]
      simp only [nsPerDay, nsPerSecond] at *
      omega
  · intro hsingle t years
    exact addDateOffset_single w.localZone hsingle t years 0 0

/-- Claim C4, amended, at the device template built at noon of the last summer
day of 2023 in a zone with summer time: the two clock readings coincide, the
calendar year has 366 days, the offset at the reading is four hours behind UTC
and the offset applied to `NotAfter` five hours, and the template lasts 366
days and one hour. On a machine whose zone is UTC, with both readings at the
epoch, the template lasts 365 days. -/
theorem template_lifetime_witness :
    NewDeviceCertificateTemplate "t1" "d1" demoCSR demoZoneWorld =
      (.ok demoZoneTemplate, { demoZoneWorld with clockReads := 2, randPos := 17 }) ∧
    demoZoneTemplate.NotBefore = 1699113600000000000 ∧
    demoZoneTemplate.NotAfter = AddDate demoZone 1699113600000000000 1 0 0 ∧
    365 * nsPerDay ≤ demoZoneTemplate.NotAfter - demoZoneTemplate.NotBefore
      - (1699113600000000000 - 1699113600000000000)
      - (zoneOffset demoZone 1699113600000000000
          - addDateOffset demoZone 1699113600000000000 1 0 0) * nsPerSecond ∧
    demoZoneTemplate.NotAfter - demoZoneTemplate.NotBefore
      - (1699113600000000000 - 1699113600000000000)
      - (zoneOffset demoZone 1699113600000000000
          - addDateOffset demoZone 1699113600000000000 1 0 0) * nsPerSecond ≤ 366 * nsPerDay ∧
    demoZoneTemplate.NotAfter - demoZoneTemplate.NotBefore
      = 366 * nsPerDay + 3600 * nsPerSecond ∧
    NewDeviceCertificateTemplate "t1" "d1" demoCSR
        (demoWorld (fun _ => 0) 0 () () : World Unit Unit) =
      (.ok demoDeviceTemplate,
        { (demoWorld (fun _ => 0) 0 () () : World Unit Unit) with
          clockReads := 2, randPos := 17 }) ∧
    |demoDeviceTemplate.NotAfter - demoDeviceTemplate.NotBefore - 365 * nsPerDay|
      ≤ 24 * 3600 * nsPerSecond :=
  have h := (template_lifetime "t1" "Acme" "d1" demoCSR demoZoneWorld).2.2.1 _ _
    demo_zone_template.1
  have hu := template_lifetime "t1" "Acme" "d1" demoCSR
    (demoWorld (fun _ => 0) 0 () () : World Unit Unit)
  ⟨demo_zone_template.1, h.1, h.2.1, h.2.2.1, h.2.2.2.1, demo_zone_template.2.2.2.2,
    demo_device_template,
    (hu.2.2.1 _ _ demo_device_template).2.2.2.2 rfl (hu.2.2.2 (fun _ _ => rfl) _ _)⟩

/-- Claim C5. The bound `maxSerialNumber` is `2^130`; `rand.Int` with that
bound returns after one round whatever the random source yields (more fuel
never changes the result); a serial number that `NewSerialNumber` returns is
at least 0 and below `2^130`; and each of the three builders puts such a
number in `SerialNumber`. -/
theorem serial_number_range (tenantID tenantName deviceID : String)
    (deviceCSR : CertificateRequest) (w : World σ κ) :
    maxSerialNumber = 2 ^ 130 ∧
    (∀ fuel, randInt (fuel + 1) maxSerialNumber w = some (NewSerialNumber w)) ∧
    (∀ n w', NewSerialNumber w = (.ok n, w') → 0 ≤ n ∧ n < 2 ^ 130) ∧
    (∀ tpl w', NewCACertificateTemplate w = (.ok tpl, w') →
      ∃ n, tpl.SerialNumber = some n ∧ 0 ≤ n ∧ n < 2 ^ 130) ∧
    (∀ tpl w', NewTenantSigningCertificateTemplate tenantID tenantName w = (.ok tpl, w') →
      ∃ n, tpl.SerialNumber = some n ∧ 0 ≤ n ∧ n < 2 ^ 130) ∧
    (∀ tpl w', NewDeviceCertificateTemplate tenantID deviceID deviceCSR w = (.ok tpl, w') →
      ∃ n, tpl.SerialNumber = some n ∧ 0 ≤ n ∧ n < 2 ^ 130) := by
  refine ⟨rfl, fun fuel => randInt_maxSerialNumber fuel w, ?_, ?_, ?_, ?_⟩
  · intro n w' h
    exact ⟨Nat.zero_le n, NewSerialNumber_lt _ _ _ h⟩
  · intro tpl w' h
    obtain ⟨n, hn, rfl⟩ := NewCACertificateTemplate_ok _ _ _ h
    exact ⟨n, rfl, Nat.zero_le n, hn⟩
  · intro tpl w' h
    obtain ⟨n, hn, rfl⟩ := NewTenantSigningCertificateTemplate_ok _ _ _ _ _ h
    exact ⟨n, rfl, Nat.zero_le n, hn⟩
  · intro tpl w' h
    obtain ⟨n, hn, rfl⟩ := NewDeviceCertificateTemplate_ok _ _ _ _ _ _ h
    exact ⟨n, rfl, Nat.zero_le n, hn⟩

/-- Claim C5 at a random source that yields the byte 255 for ever: the serial
number drawn is `2^130 − 1`, the largest value below the bound. -/
theorem serial_number_range_witness :
    NewSerialNumber (demoWorld (fun _ => 0) 255 () () : World Unit Unit) =
      (.ok (2 ^ 130 - 1),
        { (demoWorld (fun _ => 0) 255 () () : World Unit Unit) with randPos := 17 }) ∧
    (0 ≤ 2 ^ 130 - 1 ∧ 2 ^ 130 - 1 < 2 ^ 130) :=
  have h : NewSerialNumber (demoWorld (fun _ => 0) 255 () () : World Unit Unit) =
      (.ok (2 ^ 130 - 1),
        { (demoWorld (fun _ => 0) 255 () () : World Unit Unit) with randPos := 17 }) := by
    rw [NewSerialNumber_ok_of_read _ (List.replicate 17 255) (by decide)]
    have h1 : setBytes (clearHighBits 2 (List.replicate 17 255)) = 2 ^ 130 - 1 := by decide
    rw [h1]
    rfl
  ⟨h, (serial_number_range "t1" "Acme" "d1" demoCSR
    (demoWorld (fun _ => 0) 255 () () : World Unit Unit)).2.2.1 _ _ h⟩

/-! ## Claims about CSR validation -/

/-- When `ParseDeviceCertificateSigningRequest` accepts. -/
theorem csr_accepted_core (lib : Lib) (deviceCSR : Bytes) (csr : CertificateRequest) :
    ParseDeviceCertificateSigningRequest lib deviceCSR = .ok csr ↔
      (lib.ParseCertificateRequest deviceCSR = .ok csr ∧ lib.CheckSignature csr = none ∧
        csr.SignatureAlgorithm = .SHA256WithRSA ∧ csr.PublicKeyAlgorithm = .RSA) := by
  unfold ParseDeviceCertificateSigningRequest validateCertificateSigningRequest
  cases hp : lib.ParseCertificateRequest deviceCSR with
  | error e => simp
  | ok parsed =>
    dsimp only
    cases hc : lib.CheckSignature parsed with
    | some e =>
      dsimp only
      constructor
      · intro h
        cases h
      · rintro ⟨h1, h2, _, _⟩
        cases h1
        rw [hc] at h2
        cases h2
    | none =>
      dsimp only
      by_cases hs : parsed.SignatureAlgorithm = .SHA256WithRSA
      · by_cases hk : parsed.PublicKeyAlgorithm = .RSA
        · simp only [hs, hk, ne_eq, not_true_eq_false, if_false, Except.ok.injEq]
          constructor
          · intro h
            subst h
            exact ⟨rfl, hc, hs, hk⟩
          · intro h
            exact h.1
        · simp only [hs, hk, ne_eq, not_true_eq_false, not_false_eq_true, if_true, if_false]
          constructor
          · intro h
            cases h
          · rintro ⟨h1, _, _, h4⟩
            cases h1
            exact absurd h4 hk
      · simp only [hs, ne_eq, not_false_eq_true, if_true]
        constructor
        · intro h
          cases h
        · rintro ⟨h1, _, h3, _⟩
          cases h1
          exact absurd h3 hs

/-- Claim C6. `ParseDeviceCertificateSigningRequest` returns a parsed CSR
exactly when the bytes parse as a certificate request, its self-signature
checks, its signature algorithm is SHA256WithRSA and its public key algorithm
is RSA, and the CSR returned is the parsed one; in every other case it returns
an error. -/
theorem csr_accepted_iff (lib : Lib) (deviceCSR : Bytes) :
    (∀ csr, ParseDeviceCertificateSigningRequest lib deviceCSR = .ok csr ↔
      (lib.ParseCertificateRequest deviceCSR = .ok csr ∧ lib.CheckSignature csr = none ∧
        csr.SignatureAlgorithm = .SHA256WithRSA ∧ csr.PublicKeyAlgorithm = .RSA)) ∧
    ((¬ ∃ csr, lib.ParseCertificateRequest deviceCSR = .ok csr ∧ lib.CheckSignature csr = none ∧
        csr.SignatureAlgorithm = .SHA256WithRSA ∧ csr.PublicKeyAlgorithm = .RSA) →
      ∃ err, ParseDeviceCertificateSigningRequest lib deviceCSR = .error err) := by
  have key := csr_accepted_core lib deviceCSR
  refine ⟨key, ?_⟩
  intro hno
  cases hr : ParseDeviceCertificateSigningRequest lib deviceCSR with
  | error e => exact ⟨e, rfl⟩
  | ok csr => exact absurd ⟨csr, (key csr).mp hr⟩ hno

/-- Claim C6 at three concrete CSRs: the RSA and SHA-256 one is accepted, the
ECDSA one and the SHA-1 one are rejected. -/
theorem csr_accepted_iff_witness :
    ParseDeviceCertificateSigningRequest demoLib [48, 1] = .ok demoCSR ∧
    ParseDeviceCertificateSigningRequest demoLib [48, 2] = .error (.other "failed to validate csr") ∧
    ParseDeviceCertificateSigningRequest demoLib [48, 3] = .error (.other "failed to validate csr") ∧
    (demoLib.ParseCertificateRequest [48, 1] = .ok demoCSR ∧ demoLib.CheckSignature demoCSR = none ∧
        demoCSR.SignatureAlgorithm = .SHA256WithRSA ∧ demoCSR.PublicKeyAlgorithm = .RSA) :=
  ⟨rfl, rfl, rfl, ((csr_accepted_iff demoLib [48, 1]).1 demoCSR).mp rfl⟩

/-! ## Device certificate requests that are turned away -/

theorem failDevice_err (e : Error) (w : World σ κ) (r : DeviceCertResult) (w' : World σ κ)
    (h : failDevice e w = (r, w')) : r.err = some e := by
  simp only [failDevice, Prod.mk.injEq] at h
  rw [← h.1]

/-- A CSR that uses ECDSA or SHA-1 does not pass the algorithm check. -/
theorem validate_rejects_unsupported (csr : CertificateRequest)
    (h : usesECDSAorSHA1 csr = true) :
    validateCertificateSigningRequest csr ≠ none := by
  unfold validateCertificateSigningRequest
  unfold usesECDSAorSHA1 at h
  by_cases hs : csr.SignatureAlgorithm = .SHA256WithRSA
  · by_cases hk : csr.PublicKeyAlgorithm = .RSA
    · rw [hs, hk] at h
      exact absurd h (by decide)
    · simp [hs, hk]
  · simp [hs]

/-- The bytes of a CSR that uses ECDSA or SHA-1 are rejected by
`ParseDeviceCertificateSigningRequest`. -/
theorem parse_rejects_unsupported (lib : Lib) (b : Bytes) (csr : CertificateRequest)
    (hparse : lib.ParseCertificateRequest b = .ok csr) (h : usesECDSAorSHA1 csr = true) :
    ∃ err, ParseDeviceCertificateSigningRequest lib b = .error err := by
  cases hr : ParseDeviceCertificateSigningRequest lib b with
  | error e => exact ⟨e, rfl⟩
  | ok parsed =>
    have hk := (csr_accepted_core lib b parsed).mp hr
    rw [hparse] at hk
    obtain ⟨h1, _, h3, h4⟩ := hk
    cases h1
    have := validate_rejects_unsupported csr h
    simp [validateCertificateSigningRequest, h3, h4] at this

/-- Both providers turn away CSR bytes that `ParseDeviceCertificateSigningRequest`
rejects, with the parser's error, before anything else happens. -/
theorem local_create_parse_error (lib : Lib) (p : LocalProvider σ)
    (tenantID : String) (b : Bytes) (err : Error) (w : World σ κ) (htid : tenantID ≠ "")
    (hp : ParseDeviceCertificateSigningRequest lib b = .error err) :
    p.CreateDeviceCertificate lib tenantID (some b) w = failDevice err w := by
  unfold LocalProvider.CreateDeviceCertificate
  simp only [htid, if_false, hp]

theorem aws_create_parse_error (lib : Lib)
    (p : AwsKmsProvider σ κ) (tenantID : String) (b : Bytes) (err : Error) (w : World σ κ)
    (htid : tenantID ≠ "") (hp : ParseDeviceCertificateSigningRequest lib b = .error err) :
    p.CreateDeviceCertificate lib tenantID (some b) w = failDevice err w := by
  unfold AwsKmsProvider.CreateDeviceCertificate
  simp only [htid, if_false, hp]

/-- The create RPC answers Internal, and leaves the store and the KMS alone,
when the header is valid, tenant id and CSR are present and the provider
fails without touching them. -/
theorem rpcCreate_provider_failure (s : CertificateAuthorityServer σ κ)
    (request : CreateDeviceCertificateRequest) (hd : CaRequestHeader) (b : Bytes)
    (w : World σ κ) (err : Error)
    (hhdr : request.Header = some hd) (hver : hd.ProtocolVersion = CaProtocolVersion)
    (htid : request.Tid ≠ "") (hcsr : request.Csr = some b)
    (hfail : ∀ w1 : World σ κ,
      s.kmsProvider.CreateDeviceCertificate request.Tid (some b) w1 = failDevice err w1) :
    (s.CreateDeviceCertificate request w).1.Header.Status = codesInternal ∧
      (s.CreateDeviceCertificate request w).2.storeCalls = w.storeCalls ∧
      (s.CreateDeviceCertificate request w).2.kmsCalls = w.kmsCalls ∧
      (s.CreateDeviceCertificate request w).2.store = w.store ∧
      (s.CreateDeviceCertificate request w).2.kms = w.kms := by
  unfold CertificateAuthorityServer.CreateDeviceCertificate isValidRequestHeader
  simp only [hhdr, hver, ne_eq, not_true_eq_false, if_false]
  by_cases hid : hd.RequestId = ""
  · simp only [hid, if_true, htid, hcsr, false_or, reduceCtorEq, if_false, hfail]
    exact ⟨rfl, rfl, rfl, rfl, rfl⟩
  · simp only [hid, if_false, htid, hcsr, false_or, reduceCtorEq, hfail]
    exact ⟨rfl, rfl, rfl, rfl, rfl⟩

/-- Claim C7, as stated, fails: a create request with a valid header, tenant
`t1` and an ECDSA CSR is answered with status Internal (13) by the local
provider, not with InvalidArgument (3). -/
theorem unsupported_csr_status_counterexample :
    demoLib.ParseCertificateRequest [48, 2] = .ok demoEcdsaCSR ∧
    demoEcdsaCSR.PublicKeyAlgorithm = .ECDSA ∧
    (CertificateAuthorityServer.CreateDeviceCertificate
        { kmsProvider := (demoLocalProvider memStore).toKmsProvider demoLib }
        (demoCreateRequest (some [48, 2])) demoServiceWorld).1.Header.Status = 13 ∧
    (CertificateAuthorityServer.CreateDeviceCertificate
        { kmsProvider := (demoLocalProvider memStore).toKmsProvider demoLib }
        (demoCreateRequest (some [48, 2])) demoServiceWorld).1.Header.Status
      ≠ codesInvalidArgument := by
  refine ⟨rfl, rfl, ?_, ?_⟩ <;> decide

/-- Claim C7, amended. A create request with a valid header and a non-empty
tenant id whose CSR uses ECDSA or SHA-1 is answered with status Internal by
the RPC handler over either provider, and no call reaches the certificate
store or the KMS: their call records and states are unchanged. -/
theorem unsupported_csr_rejected (lib : Lib) (lp : LocalProvider σ) (ap : AwsKmsProvider σ κ)
    (request : CreateDeviceCertificateRequest) (hd : CaRequestHeader) (b : Bytes)
    (csr : CertificateRequest) (w : World σ κ)
    (hhdr : request.Header = some hd) (hver : hd.ProtocolVersion = CaProtocolVersion)
    (htid : request.Tid ≠ "") (hcsr : request.Csr = some b)
    (hparse : lib.ParseCertificateRequest b = .ok csr) (halg : usesECDSAorSHA1 csr = true) :
    ((CertificateAuthorityServer.CreateDeviceCertificate
        { kmsProvider := lp.toKmsProvider lib } request w).1.Header.Status = codesInternal ∧
      (CertificateAuthorityServer.CreateDeviceCertificate
        { kmsProvider := lp.toKmsProvider lib } request w).2.storeCalls = w.storeCalls ∧
      (CertificateAuthorityServer.CreateDeviceCertificate
        { kmsProvider := lp.toKmsProvider lib } request w).2.kmsCalls = w.kmsCalls ∧
      (CertificateAuthorityServer.CreateDeviceCertificate
        { kmsProvider := lp.toKmsProvider lib } request w).2.store = w.store ∧
      (CertificateAuthorityServer.CreateDeviceCertificate
        { kmsProvider := lp.toKmsProvider lib } request w).2.kms = w.kms) ∧
    ((CertificateAuthorityServer.CreateDeviceCertificate
        { kmsProvider := ap.toKmsProvider lib } request w).1.Header.Status = codesInternal ∧
      (CertificateAuthorityServer.CreateDeviceCertificate
        { kmsProvider := ap.toKmsProvider lib } request w).2.storeCalls = w.storeCalls ∧
      (CertificateAuthorityServer.CreateDeviceCertificate
        { kmsProvider := ap.toKmsProvider lib } request w).2.kmsCalls = w.kmsCalls ∧
      (CertificateAuthorityServer.CreateDeviceCertificate
        { kmsProvider := ap.toKmsProvider lib } request w).2.store = w.store ∧
      (CertificateAuthorityServer.CreateDeviceCertificate
        { kmsProvider := ap.toKmsProvider lib } request w).2.kms = w.kms) := by
  obtain ⟨err, herr⟩ := parse_rejects_unsupported lib b csr hparse halg
  constructor
  · exact rpcCreate_provider_failure _ request hd b w err hhdr hver htid hcsr
      (fun w1 => local_create_parse_error lib lp _ b err w1 htid herr)
  · exact rpcCreate_provider_failure _ request hd b w err hhdr hver htid hcsr
      (fun w1 => aws_create_parse_error lib ap _ b err w1 htid herr)

/-- Claim C7, amended, at a concrete request: tenant `t1` with an ECDSA CSR. -/
theorem unsupported_csr_rejected_witness :
    (demoCreateRequest (some [48, 2])).Header = some demoHeader ∧
    demoHeader.ProtocolVersion = CaProtocolVersion ∧
    (demoCreateRequest (some [48, 2])).Tid ≠ "" ∧
    (demoCreateRequest (some [48, 2])).Csr = some [48, 2] ∧
    demoLib.ParseCertificateRequest [48, 2] = .ok demoEcdsaCSR ∧
    usesECDSAorSHA1 demoEcdsaCSR = true ∧
    (CertificateAuthorityServer.CreateDeviceCertificate
        { kmsProvider := (demoLocalProvider memStore).toKmsProvider demoLib }
        (demoCreateRequest (some [48, 2])) demoServiceWorld).1.Header.Status = codesInternal ∧
    (CertificateAuthorityServer.CreateDeviceCertificate
        { kmsProvider := demoAwsProvider.toKmsProvider demoLib }
        (demoCreateRequest (some [48, 2])) demoServiceWorld).2.storeCalls = [] :=
  have h := unsupported_csr_rejected demoLib (demoLocalProvider memStore) demoAwsProvider
    (demoCreateRequest (some [48, 2])) demoHeader [48, 2] demoEcdsaCSR demoServiceWorld
    rfl rfl (by decide) rfl rfl (by decide)
  ⟨rfl, rfl, by decide, rfl, rfl, by decide, h.1.1, h.2.2.1⟩

/-- The create RPC answers InvalidArgument without consulting the provider
when the tenant id is empty or the CSR is missing. -/
theorem rpcCreate_invalid (s : CertificateAuthorityServer σ κ)
    (request : CreateDeviceCertificateRequest) (w : World σ κ)
    (h : request.Tid = "" ∨ request.Csr = none) :
    s.CreateDeviceCertificate request w =
      invalidCreateDeviceCertificateResponse (isValidRequestHeader request.Header w).1.1
        (isValidRequestHeader request.Header w).2 := by
  unfold CertificateAuthorityServer.CreateDeviceCertificate
  cases hv : isValidRequestHeader request.Header w with
  | mk r w1 =>
    obtain ⟨requestID, ok⟩ := r
    cases ok
    · rfl
    · simp only [h, if_true]

theorem isValidRequestHeader_world (header : Option CaRequestHeader) (w : World σ κ) :
    (isValidRequestHeader header w).2.storeCalls = w.storeCalls ∧
      (isValidRequestHeader header w).2.kmsCalls = w.kmsCalls ∧
      (isValidRequestHeader header w).2.store = w.store ∧
      (isValidRequestHeader header w).2.kms = w.kms := by
  unfold isValidRequestHeader
  cases header with
  | none => exact ⟨rfl, rfl, rfl, rfl⟩
  | some hd =>
    dsimp only
    by_cases hv : hd.ProtocolVersion = CaProtocolVersion
    · by_cases hid : hd.RequestId = ""
      · simp only [hv, hid, ne_eq, not_true_eq_false, if_false, if_true]
        exact ⟨rfl, rfl, rfl, rfl⟩
      · simp only [hv, hid, ne_eq, not_true_eq_false, if_false]
        exact ⟨trivial, trivial, trivial, trivial⟩
    · simp only [hv, ne_eq, not_false_eq_true, if_true]
      exact ⟨trivial, trivial, trivial, trivial⟩

/-- Claim C8. When the tenant id is empty or the CSR is nil, both providers
return the error `invalid parameter` at once: the result does not depend on
the library's parser or on the store, whose state and call record, like those
of the KMS, stay as they were; and the RPC handler answers InvalidArgument
with the same response whatever provider it holds, so without invoking it,
and again with store and KMS untouched. -/
theorem missing_tenant_or_csr_rejected (lib : Lib) (lp : LocalProvider σ)
    (ap : AwsKmsProvider σ κ) (s s' : CertificateAuthorityServer σ κ)
    (request : CreateDeviceCertificateRequest) (w : World σ κ)
    (h : request.Tid = "" ∨ request.Csr = none) :
    lp.CreateDeviceCertificate lib request.Tid request.Csr w
        = failDevice (.other "invalid parameter") w ∧
    ap.CreateDeviceCertificate lib request.Tid request.Csr w
        = failDevice (.other "invalid parameter") w ∧
    (failDevice (.other "invalid parameter") w).1.err = some (.other "invalid parameter") ∧
    (failDevice (.other "invalid parameter") w).1.deviceCert = [] ∧
    (failDevice (.other "invalid parameter") w).2.store = w.store ∧
    (failDevice (.other "invalid parameter") w).2.storeCalls = w.storeCalls ∧
    (failDevice (.other "invalid parameter") w).2.kms = w.kms ∧
    (failDevice (.other "invalid parameter") w).2.kmsCalls = w.kmsCalls ∧
    (s.CreateDeviceCertificate request w).1.Header.Status = codesInvalidArgument ∧
    s.CreateDeviceCertificate request w = s'.CreateDeviceCertificate request w ∧
    (s.CreateDeviceCertificate request w).2.store = w.store ∧
    (s.CreateDeviceCertificate request w).2.storeCalls = w.storeCalls ∧
    (s.CreateDeviceCertificate request w).2.kms = w.kms ∧
    (s.CreateDeviceCertificate request w).2.kmsCalls = w.kmsCalls := by
  have hl : lp.CreateDeviceCertificate lib request.Tid request.Csr w
      = failDevice (.other "invalid parameter") w := by
    rcases h with h | h
    · rw [h]
      cases request.Csr <;> rfl
    · rw [h]
      rfl
  have ha : ap.CreateDeviceCertificate lib request.Tid request.Csr w
      = failDevice (.other "invalid parameter") w := by
    rcases h with h | h
    · rw [h]
      cases request.Csr <;> rfl
    · rw [h]
      rfl
  obtain ⟨w1, w2, w3, w4⟩ := isValidRequestHeader_world request.Header w
  refine ⟨hl, ha, rfl, rfl, rfl, rfl, rfl, rfl, ?_, ?_, ?_, ?_, ?_, ?_⟩
  · rw [rpcCreate_invalid s request w h]
    rfl
  · rw [rpcCreate_invalid s request w h, rpcCreate_invalid s' request w h]
  · rw [rpcCreate_invalid s request w h]
    exact w3
  · rw [rpcCreate_invalid s request w h]
    exact w1
  · rw [rpcCreate_invalid s request w h]
    exact w4
  · rw [rpcCreate_invalid s request w h]
    exact w2

/-- Claim C8 at a concrete request: tenant `t1` and no CSR, over the local
and the AWS provider. -/
theorem missing_tenant_or_csr_rejected_witness :
    ((demoCreateRequest none).Tid = "" ∨ (demoCreateRequest none).Csr = none) ∧
    (demoLocalProvider memStore).CreateDeviceCertificate demoLib "t1" none demoServiceWorld
        = failDevice (.other "invalid parameter") demoServiceWorld ∧
    (CertificateAuthorityServer.CreateDeviceCertificate
        { kmsProvider := (demoLocalProvider memStore).toKmsProvider demoLib }
        (demoCreateRequest none) demoServiceWorld).1.Header.Status = codesInvalidArgument ∧
    (CertificateAuthorityServer.CreateDeviceCertificate
        { kmsProvider := (demoLocalProvider memStore).toKmsProvider demoLib }
        (demoCreateRequest none) demoServiceWorld).2.storeCalls = [] :=
  have h := missing_tenant_or_csr_rejected demoLib (demoLocalProvider memStore) demoAwsProvider
    { kmsProvider := (demoLocalProvider memStore).toKmsProvider demoLib }
    { kmsProvider := demoAwsProvider.toKmsProvider demoLib }
    (demoCreateRequest none) demoServiceWorld (Or.inr rfl)
  ⟨Or.inr rfl, h.1, h.2.2.2.2.2.2.2.2.1, h.2.2.2.2.2.2.2.2.2.2.2.1⟩

/-! ## Device certificates that are issued -/

/-- A successful `generateDeviceCertificate` returns the device id it was
given, and the certificate it returns is the signed device template built for
that tenant and device id. -/
theorem local_generate_ok (lib : Lib) (p : LocalProvider σ)
    (tenantID deviceID : String) (parsedCSR : CertificateRequest) (w w' : World σ κ)
    (r : DeviceCertResult)
    (h : p.generateDeviceCertificate lib tenantID deviceID parsedCSR w = (r, w'))
    (hok : r.err = none) :
    r.deviceID = deviceID ∧
    ∃ (tpl parent : Certificate) (key : RSAPrivateKey) (w1 w2 : World σ κ),
      NewDeviceCertificateTemplate tenantID deviceID parsedCSR w1 = (.ok tpl, w2) ∧
      lib.CreateCertificate tpl parent parsedCSR.PublicKey key = .ok r.deviceCert ∧
      r.expiresAt = tpl.NotAfter := by
  unfold LocalProvider.generateDeviceCertificate at h
  dsimp only at h
  split at h
  · rw [failDevice_err _ _ _ _ h] at hok
    cases hok
  · rename_i found w1 hl
    split at h
    · rw [failDevice_err _ _ _ _ h] at hok
      cases hok
    · rename_i tpl w2 ht
      split at h
      · rw [failDevice_err _ _ _ _ h] at hok
        cases hok
      · rename_i der hc
        split at h
        · rw [failDevice_err _ _ _ _ h] at hok
          cases hok
        · rename_i bundle hb
          simp only [Prod.mk.injEq] at h
          obtain ⟨rfl, rfl⟩ := h
          exact ⟨rfl, tpl, _, _, w1, _, ht, hc, rfl⟩

/-- A successful `LocalProvider.CreateDeviceCertificate` parsed the CSR and
ran `generateDeviceCertificate` with a freshly drawn device id. -/
theorem local_create_ok (lib : Lib) (p : LocalProvider σ)
    (tenantID : String) (deviceCSR : Option Bytes) (w w' : World σ κ) (r : DeviceCertResult)
    (h : p.CreateDeviceCertificate lib tenantID deviceCSR w = (r, w')) (hok : r.err = none) :
    ∃ b parsedCSR, deviceCSR = some b ∧
      ParseDeviceCertificateSigningRequest lib b = .ok parsedCSR ∧
      p.generateDeviceCertificate lib tenantID (uuidNewString w).1 parsedCSR (uuidNewString w).2
        = (r, w') := by
  unfold LocalProvider.CreateDeviceCertificate at h
  split at h
  · rw [failDevice_err _ _ _ _ h] at hok
    cases hok
  · rename_i b
    split at h
    · rw [failDevice_err _ _ _ _ h] at hok
      cases hok
    · split at h
      · rw [failDevice_err _ _ _ _ h] at hok
        cases hok
      · rename_i parsedCSR hp
        exact ⟨b, parsedCSR, rfl, hp, h⟩

theorem local_renew_ok (lib : Lib) (p : LocalProvider σ)
    (tenantID deviceID : String) (deviceCSR : Option Bytes) (w w' : World σ κ)
    (r : DeviceCertResult)
    (h : p.RenewDeviceCertificate lib tenantID deviceID deviceCSR w = (r, w'))
    (hok : r.err = none) :
    ∃ b parsedCSR, deviceCSR = some b ∧
      ParseDeviceCertificateSigningRequest lib b = .ok parsedCSR ∧
      p.generateDeviceCertificate lib tenantID deviceID parsedCSR w = (r, w') := by
  unfold LocalProvider.RenewDeviceCertificate at h
  split at h
  · rw [failDevice_err _ _ _ _ h] at hok
    cases hok
  · rename_i b
    split at h
    · rw [failDevice_err _ _ _ _ h] at hok
      cases hok
    · split at h
      · rw [failDevice_err _ _ _ _ h] at hok
        cases hok
      · rename_i parsedCSR hp
        exact ⟨b, parsedCSR, rfl, hp, h⟩

/-- A successful `AwsKmsProvider.CreateDeviceCertificate` returns the device
id it drew, and the certificate it returns is the device template built for
the tenant and that id, signed through a KMS signer. -/
theorem aws_create_ok (lib : Lib) (p : AwsKmsProvider σ κ)
    (tenantID : String) (deviceCSR : Option Bytes) (w w' : World σ κ) (r : DeviceCertResult)
    (h : p.CreateDeviceCertificate lib tenantID deviceCSR w = (r, w')) (hok : r.err = none) :
    ∃ (b : Bytes) (parsedCSR : CertificateRequest) (tpl parent : Certificate)
      (signer : KMSSigner) (w1 w2 w3 w4 : World σ κ),
      deviceCSR = some b ∧ ParseDeviceCertificateSigningRequest lib b = .ok parsedCSR ∧
      r.deviceID = (uuidNewString w1).1 ∧
      NewDeviceCertificateTemplate tenantID r.deviceID parsedCSR (uuidNewString w1).2
        = (.ok tpl, w2) ∧
      createCertificateWithSigner lib p.client tpl parent parsedCSR.PublicKey signer w3
        = (.ok r.deviceCert, w4) ∧
      r.expiresAt = tpl.NotAfter := by
  unfold AwsKmsProvider.CreateDeviceCertificate at h
  split at h
  · rw [failDevice_err _ _ _ _ h] at hok
    cases hok
  · rename_i b
    split at h
    · rw [failDevice_err _ _ _ _ h] at hok
      cases hok
    · split at h
      · rw [failDevice_err _ _ _ _ h] at hok
        cases hok
      · rename_i parsedCSR hp
        dsimp only at h
        split at h
        · rw [failDevice_err _ _ _ _ h] at hok
          cases hok
        · rename_i certEntry w1 hf
          split at h
          · rw [failDevice_err _ _ _ _ h] at hok
            cases hok
          · rename_i tenantSigningCert hpc
            split at h
            · rw [failDevice_err _ _ _ _ h] at hok
              cases hok
            · rename_i tpl w2 ht
              split at h
              · rw [failDevice_err _ _ _ _ h] at hok
                cases hok
              · rename_i signer w3 hs
                split at h
                · rw [failDevice_err _ _ _ _ h] at hok
                  cases hok
                · rename_i der w4 hc
                  split at h
                  · rw [failDevice_err _ _ _ _ h] at hok
                    cases hok
                  · simp only [Prod.mk.injEq] at h
                    obtain ⟨rfl, rfl⟩ := h
                    exact ⟨b, parsedCSR, tpl, tenantSigningCert, signer, w1, w2, w3, _, rfl,
                      hp, rfl, ht, hc, rfl⟩

theorem aws_renew_ok (lib : Lib) (p : AwsKmsProvider σ κ)
    (tenantID deviceID : String) (deviceCSR : Option Bytes) (w w' : World σ κ)
    (r : DeviceCertResult)
    (h : p.RenewDeviceCertificate lib tenantID deviceID deviceCSR w = (r, w'))
    (hok : r.err = none) :
    r.deviceID = deviceID ∧
    ∃ (b : Bytes) (parsedCSR : CertificateRequest) (tpl parent : Certificate)
      (signer : KMSSigner) (w1 w2 w3 w4 : World σ κ),
      deviceCSR = some b ∧ ParseDeviceCertificateSigningRequest lib b = .ok parsedCSR ∧
      NewDeviceCertificateTemplate tenantID deviceID parsedCSR w1 = (.ok tpl, w2) ∧
      createCertificateWithSigner lib p.client tpl parent parsedCSR.PublicKey signer w3
        = (.ok r.deviceCert, w4) ∧
      r.expiresAt = tpl.NotAfter := by
  unfold AwsKmsProvider.RenewDeviceCertificate at h
  split at h
  · rw [failDevice_err _ _ _ _ h] at hok
    cases hok
  · rename_i b
    split at h
    · rw [failDevice_err _ _ _ _ h] at hok
      cases hok
    · split at h
      · rw [failDevice_err _ _ _ _ h] at hok
        cases hok
      · rename_i parsedCSR hp
        dsimp only at h
        split at h
        · rw [failDevice_err _ _ _ _ h] at hok
          cases hok
        · rename_i certEntry w1 hf
          split at h
          · rw [failDevice_err _ _ _ _ h] at hok
            cases hok
          · rename_i tenantSigningCert hpc
            split at h
            · rw [failDevice_err _ _ _ _ h] at hok
              cases hok
            · rename_i tpl w2 ht
              split at h
              · rw [failDevice_err _ _ _ _ h] at hok
                cases hok
              · rename_i signer w3 hs
                split at h
                · rw [failDevice_err _ _ _ _ h] at hok
                  cases hok
                · rename_i der w4 hc
                  split at h
                  · rw [failDevice_err _ _ _ _ h] at hok
                    cases hok
                  · simp only [Prod.mk.injEq] at h
                    obtain ⟨rfl, rfl⟩ := h
                    exact ⟨rfl, b, parsedCSR, tpl, tenantSigningCert, signer, w1, w2, w3, _,
                      rfl, hp, ht, hc, rfl⟩

/-- A failure response never carries the status OK. -/
theorem failureResponse_status (status : Nat) (message requestID : String) (w : World σ κ) :
    (failureResponse status message requestID w).1.Header.Status = status := rfl

/-- The renew RPC answers OK only with the device id of the request. -/
theorem rpcRenew_echo (s : CertificateAuthorityServer σ κ)
    (request : RenewDeviceCertificateRequest) (w : World σ κ)
    (hok : (s.RenewDeviceCertificate request w).1.Header.Status = codesOK) :
    (s.RenewDeviceCertificate request w).1.DeviceId = request.DeviceId ∧
    ∃ w1 : World σ κ,
      (s.kmsProvider.RenewDeviceCertificate request.Tid request.DeviceId request.Csr w1).1.err
        = none := by
  cases hv : isValidRequestHeader request.Header w with
  | mk rv w1 =>
    obtain ⟨requestID, ok⟩ := rv
    cases ok
    · simp only [CertificateAuthorityServer.RenewDeviceCertificate, hv] at hok
      exact absurd hok (show ¬ ((3 : Nat) = 0) by decide)
    · by_cases hreq : request.Tid = "" ∨ request.DeviceId = "" ∨ request.Csr = none
      · simp only [CertificateAuthorityServer.RenewDeviceCertificate, hv, hreq, if_true] at hok
        exact absurd hok (show ¬ ((3 : Nat) = 0) by decide)
      · cases hp : s.kmsProvider.RenewDeviceCertificate request.Tid request.DeviceId
            request.Csr w1 with
        | mk r w2 =>
          cases he : r.err with
          | some e =>
            simp only [CertificateAuthorityServer.RenewDeviceCertificate, hv, hreq, if_false,
              hp, he] at hok
            exact absurd hok (show ¬ ((13 : Nat) = 0) by decide)
          | none =>
            refine ⟨?_, w1, ?_⟩
            · simp only [CertificateAuthorityServer.RenewDeviceCertificate, hv, hreq, if_false,
                hp, he]
              rfl
            · rw [hp]
              exact he

/-- The create RPC answers OK only with the device id its provider
returned. -/
theorem rpcCreate_echo (s : CertificateAuthorityServer σ κ)
    (request : CreateDeviceCertificateRequest) (w : World σ κ)
    (hok : (s.CreateDeviceCertificate request w).1.Header.Status = codesOK) :
    ∃ w1 : World σ κ,
      (s.kmsProvider.CreateDeviceCertificate request.Tid request.Csr w1).1.err = none ∧
      (s.CreateDeviceCertificate request w).1.DeviceId =
        (s.kmsProvider.CreateDeviceCertificate request.Tid request.Csr w1).1.deviceID := by
  cases hv : isValidRequestHeader request.Header w with
  | mk rv w1 =>
    obtain ⟨requestID, ok⟩ := rv
    cases ok
    · simp only [CertificateAuthorityServer.CreateDeviceCertificate, hv] at hok
      exact absurd hok (show ¬ ((3 : Nat) = 0) by decide)
    · by_cases hreq : request.Tid = "" ∨ request.Csr = none
      · simp only [CertificateAuthorityServer.CreateDeviceCertificate, hv, hreq, if_true] at hok
        exact absurd hok (show ¬ ((3 : Nat) = 0) by decide)
      · cases hp : s.kmsProvider.CreateDeviceCertificate request.Tid request.Csr w1 with
        | mk r w2 =>
          cases he : r.err with
          | some e =>
            simp only [CertificateAuthorityServer.CreateDeviceCertificate, hv, hreq, if_false,
              hp, he] at hok
            exact absurd hok (show ¬ ((13 : Nat) = 0) by decide)
          | none =>
            refine ⟨w1, ?_, ?_⟩
            · rw [hp]
              exact he
            · simp only [CertificateAuthorityServer.CreateDeviceCertificate, hv, hreq, if_false,
                hp, he]
              rfl

/-- Claim C9. In both providers a successful `CreateDeviceCertificate` or
`RenewDeviceCertificate` returns the device id that is the common name of the
device template it signed, and that template's extra names are exactly
(2.5.4.10, tenantId); `RenewDeviceCertificate` returns the device id the
caller supplied; the renew RPC answers OK with the device id of the request
and the create RPC with the device id its provider returned. -/
theorem device_id_bound_into_certificate (lib : Lib) (lp : LocalProvider σ)
    (ap : AwsKmsProvider σ κ) (s : CertificateAuthorityServer σ κ) (tenantID deviceID : String)
    (deviceCSR : Option Bytes) (w : World σ κ) :
    (∀ r w', lp.CreateDeviceCertificate lib tenantID deviceCSR w = (r, w') → r.err = none →
      ∃ (parsedCSR : CertificateRequest) (tpl parent : Certificate) (key : RSAPrivateKey)
        (w1 w2 : World σ κ),
        NewDeviceCertificateTemplate tenantID r.deviceID parsedCSR w1 = (.ok tpl, w2) ∧
        lib.CreateCertificate tpl parent parsedCSR.PublicKey key = .ok r.deviceCert ∧
        tpl.Subject.CommonName = r.deviceID ∧
        tpl.Subject.ExtraNames = [{ Typ := [2, 5, 4, 10], Value := tenantID }]) ∧
    (∀ r w', lp.RenewDeviceCertificate lib tenantID deviceID deviceCSR w = (r, w') →
      r.err = none →
      r.deviceID = deviceID ∧
      ∃ (parsedCSR : CertificateRequest) (tpl parent : Certificate) (key : RSAPrivateKey)
        (w1 w2 : World σ κ),
        NewDeviceCertificateTemplate tenantID r.deviceID parsedCSR w1 = (.ok tpl, w2) ∧
        lib.CreateCertificate tpl parent parsedCSR.PublicKey key = .ok r.deviceCert ∧
        tpl.Subject.CommonName = r.deviceID ∧
        tpl.Subject.ExtraNames = [{ Typ := [2, 5, 4, 10], Value := tenantID }]) ∧
    (∀ r w', ap.CreateDeviceCertificate lib tenantID deviceCSR w = (r, w') → r.err = none →
      ∃ (parsedCSR : CertificateRequest) (tpl parent : Certificate) (signer : KMSSigner)
        (w1 w2 w3 w4 : World σ κ),
        NewDeviceCertificateTemplate tenantID r.deviceID parsedCSR w1 = (.ok tpl, w2) ∧
        createCertificateWithSigner lib ap.client tpl parent parsedCSR.PublicKey signer w3
          = (.ok r.deviceCert, w4) ∧
        tpl.Subject.CommonName = r.deviceID ∧
        tpl.Subject.ExtraNames = [{ Typ := [2, 5, 4, 10], Value := tenantID }]) ∧
    (∀ r w', ap.RenewDeviceCertificate lib tenantID deviceID deviceCSR w = (r, w') →
      r.err = none →
      r.deviceID = deviceID ∧
      ∃ (parsedCSR : CertificateRequest) (tpl parent : Certificate) (signer : KMSSigner)
        (w1 w2 w3 w4 : World σ κ),
        NewDeviceCertificateTemplate tenantID r.deviceID parsedCSR w1 = (.ok tpl, w2) ∧
        createCertificateWithSigner lib ap.client tpl parent parsedCSR.PublicKey signer w3
          = (.ok r.deviceCert, w4) ∧
        tpl.Subject.CommonName = r.deviceID ∧
        tpl.Subject.ExtraNames = [{ Typ := [2, 5, 4, 10], Value := tenantID }]) ∧
    (∀ request : RenewDeviceCertificateRequest,
      (s.RenewDeviceCertificate request w).1.Header.Status = codesOK →
      (s.RenewDeviceCertificate request w).1.DeviceId = request.DeviceId) ∧
    (∀ request : CreateDeviceCertificateRequest,
      (s.CreateDeviceCertificate request w).1.Header.Status = codesOK →
      ∃ w1 : World σ κ,
        (s.kmsProvider.CreateDeviceCertificate request.Tid request.Csr w1).1.err = none ∧
        (s.CreateDeviceCertificate request w).1.DeviceId =
          (s.kmsProvider.CreateDeviceCertificate request.Tid request.Csr w1).1.deviceID) := by
  refine ⟨?_, ?_, ?_, ?_, ?_, ?_⟩
  · intro r w' h hok
    obtain ⟨b, parsedCSR, _, _, hg⟩ := local_create_ok lib lp _ _ _ _ _ h hok
    obtain ⟨hid, tpl, parent, key, w1, w2, ht, hc, _⟩ :=
      local_generate_ok lib lp _ _ _ _ _ _ hg hok
    obtain ⟨n, _, htpl⟩ := NewDeviceCertificateTemplate_ok _ _ _ _ _ _ ht
    refine ⟨parsedCSR, tpl, parent, key, w1, w2, ?_, hc, ?_, ?_⟩
    · rw [hid]
      exact ht
    · rw [htpl, hid]
    · rw [htpl]
  · intro r w' h hok
    obtain ⟨b, parsedCSR, _, _, hg⟩ := local_renew_ok lib lp _ _ _ _ _ _ h hok
    obtain ⟨hid, tpl, parent, key, w1, w2, ht, hc, _⟩ :=
      local_generate_ok lib lp _ _ _ _ _ _ hg hok
    obtain ⟨n, _, htpl⟩ := NewDeviceCertificateTemplate_ok _ _ _ _ _ _ ht
    refine ⟨hid, parsedCSR, tpl, parent, key, w1, w2, ?_, hc, ?_, ?_⟩
    · rw [hid]
      exact ht
    · rw [htpl, hid]
    · rw [htpl]
  · intro r w' h hok
    obtain ⟨b, parsedCSR, tpl, parent, signer, w1, w2, w3, w4, _, _, _, ht, hc, _⟩ :=
      aws_create_ok lib ap _ _ _ _ _ h hok
    obtain ⟨n, _, htpl⟩ := NewDeviceCertificateTemplate_ok _ _ _ _ _ _ ht
    refine ⟨parsedCSR, tpl, parent, signer, _, w2, w3, w4, ht, hc, ?_, ?_⟩
    · rw [htpl]
    · rw [htpl]
  · intro r w' h hok
    obtain ⟨hid, b, parsedCSR, tpl, parent, signer, w1, w2, w3, w4, _, _, ht, hc, _⟩ :=
      aws_renew_ok lib ap _ _ _ _ _ _ h hok
    obtain ⟨n, _, htpl⟩ := NewDeviceCertificateTemplate_ok _ _ _ _ _ _ ht
    refine ⟨hid, parsedCSR, tpl, parent, signer, w1, w2, w3, w4, ?_, hc, ?_, ?_⟩
    · rw [hid]
      exact ht
    · rw [htpl, hid]
    · rw [htpl]
  · intro request hok
    exact (rpcRenew_echo s request w hok).1
  · intro request hok
    exact rpcCreate_echo s request w hok


/-- Runs of the providers and of the renew RPC in the world at rest, tenant
`t1`, device `d1`, an RSA CSR. -/
theorem demo_local_renew :
    ((demoLocalProvider memStore).RenewDeviceCertificate demoLib "t1" "d1" (some [48, 1])
        demoServiceWorld).1 =
      { deviceID := "d1", deviceCert := [48, 130, 48, 7],
        parentCerts := [48, 128, 48, 7, 48, 9], expiresAt := 31536000000000000,
        err := none } := by
  set_option maxRecDepth 100000 in decide

theorem demo_aws_create :
    (demoAwsProvider.CreateDeviceCertificate demoLib "t1" (some [48, 1]) demoServiceWorld).1 =
      { deviceID := "7c9e6679-7425-40de-944b-e07fc1f90ae7",
        deviceCert := [48, 131, 0, 32, 48, 7], parentCerts := [48, 128, 48, 9, 48, 7],
        expiresAt := 31536000000000000, err := none } := by
  set_option maxRecDepth 100000 in decide

theorem demo_rpc_renew :
    (CertificateAuthorityServer.RenewDeviceCertificate
        { kmsProvider := (demoLocalProvider memStore).toKmsProvider demoLib }
        demoRenewRequest demoServiceWorld).1.Header.Status = codesOK := by
  set_option maxRecDepth 100000 in decide

theorem pair_eta {α β : Type} (x : α × β) : x = (x.1, x.2) := rfl

/-- Claim C9 at a concrete renewal: tenant `t1`, device `d1`, an RSA CSR, over
the local provider; the renewal succeeds, returns `d1`, and the RPC answers
with `d1`. -/
theorem device_id_bound_into_certificate_witness :
    ((demoLocalProvider memStore).RenewDeviceCertificate demoLib "t1" "d1" (some [48, 1])
        demoServiceWorld).1.err = none ∧
    ((demoLocalProvider memStore).RenewDeviceCertificate demoLib "t1" "d1" (some [48, 1])
        demoServiceWorld).1.deviceID = "d1" ∧
    (CertificateAuthorityServer.RenewDeviceCertificate
        { kmsProvider := (demoLocalProvider memStore).toKmsProvider demoLib }
        demoRenewRequest demoServiceWorld).1.Header.Status = codesOK ∧
    (CertificateAuthorityServer.RenewDeviceCertificate
        { kmsProvider := (demoLocalProvider memStore).toKmsProvider demoLib }
        demoRenewRequest demoServiceWorld).1.DeviceId = "d1" :=
  have hok : ((demoLocalProvider memStore).RenewDeviceCertificate demoLib "t1" "d1"
      (some [48, 1]) demoServiceWorld).1.err = none := by rw [demo_local_renew]
  have h := device_id_bound_into_certificate demoLib (demoLocalProvider memStore)
    demoAwsProvider { kmsProvider := (demoLocalProvider memStore).toKmsProvider demoLib }
    "t1" "d1" (some [48, 1]) demoServiceWorld
  ⟨hok, (h.2.1 _ _ (pair_eta _) hok).1, demo_rpc_renew,
    h.2.2.2.2.1 demoRenewRequest demo_rpc_renew⟩

/-- The lookup of `generateDeviceCertificate` when the store answers with an
error. -/
theorem storeGetCertificate_error (store : CertStore σ) (certID : String) (w : World σ κ)
    (e : Error) (s' : σ) (h : store.GetCertificate w.store certID = (.error e, s')) :
    storeGetCertificate store certID w =
      (.error e,
        { w with store := s', storeCalls := w.storeCalls ++ [.GetCertificate certID] }) := by
  unfold storeGetCertificate
  rw [h]

/-- With per-tenant signing enabled and no entry for the tenant, the device
certificate is signed under the common signing certificate. -/
theorem local_generate_notFound (lib : Lib) (p : LocalProvider σ)
    (tenantID deviceID : String) (parsedCSR : CertificateRequest) (w w2 : World σ κ) (s' : σ)
    (tpl : Certificate) (der bundle : Bytes)
    (hpt : p.perTenantSigningEnabled = true)
    (hget : p.store.GetCertificate w.store tenantID = (.error .ErrCertStoreNotFound, s'))
    (ht : NewDeviceCertificateTemplate tenantID deviceID parsedCSR
      (storeGetCertificate p.store tenantID w).2 = (.ok tpl, w2))
    (hc : lib.CreateCertificate tpl p.commonSigningCert parsedCSR.PublicKey
      p.commonSigningCertPkey = .ok der)
    (hb : lib.DegenerateCertificate (p.commonSigningCert.Raw ++ p.caCertBytes) = .ok bundle) :
    p.generateDeviceCertificate lib tenantID deviceID parsedCSR w =
      ({ deviceID := deviceID, deviceCert := der, parentCerts := bundle,
         expiresAt := tpl.NotAfter, err := none }, w2) := by
  rw [storeGetCertificate_error _ _ _ _ _ hget] at ht
  unfold LocalProvider.generateDeviceCertificate
  rw [storeGetCertificate_error _ _ _ _ _ hget]
  simp only [hpt, if_true, ne_eq, not_true_eq_false, if_false, List.nil_append]
  rw [ht]
  simp only [hc, hb]

/-- With per-tenant signing enabled and no entry for the tenant, a device
certificate that is issued was signed under the common signing certificate. -/
theorem local_generate_notFound_ok (lib : Lib) (p : LocalProvider σ)
    (tenantID deviceID : String) (parsedCSR : CertificateRequest) (w w' : World σ κ) (s' : σ)
    (r : DeviceCertResult) (hpt : p.perTenantSigningEnabled = true)
    (hget : p.store.GetCertificate w.store tenantID = (.error .ErrCertStoreNotFound, s'))
    (h : p.generateDeviceCertificate lib tenantID deviceID parsedCSR w = (r, w'))
    (hok : r.err = none) :
    ∃ (tpl : Certificate) (w2 : World σ κ),
      NewDeviceCertificateTemplate tenantID deviceID parsedCSR
        (storeGetCertificate p.store tenantID w).2 = (.ok tpl, w2) ∧
      lib.CreateCertificate tpl p.commonSigningCert parsedCSR.PublicKey
        p.commonSigningCertPkey = .ok r.deviceCert := by
  unfold LocalProvider.generateDeviceCertificate at h
  rw [storeGetCertificate_error _ _ _ _ _ hget] at h ⊢
  simp only [hpt, if_true, ne_eq, not_true_eq_false, if_false, List.nil_append] at h
  split at h
  · rw [failDevice_err _ _ _ _ h] at hok
    cases hok
  · rename_i tpl w2 ht
    split at h
    · rw [failDevice_err _ _ _ _ h] at hok
      cases hok
    · rename_i der hc
      split at h
      · rw [failDevice_err _ _ _ _ h] at hok
        cases hok
      · simp only [Prod.mk.injEq] at h
        obtain ⟨rfl, rfl⟩ := h
        exact ⟨tpl, _, ht, hc⟩

/-- With per-tenant signing enabled and a store that fails otherwise than
with NotFound, `generateDeviceCertificate` returns the store's error. -/
theorem local_generate_storeError (lib : Lib) (p : LocalProvider σ)
    (tenantID deviceID : String) (parsedCSR : CertificateRequest) (w : World σ κ) (s' : σ)
    (e : Error) (hpt : p.perTenantSigningEnabled = true)
    (hget : p.store.GetCertificate w.store tenantID = (.error e, s'))
    (hne : e ≠ .ErrCertStoreNotFound) :
    p.generateDeviceCertificate lib tenantID deviceID parsedCSR w =
      failDevice e (storeGetCertificate p.store tenantID w).2 := by
  unfold LocalProvider.generateDeviceCertificate
  rw [storeGetCertificate_error _ _ _ _ _ hget]
  simp only [hpt, if_true, ne_eq, hne, not_false_eq_true]

/-- Claim C10. In the local provider with per-tenant signing enabled: when
the store lookup of the tenant answers NotFound, the device template is signed
with the cached common signing certificate as parent and the common signing
key, and the call succeeds with that certificate whenever the template, the
signature and the parent bundle can be produced; a certificate issued after
NotFound always has the common signing certificate as parent; when the lookup
fails with any other error, that error is returned and no certificate is
issued. `CreateDeviceCertificate` and `RenewDeviceCertificate` with a valid
CSR are this function applied to the parsed CSR. -/
theorem fallback_to_common_signing_certificate (lib : Lib) (p : LocalProvider σ)
    (tenantID deviceID : String) (parsedCSR : CertificateRequest) (w : World σ κ)
    (hpt : p.perTenantSigningEnabled = true) :
    (∀ s', p.store.GetCertificate w.store tenantID = (.error .ErrCertStoreNotFound, s') →
      ∀ (tpl : Certificate) (w2 : World σ κ) (der bundle : Bytes),
        NewDeviceCertificateTemplate tenantID deviceID parsedCSR
          (storeGetCertificate p.store tenantID w).2 = (.ok tpl, w2) →
        lib.CreateCertificate tpl p.commonSigningCert parsedCSR.PublicKey
          p.commonSigningCertPkey = .ok der →
        lib.DegenerateCertificate (p.commonSigningCert.Raw ++ p.caCertBytes) = .ok bundle →
        p.generateDeviceCertificate lib tenantID deviceID parsedCSR w =
          ({ deviceID := deviceID, deviceCert := der, parentCerts := bundle,
             expiresAt := tpl.NotAfter, err := none }, w2)) ∧
    (∀ s', p.store.GetCertificate w.store tenantID = (.error .ErrCertStoreNotFound, s') →
      ∀ (r : DeviceCertResult) (w' : World σ κ),
        p.generateDeviceCertificate lib tenantID deviceID parsedCSR w = (r, w') →
        r.err = none →
        ∃ (tpl : Certificate) (w2 : World σ κ),
          NewDeviceCertificateTemplate tenantID deviceID parsedCSR
            (storeGetCertificate p.store tenantID w).2 = (.ok tpl, w2) ∧
          lib.CreateCertificate tpl p.commonSigningCert parsedCSR.PublicKey
            p.commonSigningCertPkey = .ok r.deviceCert) ∧
    (∀ e s', p.store.GetCertificate w.store tenantID = (.error e, s') →
      e ≠ .ErrCertStoreNotFound →
      p.generateDeviceCertificate lib tenantID deviceID parsedCSR w =
          failDevice e (storeGetCertificate p.store tenantID w).2 ∧
        (p.generateDeviceCertificate lib tenantID deviceID parsedCSR w).1.err = some e ∧
        (p.generateDeviceCertificate lib tenantID deviceID parsedCSR w).1.deviceCert = []) ∧
    (∀ b, tenantID ≠ "" → ParseDeviceCertificateSigningRequest lib b = .ok parsedCSR →
      p.CreateDeviceCertificate lib tenantID (some b) w =
        p.generateDeviceCertificate lib tenantID (uuidNewString w).1 parsedCSR
          (uuidNewString w).2) ∧
    (∀ b, tenantID ≠ "" → deviceID ≠ "" →
      ParseDeviceCertificateSigningRequest lib b = .ok parsedCSR →
      p.RenewDeviceCertificate lib tenantID deviceID (some b) w =
        p.generateDeviceCertificate lib tenantID deviceID parsedCSR w) := by
  refine ⟨?_, ?_, ?_, ?_, ?_⟩
  · intro s' hget tpl w2 der bundle ht hc hb
    exact local_generate_notFound lib p _ _ _ _ _ s' tpl der bundle
      hpt hget ht hc hb
  · intro s' hget r w' h hok
    exact local_generate_notFound_ok lib p _ _ _ _ _ s' r hpt hget h hok
  · intro e s' hget hne
    have h := local_generate_storeError lib p tenantID deviceID
      parsedCSR w s' e hpt hget hne
    refine ⟨h, ?_, ?_⟩
    · rw [h]
      rfl
    · rw [h]
      rfl
  · intro b htid hp
    unfold LocalProvider.CreateDeviceCertificate
    simp only [htid, if_false, hp]
  · intro b htid hdid hp
    unfold LocalProvider.RenewDeviceCertificate
    simp only [htid, hdid, or_self, if_false, hp]

theorem demo_local_generate :
    ((demoLocalProvider memStore).generateDeviceCertificate demoLib "t1" "d1" demoCSR
        demoServiceWorld).1 =
      { deviceID := "d1", deviceCert := [48, 130, 48, 7],
        parentCerts := [48, 128, 48, 7, 48, 9], expiresAt := 31536000000000000,
        err := none } := by
  set_option maxRecDepth 100000 in decide

/-- Claim C10 at concrete stores: with an empty store the lookup of `t1`
answers NotFound and the certificate is issued under the common signing
certificate; with a store whose reads time out the time-out is returned and
nothing is issued. -/
theorem fallback_to_common_signing_certificate_witness :
    (demoLocalProvider memStore).perTenantSigningEnabled = true ∧
    memStore.GetCertificate demoServiceWorld.store "t1" = (.error .ErrCertStoreNotFound, []) ∧
    ((demoLocalProvider memStore).generateDeviceCertificate demoLib "t1" "d1" demoCSR
        demoServiceWorld).1.err = none ∧
    (∃ (tpl : Certificate) (w2 : World (List SigningCertificate) Unit),
      NewDeviceCertificateTemplate "t1" "d1" demoCSR
        (storeGetCertificate memStore "t1" demoServiceWorld).2 = (.ok tpl, w2) ∧
      demoLib.CreateCertificate tpl (demoLocalProvider memStore).commonSigningCert
        demoCSR.PublicKey (demoLocalProvider memStore).commonSigningCertPkey =
          .ok ((demoLocalProvider memStore).generateDeviceCertificate demoLib "t1" "d1" demoCSR
            demoServiceWorld).1.deviceCert) ∧
    ((demoLocalProvider brokenStore).generateDeviceCertificate demoLib "t1" "d1" demoCSR
        demoServiceWorld).1.err = some (.other "i/o timeout") ∧
    ((demoLocalProvider brokenStore).generateDeviceCertificate demoLib "t1" "d1" demoCSR
        demoServiceWorld).1.deviceCert = [] :=
  have hok : ((demoLocalProvider memStore).generateDeviceCertificate demoLib "t1" "d1" demoCSR
      demoServiceWorld).1.err = none := by rw [demo_local_generate]
  have h := fallback_to_common_signing_certificate demoLib (demoLocalProvider memStore)
    "t1" "d1" demoCSR demoServiceWorld rfl
  have hb := (fallback_to_common_signing_certificate demoLib (demoLocalProvider brokenStore)
    "t1" "d1" demoCSR demoServiceWorld rfl).2.2.1 (.other "i/o timeout") [] rfl (by decide)
  ⟨rfl, rfl, hok, h.2.1 [] rfl _ _ (pair_eta _) hok, hb.2.1, hb.2.2⟩

/-! ## Go strings as bytes -/

/-- Reading the UTF-8 bytes of a character appends that character. -/
theorem utf8Step_char (c : Char) (out : List Char) (rest : Bytes) :
    (utf8EncodeChar c.toNat ++ rest).foldl utf8Step { out := out, need := 0, acc := 0 }
      = rest.foldl utf8Step { out := c :: out, need := 0, acc := 0 } := by
  have hv : c.toNat < 0x110000 := by
    have := c.valid
    simp only [UInt32.isValidChar, Nat.isValidChar] at this
    show c.val.toNat < 0x110000
    omega
  have hc : Char.ofNat c.toNat = c := Char.ofNat_toNat c
  generalize c.toNat = n at hv hc
  unfold utf8EncodeChar
  by_cases h1 : n < 0x80
  · have e1 : n % 256 = n := by omega
    simp only [h1, if_true, List.cons_append, List.nil_append, List.foldl_cons, utf8Step, e1, hc]
  · by_cases h2 : n < 0x800
    · have a1 : (0xC0 + n / 64) % 256 = 0xC0 + n / 64 := by omega
      have a2 : ¬ (0xC0 + n / 64 < 0x80) := by omega
      have a3 : (0xC0 + n / 64) / 32 = 6 := by omega
      have a4 : (0xC0 + n / 64) % 32 = n / 64 := by omega
      have b1 : (0x80 + n % 64) % 256 = 0x80 + n % 64 := by omega
      have b2 : (0x80 + n % 64) / 64 = 2 := by omega
      have b3 : n / 64 * 64 + (0x80 + n % 64) % 64 = n := by omega
      simp only [h1, h2, if_true, if_false, List.cons_append, List.nil_append, List.foldl_cons,
        utf8Step, a1, a2, a3, a4, b1, b2, b3, hc, one_ne_zero]
    · by_cases h3 : n < 0x10000
      · have a1 : (0xE0 + n / 4096) % 256 = 0xE0 + n / 4096 := by omega
        have a2 : ¬ (0xE0 + n / 4096 < 0x80) := by omega
        have a3 : ¬ ((0xE0 + n / 4096) / 32 = 6) := by omega
        have a3' : (0xE0 + n / 4096) / 16 = 14 := by omega
        have a4 : (0xE0 + n / 4096) % 16 = n / 4096 := by omega
        have b1 : (0x80 + n / 64 % 64) % 256 = 0x80 + n / 64 % 64 := by omega
        have b2 : (0x80 + n / 64 % 64) / 64 = 2 := by omega
        have b3 : n / 4096 * 64 + (0x80 + n / 64 % 64) % 64 = n / 64 := by omega
        have c1 : (0x80 + n % 64) % 256 = 0x80 + n % 64 := by omega
        have c2 : (0x80 + n % 64) / 64 = 2 := by omega
        have c3 : n / 64 * 64 + (0x80 + n % 64) % 64 = n := by omega
        simp only [h1, h2, h3, if_true, if_false, List.cons_append, List.nil_append,
          List.foldl_cons, utf8Step, a1, a2, a3, a3', a4, b1, b2, b3, c1, c2, c3, hc,
          Nat.reduceSub, Nat.reduceEqDiff]
      · have a1 : (0xF0 + n / 262144) % 256 = 0xF0 + n / 262144 := by omega
        have a2 : ¬ (0xF0 + n / 262144 < 0x80) := by omega
        have a3 : ¬ ((0xF0 + n / 262144) / 32 = 6) := by omega
        have a3' : ¬ ((0xF0 + n / 262144) / 16 = 14) := by omega
        have a3'' : (0xF0 + n / 262144) / 8 = 30 := by omega
        have a4 : (0xF0 + n / 262144) % 8 = n / 262144 := by omega
        have b1 : (0x80 + n / 4096 % 64) % 256 = 0x80 + n / 4096 % 64 := by omega
        have b2 : (0x80 + n / 4096 % 64) / 64 = 2 := by omega
        have b3 : n / 262144 * 64 + (0x80 + n / 4096 % 64) % 64 = n / 4096 := by omega
        have c1 : (0x80 + n / 64 % 64) % 256 = 0x80 + n / 64 % 64 := by omega
        have c2 : (0x80 + n / 64 % 64) / 64 = 2 := by omega
        have c3 : n / 4096 * 64 + (0x80 + n / 64 % 64) % 64 = n / 64 := by omega
        have d1 : (0x80 + n % 64) % 256 = 0x80 + n % 64 := by omega
        have d2 : (0x80 + n % 64) / 64 = 2 := by omega
        have d3 : n / 64 * 64 + (0x80 + n % 64) % 64 = n := by omega
        simp only [h1, h2, h3, if_true, if_false, List.cons_append, List.nil_append,
          List.foldl_cons, utf8Step, a1, a2, a3, a3', a3'', a4, b1, b2, b3, c1, c2, c3,
          d1, d2, d3, hc, Nat.reduceSub, Nat.reduceEqDiff]

theorem utf8_foldl_chars (cs : List Char) (out : List Char) :
    (cs.flatMap (fun c => utf8EncodeChar c.toNat)).foldl utf8Step
        { out := out, need := 0, acc := 0 }
      = { out := cs.reverse ++ out, need := 0, acc := 0 } := by
  induction cs generalizing out with
  | nil => rfl
  | cons c cs ih =>
    rw [List.flatMap_cons, utf8Step_char, ih]
    simp

/-- The bytes of a Go string spell that string. -/
theorem bytesString_stringBytes (s : String) : bytesString (stringBytes s) = s := by
  unfold bytesString stringBytes
  rw [utf8_foldl_chars]
  simp

/-- Two strings with the same bytes are the same string. -/
theorem stringBytes_injective (s t : String) (h : stringBytes s = stringBytes t) : s = t := by
  rw [← bytesString_stringBytes s, h, bytesString_stringBytes]

/-- Only the empty string has no bytes. -/
theorem stringBytes_length_zero (s : String) (h : (stringBytes s).length = 0) : s = "" := by
  have h0 : stringBytes s = [] := List.length_eq_zero.mp h
  rw [← bytesString_stringBytes s, h0]
  rfl

/-! ## The wire format of `encoding/gob` -/

theorem setBytes_append_single (l : Bytes) (b : Nat) :
    setBytes (l ++ [b]) = setBytes l * 256 + b % 256 := by
  simp [setBytes, List.foldl_append]

/-- The big-endian bytes of a value that fits into `k` bytes are at most `k`,
none when the value is zero only, and they spell the value. -/
theorem bigEndian_spec (k : Nat) : ∀ x : Nat, x < 256 ^ k →
    setBytes (bigEndian k x) = x ∧ (bigEndian k x).length ≤ k ∧
      (0 < x → 0 < (bigEndian k x).length) := by
  induction k with
  | zero =>
    intro x hx
    have : x = 0 := by simpa using hx
    subst this
    exact ⟨rfl, Nat.le_refl _, fun h => absurd h (by decide)⟩
  | succ k ih =>
    intro x hx
    unfold bigEndian
    by_cases h0 : x = 0
    · subst h0
      simp [setBytes]
    · have hq : x / 256 < 256 ^ k := by
        rw [Nat.div_lt_iff_lt_mul (by decide)]
        rw [pow_succ] at hx
        exact hx
      obtain ⟨h1, h2, _⟩ := ih (x / 256) hq
      simp only [h0, if_false]
      refine ⟨?_, ?_, ?_⟩
      · rw [setBytes_append_single, h1]
        omega
      · simp only [List.length_append, List.length_singleton]
        omega
      · intro _
        simp only [List.length_append, List.length_singleton]
        omega

/-- What `encodeUint` writes, `decodeUint` reads back. -/
theorem gobDecodeUint_encode (x : Nat) (hx : x < 2 ^ 64) (rest : Bytes) :
    gobDecodeUint (gobEncodeUint x ++ rest) = some (x, rest) := by
  unfold gobEncodeUint
  by_cases h : x ≤ 0x7F
  · have e : x % 256 = x := by omega
    simp only [h, if_true, List.cons_append, List.nil_append, gobDecodeUint, e]
  · have hm : x % 2 ^ 64 = x := Nat.mod_eq_of_lt hx
    have h8 : x < 256 ^ 8 := by
      have : (256 : Nat) ^ 8 = 2 ^ 64 := by norm_num
      omega
    obtain ⟨h1, h2, h3⟩ := bigEndian_spec 8 x h8
    have hpos : 0 < (bigEndian 8 x).length := h3 (by omega)
    simp only [h, if_false, hm, List.cons_append, gobDecodeUint]
    generalize hl : (bigEndian 8 x).length = l at h2 hpos
    have m1 : (256 - l) % 256 = 256 - l := by omega
    have m2 : ¬ ((256 - l) ≤ 0x7F) := by omega
    have m3 : 256 - (256 - l) = l := by omega
    have m4 : ¬ (8 < l) := by omega
    have m5 : ¬ ((bigEndian 8 x ++ rest).length < l) := by
      simp only [List.length_append, hl]
      omega
    simp only [m1, m2, m3, m4, m5, if_false]
    rw [← hl, List.take_left, List.drop_left, h1]

/-- What `encodeInt` writes, `decodeInt` reads back. -/
theorem gobDecodeInt_encode (i : Int) (hlo : -(2 ^ 62) < i) (hhi : i < 2 ^ 62) (rest : Bytes) :
    gobDecodeInt (gobEncodeInt i ++ rest) = some (i, rest) := by
  unfold gobEncodeInt gobDecodeInt
  by_cases hneg : i < 0
  · simp only [hneg, if_true]
    rw [gobDecodeUint_encode _ (by omega)]
    have e1 : ((-i - 1).toNat * 2 + 1) % 2 = 1 := by omega
    have e2 : (((-i - 1).toNat * 2 + 1) / 2 : Nat) = (-i - 1).toNat := by omega
    simp only [e1, if_true, e2]
    congr 2
    omega
  · simp only [hneg, if_false]
    rw [gobDecodeUint_encode _ (by omega)]
    have e1 : ¬ ((i.toNat * 2) % 2 = 1) := by omega
    have e2 : ((i.toNat * 2) / 2 : Nat) = i.toNat := by omega
    simp only [e1, if_false, e2]
    congr 2
    omega

/-- The counted bytes that were written are read back, with what follows. -/
theorem gobDecodeCounted_encode (b rest : Bytes) (hb : b.length < gobTooBig) :
    gobDecodeCounted (gobEncodeCounted b ++ rest) = some (b, rest) := by
  unfold gobDecodeCounted gobEncodeCounted
  have h64 : b.length < 2 ^ 64 := by
    unfold gobTooBig at hb
    omega
  rw [List.append_assoc, gobDecodeUint_encode _ h64]
  have h1 : ¬ (gobTooBig ≤ b.length ∨ (b ++ rest).length < b.length) := by
    simp only [List.length_append]
    omega
  simp only [h1, if_false, List.take_left, List.drop_left]

set_option maxRecDepth 100000 in
/-- The type definition that the encoder sends for `SigningCertificate` is read
back as that type. -/
theorem gobDecodeWireType_signingCertificate :
    gobDecodeWireType (gobEncodeWireType signingCertificateType) = some signingCertificateType := by
  decide

theorem gobCompatible_signingCertificate :
    gobCompatible signingCertificateType.Field = true := by
  decide

theorem typeMessage_length :
    (gobEncodeInt (-gobFirstStructId) ++ gobEncodeWireType signingCertificateType).length = 74 := by
  decide

/-- The end mark ends a struct value. -/
theorem gobDecodeStruct_end (wire : List GobFieldType) (fuel : Nat) (last : Int) (rest : Bytes)
    (entry : SigningCertificate) :
    gobDecodeStruct wire (fuel + 1) last (0 :: rest) entry = some entry := by
  simp [gobDecodeStruct, gobDecodeUint]

/-- One field that was sent is read and stored. -/
theorem gobDecodeStruct_step (wire : List GobFieldType) (fuel : Nat) (last num : Int)
    (payload rest : Bytes) (f : GobFieldType) (entry : SigningCertificate)
    (hnum : last < num) (hd : num - last < 2 ^ 64) (hget : wire.get? num.toNat = some f)
    (hlen : payload.length < gobTooBig) :
    gobDecodeStruct wire (fuel + 1) last
        (gobEncodeUint (num - last).toNat ++ gobEncodeCounted payload ++ rest) entry
      = gobDecodeStruct wire fuel num rest (gobStoreField entry f.Name payload) := by
  rw [gobDecodeStruct, List.append_assoc, gobDecodeUint_encode _ (by omega)]
  have h0 : ¬ ((num - last).toNat = 0) := by omega
  have h1 : last + ((num - last).toNat : Int) = num := by omega
  simp only [h0, if_false, h1, hget, gobDecodeCounted_encode _ _ hlen]

/-- The fields of a struct value that were sent are read back one after the
other, each stored under the name that the type received gives its number. -/
theorem gobDecodeStruct_fields (wire : List GobFieldType) (hw : wire.length < 2 ^ 32)
    (fields : List (Int × Bytes)) :
    ∀ (last : Int) (entry : SigningCertificate) (fuel : Nat),
      -1 ≤ last →
      (∀ f ∈ fields, last < f.1 ∧ f.2.length < gobTooBig ∧ (wire.get? f.1.toNat).isSome) →
      (fields.map (fun f => f.1)).Pairwise (fun a b => a < b) →
      (gobEncodeFields last fields ++ [0]).length < fuel →
      gobDecodeStruct wire fuel last (gobEncodeFields last fields ++ [0]) entry
        = some (fields.foldl
            (fun e f =>
              if f.2.length = 0 then e
              else gobStoreField e (((wire.get? f.1.toNat).map (fun g => g.Name)).getD "") f.2)
            entry) := by
  induction fields with
  | nil =>
    intro last entry fuel _ _ _ hfuel
    obtain ⟨k, rfl⟩ : ∃ k, fuel = k + 1 := ⟨fuel - 1, by simp at hfuel; omega⟩
    exact gobDecodeStruct_end wire k last [] entry
  | cons f rest ih =>
    intro last entry fuel hlast hall hsorted hfuel
    obtain ⟨num, payload⟩ := f
    have hf := hall (num, payload) (List.mem_cons_self _ _)
    simp only [List.map_cons, List.pairwise_cons] at hsorted
    by_cases hp : payload.length = 0
    · simp only [gobEncodeFields, hp, if_true, List.foldl_cons] at hfuel ⊢
      exact ih last entry fuel hlast (fun g hg => hall g (List.mem_cons_of_mem _ hg)) hsorted.2
        hfuel
    · obtain ⟨g, hg⟩ := Option.isSome_iff_exists.mp hf.2.2
      have hnumlt : num.toNat < wire.length := by
        have := List.get?_eq_some.mp hg
        exact this.1
      simp only [gobEncodeFields, hp, if_false, List.foldl_cons, hg, Option.map_some',
        Option.getD_some] at hfuel ⊢
      obtain ⟨k, rfl⟩ : ∃ k, fuel = k + 1 := ⟨fuel - 1, by omega⟩
      rw [List.append_assoc, gobDecodeStruct_step wire k last num payload _ g entry hf.1
        (by omega) hg hf.2.1]
      apply ih num _ k (by omega)
      · intro g' hg'
        have h1 := hall g' (List.mem_cons_of_mem _ hg')
        refine ⟨?_, h1.2⟩
        exact hsorted.1 g'.1 (List.mem_map_of_mem _ hg')
      · exact hsorted.2
      · have : 0 < (gobEncodeUint (num - last).toNat).length := by
          unfold gobEncodeUint
          split <;> simp
        simp only [List.length_append] at hfuel ⊢
        omega

/-- No field is longer than the fields sent together. -/
theorem gobEncodeFields_length (fields : List (Int × Bytes)) :
    ∀ (last : Int), ∀ f ∈ fields, f.2.length ≤ (gobEncodeFields last fields).length := by
  induction fields with
  | nil => intro _ f hf; cases hf
  | cons g rest ih =>
    intro last f hf
    obtain ⟨num, payload⟩ := g
    by_cases hp : payload.length = 0
    · simp only [gobEncodeFields, hp, if_true]
      rcases List.mem_cons.mp hf with rfl | hmem
      · show payload.length ≤ _
        omega
      · exact ih last f hmem
    · simp only [gobEncodeFields, hp, if_false, List.length_append, gobEncodeCounted]
      rcases List.mem_cons.mp hf with rfl | hmem
      · show payload.length ≤ _
        omega
      · have := ih num f hmem
        omega

/-- The value message of an entry is read back as that entry. -/
theorem gobDecodeStruct_value (e : SigningCertificate)
    (hlen : (gobEncodeValue e).length < gobTooBig) (fuel : Nat)
    (hfuel : (gobEncodeFields (-1)
        [(0, stringBytes e.TenantID), (1, stringBytes e.KmsKeyID), (2, e.Certificate)]
          ++ [0]).length < fuel) :
    gobDecodeStruct signingCertificateType.Field fuel (-1)
        (gobEncodeFields (-1)
          [(0, stringBytes e.TenantID), (1, stringBytes e.KmsKeyID), (2, e.Certificate)] ++ [0])
        { TenantID := "", KmsKeyID := "", Certificate := [] }
      = some e := by
  have hb : ∀ f ∈ [((0 : Int), stringBytes e.TenantID), (1, stringBytes e.KmsKeyID),
      (2, e.Certificate)], f.2.length < gobTooBig := by
    intro f hf
    have h1 := gobEncodeFields_length _ (-1) f hf
    unfold gobEncodeValue at hlen
    simp only [List.length_append] at hlen
    omega
  have g0 : signingCertificateType.Field.get? (0 : Int).toNat
      = some { Name := "TenantID", Id := gobStringId } := rfl
  have g1 : signingCertificateType.Field.get? (1 : Int).toNat
      = some { Name := "KmsKeyID", Id := gobStringId } := rfl
  have g2 : signingCertificateType.Field.get? (2 : Int).toNat
      = some { Name := "Certificate", Id := gobBytesId } := rfl
  rw [gobDecodeStruct_fields signingCertificateType.Field (by decide) _ (-1) _ fuel
    (Int.le_refl _) ?_ ?_ hfuel]
  · simp only [List.foldl_cons, List.foldl_nil, g0, g1, g2, Option.map_some', Option.getD_some]
    obtain ⟨tid, kid, cert⟩ := e
    have c1 : tid = "" ∨ (stringBytes tid).length ≠ 0 := by
      by_cases h : (stringBytes tid).length = 0
      · exact Or.inl (stringBytes_length_zero _ h)
      · exact Or.inr h
    have c2 : kid = "" ∨ (stringBytes kid).length ≠ 0 := by
      by_cases h : (stringBytes kid).length = 0
      · exact Or.inl (stringBytes_length_zero _ h)
      · exact Or.inr h
    have c3 : cert = [] ∨ cert.length ≠ 0 := by
      by_cases h : cert.length = 0
      · exact Or.inl (List.length_eq_zero.mp h)
      · exact Or.inr h
    have s0 : stringBytes "" = [] := rfl
    rcases c1 with rfl | h1 <;> rcases c2 with rfl | h2 <;> rcases c3 with rfl | h3
      <;> simp [gobStoreField, bytesString_stringBytes, s0, *]
  · intro f hf
    refine ⟨?_, hb f hf, ?_⟩
    · simp only [List.mem_cons, List.mem_singleton, List.not_mem_nil, or_false] at hf
      rcases hf with rfl | rfl | rfl <;> simp
    · simp only [List.mem_cons, List.mem_singleton, List.not_mem_nil, or_false] at hf
      rcases hf with rfl | rfl | rfl <;> rfl
  · simp

/-- A successful `EncodeSigningCertificate` wrote the message that defines
the type and then the message that holds the entry, which is shorter than the
limit of `encoding/gob`. -/
theorem EncodeSigningCertificate_ok (e : SigningCertificate) (bs : Bytes)
    (h : EncodeSigningCertificate e = .ok bs) :
    (gobEncodeValue e).length < gobTooBig ∧
      bs = gobEncodeCounted
            (gobEncodeInt (-gobFirstStructId) ++ gobEncodeWireType signingCertificateType)
          ++ gobEncodeCounted (gobEncodeValue e) := by
  unfold EncodeSigningCertificate gobMessage at h
  rw [typeMessage_length] at h
  have h74 : ¬ (gobTooBig ≤ 74) := by decide
  simp only [h74, if_false] at h
  by_cases hv : gobTooBig ≤ (gobEncodeValue e).length
  · simp only [hv, if_true] at h
    cases h
  · simp only [hv, if_false, Except.ok.injEq] at h
    exact ⟨by omega, h.symm⟩

/-- An entry shorter than the limit of `encoding/gob` is encoded. -/
theorem EncodeSigningCertificate_of_short (e : SigningCertificate)
    (hv : (gobEncodeValue e).length < gobTooBig) :
    EncodeSigningCertificate e
      = .ok (gobEncodeCounted
            (gobEncodeInt (-gobFirstStructId) ++ gobEncodeWireType signingCertificateType)
          ++ gobEncodeCounted (gobEncodeValue e)) := by
  unfold EncodeSigningCertificate gobMessage
  rw [typeMessage_length]
  have h74 : ¬ (gobTooBig ≤ 74) := by decide
  have hv2 : ¬ (gobTooBig ≤ (gobEncodeValue e).length) := by omega
  simp only [h74, hv2, if_false]

/-- What `EncodeSigningCertificate` wrote, `DecodeSigningCertificate` reads
back as the entry that was written. -/
theorem DecodeSigningCertificate_encode (e : SigningCertificate) (bs : Bytes)
    (h : EncodeSigningCertificate e = .ok bs) : DecodeSigningCertificate bs = .ok e := by
  obtain ⟨hlen, rfl⟩ := EncodeSigningCertificate_ok e bs h
  unfold DecodeSigningCertificate
  have hpos : 0 < (gobEncodeCounted
      (gobEncodeInt (-gobFirstStructId) ++ gobEncodeWireType signingCertificateType)
        ++ gobEncodeCounted (gobEncodeValue e)).length := by
    have : 0 < (gobEncodeUint (gobEncodeInt (-gobFirstStructId)
        ++ gobEncodeWireType signingCertificateType).length).length := by
      unfold gobEncodeUint
      split <;> simp
    simp only [gobEncodeCounted, List.length_append] at this ⊢
    omega
  have hfuel : ∃ k, (gobEncodeCounted
      (gobEncodeInt (-gobFirstStructId) ++ gobEncodeWireType signingCertificateType)
        ++ gobEncodeCounted (gobEncodeValue e)).length + 1 = k + 2 :=
    ⟨(gobEncodeCounted
      (gobEncodeInt (-gobFirstStructId) ++ gobEncodeWireType signingCertificateType)
        ++ gobEncodeCounted (gobEncodeValue e)).length - 1, by omega⟩
  obtain ⟨k, hk⟩ := hfuel
  rw [hk, gobDecodeMessages, gobDecodeCounted_encode _ _ (by rw [typeMessage_length]; decide)]
  simp only []
  rw [gobDecodeInt_encode _ (by decide) (by decide)]
  have hid : ((-gobFirstStructId) < 0) := by decide
  have hdup : ¬ (-(-gobFirstStructId) < 64 ∨
      (([] : List (Int × GobStructType)).find? (fun t => t.1 = -(-gobFirstStructId))).isSome) := by
    decide
  simp only [hid, if_true, hdup, if_false, gobDecodeWireType_signingCertificate]
  rw [gobDecodeMessages]
  have happ : gobEncodeCounted (gobEncodeValue e) = gobEncodeCounted (gobEncodeValue e) ++ [] :=
    (List.append_nil _).symm
  rw [happ, gobDecodeCounted_encode _ _ hlen]
  simp only []
  unfold gobEncodeValue
  rw [List.append_assoc, gobDecodeInt_encode _ (by decide) (by decide)]
  have hpos : ¬ (gobFirstStructId < 0) := by decide
  have hfind : ([] ++ [(-(-gobFirstStructId), signingCertificateType)]).find?
      (fun t => t.1 = gobFirstStructId) = some (gobFirstStructId, signingCertificateType) := by
    decide
  simp only [hpos, if_false, hfind, gobCompatible_signingCertificate, if_true]
  rw [gobDecodeStruct_value e hlen _ (Nat.lt_succ_self _)]

/-! ## The signing certificate that issues a device certificate -/

/-- A successful `generateDeviceCertificate` bundles the certificate that
signed the device certificate, followed by the root certificate. -/
theorem local_generate_bundle (lib : Lib) (p : LocalProvider σ)
    (tenantID deviceID : String) (parsedCSR : CertificateRequest) (w w' : World σ κ)
    (r : DeviceCertResult)
    (h : p.generateDeviceCertificate lib tenantID deviceID parsedCSR w = (r, w'))
    (hok : r.err = none) :
    ∃ (tpl signing : Certificate) (key : RSAPrivateKey),
      lib.CreateCertificate tpl signing parsedCSR.PublicKey key = .ok r.deviceCert ∧
      lib.DegenerateCertificate (signing.Raw ++ p.caCertBytes) = .ok r.parentCerts := by
  unfold LocalProvider.generateDeviceCertificate at h
  dsimp only at h
  split at h
  · rw [failDevice_err _ _ _ _ h] at hok
    cases hok
  · rename_i found w1 hl
    split at h
    · rw [failDevice_err _ _ _ _ h] at hok
      cases hok
    · rename_i tpl w2 ht
      split at h
      · rw [failDevice_err _ _ _ _ h] at hok
        cases hok
      · rename_i der hc
        split at h
        · rw [failDevice_err _ _ _ _ h] at hok
          cases hok
        · rename_i bundle hb
          simp only [Prod.mk.injEq] at h
          obtain ⟨rfl, rfl⟩ := h
          exact ⟨tpl, _, _, hc, hb⟩

/-- A successful `AwsKmsProvider.CreateDeviceCertificate` bundles the root
certificate, followed by the certificate that signed the device certificate. -/
theorem aws_create_bundle (lib : Lib) (p : AwsKmsProvider σ κ)
    (tenantID : String) (deviceCSR : Option Bytes) (w w' : World σ κ) (r : DeviceCertResult)
    (h : p.CreateDeviceCertificate lib tenantID deviceCSR w = (r, w')) (hok : r.err = none) :
    ∃ (parsedCSR : CertificateRequest) (tpl signing : Certificate) (signer : KMSSigner)
      (w3 w4 : World σ κ),
      createCertificateWithSigner lib p.client tpl signing parsedCSR.PublicKey signer w3
        = (.ok r.deviceCert, w4) ∧
      lib.DegenerateCertificate (p.caCertBytes ++ signing.Raw) = .ok r.parentCerts := by
  unfold AwsKmsProvider.CreateDeviceCertificate at h
  split at h
  · rw [failDevice_err _ _ _ _ h] at hok
    cases hok
  · rename_i b
    split at h
    · rw [failDevice_err _ _ _ _ h] at hok
      cases hok
    · split at h
      · rw [failDevice_err _ _ _ _ h] at hok
        cases hok
      · rename_i parsedCSR hp
        dsimp only at h
        split at h
        · rw [failDevice_err _ _ _ _ h] at hok
          cases hok
        · rename_i certEntry w1 hf
          split at h
          · rw [failDevice_err _ _ _ _ h] at hok
            cases hok
          · rename_i tenantSigningCert hpc
            split at h
            · rw [failDevice_err _ _ _ _ h] at hok
              cases hok
            · rename_i tpl w2 ht
              split at h
              · rw [failDevice_err _ _ _ _ h] at hok
                cases hok
              · rename_i signer w3 hs
                split at h
                · rw [failDevice_err _ _ _ _ h] at hok
                  cases hok
                · rename_i der w4 hc
                  split at h
                  · rw [failDevice_err _ _ _ _ h] at hok
                    cases hok
                  · rename_i bundle hb
                    simp only [Prod.mk.injEq] at h
                    obtain ⟨rfl, rfl⟩ := h
                    exact ⟨parsedCSR, tpl, tenantSigningCert, signer, w3, _, hc, hb⟩

/-- A successful `AwsKmsProvider.RenewDeviceCertificate` bundles the
certificate that signed the device certificate, followed by the root
certificate. -/
theorem aws_renew_bundle (lib : Lib) (p : AwsKmsProvider σ κ)
    (tenantID deviceID : String) (deviceCSR : Option Bytes) (w w' : World σ κ)
    (r : DeviceCertResult)
    (h : p.RenewDeviceCertificate lib tenantID deviceID deviceCSR w = (r, w'))
    (hok : r.err = none) :
    ∃ (parsedCSR : CertificateRequest) (tpl signing : Certificate) (signer : KMSSigner)
      (w3 w4 : World σ κ),
      createCertificateWithSigner lib p.client tpl signing parsedCSR.PublicKey signer w3
        = (.ok r.deviceCert, w4) ∧
      lib.DegenerateCertificate (signing.Raw ++ p.caCertBytes) = .ok r.parentCerts := by
  unfold AwsKmsProvider.RenewDeviceCertificate at h
  split at h
  · rw [failDevice_err _ _ _ _ h] at hok
    cases hok
  · rename_i b
    split at h
    · rw [failDevice_err _ _ _ _ h] at hok
      cases hok
    · split at h
      · rw [failDevice_err _ _ _ _ h] at hok
        cases hok
      · rename_i parsedCSR hp
        dsimp only at h
        split at h
        · rw [failDevice_err _ _ _ _ h] at hok
          cases hok
        · rename_i certEntry w1 hf
          split at h
          · rw [failDevice_err _ _ _ _ h] at hok
            cases hok
          · rename_i tenantSigningCert hpc
            split at h
            · rw [failDevice_err _ _ _ _ h] at hok
              cases hok
            · rename_i tpl w2 ht
              split at h
              · rw [failDevice_err _ _ _ _ h] at hok
                cases hok
              · rename_i signer w3 hs
                split at h
                · rw [failDevice_err _ _ _ _ h] at hok
                  cases hok
                · rename_i der w4 hc
                  split at h
                  · rw [failDevice_err _ _ _ _ h] at hok
                    cases hok
                  · rename_i bundle hb
                    simp only [Prod.mk.injEq] at h
                    obtain ⟨rfl, rfl⟩ := h
                    exact ⟨parsedCSR, tpl, tenantSigningCert, signer, w3, _, hc, hb⟩

/-- With per-tenant signing disabled the local provider asks the store for
nothing and signs with the common signing certificate and its key. -/
theorem local_generate_common_when_disabled (lib : Lib) (p : LocalProvider σ)
    (tenantID deviceID : String) (parsedCSR : CertificateRequest) (w w' : World σ κ)
    (r : DeviceCertResult) (hflag : p.perTenantSigningEnabled = false)
    (h : p.generateDeviceCertificate lib tenantID deviceID parsedCSR w = (r, w'))
    (hok : r.err = none) :
    w'.storeCalls = w.storeCalls ∧
    ∃ (tpl : Certificate) (w2 : World σ κ),
      NewDeviceCertificateTemplate tenantID deviceID parsedCSR w = (.ok tpl, w2) ∧
      lib.CreateCertificate tpl p.commonSigningCert parsedCSR.PublicKey p.commonSigningCertPkey
        = .ok r.deviceCert ∧
      lib.DegenerateCertificate (p.commonSigningCert.Raw ++ p.caCertBytes)
        = .ok r.parentCerts := by
  unfold LocalProvider.generateDeviceCertificate at h
  simp only [hflag, Bool.false_eq_true, if_false] at h
  split at h
  · rw [failDevice_err _ _ _ _ h] at hok
    cases hok
  · rename_i tpl w2 ht
    split at h
    · rw [failDevice_err _ _ _ _ h] at hok
      cases hok
    · rename_i der hc
      split at h
      · rw [failDevice_err _ _ _ _ h] at hok
        cases hok
      · rename_i bundle hb
        simp only [Prod.mk.injEq] at h
        obtain ⟨rfl, rfl⟩ := h
        refine ⟨?_, tpl, w2, ht, hc, hb⟩
        have hw := NewDeviceCertificateTemplate_world tenantID deviceID parsedCSR w
        rw [ht] at hw
        simp only at hw
        rw [hw]

/-- With per-tenant signing disabled, `CreateDeviceCertificate` and
`RenewDeviceCertificate` of the local provider sign with the common signing
certificate and its key for every tenant and never ask the store. -/
theorem local_common_when_disabled (lib : Lib) (p : LocalProvider σ)
    (tenantID deviceID : String) (deviceCSR : Option Bytes) (w : World σ κ)
    (hflag : p.perTenantSigningEnabled = false) :
    (∀ r w', p.CreateDeviceCertificate lib tenantID deviceCSR w = (r, w') → r.err = none →
      w'.storeCalls = w.storeCalls ∧
      ∃ (parsedCSR : CertificateRequest) (tpl : Certificate),
        lib.CreateCertificate tpl p.commonSigningCert parsedCSR.PublicKey
          p.commonSigningCertPkey = .ok r.deviceCert) ∧
    (∀ r w', p.RenewDeviceCertificate lib tenantID deviceID deviceCSR w = (r, w') →
      r.err = none →
      w'.storeCalls = w.storeCalls ∧
      ∃ (parsedCSR : CertificateRequest) (tpl : Certificate),
        lib.CreateCertificate tpl p.commonSigningCert parsedCSR.PublicKey
          p.commonSigningCertPkey = .ok r.deviceCert) := by
  constructor
  · intro r w' h hok
    obtain ⟨b, parsedCSR, _, _, hg⟩ := local_create_ok lib p tenantID deviceCSR w w' r h hok
    obtain ⟨hs, tpl, _, _, hc, _⟩ :=
      local_generate_common_when_disabled lib p tenantID _ parsedCSR _ w' r hflag hg hok
    exact ⟨hs, parsedCSR, tpl, hc⟩
  · intro r w' h hok
    obtain ⟨b, parsedCSR, _, _, hg⟩ :=
      local_renew_ok lib p tenantID deviceID deviceCSR w w' r h hok
    obtain ⟨hs, tpl, _, _, hc, _⟩ :=
      local_generate_common_when_disabled lib p tenantID _ parsedCSR _ w' r hflag hg hok
    exact ⟨hs, parsedCSR, tpl, hc⟩

/-- The lookup of the AWS provider when the store returns an entry. -/
theorem storeGetCertificate_ok (store : CertStore σ) (certID : String) (w : World σ κ)
    (e : SigningCertificate) (s' : σ) (h : store.GetCertificate w.store certID = (.ok e, s')) :
    storeGetCertificate store certID w
      = (.ok e, { w with store := s', storeCalls := w.storeCalls ++ [.GetCertificate certID] }) := by
  unfold storeGetCertificate
  rw [h]

/-- Claim C11 at the AWS provider. `AwsKmsProvider` has no field for
`per_tenant_signing`. Whenever the store returns an entry for the tenant,
a successful `CreateDeviceCertificate` or `RenewDeviceCertificate` of the AWS
provider builds its signer for the key id of that entry and signs under the
certificate of that entry; the common signing entry is not used. -/
theorem per_tenant_signing_ignored_by_aws (lib : Lib) (p : AwsKmsProvider σ κ)
    (tenantID deviceID : String) (deviceCSR : Option Bytes) (w : World σ κ)
    (certEntry : SigningCertificate) (s' : σ)
    (hget : p.store.GetCertificate w.store tenantID = (.ok certEntry, s')) :
    (∀ r w', p.CreateDeviceCertificate lib tenantID deviceCSR w = (r, w') → r.err = none →
      ∃ (parsedCSR : CertificateRequest) (tpl signing : Certificate) (signer : KMSSigner)
        (w2 w3 w4 : World σ κ),
        lib.ParseCertificate certEntry.Certificate = .ok signing ∧
        newKMSSigner lib p.client certEntry.KmsKeyID w2 = (.ok signer, w3) ∧
        createCertificateWithSigner lib p.client tpl signing parsedCSR.PublicKey signer w3
          = (.ok r.deviceCert, w4)) ∧
    (∀ r w', p.RenewDeviceCertificate lib tenantID deviceID deviceCSR w = (r, w') →
      r.err = none →
      ∃ (parsedCSR : CertificateRequest) (tpl signing : Certificate) (signer : KMSSigner)
        (w2 w3 w4 : World σ κ),
        lib.ParseCertificate certEntry.Certificate = .ok signing ∧
        newKMSSigner lib p.client certEntry.KmsKeyID w2 = (.ok signer, w3) ∧
        createCertificateWithSigner lib p.client tpl signing parsedCSR.PublicKey signer w3
          = (.ok r.deviceCert, w4)) := by
  have hstore := storeGetCertificate_ok p.store tenantID w certEntry s' hget
  constructor
  · intro r w' h hok
    unfold AwsKmsProvider.CreateDeviceCertificate at h
    split at h
    · rw [failDevice_err _ _ _ _ h] at hok
      cases hok
    · rename_i b
      split at h
      · rw [failDevice_err _ _ _ _ h] at hok
        cases hok
      · split at h
        · rw [failDevice_err _ _ _ _ h] at hok
          cases hok
        · rename_i parsedCSR hp
          rw [hstore] at h
          dsimp only at h
          split at h
          · rw [failDevice_err _ _ _ _ h] at hok
            cases hok
          · rename_i tenantSigningCert hpc
            split at h
            · rw [failDevice_err _ _ _ _ h] at hok
              cases hok
            · rename_i tpl w2 ht
              split at h
              · rw [failDevice_err _ _ _ _ h] at hok
                cases hok
              · rename_i signer w3 hs
                split at h
                · rw [failDevice_err _ _ _ _ h] at hok
                  cases hok
                · rename_i der w4 hc
                  split at h
                  · rw [failDevice_err _ _ _ _ h] at hok
                    cases hok
                  · simp only [Prod.mk.injEq] at h
                    obtain ⟨rfl, rfl⟩ := h
                    exact ⟨parsedCSR, tpl, tenantSigningCert, signer, w2, w3, _, hpc, hs, hc⟩
  · intro r w' h hok
    unfold AwsKmsProvider.RenewDeviceCertificate at h
    split at h
    · rw [failDevice_err _ _ _ _ h] at hok
      cases hok
    · rename_i b
      split at h
      · rw [failDevice_err _ _ _ _ h] at hok
        cases hok
      · split at h
        · rw [failDevice_err _ _ _ _ h] at hok
          cases hok
        · rename_i parsedCSR hp
          rw [hstore] at h
          dsimp only at h
          split at h
          · rw [failDevice_err _ _ _ _ h] at hok
            cases hok
          · rename_i tenantSigningCert hpc
            split at h
            · rw [failDevice_err _ _ _ _ h] at hok
              cases hok
            · rename_i tpl w2 ht
              split at h
              · rw [failDevice_err _ _ _ _ h] at hok
                cases hok
              · rename_i signer w3 hs
                split at h
                · rw [failDevice_err _ _ _ _ h] at hok
                  cases hok
                · rename_i der w4 hc
                  split at h
                  · rw [failDevice_err _ _ _ _ h] at hok
                    cases hok
                  · simp only [Prod.mk.injEq] at h
                    obtain ⟨rfl, rfl⟩ := h
                    exact ⟨parsedCSR, tpl, tenantSigningCert, signer, w2, w3, _, hpc, hs, hc⟩

set_option maxRecDepth 100000 in
/-- Runs of the AWS provider over a store that holds an entry of its own for
tenant `t1` (key `key-t1`, certificate `[48, 11]`) beside the common entry
(key `key-common`, certificate `[48, 7]`). -/
theorem demo_aws_dedicated :
    (demoAwsProvider.CreateDeviceCertificate demoLib "t1" (some [48, 1])
        demoDedicatedWorld).1.err = none ∧
    (demoAwsProvider.CreateDeviceCertificate demoLib "t1" (some [48, 1])
        demoDedicatedWorld).2.storeCalls = [.GetCertificate "t1"] ∧
    (demoAwsProvider.CreateDeviceCertificate demoLib "t1" (some [48, 1])
        demoDedicatedWorld).2.kmsCalls
      = [.GetPublicKey "key-t1", .Sign "key-t1" [32, 48, 11]] ∧
    (demoAwsProvider.CreateDeviceCertificate demoLib "t1" (some [48, 1])
        demoDedicatedWorld).1.parentCerts = [48, 128, 48, 9, 48, 11] ∧
    (demoAwsProvider.RenewDeviceCertificate demoLib "t1" "d1" (some [48, 1])
        demoDedicatedWorld).1.err = none ∧
    (demoAwsProvider.RenewDeviceCertificate demoLib "t1" "d1" (some [48, 1])
        demoDedicatedWorld).2.kmsCalls
      = [.GetPublicKey "key-t1", .Sign "key-t1" [32, 48, 11]] ∧
    (demoAwsProvider.RenewDeviceCertificate demoLib "t1" "d1" (some [48, 1])
        demoDedicatedWorld).1.parentCerts = [48, 128, 48, 11, 48, 9] ∧
    demoAwsProvider.commonSigningCert.KmsKeyID = "key-common" := by
  decide

/-- Claim C11 at the AWS provider over a store that holds an entry of its own
for tenant `t1` (key `key-t1`) beside the common entry (key `key-common`):
the creation for `t1` succeeds, the only KMS calls fetch the public key of
`key-t1` and sign with `key-t1`, and the signer was built for `key-t1`. -/
theorem per_tenant_signing_ignored_by_aws_witness :
    (demoAwsProvider.CreateDeviceCertificate demoLib "t1" (some [48, 1])
        demoDedicatedWorld).1.err = none ∧
    (demoAwsProvider.CreateDeviceCertificate demoLib "t1" (some [48, 1])
        demoDedicatedWorld).2.kmsCalls
      = [.GetPublicKey "key-t1", .Sign "key-t1" [32, 48, 11]] ∧
    demoAwsProvider.commonSigningCert.KmsKeyID = "key-common" ∧
    (∃ (parsedCSR : CertificateRequest) (tpl signing : Certificate) (signer : KMSSigner)
      (w2 w3 w4 : World (List SigningCertificate) Unit),
      demoLib.ParseCertificate demoTenantEntry.Certificate = .ok signing ∧
      newKMSSigner demoLib demoAwsProvider.client demoTenantEntry.KmsKeyID w2
        = (.ok signer, w3) ∧
      createCertificateWithSigner demoLib demoAwsProvider.client tpl signing
          parsedCSR.PublicKey signer w3
        = (.ok (demoAwsProvider.CreateDeviceCertificate demoLib "t1" (some [48, 1])
            demoDedicatedWorld).1.deviceCert, w4)) :=
  ⟨demo_aws_dedicated.1, demo_aws_dedicated.2.2.1, rfl,
    (per_tenant_signing_ignored_by_aws demoLib demoAwsProvider "t1" "d1" (some [48, 1])
      demoDedicatedWorld demoTenantEntry [demoTenantEntry] rfl).1 _ _ (pair_eta _)
        demo_aws_dedicated.1⟩

/-- In each of the four paths that issue a device certificate, the bytes
handed to `pkcs7.DegenerateCertificate` are the `Raw` bytes of the certificate
that signed the device certificate and the field `caCertBytes` of the
provider: in the local provider, for create and for renew, and in the renew
path of the AWS provider, the signing certificate first; in the create path of
the AWS provider the field `caCertBytes` first. -/
theorem parent_bundle_bytes (lib : Lib) (lp : LocalProvider σ) (ap : AwsKmsProvider σ κ)
    (tenantID deviceID : String) (deviceCSR : Option Bytes) (w : World σ κ) :
    (∀ r w', lp.CreateDeviceCertificate lib tenantID deviceCSR w = (r, w') → r.err = none →
      ∃ (parsedCSR : CertificateRequest) (tpl signing : Certificate) (key : RSAPrivateKey),
        lib.CreateCertificate tpl signing parsedCSR.PublicKey key = .ok r.deviceCert ∧
        lib.DegenerateCertificate (signing.Raw ++ lp.caCertBytes) = .ok r.parentCerts) ∧
    (∀ r w', lp.RenewDeviceCertificate lib tenantID deviceID deviceCSR w = (r, w') →
      r.err = none →
      ∃ (parsedCSR : CertificateRequest) (tpl signing : Certificate) (key : RSAPrivateKey),
        lib.CreateCertificate tpl signing parsedCSR.PublicKey key = .ok r.deviceCert ∧
        lib.DegenerateCertificate (signing.Raw ++ lp.caCertBytes) = .ok r.parentCerts) ∧
    (∀ r w', ap.RenewDeviceCertificate lib tenantID deviceID deviceCSR w = (r, w') →
      r.err = none →
      ∃ (parsedCSR : CertificateRequest) (tpl signing : Certificate) (signer : KMSSigner)
        (w3 w4 : World σ κ),
        createCertificateWithSigner lib ap.client tpl signing parsedCSR.PublicKey signer w3
          = (.ok r.deviceCert, w4) ∧
        lib.DegenerateCertificate (signing.Raw ++ ap.caCertBytes) = .ok r.parentCerts) ∧
    (∀ r w', ap.CreateDeviceCertificate lib tenantID deviceCSR w = (r, w') → r.err = none →
      ∃ (parsedCSR : CertificateRequest) (tpl signing : Certificate) (signer : KMSSigner)
        (w3 w4 : World σ κ),
        createCertificateWithSigner lib ap.client tpl signing parsedCSR.PublicKey signer w3
          = (.ok r.deviceCert, w4) ∧
        lib.DegenerateCertificate (ap.caCertBytes ++ signing.Raw) = .ok r.parentCerts) := by
  refine ⟨?_, ?_, ?_, ?_⟩
  · intro r w' h hok
    obtain ⟨b, parsedCSR, _, _, hg⟩ := local_create_ok lib lp tenantID deviceCSR w w' r h hok
    obtain ⟨tpl, signing, key, hc, hb⟩ :=
      local_generate_bundle lib lp tenantID _ parsedCSR _ w' r hg hok
    exact ⟨parsedCSR, tpl, signing, key, hc, hb⟩
  · intro r w' h hok
    obtain ⟨b, parsedCSR, _, _, hg⟩ :=
      local_renew_ok lib lp tenantID deviceID deviceCSR w w' r h hok
    obtain ⟨tpl, signing, key, hc, hb⟩ :=
      local_generate_bundle lib lp tenantID _ parsedCSR _ w' r hg hok
    exact ⟨parsedCSR, tpl, signing, key, hc, hb⟩
  · intro r w' h hok
    exact aws_renew_bundle lib ap tenantID deviceID deviceCSR w w' r h hok
  · intro r w' h hok
    exact aws_create_bundle lib ap tenantID deviceCSR w w' r h hok

set_option maxRecDepth 100000 in
theorem demo_aws_renew :
    (demoAwsProvider.RenewDeviceCertificate demoLib "t1" "d1" (some [48, 1])
        demoServiceWorld).1 =
      { deviceID := "d1", deviceCert := [48, 131, 0, 32, 48, 7],
        parentCerts := [48, 128, 48, 7, 48, 9], expiresAt := 31536000000000000,
        err := none } := by
  decide

set_option maxRecDepth 100000 in
theorem demo_local_create :
    ((demoLocalProvider memStore).CreateDeviceCertificate demoLib "t1" (some [48, 1])
        demoServiceWorld).1 =
      { deviceID := "7c9e6679-7425-40de-944b-e07fc1f90ae7", deviceCert := [48, 130, 48, 7],
        parentCerts := [48, 128, 48, 7, 48, 9], expiresAt := 31536000000000000,
        err := none } := by
  decide

/-- The four paths in the world at rest, tenant `t1`, an RSA CSR, over
providers whose field `caCertBytes` is `[48, 9]`, common signing certificate
`[48, 7]`: the bundle returned (the bytes handed over after the mark
`[48, 128]` of the demonstration library) is `[48, 7, 48, 9]` in the local
provider and in the renew path of the AWS provider, and `[48, 9, 48, 7]` in
the create path of the AWS provider. -/
theorem demo_parent_bundle_bytes :
    ((demoLocalProvider memStore).CreateDeviceCertificate demoLib "t1" (some [48, 1])
        demoServiceWorld).1.parentCerts = [48, 128, 48, 7, 48, 9] ∧
    (demoAwsProvider.RenewDeviceCertificate demoLib "t1" "d1" (some [48, 1])
        demoServiceWorld).1.parentCerts = [48, 128, 48, 7, 48, 9] ∧
    (demoAwsProvider.CreateDeviceCertificate demoLib "t1" (some [48, 1])
        demoServiceWorld).1.parentCerts = [48, 128, 48, 9, 48, 7] ∧
    (∃ (parsedCSR : CertificateRequest) (tpl signing : Certificate) (signer : KMSSigner)
      (w3 w4 : World (List SigningCertificate) Unit),
      createCertificateWithSigner demoLib demoAwsProvider.client tpl signing
          parsedCSR.PublicKey signer w3
        = (.ok (demoAwsProvider.CreateDeviceCertificate demoLib "t1" (some [48, 1])
            demoServiceWorld).1.deviceCert, w4) ∧
      demoLib.DegenerateCertificate (demoAwsProvider.caCertBytes ++ signing.Raw)
        = .ok (demoAwsProvider.CreateDeviceCertificate demoLib "t1" (some [48, 1])
            demoServiceWorld).1.parentCerts) :=
  have hok : (demoAwsProvider.CreateDeviceCertificate demoLib "t1" (some [48, 1])
      demoServiceWorld).1.err = none := by rw [demo_aws_create]
  ⟨by rw [demo_local_create], by rw [demo_aws_renew], by rw [demo_aws_create],
    (parent_bundle_bytes demoLib (demoLocalProvider memStore) demoAwsProvider "t1" "d1"
      (some [48, 1]) demoServiceWorld).2.2.2 _ _ (pair_eta _) hok⟩

/-! ## Tenant signing certificates -/

theorem NewTenantSigningCertificateTemplate_world (tenantID tenantName : String)
    (w : World σ κ) :
    (NewTenantSigningCertificateTemplate tenantID tenantName w).2 =
      { w with clockReads := w.clockReads + 1 + 1, randPos := w.randPos + 17 } := by
  unfold NewTenantSigningCertificateTemplate
  dsimp only
  have hw := NewSerialNumber_world (timeNow (timeNow w).2).2
  cases hs : NewSerialNumber (timeNow (timeNow w).2).2 with
  | mk r w3 =>
    rw [hs] at hw
    cases r <;> exact hw

/-- The tenant template carries no subject key id. -/
theorem tenant_template_subjectKeyId (tenantID tenantName : String) (w w' : World σ κ)
    (tpl : Certificate)
    (h : NewTenantSigningCertificateTemplate tenantID tenantName w = (.ok tpl, w')) :
    tpl.SubjectKeyId = [] := by
  obtain ⟨n, _, rfl⟩ := NewTenantSigningCertificateTemplate_ok tenantID tenantName w w' tpl h
  rfl

/-- What a template builder leaves alone: the store, the record of its calls,
the KMS, the record of its calls, and the files. -/
theorem tenant_template_frame (tenantID tenantName : String) (w w' : World σ κ)
    (r : Except Error Certificate)
    (h : NewTenantSigningCertificateTemplate tenantID tenantName w = (r, w')) :
    w'.store = w.store ∧ w'.storeCalls = w.storeCalls ∧ w'.kms = w.kms ∧
      w'.kmsCalls = w.kmsCalls ∧ w'.files = w.files := by
  have hw := NewTenantSigningCertificateTemplate_world tenantID tenantName w
  rw [h] at hw
  simp only at hw
  subst hw
  exact ⟨rfl, rfl, rfl, rfl, rfl⟩

/-- Storing a key file leaves the store and the record of its calls alone. -/
theorem storeTenantKey_frame (lib : Lib) (tenantID : String) (key : RSAPrivateKey)
    (w : World σ κ) :
    (storeTenantSigningCertificatePrivateKey lib tenantID key w).2.store = w.store ∧
      (storeTenantSigningCertificatePrivateKey lib tenantID key w).2.storeCalls
        = w.storeCalls := by
  unfold storeTenantSigningCertificatePrivateKey EncodeAndStorePrivateKey osOpenFileTrunc
  cases w.fileErrors (lib.filepathClean (tenantID ++ ".key")) <;>
    cases lib.MarshalPKCS1PrivateKey key <;> exact ⟨rfl, rfl⟩

/-- A run of `LocalProvider.CreateTenantSigningCertificate` either returns an
error without a call of the store, or it generated a key, built the template,
signed it under the root certificate with the root key, stored the key file
and called `AddCertificate` once, with the entry that holds the signed bytes,
and returns what that call decided. -/
theorem local_tenant_create_run (lib : Lib) (p : LocalProvider σ)
    (tenantID tenantName : String) (w w' : World σ κ) (r : Except Error String)
    (h : p.CreateTenantSigningCertificate lib tenantID tenantName w = (r, w')) :
    ((∃ err, r = .error err) ∧ w'.store = w.store ∧ w'.storeCalls = w.storeCalls) ∨
    ∃ (key : RSAPrivateKey) (tpl : Certificate) (der : Bytes) (w1 w2 w3 : World σ κ),
      rsaGenerateKey lib KeySize w = (.ok key, w1) ∧
      NewTenantSigningCertificateTemplate tenantID tenantName w1 = (.ok tpl, w2) ∧
      lib.CreateCertificate tpl p.caCert (some key.PublicKey) p.caPrivateKey = .ok der ∧
      storeTenantSigningCertificatePrivateKey lib tenantID key w2 = (none, w3) ∧
      w3.store = w.store ∧ w3.storeCalls = w.storeCalls ∧
      w' = (storeAddCertificate p.store
        { Certificate := der, TenantID := tenantID, KmsKeyID := "" } w3).2 ∧
      ((∃ err, (storeAddCertificate p.store
            { Certificate := der, TenantID := tenantID, KmsKeyID := "" } w3).1 = some err ∧
          r = .error err) ∨
        ((storeAddCertificate p.store
            { Certificate := der, TenantID := tenantID, KmsKeyID := "" } w3).1 = none ∧
          r = .ok (bytesString tpl.SubjectKeyId))) := by
  unfold LocalProvider.CreateTenantSigningCertificate at h
  split at h
  · rename_i err w1 hk
    simp only [Prod.mk.injEq] at h
    obtain ⟨rfl, rfl⟩ := h
    left
    unfold rsaGenerateKey at hk
    simp only [Prod.mk.injEq] at hk
    obtain ⟨_, rfl⟩ := hk
    exact ⟨⟨err, rfl⟩, rfl, rfl⟩
  · rename_i key w1 hk
    have hk1 : w1.store = w.store ∧ w1.storeCalls = w.storeCalls := by
      unfold rsaGenerateKey at hk
      simp only [Prod.mk.injEq] at hk
      obtain ⟨_, rfl⟩ := hk
      exact ⟨rfl, rfl⟩
    split at h
    · rename_i err w2 ht
      simp only [Prod.mk.injEq] at h
      obtain ⟨rfl, rfl⟩ := h
      left
      obtain ⟨h1, h2, _⟩ := tenant_template_frame _ _ _ _ _ ht
      exact ⟨⟨err, rfl⟩, h1.trans hk1.1, h2.trans hk1.2⟩
    · rename_i tpl w2 ht
      obtain ⟨h1, h2, _⟩ := tenant_template_frame _ _ _ _ _ ht
      split at h
      · rename_i err hc
        simp only [Prod.mk.injEq] at h
        obtain ⟨rfl, rfl⟩ := h
        left
        exact ⟨⟨err, rfl⟩, h1.trans hk1.1, h2.trans hk1.2⟩
      · rename_i der hc
        have hf := storeTenantKey_frame lib tenantID key w2
        split at h
        · rename_i err w3 hs
          simp only [Prod.mk.injEq] at h
          obtain ⟨rfl, rfl⟩ := h
          left
          rw [hs] at hf
          exact ⟨⟨err, rfl⟩, hf.1.trans (h1.trans hk1.1), hf.2.trans (h2.trans hk1.2)⟩
        · rename_i w3 hs
          rw [hs] at hf
          right
          refine ⟨key, tpl, der, w1, w2, w3, hk, ht, hc, hs, hf.1.trans (h1.trans hk1.1),
            hf.2.trans (h2.trans hk1.2), ?_, ?_⟩
          · split at h
            · rename_i err w4 ha
              simp only [Prod.mk.injEq] at h
              rw [ha]
              exact h.2.symm
            · rename_i w4 ha
              simp only [Prod.mk.injEq] at h
              rw [ha]
              exact h.2.symm
          · split at h
            · rename_i err w4 ha
              simp only [Prod.mk.injEq] at h
              left
              exact ⟨err, by rw [ha], h.1.symm⟩
            · rename_i w4 ha
              simp only [Prod.mk.injEq] at h
              right
              exact ⟨by rw [ha], h.1.symm⟩

/-- The world after `newKMSSigner` is the world after its call of
`GetPublicKey`. -/
theorem newKMSSigner_world (lib : Lib) (client : KMSClient κ) (keyID : String)
    (w : World σ κ) :
    (newKMSSigner lib client keyID w).2 = (kmsGetPublicKey client keyID w).2 := by
  unfold newKMSSigner
  cases h : kmsGetPublicKey client keyID w with
  | mk r w1 =>
    cases r with
    | error e => rfl
    | ok pk =>
      simp only
      cases lib.ParsePKIXPublicKey pk <;> rfl

/-- The world after `getKmsPublicKey` is the world after its call of
`GetPublicKey`. -/
theorem getKmsPublicKey_world (lib : Lib) (p : AwsKmsProvider σ κ) (keyID : String)
    (w : World σ κ) :
    (p.getKmsPublicKey lib keyID w).2 = (kmsGetPublicKey p.client keyID w).2 := by
  unfold AwsKmsProvider.getKmsPublicKey
  cases h : kmsGetPublicKey p.client keyID w with
  | mk r w1 =>
    cases r with
    | error e => rfl
    | ok pk =>
      simp only
      cases lib.ParsePKIXPublicKey pk <;> rfl

/-- Signing through a KMS signer leaves the store, the record of its calls and
the files alone. -/
theorem createCertificateWithSigner_frame (lib : Lib) (client : KMSClient κ)
    (template parent : Certificate) (pub : Option PublicKey) (signer : KMSSigner)
    (w : World σ κ) :
    (createCertificateWithSigner lib client template parent pub signer w).2.store = w.store ∧
    (createCertificateWithSigner lib client template parent pub signer w).2.storeCalls
      = w.storeCalls ∧
    (createCertificateWithSigner lib client template parent pub signer w).2.files
      = w.files := by
  unfold createCertificateWithSigner
  cases lib.tbsDigest template parent pub signer.publicKey with
  | error e => exact ⟨rfl, rfl, rfl⟩
  | ok digest =>
    simp only
    cases h : KMSSigner.Sign client signer digest w with
    | mk r w1 =>
      have hw : w1 = (kmsSign client signer.keyID digest w).2 := by
        unfold KMSSigner.Sign at h
        rw [h]
      cases r <;> (subst hw; exact ⟨rfl, rfl, rfl⟩)

/-- Creating a key in the KMS leaves the store, the record of its calls and
the files alone. -/
theorem newKmsKey_frame (p : AwsKmsProvider σ κ) (keyDescription keyAlias : String)
    (w : World σ κ) :
    (p.newKmsKey keyDescription keyAlias w).2.store = w.store ∧
    (p.newKmsKey keyDescription keyAlias w).2.storeCalls = w.storeCalls ∧
    (p.newKmsKey keyDescription keyAlias w).2.files = w.files := by
  unfold AwsKmsProvider.newKmsKey
  cases h1 : kmsDescribeKey p.client keyAlias w with
  | mk r1 w1 =>
    have hw1 : w1 = (kmsDescribeKey p.client keyAlias w).2 := by rw [h1]
    cases r1 with
    | ok keyId => subst hw1; exact ⟨rfl, rfl, rfl⟩
    | error err =>
      simp only
      split
      · subst hw1; exact ⟨rfl, rfl, rfl⟩
      · cases h2 : kmsCreateKey p.client keyDescription w1 with
        | mk r2 w2 =>
          have hw2 : w2 = (kmsCreateKey p.client keyDescription w1).2 := by rw [h2]
          cases r2 with
          | error e2 => subst hw2; subst hw1; exact ⟨rfl, rfl, rfl⟩
          | ok createdKeyId =>
            simp only
            cases h3 : kmsCreateAlias p.client createdKeyId keyAlias w2 with
            | mk r3 w3 =>
              have hw3 : w3 = (kmsCreateAlias p.client createdKeyId keyAlias w2).2 := by
                rw [h3]
              cases r3 <;> (subst hw3; subst hw2; subst hw1; exact ⟨rfl, rfl, rfl⟩)

/-- A run of `AwsKmsProvider.CreateTenantSigningCertificate` either returns an
error without a call of the store, or it obtained the key of the tenant, built
the template, built a signer for the root key, fetched the public key of the
tenant key, had the template signed under the root certificate by that signer
and called `AddCertificate` once, with the entry that holds the signed bytes
and the id of the tenant key, and returns what that call decided. -/
theorem aws_tenant_create_run (lib : Lib) (p : AwsKmsProvider σ κ)
    (tenantID tenantName : String) (w w' : World σ κ) (r : Except Error String)
    (h : p.CreateTenantSigningCertificate lib tenantID tenantName w = (r, w')) :
    ((∃ err, r = .error err) ∧ w'.store = w.store ∧ w'.storeCalls = w.storeCalls) ∨
    ∃ (tenantKeyID : String) (tpl : Certificate) (signer : KMSSigner) (pub : PublicKey)
      (der : Bytes) (w1 w2 w3 w4 w5 : World σ κ),
      p.newKmsKey ("Signing key: " ++ tenantID) (keyAliasFormat tenantID) w
        = (.ok tenantKeyID, w1) ∧
      NewTenantSigningCertificateTemplate tenantID tenantName w1 = (.ok tpl, w2) ∧
      newKMSSigner lib p.client p.caKeyID w2 = (.ok signer, w3) ∧
      p.getKmsPublicKey lib tenantKeyID w3 = (.ok pub, w4) ∧
      createCertificateWithSigner lib p.client tpl p.caCert (some pub) signer w4
        = (.ok der, w5) ∧
      w5.store = w.store ∧ w5.storeCalls = w.storeCalls ∧
      w' = (storeAddCertificate p.store
        { Certificate := der, TenantID := tenantID, KmsKeyID := tenantKeyID } w5).2 ∧
      ((∃ err, (storeAddCertificate p.store
            { Certificate := der, TenantID := tenantID, KmsKeyID := tenantKeyID } w5).1
              = some err ∧ r = .error err) ∨
        ((storeAddCertificate p.store
            { Certificate := der, TenantID := tenantID, KmsKeyID := tenantKeyID } w5).1 = none ∧
          r = .ok (bytesString tpl.SubjectKeyId))) := by
  unfold AwsKmsProvider.CreateTenantSigningCertificate at h
  have f1 := newKmsKey_frame p ("Signing key: " ++ tenantID) (keyAliasFormat tenantID) w
  split at h
  · rename_i err w1 hk
    simp only [Prod.mk.injEq] at h
    obtain ⟨rfl, rfl⟩ := h
    rw [hk] at f1
    exact Or.inl ⟨⟨err, rfl⟩, f1.1, f1.2.1⟩
  · rename_i tenantKeyID w1 hk
    rw [hk] at f1
    simp only at f1
    split at h
    · rename_i err w2 ht
      simp only [Prod.mk.injEq] at h
      obtain ⟨rfl, rfl⟩ := h
      obtain ⟨h1, h2, _⟩ := tenant_template_frame _ _ _ _ _ ht
      exact Or.inl ⟨⟨err, rfl⟩, h1.trans f1.1, h2.trans f1.2.1⟩
    · rename_i tpl w2 ht
      obtain ⟨h1, h2, _⟩ := tenant_template_frame _ _ _ _ _ ht
      have f3 := newKMSSigner_world lib p.client p.caKeyID w2
      split at h
      · rename_i err w3 hs
        simp only [Prod.mk.injEq] at h
        obtain ⟨rfl, rfl⟩ := h
        rw [hs] at f3
        simp only at f3
        subst f3
        exact Or.inl ⟨⟨err, rfl⟩, h1.trans f1.1, h2.trans f1.2.1⟩
      · rename_i signer w3 hs
        rw [hs] at f3
        simp only at f3
        have g3 : w3.store = w.store ∧ w3.storeCalls = w.storeCalls := by
          subst f3
          exact ⟨h1.trans f1.1, h2.trans f1.2.1⟩
        have f4 := getKmsPublicKey_world lib p tenantKeyID w3
        split at h
        · rename_i err w4 hp
          simp only [Prod.mk.injEq] at h
          obtain ⟨rfl, rfl⟩ := h
          rw [hp] at f4
          simp only at f4
          rw [f4]
          exact Or.inl ⟨⟨err, rfl⟩, g3.1, g3.2⟩
        · rename_i pub w4 hp
          rw [hp] at f4
          simp only at f4
          have g4 : w4.store = w.store ∧ w4.storeCalls = w.storeCalls := by
            rw [f4]
            exact g3
          have f5 := createCertificateWithSigner_frame lib p.client tpl p.caCert (some pub)
            signer w4
          split at h
          · rename_i err w5 hc
            simp only [Prod.mk.injEq] at h
            obtain ⟨rfl, rfl⟩ := h
            rw [hc] at f5
            exact Or.inl ⟨⟨err, rfl⟩, f5.1.trans g4.1, f5.2.1.trans g4.2⟩
          · rename_i der w5 hc
            rw [hc] at f5
            right
            refine ⟨tenantKeyID, tpl, signer, pub, der, w1, w2, w3, w4, w5, hk, ht, hs, hp, hc,
              f5.1.trans g4.1, f5.2.1.trans g4.2, ?_, ?_⟩
            · split at h
              · rename_i err w6 ha
                simp only [Prod.mk.injEq] at h
                rw [ha]
                exact h.2.symm
              · rename_i w6 ha
                simp only [Prod.mk.injEq] at h
                rw [ha]
                exact h.2.symm
            · split at h
              · rename_i err w6 ha
                simp only [Prod.mk.injEq] at h
                exact Or.inl ⟨err, by rw [ha], h.1.symm⟩
              · rename_i w6 ha
                simp only [Prod.mk.injEq] at h
                exact Or.inr ⟨by rw [ha], h.1.symm⟩

theorem local_get_tenant_error (p : LocalProvider σ) (tenantID : String) (w : World σ κ)
    (err : Error) (s' : σ)
    (h : p.store.GetCertificate w.store tenantID = (.error err, s')) :
    (p.GetTenantSigningCertificate tenantID w).1 = .error err := by
  unfold LocalProvider.GetTenantSigningCertificate storeGetCertificate
  simp only [h]

theorem aws_get_tenant_error (p : AwsKmsProvider σ κ) (tenantID : String) (w : World σ κ)
    (err : Error) (s' : σ)
    (h : p.store.GetCertificate w.store tenantID = (.error err, s')) :
    (p.GetTenantSigningCertificate tenantID w).1 = .error err := by
  unfold AwsKmsProvider.GetTenantSigningCertificate storeGetCertificate
  simp only [h]

/-! ## The embedded key-value store -/

/-- Dropping the pairs of one key does not change what is found under
another. -/
theorem bucketGet_filter_other (b : List (Bytes × Bytes)) (k k' : Bytes) (hk : k' ≠ k) :
    bucketGet (b.filter (fun kv => kv.1 ≠ k)) k' = bucketGet b k' := by
  unfold bucketGet
  induction b with
  | nil => rfl
  | cons kv rest ih =>
    obtain ⟨a, v⟩ := kv
    by_cases h1 : a = k
    · subst h1
      have h2 : ¬ (a = k') := fun h => hk h.symm
      simp only [List.filter_cons, ne_eq, not_true_eq_false, decide_False,
        Bool.false_eq_true, if_false, List.find?_cons, h2]
      exact ih
    · simp only [List.filter_cons, h1, ne_eq, not_false_eq_true, decide_True, if_true,
        List.find?_cons]
      by_cases h2 : a = k'
      · simp only [h2, decide_True]
      · simp only [h2, decide_False]
        exact ih

/-- Nothing is found under a key whose pairs were dropped. -/
theorem bucketGet_filter_same (b : List (Bytes × Bytes)) (k : Bytes) :
    bucketGet (b.filter (fun kv => kv.1 ≠ k)) k = none := by
  unfold bucketGet
  induction b with
  | nil => rfl
  | cons kv rest ih =>
    by_cases h1 : kv.1 = k
    · simp only [List.filter_cons, h1, ne_eq, not_true_eq_false, decide_False,
        Bool.false_eq_true, if_false]
      exact ih
    · simp only [List.filter_cons, h1, ne_eq, not_false_eq_true, decide_True, if_true,
        List.find?_cons, decide_False]
      exact ih

/-- A successful `Put` stores the value under the key and leaves every other
key alone. -/
theorem bucketPut_ok (b b' : List (Bytes × Bytes)) (k v : Bytes)
    (h : bucketPut b k v = .ok b') :
    k.length ≠ 0 ∧ bucketGet b' k = some v ∧ ∀ k', k' ≠ k → bucketGet b' k' = bucketGet b k' := by
  unfold bucketPut at h
  split at h
  · cases h
  · rename_i h0
    split at h
    · cases h
    · split at h
      · cases h
      · simp only [Except.ok.injEq] at h
        subst h
        refine ⟨h0, ?_, ?_⟩
        · simp [bucketGet]
        · intro k' hk'
          have h2 : ¬ (k = k') := fun h => hk' h.symm
          rw [← bucketGet_filter_other b k k' hk']
          simp [bucketGet, h2]

/-- A successful `AddCertificate` of the embedded store encoded the entry and
put the encoding under the bytes of the tenant id. -/
theorem localdb_add_ok (db db' : BoltDB) (e : SigningCertificate)
    (h : LocalDbProvider.AddCertificate db e = (none, db')) :
    ∃ enc, EncodeSigningCertificate e = .ok enc ∧
      bucketPut db.bucket (stringBytes e.TenantID) enc = .ok db'.bucket ∧
      db'.diskError = db.diskError := by
  unfold LocalDbProvider.AddCertificate boltUpdate at h
  cases he : EncodeSigningCertificate e with
  | error err =>
    rw [he] at h
    simp only [Prod.mk.injEq] at h
    cases h.1
  | ok enc =>
    rw [he] at h
    simp only at h
    cases hp : bucketPut db.bucket (stringBytes e.TenantID) enc with
    | error err =>
      rw [hp] at h
      simp only [Prod.mk.injEq] at h
      cases h.1
    | ok b =>
      rw [hp] at h
      simp only at h
      cases hd : db.diskError with
      | some err =>
        rw [hd] at h
        simp only [Prod.mk.injEq] at h
        cases h.1
      | none =>
        rw [hd] at h
        simp only [Prod.mk.injEq, true_and] at h
        subst h
        exact ⟨enc, rfl, hp, rfl⟩

/-- After a successful `AddCertificate` the embedded store returns the entry
under its tenant id. -/
theorem localdb_get_after_add (db db' : BoltDB) (e : SigningCertificate)
    (h : LocalDbProvider.AddCertificate db e = (none, db')) :
    LocalDbProvider.GetCertificate db' e.TenantID = (.ok e, db') := by
  obtain ⟨enc, he, hp, _⟩ := localdb_add_ok db db' e h
  obtain ⟨_, hg, _⟩ := bucketPut_ok _ _ _ _ hp
  unfold LocalDbProvider.GetCertificate
  rw [hg]
  simp only
  rw [DecodeSigningCertificate_encode e enc he]

/-- A successful `AddCertificate` leaves what the embedded store returns
under every other id as it was. -/
theorem localdb_get_other_after_add (db db' : BoltDB) (e : SigningCertificate) (id : String)
    (h : LocalDbProvider.AddCertificate db e = (none, db')) (hid : id ≠ e.TenantID) :
    (LocalDbProvider.GetCertificate db' id).1 = (LocalDbProvider.GetCertificate db id).1 := by
  obtain ⟨enc, he, hp, _⟩ := localdb_add_ok db db' e h
  obtain ⟨_, _, ho⟩ := bucketPut_ok _ _ _ _ hp
  have hk : stringBytes id ≠ stringBytes e.TenantID := fun hb =>
    hid (stringBytes_injective _ _ hb)
  unfold LocalDbProvider.GetCertificate
  rw [ho _ hk]
  cases bucketGet db.bucket (stringBytes id) <;> rfl

/-- The embedded store answers `ErrCertStoreNotFound`, and with nothing else,
for an id that its bucket has no key for. -/
theorem localdb_get_missing (db : BoltDB) (id : String)
    (h : bucketGet db.bucket (stringBytes id) = none) :
    LocalDbProvider.GetCertificate db id = (.error .ErrCertStoreNotFound, db) := by
  unfold LocalDbProvider.GetCertificate
  rw [h]

/-- After a successful `DeleteCertificate` the bucket of the embedded store
has no key for the id. -/
theorem localdb_delete_ok (db db' : BoltDB) (id : String)
    (h : LocalDbProvider.DeleteCertificate db id = (none, db')) :
    bucketGet db'.bucket (stringBytes id) = none := by
  unfold LocalDbProvider.DeleteCertificate boltUpdate at h
  simp only at h
  cases hd : db.diskError with
  | some err =>
    rw [hd] at h
    simp only [Prod.mk.injEq] at h
    cases h.1
  | none =>
    rw [hd] at h
    simp only [Prod.mk.injEq, true_and] at h
    subst h
    exact bucketGet_filter_same _ _

/-- An entry that was added to the embedded store has a tenant id. -/
theorem localdb_add_tenant (db db' : BoltDB) (e : SigningCertificate)
    (h : LocalDbProvider.AddCertificate db e = (none, db')) : e.TenantID ≠ "" := by
  obtain ⟨enc, _, hp, _⟩ := localdb_add_ok db db' e h
  obtain ⟨h0, _, _⟩ := bucketPut_ok _ _ _ _ hp
  intro he
  rw [he] at h0
  exact h0 rfl

/-! ## Claims about the creation of tenant signing certificates -/

theorem toOption_some_ok {ε α : Type} (x : Except ε α) (a : α) (h : x.toOption = some a) :
    x = .ok a := by
  cases x with
  | error e => cases h
  | ok b =>
    simp only [Except.toOption, Option.some.injEq] at h
    rw [h]

set_option maxRecDepth 100000 in
/-- Runs of `CreateTenantSigningCertificate` for tenant `t2` named `Acme` over
the embedded store, in the world whose KMS holds the root key only. -/
theorem demo_local_tenant_create :
    (demoLocalDbProvider.CreateTenantSigningCertificate demoLib "t2" "Acme"
        demoAwsDbWorld).1.toOption = some "" := by
  decide

set_option maxRecDepth 100000 in
theorem demo_aws_tenant_create :
    (demoAwsDbProvider.CreateTenantSigningCertificate demoLib "t2" "Acme"
        demoAwsDbWorld).1.toOption = some "" := by
  decide

theorem run_ok_eta {ε α β : Type} (x : Except ε α × β) (a : α)
    (h : x.1.toOption = some a) : x = (.ok a, x.2) :=
  Prod.ext (toOption_some_ok _ _ h) rfl

/-- Claim C14, as the code has it. Every successful
`CreateTenantSigningCertificate`, of either provider, returns the empty
string: the value returned is `string(tenantCertTpl.SubjectKeyId)`, the
subject key id of the template, which `NewTenantSigningCertificateTemplate`
never sets and which signing does not write back; it is not read from the
certificate that was signed and stored. -/
theorem tenant_certificate_id_is_empty (lib : Lib) (lp : LocalProvider σ)
    (ap : AwsKmsProvider σ κ) (tenantID tenantName : String) (w : World σ κ) :
    (∀ certId w', lp.CreateTenantSigningCertificate lib tenantID tenantName w = (.ok certId, w') →
      certId = "") ∧
    (∀ certId w', ap.CreateTenantSigningCertificate lib tenantID tenantName w = (.ok certId, w') →
      certId = "") := by
  have hempty : bytesString [] = "" := rfl
  constructor
  · intro certId w' h
    rcases local_tenant_create_run lib lp tenantID tenantName w w' _ h with
      ⟨⟨err, he⟩, _⟩ | ⟨key, tpl, der, w1, w2, w3, _, ht, _, _, _, _, _, hr⟩
    · cases he
    · rcases hr with ⟨err, _, he⟩ | ⟨_, hc⟩
      · cases he
      · simp only [Except.ok.injEq] at hc
        rw [hc, tenant_template_subjectKeyId _ _ _ _ _ ht, hempty]
  · intro certId w' h
    rcases aws_tenant_create_run lib ap tenantID tenantName w w' _ h with
      ⟨⟨err, he⟩, _⟩ |
      ⟨tenantKeyID, tpl, signer, pub, der, w1, w2, w3, w4, w5, _, ht, _, _, _, _, _, _, hr⟩
    · cases he
    · rcases hr with ⟨err, _, he⟩ | ⟨_, hc⟩
      · cases he
      · simp only [Except.ok.injEq] at hc
        rw [hc, tenant_template_subjectKeyId _ _ _ _ _ ht, hempty]

set_option maxRecDepth 100000 in
theorem demo_tenant_create_succeeds :
    (demoLocalDbProvider.CreateTenantSigningCertificate demoLib "t2" "Acme"
        demoAwsDbWorld).1.toOption.isSome = true ∧
    (demoAwsDbProvider.CreateTenantSigningCertificate demoLib "t2" "Acme"
        demoAwsDbWorld).1.toOption.isSome = true := by
  decide

theorem isSome_ok {ε α β : Type} (x : Except ε α × β) (h : x.1.toOption.isSome = true) :
    ∃ a, x = (.ok a, x.2) := by
  obtain ⟨r, w⟩ := x
  cases r with
  | error e => cases h
  | ok a => exact ⟨a, rfl⟩

/-- Claim C14 for tenant `t2` named `Acme`: the creation succeeds in both
providers, and the id that either returns is the empty string. -/
theorem tenant_certificate_id_is_empty_witness :
    (demoLocalDbProvider.CreateTenantSigningCertificate demoLib "t2" "Acme" demoAwsDbWorld).1
      = .ok "" ∧
    (demoAwsDbProvider.CreateTenantSigningCertificate demoLib "t2" "Acme" demoAwsDbWorld).1
      = .ok "" :=
  have h := tenant_certificate_id_is_empty demoLib demoLocalDbProvider demoAwsDbProvider "t2"
    "Acme" demoAwsDbWorld
  ⟨(isSome_ok _ demo_tenant_create_succeeds.1).elim fun a ha =>
      (congrArg Prod.fst ha).trans (congrArg Except.ok (h.1 a _ ha)),
    (isSome_ok _ demo_tenant_create_succeeds.2).elim fun a ha =>
      (congrArg Prod.fst ha).trans (congrArg Except.ok (h.2 a _ ha))⟩

/-- Claim C15. In both providers a run of `CreateTenantSigningCertificate` in
which the creation of the key, the construction of the template, the
construction of the signer (AWS) or the signing fails returns that error,
calls the store not at all and leaves it as it was. In every run, either the
store was not called and an error is returned, or every one of these steps
succeeded and `AddCertificate` was called once, with the entry whose
certificate is the bytes that the signing returned. -/
theorem tenant_certificate_failure_writes_nothing (lib : Lib) (lp : LocalProvider σ)
    (ap : AwsKmsProvider σ κ) (tenantID tenantName : String) (w : World σ κ) :
    (∀ r w', lp.CreateTenantSigningCertificate lib tenantID tenantName w = (r, w') →
      (∀ err w1, rsaGenerateKey lib KeySize w = (.error err, w1) →
        r = .error err ∧ w'.store = w.store ∧ w'.storeCalls = w.storeCalls) ∧
      (∀ key w1 err w2, rsaGenerateKey lib KeySize w = (.ok key, w1) →
        NewTenantSigningCertificateTemplate tenantID tenantName w1 = (.error err, w2) →
        r = .error err ∧ w'.store = w.store ∧ w'.storeCalls = w.storeCalls) ∧
      (∀ key w1 tpl w2 err, rsaGenerateKey lib KeySize w = (.ok key, w1) →
        NewTenantSigningCertificateTemplate tenantID tenantName w1 = (.ok tpl, w2) →
        lib.CreateCertificate tpl lp.caCert (some key.PublicKey) lp.caPrivateKey = .error err →
        r = .error err ∧ w'.store = w.store ∧ w'.storeCalls = w.storeCalls) ∧
      (((∃ err, r = .error err) ∧ w'.store = w.store ∧ w'.storeCalls = w.storeCalls) ∨
        ∃ (key : RSAPrivateKey) (tpl : Certificate) (der : Bytes) (w1 w2 : World σ κ),
          rsaGenerateKey lib KeySize w = (.ok key, w1) ∧
          NewTenantSigningCertificateTemplate tenantID tenantName w1 = (.ok tpl, w2) ∧
          lib.CreateCertificate tpl lp.caCert (some key.PublicKey) lp.caPrivateKey = .ok der ∧
          w'.storeCalls = w.storeCalls ++
            [.AddCertificate { Certificate := der, TenantID := tenantID, KmsKeyID := "" }])) ∧
    (∀ r w', ap.CreateTenantSigningCertificate lib tenantID tenantName w = (r, w') →
      (∀ err w1, ap.newKmsKey ("Signing key: " ++ tenantID) (keyAliasFormat tenantID) w
          = (.error err, w1) →
        r = .error err ∧ w'.store = w.store ∧ w'.storeCalls = w.storeCalls) ∧
      (∀ keyId w1 err w2,
        ap.newKmsKey ("Signing key: " ++ tenantID) (keyAliasFormat tenantID) w
          = (.ok keyId, w1) →
        NewTenantSigningCertificateTemplate tenantID tenantName w1 = (.error err, w2) →
        r = .error err ∧ w'.store = w.store ∧ w'.storeCalls = w.storeCalls) ∧
      (∀ keyId w1 tpl w2 err w3,
        ap.newKmsKey ("Signing key: " ++ tenantID) (keyAliasFormat tenantID) w
          = (.ok keyId, w1) →
        NewTenantSigningCertificateTemplate tenantID tenantName w1 = (.ok tpl, w2) →
        newKMSSigner lib ap.client ap.caKeyID w2 = (.error err, w3) →
        r = .error err ∧ w'.store = w.store ∧ w'.storeCalls = w.storeCalls) ∧
      (∀ keyId w1 tpl w2 signer w3 pub w4 err w5,
        ap.newKmsKey ("Signing key: " ++ tenantID) (keyAliasFormat tenantID) w
          = (.ok keyId, w1) →
        NewTenantSigningCertificateTemplate tenantID tenantName w1 = (.ok tpl, w2) →
        newKMSSigner lib ap.client ap.caKeyID w2 = (.ok signer, w3) →
        ap.getKmsPublicKey lib keyId w3 = (.ok pub, w4) →
        createCertificateWithSigner lib ap.client tpl ap.caCert (some pub) signer w4
          = (.error err, w5) →
        r = .error err ∧ w'.store = w.store ∧ w'.storeCalls = w.storeCalls) ∧
      (((∃ err, r = .error err) ∧ w'.store = w.store ∧ w'.storeCalls = w.storeCalls) ∨
        ∃ (keyId : String) (tpl : Certificate) (signer : KMSSigner) (pub : PublicKey)
          (der : Bytes) (w1 w2 w3 w4 w5 : World σ κ),
          ap.newKmsKey ("Signing key: " ++ tenantID) (keyAliasFormat tenantID) w
            = (.ok keyId, w1) ∧
          NewTenantSigningCertificateTemplate tenantID tenantName w1 = (.ok tpl, w2) ∧
          newKMSSigner lib ap.client ap.caKeyID w2 = (.ok signer, w3) ∧
          ap.getKmsPublicKey lib keyId w3 = (.ok pub, w4) ∧
          createCertificateWithSigner lib ap.client tpl ap.caCert (some pub) signer w4
            = (.ok der, w5) ∧
          w'.storeCalls = w.storeCalls ++
            [.AddCertificate
              { Certificate := der, TenantID := tenantID, KmsKeyID := keyId }])) := by
  constructor
  · intro r w' h
    have hrun := local_tenant_create_run lib lp tenantID tenantName w w' r h
    refine ⟨?_, ?_, ?_, ?_⟩
    · intro err w1 hk
      rcases hrun with ⟨⟨e, he⟩, hs, hc⟩ | ⟨key, tpl, der, v1, v2, v3, hk', _⟩
      · refine ⟨?_, hs, hc⟩
        unfold LocalProvider.CreateTenantSigningCertificate at h
        rw [hk] at h
        simp only [Prod.mk.injEq] at h
        exact h.1.symm
      · rw [hk] at hk'
        simp only [Prod.mk.injEq, reduceCtorEq, false_and] at hk'
    · intro key w1 err w2 hk ht
      rcases hrun with ⟨⟨e, he⟩, hs, hc⟩ | ⟨key', tpl, der, v1, v2, v3, hk', ht', _⟩
      · refine ⟨?_, hs, hc⟩
        unfold LocalProvider.CreateTenantSigningCertificate at h
        rw [hk] at h
        simp only at h
        rw [ht] at h
        simp only [Prod.mk.injEq] at h
        exact h.1.symm
      · rw [hk] at hk'
        simp only [Prod.mk.injEq, Except.ok.injEq] at hk'
        obtain ⟨rfl, rfl⟩ := hk'
        rw [ht] at ht'
        simp only [Prod.mk.injEq, reduceCtorEq, false_and] at ht'
    · intro key w1 tpl w2 err hk ht hc
      rcases hrun with ⟨⟨e, he⟩, hs, hcalls⟩ | ⟨key', tpl', der, v1, v2, v3, hk', ht', hc', _⟩
      · refine ⟨?_, hs, hcalls⟩
        unfold LocalProvider.CreateTenantSigningCertificate at h
        rw [hk] at h
        simp only at h
        rw [ht] at h
        simp only at h
        rw [hc] at h
        simp only [Prod.mk.injEq] at h
        exact h.1.symm
      · rw [hk] at hk'
        simp only [Prod.mk.injEq, Except.ok.injEq] at hk'
        obtain ⟨rfl, rfl⟩ := hk'
        rw [ht] at ht'
        simp only [Prod.mk.injEq, Except.ok.injEq] at ht'
        obtain ⟨rfl, rfl⟩ := ht'
        rw [hc] at hc'
        cases hc'
    · rcases hrun with hA | ⟨key, tpl, der, w1, w2, w3, hk, ht, hc, _, _, hcalls, hw, _⟩
      · exact Or.inl hA
      · refine Or.inr ⟨key, tpl, der, w1, w2, hk, ht, hc, ?_⟩
        rw [hw]
        unfold storeAddCertificate
        simp only [hcalls]
  · intro r w' h
    have hrun := aws_tenant_create_run lib ap tenantID tenantName w w' r h
    refine ⟨?_, ?_, ?_, ?_, ?_⟩
    · intro err w1 hk
      rcases hrun with ⟨⟨e, he⟩, hs, hc⟩ | ⟨keyId, tpl, sg, pb, der, v1, v2, v3, v4, v5, hk', _⟩
      · refine ⟨?_, hs, hc⟩
        unfold AwsKmsProvider.CreateTenantSigningCertificate at h
        rw [hk] at h
        simp only [Prod.mk.injEq] at h
        exact h.1.symm
      · rw [hk] at hk'
        simp only [Prod.mk.injEq, reduceCtorEq, false_and] at hk'
    · intro keyId w1 err w2 hk ht
      rcases hrun with ⟨⟨e, he⟩, hs, hc⟩ |
        ⟨keyId', tpl, sg, pb, der, v1, v2, v3, v4, v5, hk', ht', _⟩
      · refine ⟨?_, hs, hc⟩
        unfold AwsKmsProvider.CreateTenantSigningCertificate at h
        rw [hk] at h
        simp only at h
        rw [ht] at h
        simp only [Prod.mk.injEq] at h
        exact h.1.symm
      · rw [hk] at hk'
        simp only [Prod.mk.injEq, Except.ok.injEq] at hk'
        obtain ⟨rfl, rfl⟩ := hk'
        rw [ht] at ht'
        simp only [Prod.mk.injEq, reduceCtorEq, false_and] at ht'
    · intro keyId w1 tpl w2 err w3 hk ht hs
      rcases hrun with ⟨⟨e, he⟩, hst, hc⟩ |
        ⟨keyId', tpl', sg, pb, der, v1, v2, v3, v4, v5, hk', ht', hs', _⟩
      · refine ⟨?_, hst, hc⟩
        unfold AwsKmsProvider.CreateTenantSigningCertificate at h
        rw [hk] at h
        simp only at h
        rw [ht] at h
        simp only at h
        rw [hs] at h
        simp only [Prod.mk.injEq] at h
        exact h.1.symm
      · rw [hk] at hk'
        simp only [Prod.mk.injEq, Except.ok.injEq] at hk'
        obtain ⟨rfl, rfl⟩ := hk'
        rw [ht] at ht'
        simp only [Prod.mk.injEq, Except.ok.injEq] at ht'
        obtain ⟨rfl, rfl⟩ := ht'
        rw [hs] at hs'
        simp only [Prod.mk.injEq, reduceCtorEq, false_and] at hs'
    · intro keyId w1 tpl w2 signer w3 pub w4 err w5 hk ht hs hp hc
      rcases hrun with ⟨⟨e, he⟩, hst, hcalls⟩ |
        ⟨keyId', tpl', sg, pb, der, v1, v2, v3, v4, v5, hk', ht', hs', hp', hc', _⟩
      · refine ⟨?_, hst, hcalls⟩
        unfold AwsKmsProvider.CreateTenantSigningCertificate at h
        rw [hk] at h
        simp only at h
        rw [ht] at h
        simp only at h
        rw [hs] at h
        simp only at h
        rw [hp] at h
        simp only at h
        rw [hc] at h
        simp only [Prod.mk.injEq] at h
        exact h.1.symm
      · rw [hk] at hk'
        simp only [Prod.mk.injEq, Except.ok.injEq] at hk'
        obtain ⟨rfl, rfl⟩ := hk'
        rw [ht] at ht'
        simp only [Prod.mk.injEq, Except.ok.injEq] at ht'
        obtain ⟨rfl, rfl⟩ := ht'
        rw [hs] at hs'
        simp only [Prod.mk.injEq, Except.ok.injEq] at hs'
        obtain ⟨rfl, rfl⟩ := hs'
        rw [hp] at hp'
        simp only [Prod.mk.injEq, Except.ok.injEq] at hp'
        obtain ⟨rfl, rfl⟩ := hp'
        rw [hc] at hc'
        simp only [Prod.mk.injEq, reduceCtorEq, false_and] at hc'
    · rcases hrun with hA |
        ⟨keyId, tpl, sg, pb, der, w1, w2, w3, w4, w5, hk, ht, hs, hp, hc, _, hcalls, hw, _⟩
      · exact Or.inl hA
      · refine Or.inr ⟨keyId, tpl, sg, pb, der, w1, w2, w3, w4, w5, hk, ht, hs, hp, hc, ?_⟩
        rw [hw]
        unfold storeAddCertificate
        simp only [hcalls]

set_option maxRecDepth 100000 in
/-- Claim C15 at three runs for tenant `t2`: with a key generator that fails,
the local provider returns that error and the store was not called; with a
signing operation that fails, the AWS provider returns an error after it
created the tenant key, and the store was not called; in the run that succeeds
the store was called once, with the signed bytes. -/
theorem tenant_certificate_failure_writes_nothing_witness :
    ((demoLocalDbProvider.CreateTenantSigningCertificate demoNoKeyLib "t2" "Acme"
          demoAwsDbWorld).1 = .error (.other "rsa: key generation failed") ∧
      (demoLocalDbProvider.CreateTenantSigningCertificate demoNoKeyLib "t2" "Acme"
          demoAwsDbWorld).2.store = demoAwsDbWorld.store ∧
      (demoLocalDbProvider.CreateTenantSigningCertificate demoNoKeyLib "t2" "Acme"
          demoAwsDbWorld).2.storeCalls = demoAwsDbWorld.storeCalls) ∧
    (demoAwsDbProvider.CreateTenantSigningCertificate demoNoSignLib "t2" "Acme"
        demoAwsDbWorld).1.toOption = none ∧
    (demoAwsDbProvider.CreateTenantSigningCertificate demoNoSignLib "t2" "Acme"
        demoAwsDbWorld).2.storeCalls = [] ∧
    (demoAwsDbProvider.CreateTenantSigningCertificate demoNoSignLib "t2" "Acme"
        demoAwsDbWorld).2.kms = [("alias/t2", "key:Signing key: t2"), ("alias/CAKey", "key-ca")] ∧
    (demoLocalDbProvider.CreateTenantSigningCertificate demoLib "t2" "Acme"
        demoAwsDbWorld).2.storeCalls
      = [.AddCertificate { TenantID := "t2", KmsKeyID := "", Certificate := [48, 130, 48, 9] }] :=
  ⟨((tenant_certificate_failure_writes_nothing demoNoKeyLib demoLocalDbProvider
      demoAwsDbProvider "t2" "Acme" demoAwsDbWorld).1 _ _ (pair_eta _)).1 _ _ rfl,
    by decide, by decide, by decide, by decide⟩

/-! ## Deletion of tenant signing certificates -/

/-- Removing a file leaves the store, the record of its calls and the KMS
alone. -/
theorem osRemove_frame (lib : Lib) (name : String) (w : World σ κ) :
    (osRemove lib name w).2.store = w.store ∧
      (osRemove lib name w).2.storeCalls = w.storeCalls ∧
      (osRemove lib name w).2.kms = w.kms ∧ (osRemove lib name w).2.kmsCalls = w.kmsCalls := by
  unfold osRemove
  cases w.files (lib.filepathClean name) with
  | none => exact ⟨rfl, rfl, rfl, rfl⟩
  | some b =>
    simp only
    cases w.fileErrors (lib.filepathClean name) <;> exact ⟨rfl, rfl, rfl, rfl⟩

/-- A successful `os.Remove` found the file and the file is gone afterwards. -/
theorem osRemove_ok (lib : Lib) (name : String) (w w' : World σ κ)
    (h : osRemove lib name w = (none, w')) :
    w.files (lib.filepathClean name) ≠ none ∧ w'.files (lib.filepathClean name) = none := by
  unfold osRemove at h
  cases hf : w.files (lib.filepathClean name) with
  | none =>
    rw [hf] at h
    simp only [Prod.mk.injEq] at h
    cases h.1
  | some b =>
    rw [hf] at h
    simp only at h
    cases he : w.fileErrors (lib.filepathClean name) with
    | some err =>
      rw [he] at h
      simp only [Prod.mk.injEq] at h
      cases h.1
    | none =>
      rw [he] at h
      simp only [Prod.mk.injEq, true_and] at h
      subst h
      refine ⟨Option.some_ne_none b, ?_⟩
      simp [writeFile]

/-- Call `os.Remove` fails for a file that does not exist. -/
theorem osRemove_missing (lib : Lib) (name : String) (w : World σ κ)
    (h : w.files (lib.filepathClean name) = none) :
    osRemove lib name w = (some (.other "remove: no such file or directory"), w) := by
  unfold osRemove
  rw [h]

/-- Method `deleteKmsKey` leaves the store and the record of its calls alone. -/
theorem deleteKmsKey_frame (p : AwsKmsProvider σ κ) (keyAlias : String) (w : World σ κ) :
    (p.deleteKmsKey keyAlias w).2.store = w.store ∧
      (p.deleteKmsKey keyAlias w).2.storeCalls = w.storeCalls := by
  unfold AwsKmsProvider.deleteKmsKey
  cases h1 : kmsDescribeKey p.client keyAlias w with
  | mk r1 w1 =>
    have hw1 : w1 = (kmsDescribeKey p.client keyAlias w).2 := by rw [h1]
    cases r1 with
    | error err => subst hw1; exact ⟨rfl, rfl⟩
    | ok keyId =>
      simp only
      cases h2 : kmsScheduleKeyDeletion p.client keyId awsKmsKeyDeletionPendingWindowDays w1 with
      | mk r2 w2 =>
        have hw2 : w2 = (kmsScheduleKeyDeletion p.client keyId
            awsKmsKeyDeletionPendingWindowDays w1).2 := by rw [h2]
        cases r2 with
        | some e2 => subst hw2; subst hw1; exact ⟨rfl, rfl⟩
        | none =>
          simp only
          cases h3 : kmsDeleteAlias p.client keyAlias w2 with
          | mk r3 w3 =>
            have hw3 : w3 = (kmsDeleteAlias p.client keyAlias w2).2 := by rw [h3]
            cases r3 <;> (subst hw3; subst hw2; subst hw1; exact ⟨rfl, rfl⟩)

/-- A successful `deleteKmsKey` looked the alias up, scheduled the deletion of
the key it stands for in seven days, and deleted the alias. -/
theorem deleteKmsKey_ok (p : AwsKmsProvider σ κ) (keyAlias : String) (w w' : World σ κ)
    (h : p.deleteKmsKey keyAlias w = (none, w')) :
    ∃ keyId, w'.kmsCalls = w.kmsCalls ++
      [.DescribeKey keyAlias, .ScheduleKeyDeletion keyId 7, .DeleteAlias keyAlias] := by
  unfold AwsKmsProvider.deleteKmsKey at h
  cases h1 : kmsDescribeKey p.client keyAlias w with
  | mk r1 w1 =>
    have hw1 : w1 = (kmsDescribeKey p.client keyAlias w).2 := by rw [h1]
    rw [h1] at h
    cases r1 with
    | error err =>
      simp only [Prod.mk.injEq] at h
      cases h.1
    | ok keyId =>
      simp only at h
      cases h2 : kmsScheduleKeyDeletion p.client keyId awsKmsKeyDeletionPendingWindowDays w1 with
      | mk r2 w2 =>
        have hw2 : w2 = (kmsScheduleKeyDeletion p.client keyId
            awsKmsKeyDeletionPendingWindowDays w1).2 := by rw [h2]
        rw [h2] at h
        cases r2 with
        | some e2 =>
          simp only [Prod.mk.injEq] at h
          cases h.1
        | none =>
          simp only at h
          cases h3 : kmsDeleteAlias p.client keyAlias w2 with
          | mk r3 w3 =>
            have hw3 : w3 = (kmsDeleteAlias p.client keyAlias w2).2 := by rw [h3]
            rw [h3] at h
            cases r3 with
            | some e3 =>
              simp only [Prod.mk.injEq] at h
              cases h.1
            | none =>
              simp only [Prod.mk.injEq, true_and] at h
              subst h
              subst hw3
              subst hw2
              subst hw1
              exact ⟨keyId, by
                simp [kmsDeleteAlias, kmsScheduleKeyDeletion, kmsDescribeKey,
                  awsKmsKeyDeletionPendingWindowDays]⟩

/-- Method `deleteKmsKey` fails when the KMS does not know the alias. -/
theorem deleteKmsKey_unknown (p : AwsKmsProvider σ κ) (keyAlias : String) (w : World σ κ)
    (err : Error) (h : (p.client.DescribeKey w.kms keyAlias).1 = .error err) :
    (p.deleteKmsKey keyAlias w).1 = some err := by
  unfold AwsKmsProvider.deleteKmsKey kmsDescribeKey
  simp only [h]

/-- A call of the store leaves the files and the KMS alone. -/
theorem storeDeleteCertificate_frame (store : CertStore σ) (certID : String) (w : World σ κ) :
    (storeDeleteCertificate store certID w).2.files = w.files ∧
      (storeDeleteCertificate store certID w).2.kms = w.kms ∧
      (storeDeleteCertificate store certID w).2.kmsCalls = w.kmsCalls ∧
      (storeDeleteCertificate store certID w).2.storeCalls
        = w.storeCalls ++ [.DeleteCertificate certID] :=
  ⟨rfl, rfl, rfl, rfl⟩

/-- Method `LocalProvider.DeleteTenantSigningCertificate` in terms of its two
steps. -/
theorem local_delete_steps (lib : Lib) (p : LocalProvider σ) (tenantID : String)
    (w : World σ κ) :
    (∀ err w1, storeDeleteCertificate p.store tenantID w = (some err, w1) →
      p.DeleteTenantSigningCertificate lib tenantID w = (some err, w1)) ∧
    (∀ w1, storeDeleteCertificate p.store tenantID w = (none, w1) →
      p.DeleteTenantSigningCertificate lib tenantID w
        = osRemove lib (tenantID ++ ".key") w1) := by
  constructor
  · intro err w1 h
    unfold LocalProvider.DeleteTenantSigningCertificate
    rw [h]
  · intro w1 h
    unfold LocalProvider.DeleteTenantSigningCertificate
    rw [h]
    simp only
    cases h2 : osRemove lib (tenantID ++ ".key") w1 with
    | mk r w2 => cases r <;> rfl

/-- Method `AwsKmsProvider.DeleteTenantSigningCertificate` in terms of its two
steps. -/
theorem aws_delete_steps (p : AwsKmsProvider σ κ) (tenantID : String) (w : World σ κ) :
    (∀ err w1, storeDeleteCertificate p.store tenantID w = (some err, w1) →
      p.DeleteTenantSigningCertificate tenantID w = (some err, w1)) ∧
    (∀ w1, storeDeleteCertificate p.store tenantID w = (none, w1) →
      p.DeleteTenantSigningCertificate tenantID w
        = p.deleteKmsKey (keyAliasFormat tenantID) w1) := by
  constructor
  · intro err w1 h
    unfold AwsKmsProvider.DeleteTenantSigningCertificate
    rw [h]
  · intro w1 h
    unfold AwsKmsProvider.DeleteTenantSigningCertificate
    rw [h]
    simp only
    cases h2 : p.deleteKmsKey (keyAliasFormat tenantID) w1 with
    | mk r w2 => cases r <;> rfl

/-- Claim C16. `DeleteTenantSigningCertificate` first deletes the entry of the
store. When that fails it returns the error and has touched neither the key
file (local) nor the KMS (AWS). When it succeeds the result is the result of
deleting the key, the file `<tenantId>.key` (local) or the KMS key behind the
alias `alias/<tenantId>` (AWS): an error of that step is returned, and whether
it fails or not the store stays as the deletion left it, with no further call.
The call succeeds only when both steps did: then the key file is gone (local),
or the KMS was asked to describe the alias, to schedule the deletion of its key
and to delete the alias (AWS). -/
theorem delete_store_entry_then_key (lib : Lib) (lp : LocalProvider σ)
    (ap : AwsKmsProvider σ κ) (tenantID : String) (w : World σ κ) :
    (∀ err w1, storeDeleteCertificate lp.store tenantID w = (some err, w1) →
      lp.DeleteTenantSigningCertificate lib tenantID w = (some err, w1) ∧
      w1.files = w.files) ∧
    (∀ w1, storeDeleteCertificate lp.store tenantID w = (none, w1) →
      lp.DeleteTenantSigningCertificate lib tenantID w = osRemove lib (tenantID ++ ".key") w1 ∧
      (lp.DeleteTenantSigningCertificate lib tenantID w).2.store = w1.store ∧
      (lp.DeleteTenantSigningCertificate lib tenantID w).2.storeCalls
        = w.storeCalls ++ [.DeleteCertificate tenantID]) ∧
    (∀ w', lp.DeleteTenantSigningCertificate lib tenantID w = (none, w') →
      (storeDeleteCertificate lp.store tenantID w).1 = none ∧
      osRemove lib (tenantID ++ ".key") (storeDeleteCertificate lp.store tenantID w).2
        = (none, w') ∧
      w'.files (lib.filepathClean (tenantID ++ ".key")) = none) ∧
    (∀ err w1, storeDeleteCertificate ap.store tenantID w = (some err, w1) →
      ap.DeleteTenantSigningCertificate tenantID w = (some err, w1) ∧
      w1.kms = w.kms ∧ w1.kmsCalls = w.kmsCalls) ∧
    (∀ w1, storeDeleteCertificate ap.store tenantID w = (none, w1) →
      ap.DeleteTenantSigningCertificate tenantID w
        = ap.deleteKmsKey (keyAliasFormat tenantID) w1 ∧
      (ap.DeleteTenantSigningCertificate tenantID w).2.store = w1.store ∧
      (ap.DeleteTenantSigningCertificate tenantID w).2.storeCalls
        = w.storeCalls ++ [.DeleteCertificate tenantID]) ∧
    (∀ w', ap.DeleteTenantSigningCertificate tenantID w = (none, w') →
      (storeDeleteCertificate ap.store tenantID w).1 = none ∧
      ap.deleteKmsKey (keyAliasFormat tenantID) (storeDeleteCertificate ap.store tenantID w).2
        = (none, w') ∧
      ∃ keyId, w'.kmsCalls = w.kmsCalls ++
        [.DescribeKey ("alias/" ++ tenantID), .ScheduleKeyDeletion keyId 7,
          .DeleteAlias ("alias/" ++ tenantID)]) := by
  have hl := local_delete_steps lib lp tenantID w
  have ha := aws_delete_steps ap tenantID w
  refine ⟨?_, ?_, ?_, ?_, ?_, ?_⟩
  · intro err w1 h
    refine ⟨hl.1 err w1 h, ?_⟩
    have := (storeDeleteCertificate_frame lp.store tenantID w).1
    rw [h] at this
    exact this
  · intro w1 h
    have hf := storeDeleteCertificate_frame lp.store tenantID w
    rw [h] at hf
    have ho := osRemove_frame lib (tenantID ++ ".key") w1
    rw [hl.2 w1 h]
    exact ⟨rfl, ho.1, ho.2.1.trans hf.2.2.2⟩
  · intro w' h
    cases hs : storeDeleteCertificate lp.store tenantID w with
    | mk r w1 =>
      cases r with
      | some err =>
        rw [hl.1 err w1 hs] at h
        simp only [Prod.mk.injEq] at h
        cases h.1
      | none =>
        rw [hl.2 w1 hs] at h
        exact ⟨rfl, h, (osRemove_ok lib _ w1 w' h).2⟩
  · intro err w1 h
    refine ⟨ha.1 err w1 h, ?_⟩
    have := storeDeleteCertificate_frame ap.store tenantID w
    rw [h] at this
    exact ⟨this.2.1, this.2.2.1⟩
  · intro w1 h
    have hf := storeDeleteCertificate_frame ap.store tenantID w
    rw [h] at hf
    have ho := deleteKmsKey_frame ap (keyAliasFormat tenantID) w1
    rw [ha.2 w1 h]
    exact ⟨rfl, ho.1, ho.2.trans hf.2.2.2⟩
  · intro w' h
    cases hs : storeDeleteCertificate ap.store tenantID w with
    | mk r w1 =>
      have hf := storeDeleteCertificate_frame ap.store tenantID w
      rw [hs] at hf
      cases r with
      | some err =>
        rw [ha.1 err w1 hs] at h
        simp only [Prod.mk.injEq] at h
        cases h.1
      | none =>
        rw [ha.2 w1 hs] at h
        obtain ⟨keyId, hk⟩ := deleteKmsKey_ok ap _ w1 w' h
        refine ⟨rfl, h, keyId, ?_⟩
        rw [hk, hf.2.2.1]
        rfl

theorem run_none_eta {ε β : Type} (x : Option ε × β) (h : x.1 = none) : x = (none, x.2) :=
  Prod.ext h rfl

set_option maxRecDepth 100000 in
/-- Claim C16 for tenant `t2` after its certificate was created. On a disk
that has turned read-only the deletion from the store fails, the error is
returned and the key file is still there. Otherwise the local provider deletes
the entry and then the key file and succeeds; a second deletion finds no key
file and fails, the entry staying deleted. The AWS provider deletes the entry
and then has the KMS schedule the deletion of the key behind `alias/t2` and
delete the alias. -/
theorem delete_store_entry_then_key_witness :
    ((demoLocalDbProvider.DeleteTenantSigningCertificate demoLib "t2" demoReadOnlyWorld).1
        = some (.other "read-only file system") ∧
      (demoLocalDbProvider.DeleteTenantSigningCertificate demoLib "t2"
        demoReadOnlyWorld).2.files "t2.key" = some [45, 161, 17, 193]) ∧
    ((storeDeleteCertificate demoLocalDbProvider.store "t2" demoLocalCreatedWorld).1 = none ∧
      osRemove demoLib ("t2" ++ ".key")
          (storeDeleteCertificate demoLocalDbProvider.store "t2" demoLocalCreatedWorld).2
        = (none, (demoLocalDbProvider.DeleteTenantSigningCertificate demoLib "t2"
            demoLocalCreatedWorld).2) ∧
      (demoLocalDbProvider.DeleteTenantSigningCertificate demoLib "t2"
        demoLocalCreatedWorld).2.files (demoLib.filepathClean ("t2" ++ ".key")) = none) ∧
    ((demoLocalDbProvider.DeleteTenantSigningCertificate demoLib "t2"
        (demoLocalDbProvider.DeleteTenantSigningCertificate demoLib "t2"
          demoLocalCreatedWorld).2).1 = some (.other "remove: no such file or directory") ∧
      (demoLocalDbProvider.DeleteTenantSigningCertificate demoLib "t2"
        (demoLocalDbProvider.DeleteTenantSigningCertificate demoLib "t2"
          demoLocalCreatedWorld).2).2.store.bucket = []) ∧
    ((demoAwsDbProvider.DeleteTenantSigningCertificate "t2" demoAwsCreatedWorld).1 = none ∧
      (demoAwsDbProvider.DeleteTenantSigningCertificate "t2" demoAwsCreatedWorld).2.kmsCalls
        = demoAwsCreatedWorld.kmsCalls ++
          [.DescribeKey "alias/t2", .ScheduleKeyDeletion "key:Signing key: t2" 7,
            .DeleteAlias "alias/t2"] ∧
      (demoAwsDbProvider.DeleteTenantSigningCertificate "t2"
        demoAwsCreatedWorld).2.store.bucket = []) :=
  ⟨⟨by decide, by decide⟩,
    (delete_store_entry_then_key demoLib demoLocalDbProvider demoAwsDbProvider "t2"
      demoLocalCreatedWorld).2.2.1 _ (run_none_eta _ (by decide)),
    ⟨by decide, by decide⟩, ⟨by decide, by decide, by decide⟩⟩

/-- A header of protocol version `v1` is valid; validating it touches neither
the files nor the store nor the KMS. -/
theorem isValidRequestHeader_valid (hd : CaRequestHeader)
    (hv : hd.ProtocolVersion = CaProtocolVersion) (w : World σ κ) :
    ∃ (rid : String) (w1 : World σ κ),
      isValidRequestHeader (some hd) w = ((rid, true), w1) ∧ w1.files = w.files ∧
      w1.store = w.store ∧ w1.kms = w.kms := by
  unfold isValidRequestHeader
  by_cases hid : hd.RequestId = ""
  · simp only [hv, hid, ne_eq, not_true_eq_false, if_false, if_true]
    exact ⟨_, _, rfl, rfl, rfl, rfl⟩
  · simp only [hv, hid, ne_eq, not_true_eq_false, if_false]
    exact ⟨_, _, rfl, rfl, rfl, rfl⟩

/-- The delete RPC answers Internal when the provider returns an error. -/
theorem rpcDelete_provider_error (s : CertificateAuthorityServer σ κ)
    (request : DeleteTenantSigningCertificateRequest) (hd : CaRequestHeader) (w : World σ κ)
    (hhdr : request.Header = some hd) (hver : hd.ProtocolVersion = CaProtocolVersion)
    (htid : request.Tid ≠ "")
    (hfail : ∀ w1 : World σ κ, w1.files = w.files → w1.store = w.store → w1.kms = w.kms →
      ∃ err, (s.kmsProvider.DeleteTenantSigningCertificate request.Tid w1).1 = some err) :
    (s.DeleteTenantSigningCertificate request w).1.Header.Status = codesInternal := by
  obtain ⟨rid, w1, hh, h1, h2, h3⟩ := isValidRequestHeader_valid hd hver w
  obtain ⟨err, he⟩ := hfail w1 h1 h2 h3
  unfold CertificateAuthorityServer.DeleteTenantSigningCertificate
  rw [hhdr, hh]
  simp only [htid, if_false]
  cases hp : s.kmsProvider.DeleteTenantSigningCertificate request.Tid w1 with
  | mk r w2 =>
    rw [hp] at he
    simp only at he
    subst he
    rfl

/-- The get RPC answers Internal when the provider returns an error. -/
theorem rpcGet_provider_error (s : CertificateAuthorityServer σ κ)
    (request : GetTenantSigningCertificateRequest) (hd : CaRequestHeader) (w : World σ κ)
    (hhdr : request.Header = some hd) (hver : hd.ProtocolVersion = CaProtocolVersion)
    (htid : request.Tid ≠ "")
    (hfail : ∀ w1 : World σ κ, w1.store = w.store →
      ∃ err, (s.kmsProvider.GetTenantSigningCertificate request.Tid w1).1 = .error err) :
    (s.GetTenantSigningCertificate request w).1.Header.Status = codesInternal := by
  obtain ⟨rid, w1, hh, _, h2, _⟩ := isValidRequestHeader_valid hd hver w
  obtain ⟨err, he⟩ := hfail w1 h2
  unfold CertificateAuthorityServer.GetTenantSigningCertificate
  rw [hhdr, hh]
  simp only [htid, if_false]
  cases hp : s.kmsProvider.GetTenantSigningCertificate request.Tid w1 with
  | mk r w2 =>
    rw [hp] at he
    simp only at he
    subst he
    rfl

/-- The local provider cannot delete the certificate of a tenant that has no
key file. -/
theorem local_delete_no_key (lib : Lib) (p : LocalProvider σ) (tenantID : String)
    (w : World σ κ) (h : w.files (lib.filepathClean (tenantID ++ ".key")) = none) :
    ∃ err, (p.DeleteTenantSigningCertificate lib tenantID w).1 = some err := by
  have hl := local_delete_steps lib p tenantID w
  cases hs : storeDeleteCertificate p.store tenantID w with
  | mk r w1 =>
    cases r with
    | some err =>
      rw [hl.1 err w1 hs]
      exact ⟨err, rfl⟩
    | none =>
      rw [hl.2 w1 hs]
      have hf : w1.files = w.files := by
        have := (storeDeleteCertificate_frame p.store tenantID w).1
        rw [hs] at this
        exact this
      rw [osRemove_missing lib _ w1 (by rw [hf]; exact h)]
      exact ⟨_, rfl⟩

/-- The AWS provider cannot delete the certificate of a tenant whose alias the
KMS does not know. -/
theorem aws_delete_no_key (p : AwsKmsProvider σ κ) (tenantID : String) (w : World σ κ)
    (err : Error) (h : (p.client.DescribeKey w.kms (keyAliasFormat tenantID)).1 = .error err) :
    ∃ err, (p.DeleteTenantSigningCertificate tenantID w).1 = some err := by
  have ha := aws_delete_steps p tenantID w
  cases hs : storeDeleteCertificate p.store tenantID w with
  | mk r w1 =>
    cases r with
    | some e =>
      rw [ha.1 e w1 hs]
      exact ⟨e, rfl⟩
    | none =>
      rw [ha.2 w1 hs]
      have hk : w1.kms = w.kms := by
        have := (storeDeleteCertificate_frame p.store tenantID w).2.1
        rw [hs] at this
        exact this
      exact ⟨err, deleteKmsKey_unknown p _ w1 err (by rw [hk]; exact h)⟩

/-- Claim C17. For a request with a valid header and a tenant id that is not
empty: when the tenant has no key file, `DeleteTenantSigningCertificate` of
the local provider returns an error, whatever the store holds, and the RPC
answers Internal; when the KMS does not know the alias of the tenant, the
same holds of the AWS provider. -/
theorem delete_unknown_tenant_is_internal (lib : Lib) (lp : LocalProvider σ)
    (ap : AwsKmsProvider σ κ) (request : DeleteTenantSigningCertificateRequest)
    (hd : CaRequestHeader) (w : World σ κ)
    (hhdr : request.Header = some hd) (hver : hd.ProtocolVersion = CaProtocolVersion)
    (htid : request.Tid ≠ "") :
    (w.files (lib.filepathClean (request.Tid ++ ".key")) = none →
      (∃ err, (lp.DeleteTenantSigningCertificate lib request.Tid w).1 = some err) ∧
      (CertificateAuthorityServer.DeleteTenantSigningCertificate
        { kmsProvider := lp.toKmsProvider lib } request w).1.Header.Status = codesInternal) ∧
    ((∃ err, (ap.client.DescribeKey w.kms (keyAliasFormat request.Tid)).1 = .error err) →
      (∃ err, (ap.DeleteTenantSigningCertificate request.Tid w).1 = some err) ∧
      (CertificateAuthorityServer.DeleteTenantSigningCertificate
        { kmsProvider := ap.toKmsProvider lib } request w).1.Header.Status = codesInternal) := by
  constructor
  · intro hfile
    refine ⟨local_delete_no_key lib lp request.Tid w hfile, ?_⟩
    apply rpcDelete_provider_error _ request hd w hhdr hver htid
    intro w1 h1 _ _
    exact local_delete_no_key lib lp request.Tid w1 (by rw [h1]; exact hfile)
  · intro hkms
    obtain ⟨err, he⟩ := hkms
    refine ⟨aws_delete_no_key ap request.Tid w err he, ?_⟩
    apply rpcDelete_provider_error _ request hd w hhdr hver htid
    intro w1 _ _ h3
    exact aws_delete_no_key ap request.Tid w1 err (by rw [h3]; exact he)

set_option maxRecDepth 100000 in
/-- Claim C17 for tenant `t2` in the world at rest, where no certificate was
ever created: no key file, no alias; both providers return an error and the
RPC answers Internal (13). -/
theorem delete_unknown_tenant_is_internal_witness :
    demoAwsDbWorld.files (demoLib.filepathClean (demoDeleteRequest.Tid ++ ".key")) = none ∧
    ((∃ err, (demoLocalDbProvider.DeleteTenantSigningCertificate demoLib demoDeleteRequest.Tid
        demoAwsDbWorld).1 = some err) ∧
      (CertificateAuthorityServer.DeleteTenantSigningCertificate
        { kmsProvider := demoLocalDbProvider.toKmsProvider demoLib } demoDeleteRequest
          demoAwsDbWorld).1.Header.Status = codesInternal) ∧
    (CertificateAuthorityServer.DeleteTenantSigningCertificate
      { kmsProvider := demoAwsDbProvider.toKmsProvider demoLib } demoDeleteRequest
        demoAwsDbWorld).1.Header.Status = 13 :=
  ⟨rfl,
    (delete_unknown_tenant_is_internal demoLib demoLocalDbProvider demoAwsDbProvider
      demoDeleteRequest demoHeader demoAwsDbWorld rfl rfl (by decide)).1 rfl,
    by decide⟩

/-- A successful deletion by the local provider ran both steps. -/
theorem local_delete_ok (lib : Lib) (p : LocalProvider σ) (tenantID : String)
    (w w' : World σ κ) (h : p.DeleteTenantSigningCertificate lib tenantID w = (none, w')) :
    (storeDeleteCertificate p.store tenantID w).1 = none ∧
      w'.store = (storeDeleteCertificate p.store tenantID w).2.store := by
  have hl := local_delete_steps lib p tenantID w
  cases hs : storeDeleteCertificate p.store tenantID w with
  | mk r w1 =>
    cases r with
    | some err =>
      rw [hl.1 err w1 hs] at h
      simp only [Prod.mk.injEq] at h
      cases h.1
    | none =>
      rw [hl.2 w1 hs] at h
      have ho := (osRemove_frame lib (tenantID ++ ".key") w1).1
      rw [h] at ho
      exact ⟨rfl, ho⟩

/-- A successful deletion by the AWS provider ran both steps. -/
theorem aws_delete_ok (p : AwsKmsProvider σ κ) (tenantID : String) (w w' : World σ κ)
    (h : p.DeleteTenantSigningCertificate tenantID w = (none, w')) :
    (storeDeleteCertificate p.store tenantID w).1 = none ∧
      w'.store = (storeDeleteCertificate p.store tenantID w).2.store := by
  have ha := aws_delete_steps p tenantID w
  cases hs : storeDeleteCertificate p.store tenantID w with
  | mk r w1 =>
    cases r with
    | some err =>
      rw [ha.1 err w1 hs] at h
      simp only [Prod.mk.injEq] at h
      cases h.1
    | none =>
      rw [ha.2 w1 hs] at h
      have ho := (deleteKmsKey_frame p (keyAliasFormat tenantID) w1).1
      rw [h] at ho
      exact ⟨rfl, ho⟩

/-- Over the embedded store, a successful deletion of the store entry leaves
no key for the tenant in the bucket. -/
theorem storeDelete_localdb (store : CertStore BoltDB) (tenantID : String)
    (w : World BoltDB κ) (hs : store = LocalDbProvider.toCertStore)
    (h : (storeDeleteCertificate store tenantID w).1 = none) :
    bucketGet (storeDeleteCertificate store tenantID w).2.store.bucket (stringBytes tenantID)
      = none := by
  subst hs
  unfold storeDeleteCertificate at h ⊢
  exact localdb_delete_ok w.store _ tenantID (Prod.ext h rfl)

/-- A tenant whose certificate one of the providers created over the embedded
store has an id that is not empty. -/
theorem created_tenant_nonempty (lib : Lib) (lp : LocalProvider BoltDB)
    (ap : AwsKmsProvider BoltDB κ) (tenantID tenantName : String) (w w' : World BoltDB κ)
    (certId : String) (hls : lp.store = LocalDbProvider.toCertStore)
    (has : ap.store = LocalDbProvider.toCertStore)
    (h : lp.CreateTenantSigningCertificate lib tenantID tenantName w = (.ok certId, w') ∨
      ap.CreateTenantSigningCertificate lib tenantID tenantName w = (.ok certId, w')) :
    tenantID ≠ "" := by
  rcases h with h | h
  · rcases local_tenant_create_run lib lp tenantID tenantName w w' _ h with
      ⟨⟨err, he⟩, _⟩ | ⟨key, tpl, der, w1, w2, w3, _, _, _, _, _, _, hw, hr⟩
    · cases he
    · rcases hr with ⟨err, _, he⟩ | ⟨ha, _⟩
      · cases he
      · unfold storeAddCertificate at ha
        rw [hls] at ha
        exact localdb_add_tenant w3.store _
          { Certificate := der, TenantID := tenantID, KmsKeyID := "" } (Prod.ext ha rfl)
  · rcases aws_tenant_create_run lib ap tenantID tenantName w w' _ h with
      ⟨⟨err, he⟩, _⟩ |
      ⟨keyId, tpl, sg, pb, der, w1, w2, w3, w4, w5, _, _, _, _, _, _, _, hw, hr⟩
    · cases he
    · rcases hr with ⟨err, _, he⟩ | ⟨ha, _⟩
      · cases he
      · unfold storeAddCertificate at ha
        rw [has] at ha
        exact localdb_add_tenant w5.store _
          { Certificate := der, TenantID := tenantID, KmsKeyID := keyId } (Prod.ext ha rfl)

/-- Over the embedded store, both providers answer `ErrCertStoreNotFound` for
a tenant that the bucket has no key for, and the get RPC answers Internal. -/
theorem get_missing_is_internal (lib : Lib) (lp : LocalProvider BoltDB)
    (ap : AwsKmsProvider BoltDB κ) (request : GetTenantSigningCertificateRequest)
    (hd : CaRequestHeader) (w : World BoltDB κ)
    (hls : lp.store = LocalDbProvider.toCertStore)
    (has : ap.store = LocalDbProvider.toCertStore)
    (hhdr : request.Header = some hd) (hver : hd.ProtocolVersion = CaProtocolVersion)
    (htid : request.Tid ≠ "")
    (hmiss : bucketGet w.store.bucket (stringBytes request.Tid) = none) :
    (lp.GetTenantSigningCertificate request.Tid w).1 = .error .ErrCertStoreNotFound ∧
    (CertificateAuthorityServer.GetTenantSigningCertificate
      { kmsProvider := lp.toKmsProvider lib } request w).1.Header.Status = codesInternal ∧
    (ap.GetTenantSigningCertificate request.Tid w).1 = .error .ErrCertStoreNotFound ∧
    (CertificateAuthorityServer.GetTenantSigningCertificate
      { kmsProvider := ap.toKmsProvider lib } request w).1.Header.Status = codesInternal := by
  have hl : ∀ w1 : World BoltDB κ, w1.store = w.store →
      (lp.GetTenantSigningCertificate request.Tid w1).1 = .error .ErrCertStoreNotFound := by
    intro w1 h1
    apply local_get_tenant_error lp request.Tid w1 _ w1.store
    rw [hls]
    exact localdb_get_missing w1.store request.Tid (by rw [h1]; exact hmiss)
  have ha : ∀ w1 : World BoltDB κ, w1.store = w.store →
      (ap.GetTenantSigningCertificate request.Tid w1).1 = .error .ErrCertStoreNotFound := by
    intro w1 h1
    apply aws_get_tenant_error ap request.Tid w1 _ w1.store
    rw [has]
    exact localdb_get_missing w1.store request.Tid (by rw [h1]; exact hmiss)
  refine ⟨hl w rfl, ?_, ha w rfl, ?_⟩
  · exact rpcGet_provider_error _ request hd w hhdr hver htid (fun w1 h1 => ⟨_, hl w1 h1⟩)
  · exact rpcGet_provider_error _ request hd w hhdr hver htid (fun w1 h1 => ⟨_, ha w1 h1⟩)

/-- Claim C18. Over the embedded store, in either provider: after a
successful `CreateTenantSigningCertificate` for a tenant and a successful
`DeleteTenantSigningCertificate` for it, `GetTenantSigningCertificate` for
that tenant fails with `ErrCertStoreNotFound`, and the get RPC with a valid
header answers Internal; the same holds for a tenant id, not empty, that the
bucket has no entry for. -/
theorem get_after_delete_is_not_found (lib : Lib) (lp : LocalProvider BoltDB)
    (ap : AwsKmsProvider BoltDB κ) (tenantName : String)
    (request : GetTenantSigningCertificateRequest) (hd : CaRequestHeader)
    (hls : lp.store = LocalDbProvider.toCertStore)
    (has : ap.store = LocalDbProvider.toCertStore)
    (hhdr : request.Header = some hd) (hver : hd.ProtocolVersion = CaProtocolVersion) :
    (∀ (w0 w1 w2 : World BoltDB κ) (certId : String),
      lp.CreateTenantSigningCertificate lib request.Tid tenantName w0 = (.ok certId, w1) →
      lp.DeleteTenantSigningCertificate lib request.Tid w1 = (none, w2) →
      (lp.GetTenantSigningCertificate request.Tid w2).1 = .error .ErrCertStoreNotFound ∧
      (CertificateAuthorityServer.GetTenantSigningCertificate
        { kmsProvider := lp.toKmsProvider lib } request w2).1.Header.Status = codesInternal) ∧
    (∀ (w0 w1 w2 : World BoltDB κ) (certId : String),
      ap.CreateTenantSigningCertificate lib request.Tid tenantName w0 = (.ok certId, w1) →
      ap.DeleteTenantSigningCertificate request.Tid w1 = (none, w2) →
      (ap.GetTenantSigningCertificate request.Tid w2).1 = .error .ErrCertStoreNotFound ∧
      (CertificateAuthorityServer.GetTenantSigningCertificate
        { kmsProvider := ap.toKmsProvider lib } request w2).1.Header.Status = codesInternal) ∧
    (∀ w : World BoltDB κ, request.Tid ≠ "" →
      bucketGet w.store.bucket (stringBytes request.Tid) = none →
      (lp.GetTenantSigningCertificate request.Tid w).1 = .error .ErrCertStoreNotFound ∧
      (CertificateAuthorityServer.GetTenantSigningCertificate
        { kmsProvider := lp.toKmsProvider lib } request w).1.Header.Status = codesInternal ∧
      (ap.GetTenantSigningCertificate request.Tid w).1 = .error .ErrCertStoreNotFound ∧
      (CertificateAuthorityServer.GetTenantSigningCertificate
        { kmsProvider := ap.toKmsProvider lib } request w).1.Header.Status = codesInternal) := by
  refine ⟨?_, ?_, ?_⟩
  · intro w0 w1 w2 certId hc hdel
    have htid := created_tenant_nonempty lib lp ap request.Tid tenantName w0 w1 certId hls has
      (Or.inl hc)
    obtain ⟨h1, h2⟩ := local_delete_ok lib lp request.Tid w1 w2 hdel
    have hmiss := storeDelete_localdb lp.store request.Tid w1 hls h1
    rw [← h2] at hmiss
    have := get_missing_is_internal lib lp ap request hd w2 hls has hhdr hver htid hmiss
    exact ⟨this.1, this.2.1⟩
  · intro w0 w1 w2 certId hc hdel
    have htid := created_tenant_nonempty lib lp ap request.Tid tenantName w0 w1 certId hls has
      (Or.inr hc)
    obtain ⟨h1, h2⟩ := aws_delete_ok ap request.Tid w1 w2 hdel
    have hmiss := storeDelete_localdb ap.store request.Tid w1 has h1
    rw [← h2] at hmiss
    have := get_missing_is_internal lib lp ap request hd w2 hls has hhdr hver htid hmiss
    exact ⟨this.2.2.1, this.2.2.2⟩
  · intro w htid hmiss
    exact get_missing_is_internal lib lp ap request hd w hls has hhdr hver htid hmiss

set_option maxRecDepth 100000 in
/-- Claim C18 for tenant `t2`: the local provider creates its certificate and
deletes it, both with success; `GetTenantSigningCertificate` then fails with
`ErrCertStoreNotFound` and the RPC answers Internal (13), as it does in the
world at rest, where `t2` never had an entry. -/
theorem get_after_delete_is_not_found_witness :
    (demoLocalDbProvider.CreateTenantSigningCertificate demoLib "t2" "Acme" demoAwsDbWorld).1
      = .ok "" ∧
    (demoLocalDbProvider.DeleteTenantSigningCertificate demoLib "t2" demoLocalCreatedWorld).1
      = none ∧
    ((demoLocalDbProvider.GetTenantSigningCertificate demoGetRequest.Tid
        (demoLocalDbProvider.DeleteTenantSigningCertificate demoLib "t2"
          demoLocalCreatedWorld).2).1 = .error .ErrCertStoreNotFound ∧
      (CertificateAuthorityServer.GetTenantSigningCertificate
        { kmsProvider := demoLocalDbProvider.toKmsProvider demoLib } demoGetRequest
          (demoLocalDbProvider.DeleteTenantSigningCertificate demoLib "t2"
            demoLocalCreatedWorld).2).1.Header.Status = codesInternal) ∧
    (CertificateAuthorityServer.GetTenantSigningCertificate
      { kmsProvider := demoLocalDbProvider.toKmsProvider demoLib } demoGetRequest
        demoAwsDbWorld).1.Header.Status = 13 :=
  ⟨toOption_some_ok _ _ demo_local_tenant_create, by decide,
    (get_after_delete_is_not_found demoLib demoLocalDbProvider demoAwsDbProvider "Acme"
      demoGetRequest demoHeader rfl rfl rfl rfl).1 demoAwsDbWorld demoLocalCreatedWorld _ ""
        (run_ok_eta _ _ demo_local_tenant_create) (run_none_eta _ (by decide)),
    by decide⟩

/-! ## Claims about the encoding of entries and the embedded store -/

/-- An unsigned integer takes nine bytes at most on the wire. -/
theorem gobEncodeUint_length (x : Nat) : (gobEncodeUint x).length ≤ 9 := by
  unfold gobEncodeUint
  split
  · simp
  · have h8 : x % 2 ^ 64 < 256 ^ 8 := by
      have : (256 : Nat) ^ 8 = 2 ^ 64 := by norm_num
      rw [this]
      exact Nat.mod_lt _ (by norm_num)
    have := (bigEndian_spec 8 _ h8).2.1
    simp only [List.length_cons]
    omega

/-- The fields of a value take ten bytes each at most beside their content. -/
theorem gobEncodeFields_bound (fields : List (Int × Bytes)) :
    ∀ last : Int, (gobEncodeFields last fields).length
      ≤ (fields.map (fun f => f.2.length + 18)).sum := by
  induction fields with
  | nil => intro _; simp [gobEncodeFields]
  | cons f rest ih =>
    intro last
    obtain ⟨num, payload⟩ := f
    by_cases hp : payload.length = 0
    · simp only [gobEncodeFields, hp, if_true, List.map_cons, List.sum_cons]
      have := ih last
      omega
    · simp only [gobEncodeFields, hp, if_false, List.length_append, gobEncodeCounted,
        List.map_cons, List.sum_cons]
      have h1 := gobEncodeUint_length (num - last).toNat
      have h2 := gobEncodeUint_length payload.length
      have := ih num
      omega

/-- The value message of an entry is at most 64 bytes longer than its three
fields together. -/
theorem gobEncodeValue_bound (e : SigningCertificate) :
    (gobEncodeValue e).length
      ≤ (stringBytes e.TenantID).length + (stringBytes e.KmsKeyID).length
        + e.Certificate.length + 64 := by
  unfold gobEncodeValue
  have h1 := gobEncodeFields_bound
    [(0, stringBytes e.TenantID), (1, stringBytes e.KmsKeyID), (2, e.Certificate)] (-1)
  have h2 : (gobEncodeInt gobFirstStructId).length = 2 := by decide
  simp only [List.map_cons, List.map_nil, List.sum_cons, List.sum_nil] at h1
  simp only [List.length_append, List.length_singleton, h2]
  omega

/-- The value message of an entry is as long as its certificate at least. -/
theorem gobEncodeValue_ge_certificate (e : SigningCertificate) :
    e.Certificate.length ≤ (gobEncodeValue e).length := by
  have hmem : ((2 : Int), e.Certificate) ∈
      [((0 : Int), stringBytes e.TenantID), (1, stringBytes e.KmsKeyID),
        (2, e.Certificate)] := by
    simp
  have hlen := gobEncodeFields_length _ (-1) _ hmem
  simp only at hlen
  unfold gobEncodeValue
  simp only [List.length_append]
  omega

/-- An entry whose value message reaches the limit of `encoding/gob` is not
encoded. -/
theorem EncodeSigningCertificate_of_long (e : SigningCertificate)
    (h : gobTooBig ≤ (gobEncodeValue e).length) :
    EncodeSigningCertificate e = .error (.other "gob: encoder: message too big") := by
  unfold EncodeSigningCertificate gobMessage
  rw [typeMessage_length]
  have h74 : ¬ (gobTooBig ≤ 74) := by decide
  simp only [h74, if_false, h, if_true]

/-- Claim C19 at an entry whose certificate has 2^33 bytes: the value message
reaches the limit `tooBig` of `encoding/gob`, and `EncodeSigningCertificate`
returns the error of the encoder instead of an encoding. -/
theorem encode_signing_certificate_counterexample :
    EncodeSigningCertificate
        { TenantID := "", KmsKeyID := "", Certificate := List.replicate (2 ^ 33) 0 }
      = .error (.other "gob: encoder: message too big") :=
  EncodeSigningCertificate_of_long _
    (Nat.le_trans (Nat.le_of_eq (List.length_replicate (2 ^ 33) 0).symm)
      (gobEncodeValue_ge_certificate
        { TenantID := "", KmsKeyID := "", Certificate := List.replicate (2 ^ 33) 0 }))

/-- Claim C19, amended. For every entry whose value message is shorter than
the limit of `encoding/gob` (2^33 bytes; the message is at most 64 bytes
longer than the three fields together), `EncodeSigningCertificate` succeeds,
and `DecodeSigningCertificate` of its output succeeds and returns that entry:
the same `TenantID`, `KmsKeyID` and `Certificate`. For every longer entry
`EncodeSigningCertificate` returns an error. -/
theorem signing_certificate_round_trip (e : SigningCertificate) :
    ((gobEncodeValue e).length < gobTooBig →
      ∃ bs, EncodeSigningCertificate e = .ok bs ∧
        ∃ d, DecodeSigningCertificate bs = .ok d ∧ d.TenantID = e.TenantID ∧
          d.KmsKeyID = e.KmsKeyID ∧ d.Certificate = e.Certificate) ∧
    ((stringBytes e.TenantID).length + (stringBytes e.KmsKeyID).length + e.Certificate.length
        + 64 < 2 ^ 33 → (gobEncodeValue e).length < gobTooBig) ∧
    (gobTooBig ≤ (gobEncodeValue e).length →
      EncodeSigningCertificate e = .error (.other "gob: encoder: message too big")) := by
  refine ⟨?_, ?_, ?_⟩
  · intro h
    have henc := EncodeSigningCertificate_of_short e h
    exact ⟨_, henc, e, DecodeSigningCertificate_encode e _ henc, rfl, rfl, rfl⟩
  · intro h
    have := gobEncodeValue_bound e
    unfold gobTooBig
    omega
  · exact EncodeSigningCertificate_of_long e

set_option maxRecDepth 100000 in
/-- Claim C19 at two entries: one with all fields set, one with an empty key
id and an empty certificate. Each is shorter than the limit, is encoded, and
is decoded as itself. -/
theorem signing_certificate_round_trip_witness :
    (gobEncodeValue demoTenantEntry).length < gobTooBig ∧
    (∃ bs, EncodeSigningCertificate demoTenantEntry = .ok bs ∧
      ∃ d, DecodeSigningCertificate bs = .ok d ∧ d.TenantID = demoTenantEntry.TenantID ∧
        d.KmsKeyID = demoTenantEntry.KmsKeyID ∧ d.Certificate = demoTenantEntry.Certificate) ∧
    ((EncodeSigningCertificate { TenantID := "t3", KmsKeyID := "", Certificate := [] }).toOption
      = some [74, 255, 129, 3, 1, 1, 18, 83, 105, 103, 110, 105, 110, 103, 67, 101, 114, 116,
          105, 102, 105, 99, 97, 116, 101, 1, 255, 130, 0, 1, 3, 1, 8, 84, 101, 110, 97, 110,
          116, 73, 68, 1, 12, 0, 1, 8, 75, 109, 115, 75, 101, 121, 73, 68, 1, 12, 0, 1, 11,
          67, 101, 114, 116, 105, 102, 105, 99, 97, 116, 101, 1, 10, 0, 0, 0,
          7, 255, 130, 1, 2, 116, 51, 0]) ∧
    ((DecodeSigningCertificate
        [74, 255, 129, 3, 1, 1, 18, 83, 105, 103, 110, 105, 110, 103, 67, 101, 114, 116,
          105, 102, 105, 99, 97, 116, 101, 1, 255, 130, 0, 1, 3, 1, 8, 84, 101, 110, 97, 110,
          116, 73, 68, 1, 12, 0, 1, 8, 75, 109, 115, 75, 101, 121, 73, 68, 1, 12, 0, 1, 11,
          67, 101, 114, 116, 105, 102, 105, 99, 97, 116, 101, 1, 10, 0, 0, 0,
          7, 255, 130, 1, 2, 116, 51, 0]).toOption.map
        (fun d => (d.TenantID, d.KmsKeyID, d.Certificate))) = some ("t3", "", []) :=
  have h : (gobEncodeValue demoTenantEntry).length < gobTooBig := by decide
  ⟨h, (signing_certificate_round_trip demoTenantEntry).1 h, by decide, by decide⟩

/-- Claim C20. In the embedded store, after a successful `AddCertificate` of an
entry, whatever the bucket held before, `GetCertificate` of the tenant id of
the entry returns that entry, and what `GetCertificate` returns for every
other id is what it returned before; `GetCertificate` of an id that the bucket
has no key for returns no entry and the error `ErrCertStoreNotFound`. -/
theorem embedded_store_upsert (db db' : BoltDB) (e : SigningCertificate) (id : String) :
    (LocalDbProvider.AddCertificate db e = (none, db') →
      LocalDbProvider.GetCertificate db' e.TenantID = (.ok e, db') ∧
      (id ≠ e.TenantID →
        (LocalDbProvider.GetCertificate db' id).1 = (LocalDbProvider.GetCertificate db id).1)) ∧
    (bucketGet db.bucket (stringBytes id) = none →
      LocalDbProvider.GetCertificate db id = (.error .ErrCertStoreNotFound, db)) :=
  ⟨fun h => ⟨localdb_get_after_add db db' e h, localdb_get_other_after_add db db' e id h⟩,
    localdb_get_missing db id⟩

set_option maxRecDepth 100000 in
/-- Claim C20 at a bucket that holds an entry for `t2`: adding the entry of
`t1` and then another entry for `t1` succeeds; the store then returns the
second entry for `t1`, still returns the entry of `t2`, and answers
`ErrCertStoreNotFound` for `t3`. -/
theorem embedded_store_upsert_witness :
    (LocalDbProvider.AddCertificate
        (LocalDbProvider.AddCertificate demoLocalCreatedWorld.store demoTenantEntry).2
        { TenantID := "t1", KmsKeyID := "", Certificate := [48, 12] }).1 = none ∧
    (LocalDbProvider.GetCertificate
        (LocalDbProvider.AddCertificate
          (LocalDbProvider.AddCertificate demoLocalCreatedWorld.store demoTenantEntry).2
          { TenantID := "t1", KmsKeyID := "", Certificate := [48, 12] }).2 "t1").1
      = .ok { TenantID := "t1", KmsKeyID := "", Certificate := [48, 12] } ∧
    ((LocalDbProvider.GetCertificate
        (LocalDbProvider.AddCertificate
          (LocalDbProvider.AddCertificate demoLocalCreatedWorld.store demoTenantEntry).2
          { TenantID := "t1", KmsKeyID := "", Certificate := [48, 12] }).2 "t2").1.toOption.map
        (fun d => d.Certificate)) = some [48, 130, 48, 9] ∧
    (LocalDbProvider.GetCertificate
        (LocalDbProvider.AddCertificate
          (LocalDbProvider.AddCertificate demoLocalCreatedWorld.store demoTenantEntry).2
          { TenantID := "t1", KmsKeyID := "", Certificate := [48, 12] }).2 "t3").1
      = .error .ErrCertStoreNotFound :=
  have hadd : (LocalDbProvider.AddCertificate
      (LocalDbProvider.AddCertificate demoLocalCreatedWorld.store demoTenantEntry).2
      { TenantID := "t1", KmsKeyID := "", Certificate := [48, 12] }).1 = none := by decide
  have h := embedded_store_upsert
    (LocalDbProvider.AddCertificate demoLocalCreatedWorld.store demoTenantEntry).2 _
    { TenantID := "t1", KmsKeyID := "", Certificate := [48, 12] } "t3"
  have hmiss := (embedded_store_upsert
    (LocalDbProvider.AddCertificate
      (LocalDbProvider.AddCertificate demoLocalCreatedWorld.store demoTenantEntry).2
      { TenantID := "t1", KmsKeyID := "", Certificate := [48, 12] }).2 demoBolt
    demoTenantEntry "t3").2 (by decide)
  ⟨hadd, by rw [(h.1 (run_none_eta _ hadd)).1], by decide, by rw [hmiss]⟩

/-! ## The device template and the CSR -/

/-- The next seventeen bytes of the random source of the world at rest. -/
theorem demo_read_seventeen :
    readBytes demoServiceWorld.randReader demoServiceWorld.randPos 17
      = some [0, 0, 0, 0, 0, 0, 0, 0, 0, 0, 0, 0, 0, 0, 0, 0, 0] := by
  decide

/-- Claim C29. `NewDeviceCertificateTemplate` returns a template when the
random source yields the seventeen bytes of the serial number. The template it
returns carries the `Signature` bytes and the `PublicKey` of the CSR, whatever
the CSR. Its `PublicKeyAlgorithm` is written as `x509.RSA`; it equals the
`PublicKeyAlgorithm` of the CSR for every CSR that passed
`validateCertificateSigningRequest`, and so for every CSR that
`ParseDeviceCertificateSigningRequest` returned, which are the only CSRs that
the providers pass to the builder. -/
theorem device_template_fields_from_csr (tenantID deviceID : String)
    (deviceCSR : CertificateRequest) (w : World σ κ) :
    (∀ bytes, readBytes w.randReader w.randPos 17 = some bytes →
      ∃ tpl w', NewDeviceCertificateTemplate tenantID deviceID deviceCSR w = (.ok tpl, w')) ∧
    (∀ tpl w', NewDeviceCertificateTemplate tenantID deviceID deviceCSR w = (.ok tpl, w') →
      tpl.Signature = deviceCSR.Signature ∧
      tpl.PublicKey = deviceCSR.PublicKey ∧
      tpl.PublicKeyAlgorithm = .RSA ∧
      (tpl.PublicKeyAlgorithm = deviceCSR.PublicKeyAlgorithm ↔
        deviceCSR.PublicKeyAlgorithm = .RSA) ∧
      (validateCertificateSigningRequest deviceCSR = none →
        tpl.PublicKeyAlgorithm = deviceCSR.PublicKeyAlgorithm) ∧
      (∀ (lib : Lib) (b : Bytes), ParseDeviceCertificateSigningRequest lib b = .ok deviceCSR →
        tpl.PublicKeyAlgorithm = deviceCSR.PublicKeyAlgorithm)) := by
  constructor
  · intro bytes hb
    exact ⟨_, _, NewDeviceCertificateTemplate_of_read tenantID deviceID deviceCSR w bytes hb⟩
  · intro tpl w' h
    obtain ⟨n, _, rfl⟩ := NewDeviceCertificateTemplate_ok tenantID deviceID deviceCSR w w' tpl h
    have hv : validateCertificateSigningRequest deviceCSR = none →
        deviceCSR.PublicKeyAlgorithm = .RSA := by
      intro hval
      unfold validateCertificateSigningRequest at hval
      split at hval
      · cases hval
      · split at hval
        · cases hval
        · rename_i _ h2
          exact not_not.mp h2
    refine ⟨rfl, rfl, rfl, ⟨fun h1 => h1.symm, fun h1 => h1.symm⟩, fun hval => (hv hval).symm, ?_⟩
    intro lib b hp
    refine (hv ?_).symm
    unfold ParseDeviceCertificateSigningRequest at hp
    split at hp
    · cases hp
    · split at hp
      · cases hp
      · split at hp
        · cases hp
        · rename_i parsed _ _ hval
          simp only [Except.ok.injEq] at hp
          subst hp
          exact hval

/-- The CSR that the demonstration library parses from the bytes `[48, 1]`
passes the checks of `ParseDeviceCertificateSigningRequest`. -/
theorem demo_csr_parsed : ParseDeviceCertificateSigningRequest demoLib [48, 1] = .ok demoCSR :=
  rfl

/-- Claim C29 for tenant `t1`, device `d1` and the CSR with an RSA key that
`ParseDeviceCertificateSigningRequest` returns for the bytes `[48, 1]`: the
template is built, carries the signature bytes `[7, 7]` of the CSR, and names
RSA, the algorithm of the CSR. -/
theorem device_template_fields_from_csr_witness :
    ParseDeviceCertificateSigningRequest demoLib [48, 1] = .ok demoCSR ∧
    (∃ tpl w', NewDeviceCertificateTemplate "t1" "d1" demoCSR demoServiceWorld = (.ok tpl, w')) ∧
    (demoDeviceTemplate.Signature = demoCSR.Signature ∧
      demoDeviceTemplate.Signature = [7, 7] ∧
      demoDeviceTemplate.PublicKeyAlgorithm = demoCSR.PublicKeyAlgorithm) :=
  have h := device_template_fields_from_csr "t1" "d1" demoCSR demoServiceWorld
  have hd := h.2 demoDeviceTemplate _
    (NewDeviceCertificateTemplate_of_read "t1" "d1" demoCSR demoServiceWorld _
      demo_read_seventeen)
  ⟨demo_csr_parsed, h.1 _ demo_read_seventeen, hd.1, hd.1, hd.2.2.2.2.2 demoLib [48, 1]
    demo_csr_parsed⟩

/-! ## Validation of the configuration at start -/

/-- Claim C26 fails when both settings are wrong: with the KMS provider `vault`
and the certificate store `redis`, `loadEnvironmentVariableOverrides` fails
with `ErrInvalidKmsProvider`, not with `ErrInvalidCertStore`, though the
certificate store is neither `localdb` nor `dynamodb`. -/
theorem invalid_cert_store_error_counterexample :
    (demoConfigMgr "vault" "redis").GetCertStoreProvider ≠ "localdb" ∧
    (demoConfigMgr "vault" "redis").GetCertStoreProvider ≠ "dynamodb" ∧
    ((demoConfigMgr "vault" "redis").loadEnvironmentVariableOverrides (fun _ => "")).1
      = some .ErrInvalidKmsProvider ∧
    ((demoConfigMgr "vault" "redis").loadEnvironmentVariableOverrides (fun _ => "")).1
      ≠ some .ErrInvalidCertStore := by
  decide

/-- Claim C26, amended. With `c1` the configuration after the overrides from
the environment, `loadEnvironmentVariableOverrides` fails with
`ErrInvalidKmsProvider` exactly when the KMS provider of `c1` is neither
`local_kms` nor `aws_kms`; it fails with `ErrInvalidCertStore` exactly when
the KMS provider is one of the two and the certificate store is neither
`localdb` nor `dynamodb`; it succeeds exactly when both are valid.
`validateCertificateTemplateSettings` returns true exactly when the seven
template fields are all non-empty. `certmgr.Init` returns the error
`unsupported kms provider requested`, and no provider, for every KMS provider
other than the two. -/
theorem startup_configuration_validation (environ : String → String) (c : ConfigMgr)
    (lib : Lib) (b : Backends σ κ) (w : World σ κ) :
    (c.loadEnvironmentVariableOverrides environ).2.config
      = overrideFromEnvironment environ c.config ∧
    ((c.loadEnvironmentVariableOverrides environ).1 = some .ErrInvalidKmsProvider ↔
      ¬ ((c.loadEnvironmentVariableOverrides environ).2.GetKmsProvider = "local_kms" ∨
         (c.loadEnvironmentVariableOverrides environ).2.GetKmsProvider = "aws_kms")) ∧
    ((c.loadEnvironmentVariableOverrides environ).1 = some .ErrInvalidCertStore ↔
      ((c.loadEnvironmentVariableOverrides environ).2.GetKmsProvider = "local_kms" ∨
         (c.loadEnvironmentVariableOverrides environ).2.GetKmsProvider = "aws_kms") ∧
      ¬ ((c.loadEnvironmentVariableOverrides environ).2.GetCertStoreProvider = "localdb" ∨
         (c.loadEnvironmentVariableOverrides environ).2.GetCertStoreProvider = "dynamodb")) ∧
    ((c.loadEnvironmentVariableOverrides environ).1 = none ↔
      ((c.loadEnvironmentVariableOverrides environ).2.GetKmsProvider = "local_kms" ∨
         (c.loadEnvironmentVariableOverrides environ).2.GetKmsProvider = "aws_kms") ∧
      ((c.loadEnvironmentVariableOverrides environ).2.GetCertStoreProvider = "localdb" ∨
         (c.loadEnvironmentVariableOverrides environ).2.GetCertStoreProvider = "dynamodb")) ∧
    (c.validateCertificateTemplateSettings = true ↔
      c.GetCertificateTemplateConfig.IssuerName ≠ "" ∧
      c.GetCertificateTemplateConfig.Country ≠ "" ∧
      c.GetCertificateTemplateConfig.Province ≠ "" ∧
      c.GetCertificateTemplateConfig.Locality ≠ "" ∧
      c.GetCertificateTemplateConfig.StreetAddress ≠ "" ∧
      c.GetCertificateTemplateConfig.PostalCode ≠ "" ∧
      c.GetCertificateTemplateConfig.Organization ≠ "") ∧
    (c.GetKmsProvider ≠ "local_kms" → c.GetKmsProvider ≠ "aws_kms" →
      certmgr.Init lib b c w
        = (.returned (.error (.other "unsupported kms provider requested")),
            InitTemplateConfiguration c.GetCertificateTemplateConfig w)) := by
  refine ⟨?_, ?_, ?_, ?_, ?_, ?_⟩
  · unfold ConfigMgr.loadEnvironmentVariableOverrides
    dsimp only
    split
    · split <;> rfl
    · rfl
  · unfold ConfigMgr.loadEnvironmentVariableOverrides ConfigMgr.GetKmsProvider
    dsimp only
    by_cases hk : (overrideFromEnvironment environ c.config).CertificateAuthority.KmsProvider
          = KmsProviderAws ∨
        (overrideFromEnvironment environ c.config).CertificateAuthority.KmsProvider
          = KmsProviderLocal
    · rw [if_pos hk]
      have hk2 : (overrideFromEnvironment environ c.config).CertificateAuthority.KmsProvider
            = "local_kms" ∨
          (overrideFromEnvironment environ c.config).CertificateAuthority.KmsProvider
            = "aws_kms" := hk.symm
      split
      · exact ⟨fun h => (by cases h), fun h => absurd hk2 h⟩
      · exact ⟨fun h => (by cases h), fun h => absurd hk2 h⟩
    · rw [if_neg hk]
      exact ⟨fun _ h => hk h.symm, fun _ => rfl⟩
  · unfold ConfigMgr.loadEnvironmentVariableOverrides ConfigMgr.GetKmsProvider
      ConfigMgr.GetCertStoreProvider
    dsimp only
    by_cases hk : (overrideFromEnvironment environ c.config).CertificateAuthority.KmsProvider
          = KmsProviderAws ∨
        (overrideFromEnvironment environ c.config).CertificateAuthority.KmsProvider
          = KmsProviderLocal
    · rw [if_pos hk]
      by_cases hs :
          (overrideFromEnvironment environ c.config).CertificateAuthority.CertStoreProvider
            = CertStoreDynamoDb ∨
          (overrideFromEnvironment environ c.config).CertificateAuthority.CertStoreProvider
            = CertStoreLocalDb
      · rw [if_pos hs]
        exact ⟨fun h => (by cases h), fun h => absurd hs.symm h.2⟩
      · rw [if_neg hs]
        exact ⟨fun _ => ⟨hk.symm, fun h => hs h.symm⟩, fun _ => rfl⟩
    · rw [if_neg hk]
      exact ⟨fun h => (by cases h), fun h => absurd h.1.symm hk⟩
  · unfold ConfigMgr.loadEnvironmentVariableOverrides ConfigMgr.GetKmsProvider
      ConfigMgr.GetCertStoreProvider
    dsimp only
    by_cases hk : (overrideFromEnvironment environ c.config).CertificateAuthority.KmsProvider
          = KmsProviderAws ∨
        (overrideFromEnvironment environ c.config).CertificateAuthority.KmsProvider
          = KmsProviderLocal
    · rw [if_pos hk]
      by_cases hs :
          (overrideFromEnvironment environ c.config).CertificateAuthority.CertStoreProvider
            = CertStoreDynamoDb ∨
          (overrideFromEnvironment environ c.config).CertificateAuthority.CertStoreProvider
            = CertStoreLocalDb
      · rw [if_pos hs]
        exact ⟨fun _ => ⟨hk.symm, hs.symm⟩, fun _ => rfl⟩
      · rw [if_neg hs]
        exact ⟨fun h => (by cases h), fun h => absurd h.2.symm hs⟩
    · rw [if_neg hk]
      exact ⟨fun h => (by cases h), fun h => absurd h.1.symm hk⟩
  · unfold ConfigMgr.validateCertificateTemplateSettings ConfigMgr.GetCertificateTemplateConfig
    split
    · rename_i h
      refine ⟨fun hf => (by cases hf), fun hall => ?_⟩
      obtain ⟨h1, h2, h3, h4, h5, h6, h7⟩ := hall
      rcases h with h | h | h | h | h | h | h
      · exact absurd h h1
      · exact absurd h h2
      · exact absurd h h3
      · exact absurd h h4
      · exact absurd h h5
      · exact absurd h h6
      · exact absurd h h7
    · rename_i h
      refine ⟨fun _ => ?_, fun _ => rfl⟩
      simp only [not_or] at h
      exact h
  · intro hl ha
    unfold certmgr.Init
    dsimp only
    rw [if_neg (show ¬ c.GetKmsProvider = KmsProviderAws from ha),
      if_neg (show ¬ c.GetKmsProvider = KmsProviderLocal from hl)]

/-- Claim C26, amended, at three configurations: the store `redis` under the
provider `local_kms` fails with `ErrInvalidCertStore`; the provider `vault`
fails with `ErrInvalidKmsProvider` and `certmgr.Init` refuses it; the variable
`CA_KMS_PROVIDER` set to `aws_kms` makes the provider valid. -/
theorem startup_configuration_validation_witness :
    ((demoConfigMgr "local_kms" "redis").loadEnvironmentVariableOverrides (fun _ => "")).1
      = some .ErrInvalidCertStore ∧
    ((demoConfigMgr "vault" "localdb").loadEnvironmentVariableOverrides (fun _ => "")).1
      = some .ErrInvalidKmsProvider ∧
    ((demoConfigMgr "vault" "localdb").loadEnvironmentVariableOverrides
      (fun k => if k = "CA_KMS_PROVIDER" then "aws_kms" else "")).1 = none ∧
    (certmgr.Init demoLib demoBackends (demoConfigMgr "vault" "localdb") demoBoltKmsWorld).1.isPanicked
      = false ∧
    certmgr.Init demoLib demoBackends (demoConfigMgr "vault" "localdb") demoBoltKmsWorld
      = (.returned (.error (.other "unsupported kms provider requested")),
          InitTemplateConfiguration demoConfig demoBoltKmsWorld) :=
  have h1 := startup_configuration_validation (fun _ => "") (demoConfigMgr "local_kms" "redis")
    demoLib demoBackends demoBoltKmsWorld
  have h2 := startup_configuration_validation (fun _ => "") (demoConfigMgr "vault" "localdb")
    demoLib demoBackends demoBoltKmsWorld
  have h3 := startup_configuration_validation
    (fun k => if k = "CA_KMS_PROVIDER" then "aws_kms" else "") (demoConfigMgr "vault" "localdb")
    demoLib demoBackends demoBoltKmsWorld
  have h4 := h2.2.2.2.2.2 (by decide) (by decide)
  ⟨h1.2.2.1.mpr (by decide), h2.2.1.mpr (by decide), h3.2.2.2.1.mpr (by decide),
    by rw [h4]; rfl, h4⟩

/-! ## The RPC that creates a tenant signing certificate -/

/-- The RPC answers with the invalid-argument response, without consulting the
provider, when the header is refused or the tenant id or name is empty. -/
theorem rpcCreateTenant_invalid (s : CertificateAuthorityServer σ κ)
    (request : CreateTenantSigningCertificateRequest) (w : World σ κ)
    (h : (isValidRequestHeader request.Header w).1.2 = false ∨
      request.Tid = "" ∨ request.Name = "") :
    s.CreateTenantSigningCertificate request w =
      invalidCreateTenantSigningCertificateResponse (isValidRequestHeader request.Header w).1.1
        (isValidRequestHeader request.Header w).2 := by
  unfold CertificateAuthorityServer.CreateTenantSigningCertificate
  cases hv : isValidRequestHeader request.Header w with
  | mk r w1 =>
    obtain ⟨requestID, ok⟩ := r
    cases ok
    · rfl
    · rw [hv] at h
      rcases h with h | h
      · cases h
      · simp only [h, if_true]

/-- The RPC with a valid request: the provider is called on the world after
the header was read, and its result decides the response. -/
theorem rpcCreateTenant_valid (s : CertificateAuthorityServer σ κ)
    (request : CreateTenantSigningCertificateRequest) (w : World σ κ)
    (hv : (isValidRequestHeader request.Header w).1.2 = true)
    (ht : request.Tid ≠ "") (hn : request.Name ≠ "") :
    (∀ certID w2,
      s.kmsProvider.CreateTenantSigningCertificate request.Tid request.Name
          (isValidRequestHeader request.Header w).2 = (.ok certID, w2) →
      s.CreateTenantSigningCertificate request w =
        successCreateTenantSigningCertificateResponse
          (isValidRequestHeader request.Header w).1.1 certID w2) ∧
    (∀ err w2,
      s.kmsProvider.CreateTenantSigningCertificate request.Tid request.Name
          (isValidRequestHeader request.Header w).2 = (.error err, w2) →
      s.CreateTenantSigningCertificate request w =
        internalErrorCreateTenantSigningCertificateResponse
          (isValidRequestHeader request.Header w).1.1 w2) := by
  unfold CertificateAuthorityServer.CreateTenantSigningCertificate
  cases hh : isValidRequestHeader request.Header w with
  | mk r w1 =>
    obtain ⟨requestID, ok⟩ := r
    rw [hh] at hv
    cases ok
    · cases hv
    · have hreq : ¬ (request.Tid = "" ∨ request.Name = "") := fun h => h.elim ht hn
      constructor
      · intro certID w2 hp
        simp only [hreq, if_false, hp]
      · intro err w2 hp
        simp only [hreq, if_false, hp]

/-- Whether the header is accepted, and the request id that is used. -/
theorem isValidRequestHeader_cases (header : Option CaRequestHeader) (w : World σ κ) :
    (header = none → isValidRequestHeader header w = (("", false), w)) ∧
    (∀ hd, header = some hd → hd.ProtocolVersion ≠ "v1" →
      isValidRequestHeader header w = (("", false), w)) ∧
    (∀ hd, header = some hd → hd.ProtocolVersion = "v1" →
      (isValidRequestHeader header w).1.2 = true) ∧
    (∀ hd, header = some hd → hd.ProtocolVersion = "v1" → hd.RequestId ≠ "" →
      isValidRequestHeader header w = ((hd.RequestId, true), w)) := by
  refine ⟨?_, ?_, ?_, ?_⟩
  · rintro rfl
    rfl
  · rintro hd rfl hver
    unfold isValidRequestHeader
    dsimp only
    rw [if_pos (show hd.ProtocolVersion ≠ CaProtocolVersion from hver)]
  · rintro hd rfl hver
    unfold isValidRequestHeader
    dsimp only
    rw [if_neg (show ¬ hd.ProtocolVersion ≠ CaProtocolVersion from not_not.mpr hver)]
    split <;> rfl
  · rintro hd rfl hver hid
    unfold isValidRequestHeader
    dsimp only
    rw [if_neg (show ¬ hd.ProtocolVersion ≠ CaProtocolVersion from not_not.mpr hver), if_neg hid]

/-- Claim C27. The RPC `CreateTenantSigningCertificate` answers
InvalidArgument when the header is missing, its protocol version is not `v1`,
the tenant id is empty or the tenant name is empty, and then its response is
the same whatever provider the server holds, and store and KMS are as before:
the provider is not invoked. In every other case the provider is called once,
with the tenant id and name of the request, on the world after the header was
read; when it succeeds the status is OK and when it fails Internal, and the
world after the RPC is the world after that call with the clock readings of
the response. A request id that is not empty, in a valid header, is the
request id of the response. -/
theorem create_tenant_rpc_statuses (s s' : CertificateAuthorityServer σ κ)
    (request : CreateTenantSigningCertificateRequest) (w : World σ κ) :
    ((request.Header = none ∨ (∃ hd, request.Header = some hd ∧ hd.ProtocolVersion ≠ "v1") ∨
        request.Tid = "" ∨ request.Name = "") →
      (s.CreateTenantSigningCertificate request w).1.Header.Status = codesInvalidArgument ∧
      s.CreateTenantSigningCertificate request w = s'.CreateTenantSigningCertificate request w ∧
      (s.CreateTenantSigningCertificate request w).2.store = w.store ∧
      (s.CreateTenantSigningCertificate request w).2.storeCalls = w.storeCalls ∧
      (s.CreateTenantSigningCertificate request w).2.kms = w.kms ∧
      (s.CreateTenantSigningCertificate request w).2.kmsCalls = w.kmsCalls) ∧
    (∀ hd, request.Header = some hd → hd.ProtocolVersion = "v1" → request.Tid ≠ "" →
      request.Name ≠ "" →
      (∀ certID w2,
        s.kmsProvider.CreateTenantSigningCertificate request.Tid request.Name
            (isValidRequestHeader request.Header w).2 = (.ok certID, w2) →
        (s.CreateTenantSigningCertificate request w).1.Header.Status = codesOK ∧
        (s.CreateTenantSigningCertificate request w).2
          = { w2 with clockReads := w2.clockReads + 1 + 1 }) ∧
      (∀ err w2,
        s.kmsProvider.CreateTenantSigningCertificate request.Tid request.Name
            (isValidRequestHeader request.Header w).2 = (.error err, w2) →
        (s.CreateTenantSigningCertificate request w).1.Header.Status = codesInternal ∧
        (s.CreateTenantSigningCertificate request w).2
          = { w2 with clockReads := w2.clockReads + 1 })) ∧
    (∀ hd, request.Header = some hd → hd.ProtocolVersion = "v1" → hd.RequestId ≠ "" →
      (s.CreateTenantSigningCertificate request w).1.Header.RequestId = hd.RequestId) := by
  obtain ⟨c1, c2, c3, c4⟩ := isValidRequestHeader_cases request.Header w
  obtain ⟨f1, f2, f3, f4⟩ := isValidRequestHeader_world request.Header w
  refine ⟨?_, ?_, ?_⟩
  · intro h
    have hinv : (isValidRequestHeader request.Header w).1.2 = false ∨
        request.Tid = "" ∨ request.Name = "" := by
      rcases h with h | ⟨hd, h, hver⟩ | h | h
      · left
        rw [c1 h]
      · left
        rw [c2 hd h hver]
      · exact Or.inr (Or.inl h)
      · exact Or.inr (Or.inr h)
    rw [rpcCreateTenant_invalid s request w hinv, rpcCreateTenant_invalid s' request w hinv]
    exact ⟨rfl, rfl, f3, f1, f4, f2⟩
  · intro hd hh hver ht hn
    obtain ⟨v1, v2⟩ := rpcCreateTenant_valid s request w (c3 hd hh hver) ht hn
    constructor
    · intro certID w2 hp
      rw [v1 certID w2 hp]
      exact ⟨rfl, rfl⟩
    · intro err w2 hp
      rw [v2 err w2 hp]
      exact ⟨rfl, rfl⟩
  · intro hd hh hver hid
    by_cases hreq : request.Tid = "" ∨ request.Name = ""
    · rw [rpcCreateTenant_invalid s request w (Or.inr hreq), c4 hd hh hver hid]
      rfl
    · have ht : request.Tid ≠ "" := fun h => hreq (Or.inl h)
      have hn : request.Name ≠ "" := fun h => hreq (Or.inr h)
      obtain ⟨v1, v2⟩ := rpcCreateTenant_valid s request w (c3 hd hh hver) ht hn
      cases hp : s.kmsProvider.CreateTenantSigningCertificate request.Tid request.Name
          (isValidRequestHeader request.Header w).2 with
      | mk r w2 =>
        cases r with
        | ok certID =>
          rw [v1 certID w2 hp, c4 hd hh hver hid]
          rfl
        | error err =>
          rw [v2 err w2 hp, c4 hd hh hver hid]
          rfl

set_option maxRecDepth 100000 in
/-- Runs of the RPC over the local provider and the embedded database: for
tenant `t2` named `Acme`, and for the same request without a name. -/
theorem demo_rpc_create_tenant :
    (CertificateAuthorityServer.CreateTenantSigningCertificate
        { kmsProvider := demoLocalDbProvider.toKmsProvider demoLib }
        demoCreateTenantRequest demoAwsDbWorld).1.Header
      = { ProtocolVersion := "v1", Status := 0,
          StatusMessage := "CreateTenantSigningCertificate RPC successful",
          RequestId := "req-1", ResponseTime := 0 } ∧
    (CertificateAuthorityServer.CreateTenantSigningCertificate
        { kmsProvider := demoLocalDbProvider.toKmsProvider demoLib }
        { demoCreateTenantRequest with Name := "" } demoAwsDbWorld).1.Header.Status = 3 ∧
    (CertificateAuthorityServer.CreateTenantSigningCertificate
        { kmsProvider := demoLocalDbProvider.toKmsProvider demoLib }
        { demoCreateTenantRequest with Name := "" } demoAwsDbWorld).2.storeCalls = [] := by
  decide

/-- Claim C27 for tenant `t2` named `Acme` over the local provider: the
creation succeeds, so the RPC answers OK and echoes the request id `req-1`;
the same request without a name is answered with InvalidArgument. -/
theorem create_tenant_rpc_statuses_witness :
    (CertificateAuthorityServer.CreateTenantSigningCertificate
        { kmsProvider := demoLocalDbProvider.toKmsProvider demoLib }
        demoCreateTenantRequest demoAwsDbWorld).1.Header.Status = codesOK ∧
    (CertificateAuthorityServer.CreateTenantSigningCertificate
        { kmsProvider := demoLocalDbProvider.toKmsProvider demoLib }
        demoCreateTenantRequest demoAwsDbWorld).1.Header.RequestId = "req-1" ∧
    (CertificateAuthorityServer.CreateTenantSigningCertificate
        { kmsProvider := demoLocalDbProvider.toKmsProvider demoLib }
        { demoCreateTenantRequest with Name := "" } demoAwsDbWorld).1.Header.Status
      = codesInvalidArgument :=
  have h := create_tenant_rpc_statuses
    { kmsProvider := demoLocalDbProvider.toKmsProvider demoLib }
    { kmsProvider := demoAwsDbProvider.toKmsProvider demoLib }
    demoCreateTenantRequest demoAwsDbWorld
  have h2 := create_tenant_rpc_statuses
    { kmsProvider := demoLocalDbProvider.toKmsProvider demoLib }
    { kmsProvider := demoAwsDbProvider.toKmsProvider demoLib }
    { demoCreateTenantRequest with Name := "" } demoAwsDbWorld
  ⟨congrArg CaResponseHeader.Status demo_rpc_create_tenant.1,
    h.2.2 demoHeader rfl rfl (by decide),
    (h2.1 (Or.inr (Or.inr (Or.inr rfl)))).1⟩

/-! ## Creation of a key in the KMS -/

/-- The three ways in which the lookup of `newKmsKey` decides its run. -/
theorem newKmsKey_run (p : AwsKmsProvider σ κ) (keyDescription keyAlias : String)
    (w : World σ κ) :
    (∀ keyId k1, p.client.DescribeKey w.kms keyAlias = (.ok keyId, k1) →
      p.newKmsKey keyDescription keyAlias w =
        (.ok keyId, { w with kms := k1, kmsCalls := w.kmsCalls ++ [.DescribeKey keyAlias] })) ∧
    (∀ err k1, p.client.DescribeKey w.kms keyAlias = (.error err, k1) →
      isNotFoundException err = false →
      p.newKmsKey keyDescription keyAlias w =
        (.error err, { w with kms := k1, kmsCalls := w.kmsCalls ++ [.DescribeKey keyAlias] })) ∧
    (∀ err k1, p.client.DescribeKey w.kms keyAlias = (.error err, k1) →
      isNotFoundException err = true →
      (∀ e k2, p.client.CreateKey k1 keyDescription = (.error e, k2) →
        p.newKmsKey keyDescription keyAlias w =
          (.error e,
            { w with
              kms := k2
              kmsCalls := w.kmsCalls ++ [.DescribeKey keyAlias] ++ [.CreateKey keyDescription] })) ∧
      (∀ keyId k2, p.client.CreateKey k1 keyDescription = (.ok keyId, k2) →
        (∀ e k3, p.client.CreateAlias k2 keyId keyAlias = (some e, k3) →
          p.newKmsKey keyDescription keyAlias w =
            (.error e,
              { w with
                kms := k3
                kmsCalls := w.kmsCalls ++ [.DescribeKey keyAlias] ++ [.CreateKey keyDescription]
                  ++ [.CreateAlias keyId keyAlias] })) ∧
        (∀ k3, p.client.CreateAlias k2 keyId keyAlias = (none, k3) →
          p.newKmsKey keyDescription keyAlias w =
            (.ok keyId,
              { w with
                kms := k3
                kmsCalls := w.kmsCalls ++ [.DescribeKey keyAlias] ++ [.CreateKey keyDescription]
                  ++ [.CreateAlias keyId keyAlias] })))) := by
  refine ⟨?_, ?_, ?_⟩
  · intro keyId k1 hd
    simp only [AwsKmsProvider.newKmsKey, kmsDescribeKey, hd]
  · intro err k1 hd hnf
    simp only [AwsKmsProvider.newKmsKey, kmsDescribeKey, hd, hnf, Bool.false_eq_true,
      not_false_eq_true, if_true]
  · intro err k1 hd hnf
    refine ⟨?_, ?_⟩
    · intro e k2 hc
      simp only [AwsKmsProvider.newKmsKey, kmsDescribeKey, hd, hnf, not_true_eq_false, if_false,
        kmsCreateKey, hc]
    · intro keyId k2 hc
      refine ⟨?_, ?_⟩
      · intro e k3 ha
        simp only [AwsKmsProvider.newKmsKey, kmsDescribeKey, hd, hnf, not_true_eq_false,
          if_false, kmsCreateKey, hc, kmsCreateAlias, ha]
      · intro k3 ha
        simp only [AwsKmsProvider.newKmsKey, kmsDescribeKey, hd, hnf, not_true_eq_false,
          if_false, kmsCreateKey, hc, kmsCreateAlias, ha]

/-- Claim C21. Method `newKmsKey` first looks the alias up with `DescribeKey`.
If the lookup succeeds, it returns the key id found and calls the KMS no
more. If the lookup fails with an error that is not a `NotFoundException`, it
returns that error and calls the KMS no more. If the lookup fails with a
`NotFoundException`, it calls `CreateKey`, then `CreateAlias` for the new key
and the alias, and returns the id of the new key, or the error of the call
that failed. Consequently, over a KMS in which a lookup that succeeded
succeeds again with the same key id, and in which an alias that was created
resolves to the key it was created for, two successful calls in a row for the
same alias return the same key id; the second consists of the lookup alone,
and the first called `CreateKey` once or not at all. -/
theorem newKmsKey_idempotent (p : AwsKmsProvider σ κ) (keyDescription keyAlias : String)
    (w : World σ κ) :
    (∀ keyId k1, p.client.DescribeKey w.kms keyAlias = (.ok keyId, k1) →
      p.newKmsKey keyDescription keyAlias w =
        (.ok keyId, { w with kms := k1, kmsCalls := w.kmsCalls ++ [.DescribeKey keyAlias] })) ∧
    (∀ err k1, p.client.DescribeKey w.kms keyAlias = (.error err, k1) →
      isNotFoundException err = false →
      p.newKmsKey keyDescription keyAlias w =
        (.error err, { w with kms := k1, kmsCalls := w.kmsCalls ++ [.DescribeKey keyAlias] })) ∧
    (∀ err k1, p.client.DescribeKey w.kms keyAlias = (.error err, k1) →
      isNotFoundException err = true →
      (∀ e k2, p.client.CreateKey k1 keyDescription = (.error e, k2) →
        p.newKmsKey keyDescription keyAlias w =
          (.error e,
            { w with
              kms := k2
              kmsCalls := w.kmsCalls ++ [.DescribeKey keyAlias] ++ [.CreateKey keyDescription] })) ∧
      (∀ keyId k2, p.client.CreateKey k1 keyDescription = (.ok keyId, k2) →
        (∀ e k3, p.client.CreateAlias k2 keyId keyAlias = (some e, k3) →
          p.newKmsKey keyDescription keyAlias w =
            (.error e,
              { w with
                kms := k3
                kmsCalls := w.kmsCalls ++ [.DescribeKey keyAlias] ++ [.CreateKey keyDescription]
                  ++ [.CreateAlias keyId keyAlias] })) ∧
        (∀ k3, p.client.CreateAlias k2 keyId keyAlias = (none, k3) →
          p.newKmsKey keyDescription keyAlias w =
            (.ok keyId,
              { w with
                kms := k3
                kmsCalls := w.kmsCalls ++ [.DescribeKey keyAlias] ++ [.CreateKey keyDescription]
                  ++ [.CreateAlias keyId keyAlias] })))) ∧
    ((∀ k a keyId k1, p.client.DescribeKey k a = (.ok keyId, k1) →
        (p.client.DescribeKey k1 a).1 = .ok keyId) →
      (∀ k keyId a k1, p.client.CreateAlias k keyId a = (none, k1) →
        (p.client.DescribeKey k1 a).1 = .ok keyId) →
      ∀ id1 w1 id2 w2,
        p.newKmsKey keyDescription keyAlias w = (.ok id1, w1) →
        p.newKmsKey keyDescription keyAlias w1 = (.ok id2, w2) →
        id2 = id1 ∧
        w2.kmsCalls = w1.kmsCalls ++ [.DescribeKey keyAlias] ∧
        (w1.kmsCalls = w.kmsCalls ++ [.DescribeKey keyAlias] ∨
          w1.kmsCalls = w.kmsCalls ++ [.DescribeKey keyAlias] ++ [.CreateKey keyDescription]
            ++ [.CreateAlias id1 keyAlias])) := by
  obtain ⟨r1, r2, r3⟩ := newKmsKey_run p keyDescription keyAlias w
  refine ⟨r1, r2, r3, ?_⟩
  intro hread hbind id1 w1 id2 w2 h1 h2
  have hsecond : ∀ k, (p.client.DescribeKey k keyAlias).1 = .ok id1 → w1.kms = k →
      id2 = id1 ∧ w2.kmsCalls = w1.kmsCalls ++ [.DescribeKey keyAlias] := by
    intro k hk hw1
    subst hw1
    have hd : p.client.DescribeKey w1.kms keyAlias
        = (.ok id1, (p.client.DescribeKey w1.kms keyAlias).2) := Prod.ext hk rfl
    rw [(newKmsKey_run p keyDescription keyAlias w1).1 id1 _ hd] at h2
    simp only [Prod.mk.injEq, Except.ok.injEq] at h2
    obtain ⟨rfl, rfl⟩ := h2
    exact ⟨rfl, rfl⟩
  cases hd : p.client.DescribeKey w.kms keyAlias with
  | mk r k1 =>
    cases r with
    | ok keyId =>
      rw [r1 keyId k1 hd] at h1
      simp only [Prod.mk.injEq, Except.ok.injEq] at h1
      obtain ⟨rfl, rfl⟩ := h1
      obtain ⟨e1, e2⟩ := hsecond k1 (hread _ _ _ _ hd) rfl
      exact ⟨e1, e2, Or.inl rfl⟩
    | error err =>
      cases hnf : isNotFoundException err with
      | false =>
        rw [r2 err k1 hd hnf] at h1
        simp only [Prod.mk.injEq] at h1
        cases h1.1
      | true =>
        obtain ⟨c1, c2⟩ := r3 err k1 hd hnf
        cases hc : p.client.CreateKey k1 keyDescription with
        | mk rc k2 =>
          cases rc with
          | error e =>
            rw [c1 e k2 hc] at h1
            simp only [Prod.mk.injEq] at h1
            cases h1.1
          | ok keyId =>
            obtain ⟨a1, a2⟩ := c2 keyId k2 hc
            cases ha : p.client.CreateAlias k2 keyId keyAlias with
            | mk ra k3 =>
              cases ra with
              | some e =>
                rw [a1 e k3 ha] at h1
                simp only [Prod.mk.injEq] at h1
                cases h1.1
              | none =>
                rw [a2 k3 ha] at h1
                simp only [Prod.mk.injEq, Except.ok.injEq] at h1
                obtain ⟨rfl, rfl⟩ := h1
                obtain ⟨e1, e2⟩ := hsecond k3 (hbind _ _ _ _ ha) rfl
                exact ⟨e1, e2, Or.inr rfl⟩

/-- A lookup in the KMS that keeps a list of aliases leaves the list as it
is, and an alias that was created is found. -/
theorem memKms_laws :
    (∀ (k : List (String × String)) a keyId k1, memKms.DescribeKey k a = (.ok keyId, k1) →
      (memKms.DescribeKey k1 a).1 = .ok keyId) ∧
    (∀ (k : List (String × String)) keyId a k1, memKms.CreateAlias k keyId a = (none, k1) →
      (memKms.DescribeKey k1 a).1 = .ok keyId) := by
  constructor
  · intro k a keyId k1 h
    have hk : k1 = k := by
      simp only [memKms] at h
      split at h
      · simp only [Prod.mk.injEq] at h
        exact h.2.symm
      · simp only [Prod.mk.injEq] at h
        exact h.2.symm
    subst hk
    rw [h]
  · intro k keyId a k1 h
    simp only [memKms, Prod.mk.injEq, true_and] at h
    subst h
    simp only [memKms, List.find?_cons, decide_True]

set_option maxRecDepth 100000 in
/-- Two calls of `newKmsKey` in a row for the alias `alias/t2`, over a KMS that
holds the alias of the root key only. -/
theorem demo_newKmsKey_twice :
    (demoAwsDbProvider.newKmsKey "Signing key: t2" "alias/t2" demoAwsDbWorld).1.toOption
      = some "key:Signing key: t2" ∧
    (demoAwsDbProvider.newKmsKey "Signing key: t2" "alias/t2"
        (demoAwsDbProvider.newKmsKey "Signing key: t2" "alias/t2" demoAwsDbWorld).2).1.toOption
      = some "key:Signing key: t2" ∧
    (demoAwsDbProvider.newKmsKey "Signing key: t2" "alias/t2"
        (demoAwsDbProvider.newKmsKey "Signing key: t2" "alias/t2" demoAwsDbWorld).2).2.kmsCalls
      = [.DescribeKey "alias/t2", .CreateKey "Signing key: t2",
          .CreateAlias "key:Signing key: t2" "alias/t2", .DescribeKey "alias/t2"] := by
  decide

/-- Claim C21 for the alias `alias/t2` over a KMS that holds the alias of the
root key only: the first call creates the key and the alias, the second finds
them, both return the same key id, and `CreateKey` was called once. -/
theorem newKmsKey_idempotent_witness :
    (demoAwsDbProvider.newKmsKey "Signing key: t2" "alias/t2" demoAwsDbWorld).1.toOption
      = some "key:Signing key: t2" ∧
    (demoAwsDbProvider.newKmsKey "Signing key: t2" "alias/t2"
        (demoAwsDbProvider.newKmsKey "Signing key: t2" "alias/t2" demoAwsDbWorld).2).2.kmsCalls
      = (demoAwsDbProvider.newKmsKey "Signing key: t2" "alias/t2" demoAwsDbWorld).2.kmsCalls
          ++ [.DescribeKey "alias/t2"] :=
  have h := (newKmsKey_idempotent demoAwsDbProvider "Signing key: t2" "alias/t2"
    demoAwsDbWorld).2.2.2 memKms_laws.1 memKms_laws.2 "key:Signing key: t2" _
    "key:Signing key: t2" _
    (run_ok_eta _ _ demo_newKmsKey_twice.1) (run_ok_eta _ _ demo_newKmsKey_twice.2.1)
  ⟨demo_newKmsKey_twice.1, h.2.1⟩

/-! ## The root certificate of the AWS provider in production -/

/-- The run of `getCACertificate` once the key of the KMS, the entry of the
store and the parsed certificate are known. -/
theorem getCACertificate_run (lib : Lib) (p : AwsKmsProvider σ κ) (w w1 w2 : World σ κ)
    (caPublicKey : PublicKey) (certEntry : SigningCertificate) (caCert : Certificate)
    (hkey : p.getCAKey lib w = (.ok caPublicKey, w1))
    (hget : storeGetCertificate p.store p.caKeyID w1 = (.ok certEntry, w2))
    (hparse : lib.ParseCertificate certEntry.Certificate = .ok caCert) :
    (∀ n e, caCert.PublicKey = some (.rsa n e) → caPublicKey = .rsa n e →
      p.getCACertificate lib w = (.returned (.ok { p with caCert := caCert }), w2)) ∧
    (∀ n e, caCert.PublicKey = some (.rsa n e) → caPublicKey ≠ .rsa n e →
      p.getCACertificate lib w = (.returned (.error errKeyMismatch), w2)) ∧
    ((∀ n e, caCert.PublicKey ≠ some (.rsa n e)) →
      ∃ msg, p.getCACertificate lib w = (.panicked msg, w2)) := by
  refine ⟨?_, ?_, ?_⟩
  · intro n e hpk heq
    subst heq
    simp only [AwsKmsProvider.getCACertificate, hkey, hget, hparse, hpk, assertRSAPublicKey,
      rsaPublicKeyEqual, beq_self_eq_true, Bool.and_self, not_true_eq_false, if_false]
  · intro n e hpk hne
    have hfalse : rsaPublicKeyEqual n e caPublicKey = false := by
      cases caPublicKey with
      | rsa n2 e2 =>
        simp only [rsaPublicKeyEqual, Bool.and_eq_false_imp, beq_iff_eq, beq_eq_false_iff_ne]
        intro hn he
        exact hne (by rw [hn, he])
      | ecdsa x y => rfl
      | ed25519 k => rfl
    simp only [AwsKmsProvider.getCACertificate, hkey, hget, hparse, hpk, assertRSAPublicKey,
      hfalse, Bool.false_eq_true, not_false_eq_true, if_true]
  · intro hrsa
    cases hpk : caCert.PublicKey with
    | none =>
      simp only [AwsKmsProvider.getCACertificate, hkey, hget, hparse, hpk, assertRSAPublicKey]
      exact ⟨_, rfl⟩
    | some k =>
      cases k with
      | rsa n e => exact absurd hpk (hrsa n e)
      | ecdsa x y =>
        simp only [AwsKmsProvider.getCACertificate, hkey, hget, hparse, hpk, assertRSAPublicKey]
        exact ⟨_, rfl⟩
      | ed25519 k =>
        simp only [AwsKmsProvider.getCACertificate, hkey, hget, hparse, hpk, assertRSAPublicKey]
        exact ⟨_, rfl⟩

/-- A successful `getCACertificate` found the key in the KMS, the entry in the
store under the key alias, parsed its certificate, and found in it the RSA key
of the KMS. -/
theorem getCACertificate_ok (lib : Lib) (p p1 : AwsKmsProvider σ κ) (w w' : World σ κ)
    (h : p.getCACertificate lib w = (.returned (.ok p1), w')) :
    ∃ (w1 : World σ κ) (certEntry : SigningCertificate) (caCert : Certificate) (n e : Nat),
      p.getCAKey lib w = (.ok (.rsa n e), w1) ∧
      storeGetCertificate p.store p.caKeyID w1 = (.ok certEntry, w') ∧
      lib.ParseCertificate certEntry.Certificate = .ok caCert ∧
      caCert.PublicKey = some (.rsa n e) ∧
      p1 = { p with caCert := caCert } := by
  unfold AwsKmsProvider.getCACertificate at h
  split at h
  · cases h
  · rename_i caPublicKey w1 hkey
    split at h
    · cases h
    · rename_i certEntry w2 hget
      split at h
      · cases h
      · rename_i caCert hparse
        split at h
        · cases h
        · rename_i n e hassert
          have hpk : caCert.PublicKey = some (.rsa n e) := by
            unfold assertRSAPublicKey at hassert
            split at hassert
            · rename_i n2 e2 hk
              simp only [Outcome.returned.injEq, Prod.mk.injEq] at hassert
              rw [hk, hassert.1, hassert.2]
            · cases hassert
            · cases hassert
            · cases hassert
          split at h
          · cases h
          · rename_i heq
            simp only [Prod.mk.injEq, Outcome.returned.injEq, Except.ok.injEq] at h
            obtain ⟨rfl, rfl⟩ := h
            have hk : caPublicKey = .rsa n e := by
              simp only [not_not] at heq
              cases caPublicKey with
              | rsa n2 e2 =>
                simp only [rsaPublicKeyEqual, Bool.and_eq_true, beq_iff_eq] at heq
                rw [heq.1, heq.2]
              | ecdsa x y => cases heq
              | ed25519 k => cases heq
            subst hk
            exact ⟨w1, certEntry, caCert, n, e, hkey, hget, hparse, hpk, rfl⟩

/-- In production mode `AwsKmsProvider.Init` ends as `getCACertificate` ends
when that returns an error or panics. -/
theorem aws_init_production (lib : Lib) (b : Backends σ κ) (cfgMgr : ConfigMgr)
    (w w0 : World σ κ) (client : KMSClient κ) (store : CertStore σ)
    (hprod : cfgMgr.IsTestModeEnabled = false)
    (hclient : b.awsClient = .ok client)
    (hstore : certstore.Init b cfgMgr.GetCertStoreProvider w = (.ok store, w0)) :
    (∀ err w2,
      AwsKmsProvider.getCACertificate lib
          { client := client, caKeyID := awsKmsCAKeyAlias, caCert := {}, caCertBytes := [],
            commonSigningCert := {}, store := store } w0
        = (.returned (.error err), w2) →
      AwsKmsProvider.Init lib b cfgMgr w = (.returned (.error err), w2)) ∧
    (∀ msg w2,
      AwsKmsProvider.getCACertificate lib
          { client := client, caKeyID := awsKmsCAKeyAlias, caCert := {}, caCertBytes := [],
            commonSigningCert := {}, store := store } w0
        = (.panicked msg, w2) →
      AwsKmsProvider.Init lib b cfgMgr w = (.panicked msg, w2)) := by
  constructor
  · intro err w2 h
    unfold AwsKmsProvider.Init
    rw [hclient]
    dsimp only
    rw [hstore]
    dsimp only
    rw [hprod, if_neg Bool.false_ne_true, h]
  · intro msg w2 h
    unfold AwsKmsProvider.Init
    rw [hclient]
    dsimp only
    rw [hstore]
    dsimp only
    rw [hprod, if_neg Bool.false_ne_true, h]

/-- Method `getCAKey` returns what `getKmsPublicKey` returns for the key
alias. -/
theorem getCAKey_eq (lib : Lib) (p : AwsKmsProvider σ κ) (w : World σ κ) :
    p.getCAKey lib w = p.getKmsPublicKey lib p.caKeyID w := by
  unfold AwsKmsProvider.getCAKey
  cases h : p.getKmsPublicKey lib p.caKeyID w with
  | mk r w1 => cases r <;> rfl

/-- Claim C22, for the provider `p` as `Init` has it in production mode when it
turns to the root certificate (client and store set, key alias `alias/CAKey`).
Method `getCACertificate` returns success only if the KMS reported a public
key for `alias/CAKey`, the store returned an entry under `alias/CAKey`, the
certificate of the entry parsed, and the public key of the certificate is an
RSA key equal to the key of the KMS. If the certificate carries an RSA key
that differs from the key of the KMS, `getCACertificate` returns the
key-mismatch error and `Init` fails with that error. If the certificate
carries a key that is not an RSA key, which differs from the key of the KMS
too, no error is returned: the type assertion panics, in `getCACertificate`
and so in `Init`. -/
theorem ca_certificate_key_match (lib : Lib) (b : Backends σ κ) (cfgMgr : ConfigMgr)
    (w w0 : World σ κ) (client : KMSClient κ) (store : CertStore σ) (p : AwsKmsProvider σ κ)
    (hprod : cfgMgr.IsTestModeEnabled = false)
    (hclient : b.awsClient = .ok client)
    (hstore : certstore.Init b cfgMgr.GetCertStoreProvider w = (.ok store, w0))
    (hp : p = { client := client, caKeyID := awsKmsCAKeyAlias, caCert := {}, caCertBytes := [],
                commonSigningCert := {}, store := store }) :
    (∀ p1 w', p.getCACertificate lib w0 = (.returned (.ok p1), w') →
      ∃ (w1 : World σ κ) (certEntry : SigningCertificate) (caCert : Certificate) (n e : Nat),
        p.getKmsPublicKey lib "alias/CAKey" w0 = (.ok (.rsa n e), w1) ∧
        storeGetCertificate store "alias/CAKey" w1 = (.ok certEntry, w') ∧
        lib.ParseCertificate certEntry.Certificate = .ok caCert ∧
        caCert.PublicKey = some (.rsa n e) ∧
        p1.caCert = caCert) ∧
    (∀ (caPublicKey : PublicKey) (w1 w2 : World σ κ) (certEntry : SigningCertificate)
        (caCert : Certificate),
      p.getKmsPublicKey lib "alias/CAKey" w0 = (.ok caPublicKey, w1) →
      storeGetCertificate store "alias/CAKey" w1 = (.ok certEntry, w2) →
      lib.ParseCertificate certEntry.Certificate = .ok caCert →
      (∀ n e, caCert.PublicKey = some (.rsa n e) → caPublicKey ≠ .rsa n e →
        p.getCACertificate lib w0 = (.returned (.error errKeyMismatch), w2) ∧
        AwsKmsProvider.Init lib b cfgMgr w = (.returned (.error errKeyMismatch), w2)) ∧
      ((∀ n e, caCert.PublicKey ≠ some (.rsa n e)) →
        ∃ msg, p.getCACertificate lib w0 = (.panicked msg, w2) ∧
          AwsKmsProvider.Init lib b cfgMgr w = (.panicked msg, w2))) := by
  obtain ⟨i1, i2⟩ := aws_init_production lib b cfgMgr w w0 client store hprod hclient hstore
  rw [← hp] at i1 i2
  have hid : p.caKeyID = "alias/CAKey" := by rw [hp]; rfl
  have hst : p.store = store := by rw [hp]
  constructor
  · intro p1 w' h
    obtain ⟨w1, certEntry, caCert, n, e, hkey, hget, hparse, hpk, rfl⟩ :=
      getCACertificate_ok lib p p1 w0 w' h
    rw [getCAKey_eq, hid] at hkey
    rw [hid, hst] at hget
    exact ⟨w1, certEntry, caCert, n, e, hkey, hget, hparse, hpk, rfl⟩
  · intro caPublicKey w1 w2 certEntry caCert hkey hget hparse
    rw [← hid, ← getCAKey_eq] at hkey
    rw [← hid, ← hst] at hget
    obtain ⟨_, r2, r3⟩ := getCACertificate_run lib p w0 w1 w2 caPublicKey certEntry caCert
      hkey hget hparse
    constructor
    · intro n e hpk hne
      exact ⟨r2 n e hpk hne, i1 _ _ (r2 n e hpk hne)⟩
    · intro hrsa
      obtain ⟨msg, hm⟩ := r3 hrsa
      exact ⟨msg, hm, i2 _ _ hm⟩

set_option maxRecDepth 100000 in
/-- The start in production over a store whose entry under `alias/CAKey` holds
a certificate with the RSA key `9`, while the key of the KMS is the RSA key
`5`. -/
theorem demo_start_rsa_mismatch :
    certstore.Init demoBackends "localdb" (demoProductionWorld [48, 130, 1, 9, 9])
      = (.ok LocalDbProvider.toCertStore, demoProductionWorld [48, 130, 1, 9, 9]) ∧
    (demoStartingProvider.getKmsPublicKey keyLib "alias/CAKey"
        (demoProductionWorld [48, 130, 1, 9, 9])).1.toOption = some (.rsa 5 17) ∧
    (storeGetCertificate LocalDbProvider.toCertStore "alias/CAKey"
        (demoStartingProvider.getKmsPublicKey keyLib "alias/CAKey"
          (demoProductionWorld [48, 130, 1, 9, 9])).2).1.toOption
      = some { TenantID := "alias/CAKey", KmsKeyID := "key-ca",
               Certificate := [48, 130, 1, 9, 9] } := by
  refine ⟨rfl, ?_, ?_⟩ <;> decide

set_option maxRecDepth 100000 in
/-- The start in production over a store whose entry under `alias/CAKey` holds
a certificate with an ECDSA key: the initialisation panics. -/
theorem demo_start_ecdsa :
    (demoStartingProvider.getCACertificate keyLib
        (demoProductionWorld [48, 130, 2, 5, 5])).1.isPanicked = true ∧
    (AwsKmsProvider.Init keyLib demoBackends (demoConfigMgr "aws_kms" "localdb")
        (demoProductionWorld [48, 130, 2, 5, 5])).1.isPanicked = true ∧
    (certmgr.Init keyLib demoBackends (demoConfigMgr "aws_kms" "localdb")
        (demoProductionWorld [48, 130, 2, 5, 5])).1.isPanicked = true := by
  decide

/-- Claim C22 at two starts in production, the key of the KMS being the RSA key
`5`. Over a store whose certificate carries the RSA key `9`, `getCACertificate`
returns the key-mismatch error and `Init` fails with it. Over a store whose
certificate carries an ECDSA key, `getCACertificate`, `Init` and `certmgr.Init`
panic instead. -/
theorem ca_certificate_key_match_witness :
    (demoStartingProvider.getCACertificate keyLib (demoProductionWorld [48, 130, 1, 9, 9])
        = (.returned (.error errKeyMismatch),
            (storeGetCertificate LocalDbProvider.toCertStore "alias/CAKey"
              (demoStartingProvider.getKmsPublicKey keyLib "alias/CAKey"
                (demoProductionWorld [48, 130, 1, 9, 9])).2).2) ∧
      AwsKmsProvider.Init keyLib demoBackends (demoConfigMgr "aws_kms" "localdb")
          (demoProductionWorld [48, 130, 1, 9, 9])
        = (.returned (.error errKeyMismatch),
            (storeGetCertificate LocalDbProvider.toCertStore "alias/CAKey"
              (demoStartingProvider.getKmsPublicKey keyLib "alias/CAKey"
                (demoProductionWorld [48, 130, 1, 9, 9])).2).2)) ∧
    ((demoStartingProvider.getCACertificate keyLib
        (demoProductionWorld [48, 130, 2, 5, 5])).1.isPanicked = true ∧
      (AwsKmsProvider.Init keyLib demoBackends (demoConfigMgr "aws_kms" "localdb")
        (demoProductionWorld [48, 130, 2, 5, 5])).1.isPanicked = true ∧
      (certmgr.Init keyLib demoBackends (demoConfigMgr "aws_kms" "localdb")
        (demoProductionWorld [48, 130, 2, 5, 5])).1.isPanicked = true) :=
  ⟨((ca_certificate_key_match keyLib demoBackends (demoConfigMgr "aws_kms" "localdb")
      (demoProductionWorld [48, 130, 1, 9, 9]) (demoProductionWorld [48, 130, 1, 9, 9])
      memKms LocalDbProvider.toCertStore demoStartingProvider rfl rfl demo_start_rsa_mismatch.1
      rfl).2 (.rsa 5 17) _ _
      { TenantID := "alias/CAKey", KmsKeyID := "key-ca", Certificate := [48, 130, 1, 9, 9] }
      { Raw := [48, 130, 1, 9, 9], PublicKey := some (.rsa 9 17), Signature := [9] }
      (run_ok_eta _ _ demo_start_rsa_mismatch.2.1) (run_ok_eta _ _ demo_start_rsa_mismatch.2.2)
      rfl).1 9 17 rfl (by decide),
    demo_start_ecdsa⟩

/-- Claim C30 fails. Whenever the KMS reported the key, the store returned an
entry under the key alias and the certificate of the entry parsed, but the
public key of the certificate is not an RSA key (a key of another type, or no
key at all), `getCACertificate` returns neither success nor an error: the
type assertion `p.caCert.PublicKey.(*rsa.PublicKey)` panics. In production
mode `AwsKmsProvider.Init` panics with it. -/
theorem getCACertificate_type_assertion_panics (lib : Lib) (p : AwsKmsProvider σ κ)
    (w w1 w2 : World σ κ) (caPublicKey : PublicKey) (certEntry : SigningCertificate)
    (caCert : Certificate)
    (hkey : p.getCAKey lib w = (.ok caPublicKey, w1))
    (hget : storeGetCertificate p.store p.caKeyID w1 = (.ok certEntry, w2))
    (hparse : lib.ParseCertificate certEntry.Certificate = .ok caCert)
    (hrsa : ∀ n e, caCert.PublicKey ≠ some (.rsa n e)) :
    (p.getCACertificate lib w).1.isPanicked = true ∧
    (∃ msg, p.getCACertificate lib w = (.panicked msg, w2)) ∧
    (∀ r w', p.getCACertificate lib w ≠ (.returned r, w')) ∧
    (∀ (b : Backends σ κ) (cfgMgr : ConfigMgr) (w0 : World σ κ),
      cfgMgr.IsTestModeEnabled = false → b.awsClient = .ok p.client →
      certstore.Init b cfgMgr.GetCertStoreProvider w0 = (.ok p.store, w) →
      p = { client := p.client, caKeyID := awsKmsCAKeyAlias, caCert := {}, caCertBytes := [],
            commonSigningCert := {}, store := p.store } →
      ∃ msg, AwsKmsProvider.Init lib b cfgMgr w0 = (.panicked msg, w2)) := by
  obtain ⟨msg, hm⟩ := (getCACertificate_run lib p w w1 w2 caPublicKey certEntry caCert
    hkey hget hparse).2.2 hrsa
  refine ⟨?_, ⟨msg, hm⟩, ?_, ?_⟩
  · rw [hm]
    rfl
  · intro r w' h
    rw [hm] at h
    cases h
  · intro b cfgMgr w0 hprod hclient hstore hp
    refine ⟨msg, (aws_init_production lib b cfgMgr w0 w p.client p.store hprod hclient
      hstore).2 msg w2 ?_⟩
    rw [← hp]
    exact hm

set_option maxRecDepth 100000 in
/-- The start in production over a store whose entry under `alias/CAKey` holds
a certificate with an Ed25519 key. -/
theorem demo_start_ed25519 :
    (demoStartingProvider.getCAKey keyLib
        (demoProductionWorld [48, 130, 3, 5, 5])).1.toOption = some (.rsa 5 17) ∧
    (storeGetCertificate LocalDbProvider.toCertStore "alias/CAKey"
        (demoStartingProvider.getCAKey keyLib
          (demoProductionWorld [48, 130, 3, 5, 5])).2).1.toOption
      = some { TenantID := "alias/CAKey", KmsKeyID := "key-ca",
               Certificate := [48, 130, 3, 5, 5] } ∧
    (certmgr.Init keyLib demoBackends (demoConfigMgr "aws_kms" "localdb")
        (demoProductionWorld [48, 130, 3, 5, 5])).1.isPanicked = true := by
  decide

/-- Claim C30 at a store whose entry under `alias/CAKey` holds a certificate
with an Ed25519 key, the key of the KMS being an RSA key: `getCACertificate`
panics, and so does `certmgr.Init`, which nothing recovers. -/
theorem getCACertificate_type_assertion_panics_witness :
    (demoStartingProvider.getCACertificate keyLib
        (demoProductionWorld [48, 130, 3, 5, 5])).1.isPanicked = true ∧
    (certmgr.Init keyLib demoBackends (demoConfigMgr "aws_kms" "localdb")
        (demoProductionWorld [48, 130, 3, 5, 5])).1.isPanicked = true :=
  ⟨(getCACertificate_type_assertion_panics keyLib demoStartingProvider
      (demoProductionWorld [48, 130, 3, 5, 5]) _ _ (.rsa 5 17)
      { TenantID := "alias/CAKey", KmsKeyID := "key-ca", Certificate := [48, 130, 3, 5, 5] }
      { Raw := [48, 130, 3, 5, 5], PublicKey := some (.ed25519 [5]), Signature := [5] }
      (run_ok_eta _ _ demo_start_ed25519.1) (run_ok_eta _ _ demo_start_ed25519.2.1) rfl
      (fun _ _ h => by cases h)).1,
    demo_start_ed25519.2.2⟩

/-! ## What a public operation does to the store and to the KMS -/

theorem KmsAdded.refl (P : KmsCall → Prop) (w w' : World σ κ) (h : w'.kmsCalls = w.kmsCalls) :
    KmsAdded P w w' :=
  ⟨[], by rw [h, List.append_nil], fun _ hc => by cases hc⟩

theorem KmsAdded.trans {P : KmsCall → Prop} {w w1 w2 : World σ κ} (h1 : KmsAdded P w w1)
    (h2 : KmsAdded P w1 w2) : KmsAdded P w w2 := by
  obtain ⟨n1, e1, p1⟩ := h1
  obtain ⟨n2, e2, p2⟩ := h2
  refine ⟨n1 ++ n2, by rw [e2, e1, List.append_assoc], ?_⟩
  intro c hc
  rcases List.mem_append.mp hc with hc | hc
  · exact p1 c hc
  · exact p2 c hc

theorem KmsAdded.one (P : KmsCall → Prop) (w w' : World σ κ) (c : KmsCall)
    (h : w'.kmsCalls = w.kmsCalls ++ [c]) (hc : P c) : KmsAdded P w w' :=
  ⟨[c], h, fun c' hc' => by
    rw [List.mem_singleton] at hc'
    rw [hc']
    exact hc⟩

theorem KmsAdded.mono {P Q : KmsCall → Prop} {w w' : World σ κ} (h : KmsAdded P w w')
    (hpq : ∀ c, P c → Q c) : KmsAdded Q w w' := by
  obtain ⟨n, e, p⟩ := h
  exact ⟨n, e, fun c hc => hpq c (p c hc)⟩

/-- What `failDevice` leaves alone. -/
theorem failDevice_frame (err : Error) (w : World σ κ) :
    (failDevice err w).2.store = w.store ∧ (failDevice err w).2.kmsCalls = w.kmsCalls ∧
      (failDevice err w).2.files = w.files ∧ (failDevice err w).2.kms = w.kms :=
  ⟨rfl, rfl, rfl, rfl⟩

/-- What the builder of the device template leaves alone. -/
theorem device_template_frame (tenantID deviceID : String) (deviceCSR : CertificateRequest)
    (w : World σ κ) :
    (NewDeviceCertificateTemplate tenantID deviceID deviceCSR w).2.store = w.store ∧
    (NewDeviceCertificateTemplate tenantID deviceID deviceCSR w).2.kmsCalls = w.kmsCalls ∧
    (NewDeviceCertificateTemplate tenantID deviceID deviceCSR w).2.files = w.files ∧
    (NewDeviceCertificateTemplate tenantID deviceID deviceCSR w).2.kms = w.kms := by
  rw [NewDeviceCertificateTemplate_world]
  exact ⟨rfl, rfl, rfl, rfl⟩

/-- The store after a call of the store that is recorded. -/
theorem storeGetCertificate_store (store : CertStore σ) (certID : String) (w w1 : World σ κ)
    (r : Except Error SigningCertificate) (h : storeGetCertificate store certID w = (r, w1)) :
    w1.store = (store.GetCertificate w.store certID).2 ∧ w1.kmsCalls = w.kmsCalls ∧
      w1.files = w.files ∧ w1.kms = w.kms := by
  unfold storeGetCertificate at h
  simp only [Prod.mk.injEq] at h
  rw [← h.2]
  exact ⟨rfl, rfl, rfl, rfl⟩

/-- The store after `generateDeviceCertificate` of the local provider. -/
theorem local_generate_store (lib : Lib) (p : LocalProvider σ) (tenantID deviceID : String)
    (parsedCSR : CertificateRequest) (w w' : World σ κ) (r : DeviceCertResult)
    (h : p.generateDeviceCertificate lib tenantID deviceID parsedCSR w = (r, w')) :
    StoreStep p.store tenantID w.store w'.store := by
  unfold LocalProvider.generateDeviceCertificate at h
  dsimp only at h
  have hfail : ∀ (err : Error) (w1 : World σ κ), failDevice err w1 = (r, w') →
      StoreStep p.store tenantID w.store w1.store →
      StoreStep p.store tenantID w.store w'.store := by
    intro err w1 hf hs
    have : w'.store = w1.store := by
      have := congrArg (fun x => x.2.store) hf
      exact this.symm
    rw [this]
    exact hs
  have hlook : ∀ (x : Except Error (Option (Certificate × RSAPrivateKey))) (w1 : World σ κ),
      (if p.perTenantSigningEnabled = true then
          match storeGetCertificate p.store tenantID w with
          | (.error err, w1) =>
            if err ≠ .ErrCertStoreNotFound then (.error err, w1) else (.ok none, w1)
          | (.ok certEntry, w1) =>
            match lib.ParseCertificate certEntry.Certificate with
            | .error err => (.error err, w1)
            | .ok tenantSigningCert =>
              match LocalProvider.getTenantPrivateKey lib certEntry.TenantID w1 with
              | .error err => (.error err, w1)
              | .ok tenantPkey => (.ok (some (tenantSigningCert, tenantPkey)), w1)
        else (.ok none, w)) = (x, w1) →
      StoreStep p.store tenantID w.store w1.store := by
    intro x w1 hl
    split at hl
    · split at hl
      · rename_i err w0 hg
        have hw0 := (storeGetCertificate_store _ _ _ _ _ hg).1
        split at hl <;>
          (simp only [Prod.mk.injEq] at hl
           rw [← hl.2]
           exact Or.inr (Or.inl hw0))
      · rename_i certEntry w0 hg
        have hw0 := (storeGetCertificate_store _ _ _ _ _ hg).1
        split at hl
        · simp only [Prod.mk.injEq] at hl
          rw [← hl.2]
          exact Or.inr (Or.inl hw0)
        · split at hl <;>
            (simp only [Prod.mk.injEq] at hl
             rw [← hl.2]
             exact Or.inr (Or.inl hw0))
    · simp only [Prod.mk.injEq] at hl
      rw [← hl.2]
      exact Or.inl rfl
  split at h
  · rename_i err w1 hl
    exact hfail err w1 h (hlook _ _ hl)
  · rename_i found w1 hl
    have hs1 := hlook _ _ hl
    have ht := (device_template_frame tenantID deviceID parsedCSR w1).1
    split at h
    · rename_i err w2 hn
      rw [hn] at ht
      exact hfail err w2 h (by rw [ht]; exact hs1)
    · rename_i tpl w2 hn
      rw [hn] at ht
      have hs2 : StoreStep p.store tenantID w.store w2.store := by rw [ht]; exact hs1
      split at h
      · exact hfail _ w2 h hs2
      · split at h
        · exact hfail _ w2 h hs2
        · simp only [Prod.mk.injEq] at h
          rw [← h.2]
          exact hs2

/-- The store after each of the five operations of the local provider is the
store before it, or the store after one call for the tenant of the
operation. -/
theorem local_perform_store (lib : Lib) (p : LocalProvider σ) (op : PublicOp) (w : World σ κ) :
    StoreStep p.store op.tenantID w.store
      ((@LocalProvider.toKmsProvider _ κ lib p).perform op w).store := by
  cases op with
  | CreateTenantSigningCertificate tenantID tenantName =>
    show StoreStep p.store tenantID w.store
      (p.CreateTenantSigningCertificate lib tenantID tenantName w).2.store
    rcases local_tenant_create_run lib p tenantID tenantName w _ _ (pair_eta _) with
      ⟨_, hs, _⟩ | ⟨key, tpl, der, w1, w2, w3, _, _, _, _, hs3, _, hw, _⟩
    · exact Or.inl hs
    · rw [hw]
      have hadd : (storeAddCertificate p.store
            { Certificate := der, TenantID := tenantID, KmsKeyID := "" } w3).2.store
          = (p.store.AddCertificate w.store
            { Certificate := der, TenantID := tenantID, KmsKeyID := "" }).2 := by
        rw [← hs3]
        rfl
      exact Or.inr (Or.inr (Or.inr ⟨_, rfl, hadd⟩))
  | GetTenantSigningCertificate tenantID =>
    show StoreStep p.store tenantID w.store (p.GetTenantSigningCertificate tenantID w).2.store
    unfold LocalProvider.GetTenantSigningCertificate
    cases hg : storeGetCertificate p.store tenantID w with
    | mk r w1 =>
      have hw1 := (storeGetCertificate_store _ _ _ _ _ hg).1
      cases r <;> exact Or.inr (Or.inl hw1)
  | DeleteTenantSigningCertificate tenantID =>
    show StoreStep p.store tenantID w.store
      (p.DeleteTenantSigningCertificate lib tenantID w).2.store
    obtain ⟨d1, d2⟩ := local_delete_steps lib p tenantID w
    cases hd : storeDeleteCertificate p.store tenantID w with
    | mk r w1 =>
      have hw1 : w1.store = (p.store.DeleteCertificate w.store tenantID).2 := by
        unfold storeDeleteCertificate at hd
        simp only [Prod.mk.injEq] at hd
        rw [← hd.2]
      cases r with
      | some err =>
        rw [d1 err w1 hd]
        exact Or.inr (Or.inr (Or.inl hw1))
      | none =>
        rw [d2 w1 hd, (osRemove_frame lib _ w1).1]
        exact Or.inr (Or.inr (Or.inl hw1))
  | CreateDeviceCertificate tenantID deviceCSR =>
    show StoreStep p.store tenantID w.store
      (p.CreateDeviceCertificate lib tenantID deviceCSR w).2.store
    unfold LocalProvider.CreateDeviceCertificate
    split
    · exact Or.inl rfl
    · split
      · exact Or.inl rfl
      · split
        · exact Or.inl rfl
        · exact local_generate_store lib p tenantID _ _ (uuidNewString w).2 _ _ (pair_eta _)
  | RenewDeviceCertificate tenantID deviceID deviceCSR =>
    show StoreStep p.store tenantID w.store
      (p.RenewDeviceCertificate lib tenantID deviceID deviceCSR w).2.store
    unfold LocalProvider.RenewDeviceCertificate
    split
    · exact Or.inl rfl
    · split
      · exact Or.inl rfl
      · split
        · exact Or.inl rfl
        · exact local_generate_store lib p tenantID _ _ w _ _ (pair_eta _)

/-! ### The AWS provider -/

theorem kmsGetPublicKey_calls (client : KMSClient κ) (keyID : String) (w : World σ κ) :
    (kmsGetPublicKey client keyID w).2.store = w.store ∧
    KmsAdded (fun c => c.removes = false) w (kmsGetPublicKey client keyID w).2 :=
  ⟨rfl, KmsAdded.one _ _ _ (.GetPublicKey keyID) rfl rfl⟩

theorem newKMSSigner_calls (lib : Lib) (client : KMSClient κ) (keyID : String)
    (w : World σ κ) :
    (newKMSSigner lib client keyID w).2.store = w.store ∧
    KmsAdded (fun c => c.removes = false) w (newKMSSigner lib client keyID w).2 := by
  rw [newKMSSigner_world]
  exact kmsGetPublicKey_calls client keyID w

theorem getKmsPublicKey_calls (lib : Lib) (p : AwsKmsProvider σ κ) (keyID : String)
    (w : World σ κ) :
    (p.getKmsPublicKey lib keyID w).2.store = w.store ∧
    KmsAdded (fun c => c.removes = false) w (p.getKmsPublicKey lib keyID w).2 := by
  rw [getKmsPublicKey_world]
  exact kmsGetPublicKey_calls p.client keyID w

theorem createCertificateWithSigner_calls (lib : Lib) (client : KMSClient κ)
    (template parent : Certificate) (pub : Option PublicKey) (signer : KMSSigner)
    (w : World σ κ) :
    (createCertificateWithSigner lib client template parent pub signer w).2.store = w.store ∧
    KmsAdded (fun c => c.removes = false) w
      (createCertificateWithSigner lib client template parent pub signer w).2 := by
  refine ⟨(createCertificateWithSigner_frame lib client template parent pub signer w).1, ?_⟩
  unfold createCertificateWithSigner
  cases lib.tbsDigest template parent pub signer.publicKey with
  | error e => exact KmsAdded.refl _ _ _ rfl
  | ok digest =>
    simp only
    cases h : KMSSigner.Sign client signer digest w with
    | mk r w1 =>
      have hw : w1 = (kmsSign client signer.keyID digest w).2 := by
        unfold KMSSigner.Sign at h
        rw [h]
      cases r <;>
        (subst hw
         exact KmsAdded.one _ _ _ (.Sign signer.keyID digest) rfl rfl)

theorem newKmsKey_calls (p : AwsKmsProvider σ κ) (keyDescription keyAlias : String)
    (w : World σ κ) :
    KmsAdded (fun c => c.removes = false) w (p.newKmsKey keyDescription keyAlias w).2 := by
  unfold AwsKmsProvider.newKmsKey
  cases h1 : kmsDescribeKey p.client keyAlias w with
  | mk r1 w1 =>
    have hw1 : w1 = (kmsDescribeKey p.client keyAlias w).2 := by rw [h1]
    have k1 : KmsAdded (fun c => c.removes = false) w w1 := by
      subst hw1
      exact KmsAdded.one _ _ _ (.DescribeKey keyAlias) rfl rfl
    cases r1 with
    | ok keyId => exact k1
    | error err =>
      simp only
      split
      · exact k1
      · cases h2 : kmsCreateKey p.client keyDescription w1 with
        | mk r2 w2 =>
          have hw2 : w2 = (kmsCreateKey p.client keyDescription w1).2 := by rw [h2]
          have k2 : KmsAdded (fun c => c.removes = false) w w2 := by
            subst hw2
            exact k1.trans (KmsAdded.one _ _ _ (.CreateKey keyDescription) rfl rfl)
          cases r2 with
          | error e => exact k2
          | ok createdKeyId =>
            simp only
            cases h3 : kmsCreateAlias p.client createdKeyId keyAlias w2 with
            | mk r3 w3 =>
              have hw3 : w3 = (kmsCreateAlias p.client createdKeyId keyAlias w2).2 := by rw [h3]
              have k3 : KmsAdded (fun c => c.removes = false) w w3 := by
                subst hw3
                exact k2.trans
                  (KmsAdded.one _ _ _ (.CreateAlias createdKeyId keyAlias) rfl rfl)
              cases r3 <;> exact k3

/-- What `CreateTenantSigningCertificate` of the AWS provider does to the
store and to the KMS: at most one `AddCertificate` for the tenant, and calls of
the KMS that remove nothing. -/
theorem aws_create_effect (lib : Lib) (p : AwsKmsProvider σ κ) (tenantID tenantName : String)
    (w : World σ κ) :
    StoreStep p.store tenantID w.store
      (p.CreateTenantSigningCertificate lib tenantID tenantName w).2.store ∧
    KmsAdded (fun c => c.removes = false) w
      (p.CreateTenantSigningCertificate lib tenantID tenantName w).2 := by
  unfold AwsKmsProvider.CreateTenantSigningCertificate
  cases h1 : p.newKmsKey ("Signing key: " ++ tenantID) (keyAliasFormat tenantID) w with
  | mk r1 w1 =>
    have s1 : w1.store = w.store := by
      have := (newKmsKey_frame p ("Signing key: " ++ tenantID) (keyAliasFormat tenantID) w).1
      rw [h1] at this
      exact this
    have k1 : KmsAdded (fun c => c.removes = false) w w1 := by
      have := newKmsKey_calls p ("Signing key: " ++ tenantID) (keyAliasFormat tenantID) w
      rw [h1] at this
      exact this
    cases r1 with
    | error err => exact ⟨Or.inl s1, k1⟩
    | ok tenantKeyID =>
      simp only
      cases h2 : NewTenantSigningCertificateTemplate tenantID tenantName w1 with
      | mk r2 w2 =>
        obtain ⟨f1, _, _, f4, _⟩ := tenant_template_frame _ _ _ _ _ h2
        have s2 : w2.store = w.store := f1.trans s1
        have k2 : KmsAdded (fun c => c.removes = false) w w2 :=
          k1.trans (KmsAdded.refl _ _ _ f4)
        cases r2 with
        | error err => exact ⟨Or.inl s2, k2⟩
        | ok tpl =>
          simp only
          cases h3 : newKMSSigner lib p.client p.caKeyID w2 with
          | mk r3 w3 =>
            have hh := newKMSSigner_calls lib p.client p.caKeyID w2
            rw [h3] at hh
            have s3 : w3.store = w.store := hh.1.trans s2
            have k3 := k2.trans hh.2
            cases r3 with
            | error err => exact ⟨Or.inl s3, k3⟩
            | ok signer =>
              simp only
              cases h4 : p.getKmsPublicKey lib tenantKeyID w3 with
              | mk r4 w4 =>
                have hh4 := getKmsPublicKey_calls lib p tenantKeyID w3
                rw [h4] at hh4
                have s4 : w4.store = w.store := hh4.1.trans s3
                have k4 := k3.trans hh4.2
                cases r4 with
                | error err => exact ⟨Or.inl s4, k4⟩
                | ok pub =>
                  simp only
                  cases h5 : createCertificateWithSigner lib p.client tpl p.caCert (some pub)
                      signer w4 with
                  | mk r5 w5 =>
                    have hh5 := createCertificateWithSigner_calls lib p.client tpl p.caCert
                      (some pub) signer w4
                    rw [h5] at hh5
                    have s5 : w5.store = w.store := hh5.1.trans s4
                    have k5 := k4.trans hh5.2
                    cases r5 with
                    | error err => exact ⟨Or.inl s5, k5⟩
                    | ok der =>
                      simp only
                      cases h6 : storeAddCertificate p.store
                          { Certificate := der, TenantID := tenantID, KmsKeyID := tenantKeyID }
                          w5 with
                      | mk r6 w6 =>
                        have hw6 : w6 = (storeAddCertificate p.store
                            { Certificate := der, TenantID := tenantID,
                              KmsKeyID := tenantKeyID } w5).2 := by rw [h6]
                        have s6 : StoreStep p.store tenantID w.store w6.store := by
                          refine Or.inr (Or.inr (Or.inr
                            ⟨({ Certificate := der, TenantID := tenantID,
                                KmsKeyID := tenantKeyID } : SigningCertificate), rfl, ?_⟩))
                          rw [hw6, ← s5]
                          rfl
                        have k6 : KmsAdded (fun c => c.removes = false) w w6 := by
                          refine k5.trans (KmsAdded.refl _ _ _ ?_)
                          rw [hw6]
                          rfl
                        cases r6 <;> exact ⟨s6, k6⟩

/-- What `deleteKmsKey` does to the KMS: it looks the alias up, schedules the
deletion of the key that the lookup returned, and removes the alias. -/
theorem deleteKmsKey_calls (p : AwsKmsProvider σ κ) (keyAlias : String) (w : World σ κ) :
    KmsAdded (fun c => c.removes = false ∨ c = .DeleteAlias keyAlias ∨
        ∃ (k k1 : κ) (keyId : String),
          p.client.DescribeKey k keyAlias = (.ok keyId, k1) ∧
          c = .ScheduleKeyDeletion keyId awsKmsKeyDeletionPendingWindowDays) w
      (p.deleteKmsKey keyAlias w).2 := by
  unfold AwsKmsProvider.deleteKmsKey
  cases h1 : kmsDescribeKey p.client keyAlias w with
  | mk r1 w1 =>
    have hw1 : w1 = (kmsDescribeKey p.client keyAlias w).2 := by rw [h1]
    have k1 : KmsAdded (fun c => c.removes = false ∨ c = .DeleteAlias keyAlias ∨
        ∃ (k k1 : κ) (keyId : String),
          p.client.DescribeKey k keyAlias = (.ok keyId, k1) ∧
          c = .ScheduleKeyDeletion keyId awsKmsKeyDeletionPendingWindowDays) w w1 := by
      subst hw1
      exact KmsAdded.one _ _ _ (.DescribeKey keyAlias) rfl (Or.inl rfl)
    cases r1 with
    | error err => exact k1
    | ok keyId =>
      have hd : p.client.DescribeKey w.kms keyAlias
          = (.ok keyId, (p.client.DescribeKey w.kms keyAlias).2) := by
        unfold kmsDescribeKey at h1
        simp only [Prod.mk.injEq] at h1
        exact Prod.ext h1.1 rfl
      simp only
      cases h2 : kmsScheduleKeyDeletion p.client keyId awsKmsKeyDeletionPendingWindowDays w1 with
      | mk r2 w2 =>
        have hw2 : w2 = (kmsScheduleKeyDeletion p.client keyId
            awsKmsKeyDeletionPendingWindowDays w1).2 := by rw [h2]
        have k2 := k1.trans (KmsAdded.one _ w1 w2
          (.ScheduleKeyDeletion keyId awsKmsKeyDeletionPendingWindowDays)
          (by rw [hw2]; rfl) (Or.inr (Or.inr ⟨_, _, keyId, hd, rfl⟩)))
        cases r2 with
        | some err => exact k2
        | none =>
          simp only
          cases h3 : kmsDeleteAlias p.client keyAlias w2 with
          | mk r3 w3 =>
            have hw3 : w3 = (kmsDeleteAlias p.client keyAlias w2).2 := by rw [h3]
            have k3 := k2.trans (KmsAdded.one _ w2 w3 (.DeleteAlias keyAlias)
              (by rw [hw3]; rfl) (Or.inr (Or.inl rfl)))
            cases r3 <;> exact k3

/-- What `CreateDeviceCertificate` and `RenewDeviceCertificate` of the AWS
provider do to the store and to the KMS, by their common part: one
`GetCertificate` for the tenant, and calls of the KMS that remove nothing. -/
theorem aws_create_device_effect (lib : Lib) (p : AwsKmsProvider σ κ) (tenantID : String)
    (deviceCSR : Option Bytes) (w w' : World σ κ) (r : DeviceCertResult)
    (h : p.CreateDeviceCertificate lib tenantID deviceCSR w = (r, w')) :
    StoreStep p.store tenantID w.store w'.store ∧
    KmsAdded (fun c => c.removes = false) w w' := by
  have hfail : ∀ (err : Error) (w1 : World σ κ), failDevice err w1 = (r, w') →
      (StoreStep p.store tenantID w.store w1.store ∧
        KmsAdded (fun c => c.removes = false) w w1) →
      StoreStep p.store tenantID w.store w'.store ∧
        KmsAdded (fun c => c.removes = false) w w' := by
    intro err w1 hf hs
    have hw : w' = (failDevice err w1).2 := by rw [hf]
    rw [hw]
    exact ⟨hs.1, hs.2.trans (KmsAdded.refl _ _ _ rfl)⟩
  have h0 : StoreStep p.store tenantID w.store w.store ∧
      KmsAdded (fun c => c.removes = false) w w := ⟨Or.inl rfl, KmsAdded.refl _ _ _ rfl⟩
  unfold AwsKmsProvider.CreateDeviceCertificate at h
  dsimp only at h
  split at h
  · exact hfail _ _ h h0
  · split at h
    · exact hfail _ _ h h0
    · split at h
      · exact hfail _ _ h h0
      · rename_i parsedCSR hp
        have hlook : ∀ (x : Except Error SigningCertificate) (w1 : World σ κ),
            (match storeGetCertificate p.store tenantID w with
              | (.error err, w1) =>
                if err = .ErrCertStoreNotFound then (.ok p.commonSigningCert, w1)
                else (.error err, w1)
              | (.ok certEntry, w1) => (.ok certEntry, w1)) = (x, w1) →
            StoreStep p.store tenantID w.store w1.store ∧
              KmsAdded (fun c => c.removes = false) w w1 := by
          intro x w1 hl
          split at hl
          · rename_i err w0 hg
            obtain ⟨a1, a2, _⟩ := storeGetCertificate_store _ _ _ _ _ hg
            split at hl <;>
              (simp only [Prod.mk.injEq] at hl
               rw [← hl.2]
               exact ⟨Or.inr (Or.inl a1), KmsAdded.refl _ _ _ a2⟩)
          · rename_i certEntry w0 hg
            obtain ⟨a1, a2, _⟩ := storeGetCertificate_store _ _ _ _ _ hg
            simp only [Prod.mk.injEq] at hl
            rw [← hl.2]
            exact ⟨Or.inr (Or.inl a1), KmsAdded.refl _ _ _ a2⟩
        split at h
        · rename_i err w1 hl
          exact hfail _ _ h (hlook _ _ hl)
        · rename_i certEntry w1 hl
          have e1 := hlook _ _ hl
          split at h
          · exact hfail _ _ h e1
          · rename_i tenantSigningCert hpc
            have ht := device_template_frame tenantID (uuidNewString w1).1 parsedCSR
              (uuidNewString w1).2
            split at h
            · rename_i err w2 hn
              rw [hn] at ht
              exact hfail _ _ h ⟨by rw [ht.1]; exact e1.1,
                e1.2.trans (KmsAdded.refl _ _ _ ht.2.1)⟩
            · rename_i tpl w2 hn
              rw [hn] at ht
              have e2 : StoreStep p.store tenantID w.store w2.store ∧
                  KmsAdded (fun c => c.removes = false) w w2 :=
                ⟨by rw [ht.1]; exact e1.1, e1.2.trans (KmsAdded.refl _ _ _ ht.2.1)⟩
              have hsg := newKMSSigner_calls lib p.client certEntry.KmsKeyID w2
              split at h
              · rename_i err w3 hs
                rw [hs] at hsg
                exact hfail _ _ h ⟨by rw [hsg.1]; exact e2.1, e2.2.trans hsg.2⟩
              · rename_i signer w3 hs
                rw [hs] at hsg
                have e3 : StoreStep p.store tenantID w.store w3.store ∧
                    KmsAdded (fun c => c.removes = false) w w3 :=
                  ⟨by rw [hsg.1]; exact e2.1, e2.2.trans hsg.2⟩
                have hcc := createCertificateWithSigner_calls lib p.client tpl
                  tenantSigningCert parsedCSR.PublicKey signer w3
                split at h
                · rename_i err w4 hc
                  rw [hc] at hcc
                  exact hfail _ _ h ⟨by rw [hcc.1]; exact e3.1, e3.2.trans hcc.2⟩
                · rename_i der w4 hc
                  rw [hc] at hcc
                  have e4 : StoreStep p.store tenantID w.store w4.store ∧
                      KmsAdded (fun c => c.removes = false) w w4 :=
                    ⟨by rw [hcc.1]; exact e3.1, e3.2.trans hcc.2⟩
                  split at h
                  · exact hfail _ _ h e4
                  · simp only [Prod.mk.injEq] at h
                    rw [← h.2]
                    exact e4

/-- The same for `RenewDeviceCertificate`. -/
theorem aws_renew_device_effect (lib : Lib) (p : AwsKmsProvider σ κ)
    (tenantID deviceID : String) (deviceCSR : Option Bytes) (w w' : World σ κ) (r : DeviceCertResult)
    (h : p.RenewDeviceCertificate lib tenantID deviceID deviceCSR w = (r, w')) :
    StoreStep p.store tenantID w.store w'.store ∧
    KmsAdded (fun c => c.removes = false) w w' := by
  have hfail : ∀ (err : Error) (w1 : World σ κ), failDevice err w1 = (r, w') →
      (StoreStep p.store tenantID w.store w1.store ∧
        KmsAdded (fun c => c.removes = false) w w1) →
      StoreStep p.store tenantID w.store w'.store ∧
        KmsAdded (fun c => c.removes = false) w w' := by
    intro err w1 hf hs
    have hw : w' = (failDevice err w1).2 := by rw [hf]
    rw [hw]
    exact ⟨hs.1, hs.2.trans (KmsAdded.refl _ _ _ rfl)⟩
  have h0 : StoreStep p.store tenantID w.store w.store ∧
      KmsAdded (fun c => c.removes = false) w w := ⟨Or.inl rfl, KmsAdded.refl _ _ _ rfl⟩
  unfold AwsKmsProvider.RenewDeviceCertificate at h
  dsimp only at h
  split at h
  · exact hfail _ _ h h0
  · split at h
    · exact hfail _ _ h h0
    · split at h
      · exact hfail _ _ h h0
      · rename_i parsedCSR hp
        have hlook : ∀ (x : Except Error SigningCertificate) (w1 : World σ κ),
            (match storeGetCertificate p.store tenantID w with
              | (.error err, w1) =>
                if err = .ErrCertStoreNotFound then (.ok p.commonSigningCert, w1)
                else (.error err, w1)
              | (.ok certEntry, w1) => (.ok certEntry, w1)) = (x, w1) →
            StoreStep p.store tenantID w.store w1.store ∧
              KmsAdded (fun c => c.removes = false) w w1 := by
          intro x w1 hl
          split at hl
          · rename_i err w0 hg
            obtain ⟨a1, a2, _⟩ := storeGetCertificate_store _ _ _ _ _ hg
            split at hl <;>
              (simp only [Prod.mk.injEq] at hl
               rw [← hl.2]
               exact ⟨Or.inr (Or.inl a1), KmsAdded.refl _ _ _ a2⟩)
          · rename_i certEntry w0 hg
            obtain ⟨a1, a2, _⟩ := storeGetCertificate_store _ _ _ _ _ hg
            simp only [Prod.mk.injEq] at hl
            rw [← hl.2]
            exact ⟨Or.inr (Or.inl a1), KmsAdded.refl _ _ _ a2⟩
        split at h
        · rename_i err w1 hl
          exact hfail _ _ h (hlook _ _ hl)
        · rename_i certEntry w1 hl
          have e1 := hlook _ _ hl
          split at h
          · exact hfail _ _ h e1
          · rename_i tenantSigningCert hpc
            have ht := device_template_frame tenantID deviceID parsedCSR w1
            split at h
            · rename_i err w2 hn
              rw [hn] at ht
              exact hfail _ _ h ⟨by rw [ht.1]; exact e1.1,
                e1.2.trans (KmsAdded.refl _ _ _ ht.2.1)⟩
            · rename_i tpl w2 hn
              rw [hn] at ht
              have e2 : StoreStep p.store tenantID w.store w2.store ∧
                  KmsAdded (fun c => c.removes = false) w w2 :=
                ⟨by rw [ht.1]; exact e1.1, e1.2.trans (KmsAdded.refl _ _ _ ht.2.1)⟩
              have hsg := newKMSSigner_calls lib p.client certEntry.KmsKeyID w2
              split at h
              · rename_i err w3 hs
                rw [hs] at hsg
                exact hfail _ _ h ⟨by rw [hsg.1]; exact e2.1, e2.2.trans hsg.2⟩
              · rename_i signer w3 hs
                rw [hs] at hsg
                have e3 : StoreStep p.store tenantID w.store w3.store ∧
                    KmsAdded (fun c => c.removes = false) w w3 :=
                  ⟨by rw [hsg.1]; exact e2.1, e2.2.trans hsg.2⟩
                have hcc := createCertificateWithSigner_calls lib p.client tpl
                  tenantSigningCert parsedCSR.PublicKey signer w3
                split at h
                · rename_i err w4 hc
                  rw [hc] at hcc
                  exact hfail _ _ h ⟨by rw [hcc.1]; exact e3.1, e3.2.trans hcc.2⟩
                · rename_i der w4 hc
                  rw [hc] at hcc
                  have e4 : StoreStep p.store tenantID w.store w4.store ∧
                      KmsAdded (fun c => c.removes = false) w w4 :=
                    ⟨by rw [hcc.1]; exact e3.1, e3.2.trans hcc.2⟩
                  split at h
                  · exact hfail _ _ h e4
                  · simp only [Prod.mk.injEq] at h
                    rw [← h.2]
                    exact e4

/-- What each of the five operations of the AWS provider does to the store and
to the KMS: the store after it is the store before it, or the store after one
call for the tenant of the operation; the calls of the KMS remove nothing, or
remove the alias of the tenant, or schedule the deletion of a key that the
lookup of that alias returned. -/
theorem aws_perform_effect (lib : Lib) (p : AwsKmsProvider σ κ) (op : PublicOp) (w : World σ κ) :
    StoreStep p.store op.tenantID w.store ((p.toKmsProvider lib).perform op w).store ∧
    KmsAdded (TenantKmsCall p.client op.tenantID) w ((p.toKmsProvider lib).perform op w) := by
  have weaken : ∀ w1 : World σ κ, KmsAdded (fun c => c.removes = false) w w1 →
      KmsAdded (TenantKmsCall p.client op.tenantID) w w1 :=
    fun w1 hk => hk.mono (fun c hc => Or.inl hc)
  cases op with
  | CreateTenantSigningCertificate tenantID tenantName =>
    have h := aws_create_effect lib p tenantID tenantName w
    exact ⟨h.1, weaken _ h.2⟩
  | GetTenantSigningCertificate tenantID =>
    show StoreStep p.store tenantID w.store (p.GetTenantSigningCertificate tenantID w).2.store ∧
      KmsAdded (TenantKmsCall p.client tenantID) w (p.GetTenantSigningCertificate tenantID w).2
    unfold AwsKmsProvider.GetTenantSigningCertificate
    cases hg : storeGetCertificate p.store tenantID w with
    | mk r w1 =>
      obtain ⟨a1, a2, _⟩ := storeGetCertificate_store _ _ _ _ _ hg
      cases r <;> exact ⟨Or.inr (Or.inl a1), KmsAdded.refl _ _ _ a2⟩
  | DeleteTenantSigningCertificate tenantID =>
    show StoreStep p.store tenantID w.store
        (p.DeleteTenantSigningCertificate tenantID w).2.store ∧
      KmsAdded (TenantKmsCall p.client tenantID) w
        (p.DeleteTenantSigningCertificate tenantID w).2
    obtain ⟨d1, d2⟩ := aws_delete_steps p tenantID w
    cases hd : storeDeleteCertificate p.store tenantID w with
    | mk r w1 =>
      have hw1 : w1 = (storeDeleteCertificate p.store tenantID w).2 := by rw [hd]
      have s1 : w1.store = (p.store.DeleteCertificate w.store tenantID).2 := by
        rw [hw1]
        rfl
      have k1 : KmsAdded (TenantKmsCall p.client tenantID) w w1 := by
        refine KmsAdded.refl _ _ _ ?_
        rw [hw1]
        rfl
      cases r with
      | some err =>
        rw [d1 err w1 hd]
        exact ⟨Or.inr (Or.inr (Or.inl s1)), k1⟩
      | none =>
        rw [d2 w1 hd, (deleteKmsKey_frame p _ w1).1]
        exact ⟨Or.inr (Or.inr (Or.inl s1)),
          k1.trans (deleteKmsKey_calls p (keyAliasFormat tenantID) w1)⟩
  | CreateDeviceCertificate tenantID deviceCSR =>
    have h := aws_create_device_effect lib p tenantID deviceCSR w _ _ (pair_eta _)
    exact ⟨h.1, weaken _ h.2⟩
  | RenewDeviceCertificate tenantID deviceID deviceCSR =>
    have h := aws_renew_device_effect lib p tenantID deviceID deviceCSR w _ _ (pair_eta _)
    exact ⟨h.1, weaken _ h.2⟩

/-! ### The embedded store -/

/-- One call of the embedded store for a tenant leaves what the bucket holds
under every other key as it is. -/
theorem localdb_step_keeps (tenantID : String) (db db1 : BoltDB) (key : Bytes)
    (h : StoreStep LocalDbProvider.toCertStore tenantID db db1)
    (hkey : key ≠ stringBytes tenantID) :
    bucketGet db1.bucket key = bucketGet db.bucket key := by
  have hupd : ∀ (fn : List (Bytes × Bytes) → Except Error (List (Bytes × Bytes))),
      (∀ b b1, fn db.bucket = .ok b1 → b = db.bucket → bucketGet b1 key = bucketGet b key) →
      bucketGet (boltUpdate db fn).2.bucket key = bucketGet db.bucket key := by
    intro fn hfn
    unfold boltUpdate
    cases hf : fn db.bucket with
    | error err => rfl
    | ok b1 =>
      simp only
      cases db.diskError with
      | some err => rfl
      | none => exact hfn db.bucket b1 hf rfl
  rcases h with h | h | h | ⟨e, he, h⟩
  · rw [h]
  · rw [h]
    show bucketGet (LocalDbProvider.GetCertificate db tenantID).2.bucket key = _
    unfold LocalDbProvider.GetCertificate
    cases bucketGet db.bucket (stringBytes tenantID) <;> rfl
  · rw [h]
    show bucketGet (LocalDbProvider.DeleteCertificate db tenantID).2.bucket key = _
    unfold LocalDbProvider.DeleteCertificate
    refine hupd _ ?_
    intro b b1 hb hbb
    simp only [Except.ok.injEq] at hb
    rw [← hb, hbb]
    exact bucketGet_filter_other _ _ _ hkey
  · rw [h]
    show bucketGet (LocalDbProvider.AddCertificate db e).2.bucket key = _
    unfold LocalDbProvider.AddCertificate
    refine hupd _ ?_
    intro b b1 hb hbb
    cases henc : EncodeSigningCertificate e with
    | error err =>
      rw [henc] at hb
      cases hb
    | ok enc =>
      rw [henc] at hb
      simp only at hb
      rw [hbb]
      rw [he] at hb
      exact (bucketPut_ok _ _ _ _ hb).2.2 key hkey

/-- What the embedded store returns for an id depends only on what the bucket
holds under the id. -/
theorem localdb_get_congr (db db1 : BoltDB) (id : String)
    (h : bucketGet db1.bucket (stringBytes id) = bucketGet db.bucket (stringBytes id)) :
    (LocalDbProvider.GetCertificate db1 id).1 = (LocalDbProvider.GetCertificate db id).1 := by
  unfold LocalDbProvider.GetCertificate
  rw [h]
  cases bucketGet db.bucket (stringBytes id) <;> rfl

/-- Two tenant ids that differ have keys in the bucket that differ. -/
theorem stringBytes_ne (a b : String) (h : a ≠ b) : stringBytes a ≠ stringBytes b :=
  fun hb => h (stringBytes_injective a b hb)

/-! ## Sequences of operations over the embedded store -/

theorem performAll_cons (kp : KmsProvider σ κ) (op : PublicOp) (ops : List PublicOp)
    (w : World σ κ) :
    kp.performAll (op :: ops) w = kp.performAll ops (kp.perform op w) := rfl

/-- Operations of the local provider for other tenant ids leave what the
bucket holds under an id as it is. -/
theorem local_performAll_keeps (lib : Lib) (p : LocalProvider BoltDB) (id : String)
    (hs : p.store = LocalDbProvider.toCertStore) (ops : List PublicOp) (w : World BoltDB κ)
    (hops : ∀ op ∈ ops, op.tenantID ≠ id) :
    bucketGet ((@LocalProvider.toKmsProvider _ κ lib p).performAll ops w).store.bucket
        (stringBytes id)
      = bucketGet w.store.bucket (stringBytes id) := by
  induction ops generalizing w with
  | nil => rfl
  | cons op ops ih =>
    rw [performAll_cons, ih _ (fun o ho => hops o (List.mem_cons_of_mem _ ho))]
    have hstep := @local_perform_store _ κ lib p op w
    rw [hs] at hstep
    exact localdb_step_keeps _ _ _ _ hstep
      (stringBytes_ne _ _ (fun h => hops op (List.mem_cons_self _ _) h.symm))

/-- Operations of the AWS provider for other tenant ids leave what the bucket
holds under an id as it is. -/
theorem aws_performAll_keeps (lib : Lib) (p : AwsKmsProvider BoltDB κ) (id : String)
    (hs : p.store = LocalDbProvider.toCertStore) (ops : List PublicOp) (w : World BoltDB κ)
    (hops : ∀ op ∈ ops, op.tenantID ≠ id) :
    bucketGet ((p.toKmsProvider lib).performAll ops w).store.bucket (stringBytes id)
      = bucketGet w.store.bucket (stringBytes id) := by
  induction ops generalizing w with
  | nil => rfl
  | cons op ops ih =>
    rw [performAll_cons, ih _ (fun o ho => hops o (List.mem_cons_of_mem _ ho))]
    have hstep := (aws_perform_effect lib p op w).1
    rw [hs] at hstep
    exact localdb_step_keeps _ _ _ _ hstep
      (stringBytes_ne _ _ (fun h => hops op (List.mem_cons_self _ _) h.symm))

/-! ## The start of the providers -/

/-- A common signing entry that `getCommonSigningCertificate` returns is what
the store returned last. -/
theorem local_common_ok (lib : Lib) (p : LocalProvider σ) (w w' : World σ κ)
    (e : SigningCertificate) (h : p.getCommonSigningCertificate lib w = (.ok e, w')) :
    ∃ w0 : World σ κ, storeGetCertificate p.store CommonSigningKeyId w0 = (.ok e, w') := by
  unfold LocalProvider.getCommonSigningCertificate at h
  split at h
  · rename_i tenantCert w1 hg
    simp only [Prod.mk.injEq, Except.ok.injEq] at h
    rw [← h.1, ← h.2]
    exact ⟨w, hg⟩
  · split at h
    · cases h
    · rename_i w2 _
      split at h
      · cases h
      · rename_i tenantCert w3 hg
        simp only [Prod.mk.injEq, Except.ok.injEq] at h
        rw [← h.1, ← h.2]
        exact ⟨w2, hg⟩

theorem aws_common_ok (lib : Lib) (p : AwsKmsProvider σ κ) (w w' : World σ κ)
    (e : SigningCertificate) (h : p.getCommonSigningCertificate lib w = (.ok e, w')) :
    ∃ w0 : World σ κ, storeGetCertificate p.store CommonSigningKeyId w0 = (.ok e, w') := by
  unfold AwsKmsProvider.getCommonSigningCertificate at h
  split at h
  · rename_i tenantCert w1 hg
    simp only [Prod.mk.injEq, Except.ok.injEq] at h
    rw [← h.1, ← h.2]
    exact ⟨w, hg⟩
  · split at h
    · cases h
    · rename_i w2 _
      split at h
      · cases h
      · rename_i tenantCert w3 hg
        simp only [Prod.mk.injEq, Except.ok.injEq] at h
        rw [← h.1, ← h.2]
        exact ⟨w2, hg⟩

/-- An entry that the embedded store has just returned is returned again. -/
theorem localdb_get_again (id : String) (w0 w' : World BoltDB κ) (e : SigningCertificate)
    (h : storeGetCertificate LocalDbProvider.toCertStore id w0 = (.ok e, w')) :
    (LocalDbProvider.GetCertificate w'.store id).1 = .ok e := by
  unfold storeGetCertificate at h
  simp only [Prod.mk.injEq] at h
  obtain ⟨h1, h2⟩ := h
  have hdb : (LocalDbProvider.GetCertificate w0.store id).2 = w0.store := by
    unfold LocalDbProvider.GetCertificate
    cases bucketGet w0.store.bucket (stringBytes id) <;> rfl
  have hst : w'.store = w0.store := by
    rw [← h2]
    exact hdb
  rw [hst]
  exact h1

/-- What a successful `generateLocalCACertificate` sets: a generated key, the
certificate that this key signed for itself, and its parsed form; the other
fields stay. -/
theorem generateLocalCACertificate_ok (lib : Lib) (p p1 : LocalProvider σ) (w w' : World σ κ)
    (h : p.generateLocalCACertificate lib w = (.ok p1, w')) :
    p1.store = p.store ∧ p1.perTenantSigningEnabled = p.perTenantSigningEnabled ∧
    ∃ (tpl : Certificate) (w1 : World σ κ),
      rsaGenerateKey lib KeySize w = (.ok p1.caPrivateKey, w1) ∧
      lib.CreateCertificate tpl tpl (some p1.caPrivateKey.PublicKey) p1.caPrivateKey
        = .ok p1.caCertBytes ∧
      lib.ParseCertificate p1.caCertBytes = .ok p1.caCert := by
  unfold LocalProvider.generateLocalCACertificate at h
  split at h
  · cases h
  · rename_i key w1 hk
    split at h
    · cases h
    · rename_i tpl w2 ht
      split at h
      · cases h
      · rename_i der hc
        split at h
        · cases h
        · rename_i caCert hp
          dsimp only at h
          split at h
          · cases h
          · simp only [Prod.mk.injEq, Except.ok.injEq] at h
            rw [← h.1]
            exact ⟨rfl, rfl, tpl, w1, hk, hc, hp⟩

/-- The steps of a successful `LocalProvider.Init`. -/
theorem local_init_ok (lib : Lib) (b : Backends σ κ) (cfgMgr : ConfigMgr) (w w' : World σ κ)
    (p : LocalProvider σ) (h : LocalProvider.Init lib b cfgMgr w = (.ok p, w')) :
    ∃ (store : CertStore σ) (w1 w2 : World σ κ) (p0 p1 : LocalProvider σ)
      (e : SigningCertificate),
      certstore.Init b cfgMgr.GetCertStoreProvider w = (.ok store, w1) ∧
      p0.store = store ∧
      p0.generateLocalCACertificate lib w1 = (.ok p1, w2) ∧
      p1.getCommonSigningCertificate lib w2 = (.ok e, w') ∧
      lib.ParseCertificate e.Certificate = .ok p.commonSigningCert ∧
      LocalProvider.getTenantPrivateKey lib e.TenantID w' = .ok p.commonSigningCertPkey ∧
      p.store = p1.store ∧ p.caPrivateKey = p1.caPrivateKey ∧ p.caCert = p1.caCert ∧
      p.caCertBytes = p1.caCertBytes ∧
      p.perTenantSigningEnabled = cfgMgr.IsPerTenantSigningEnabled := by
  unfold LocalProvider.Init at h
  split at h
  · cases h
  · rename_i store w1 hst
    dsimp only at h
    split at h
    · cases h
    · rename_i p1 w2 hg
      split at h
      · cases h
      · rename_i e w3 hc
        split at h
        · cases h
        · rename_i cert hp
          split at h
          · cases h
          · rename_i pkey hk
            simp only [Prod.mk.injEq, Except.ok.injEq] at h
            obtain ⟨rfl, rfl⟩ := h
            obtain ⟨g1, g2, _⟩ := generateLocalCACertificate_ok lib _ p1 w1 w2 hg
            exact ⟨store, w1, w2, _, p1, e, hst, rfl, hg, hc, hp, hk, rfl, rfl, rfl, rfl, g2⟩

/-- Method `generateCACertificate` leaves client and store of the provider. -/
theorem generateCACertificate_ok (lib : Lib) (p p1 : AwsKmsProvider σ κ) (issuerName : String)
    (w w' : World σ κ) (h : p.generateCACertificate lib issuerName w = (.ok p1, w')) :
    p1.store = p.store ∧ p1.client = p.client := by
  unfold AwsKmsProvider.generateCACertificate at h
  split at h
  · cases h
  · dsimp only at h
    split at h
    · cases h
    · rename_i p2 w3 hkeyed
      have hp2 : p2.store = p.store ∧ p2.client = p.client := by
        split at hkeyed
        · simp only [Prod.mk.injEq, Except.ok.injEq] at hkeyed
          rw [← hkeyed.1]
          exact ⟨rfl, rfl⟩
        · split at hkeyed
          · cases hkeyed
          · simp only [Prod.mk.injEq, Except.ok.injEq] at hkeyed
            rw [← hkeyed.1]
            exact ⟨rfl, rfl⟩
      split at h
      · cases h
      · split at h
        · cases h
        · split at h
          · cases h
          · simp only [Prod.mk.injEq, Except.ok.injEq] at h
            rw [← h.1]
            exact hp2

/-- The steps of a successful `AwsKmsProvider.Init`: the common signing entry
that the provider caches is what its store returned last. -/
theorem aws_init_ok (lib : Lib) (b : Backends σ κ) (cfgMgr : ConfigMgr) (w w' : World σ κ)
    (p : AwsKmsProvider σ κ) (h : AwsKmsProvider.Init lib b cfgMgr w = (.returned (.ok p), w')) :
    ∃ (store : CertStore σ) (w1 w0 : World σ κ),
      certstore.Init b cfgMgr.GetCertStoreProvider w = (.ok store, w1) ∧
      p.store = store ∧
      storeGetCertificate p.store CommonSigningKeyId w0 = (.ok p.commonSigningCert, w') := by
  unfold AwsKmsProvider.Init at h
  split at h
  · cases h
  · rename_i client hcl
    split at h
    · cases h
    · rename_i store w1 hst
      dsimp only at h
      split at h
      · cases h
      · cases h
      · rename_i p1 w2 hca
        have hp1 : p1.store = store := by
          split at hca
          · simp only [Prod.mk.injEq, Outcome.returned.injEq] at hca
            exact (generateCACertificate_ok lib _ p1 _ w1 w2 (Prod.ext hca.1 hca.2)).1
          · obtain ⟨_, _, _, _, _, _, _, _, _, rfl⟩ := getCACertificate_ok lib _ p1 w1 w2 hca
            rfl
        split at h
        · cases h
        · rename_i e w3 hc
          simp only [Prod.mk.injEq, Outcome.returned.injEq, Except.ok.injEq] at h
          obtain ⟨rfl, rfl⟩ := h
          obtain ⟨w0, hg⟩ := aws_common_ok lib p1 w2 _ e hc
          exact ⟨store, w1, w0, hst, hp1, hg⟩

/-! ## The common signing entry under sequences of operations -/

set_option maxRecDepth 100000 in
/-- The first start of the local provider succeeds. -/
theorem demo_local_start_ok : demoLocalStart.1.toOption.isSome = true := by
  decide

/-- The first start of the local provider returns the provider
`demoStartedLocal`. -/
theorem demo_local_started :
    LocalProvider.Init keyLib demoBackends (demoConfigMgr "local_kms" "localdb") demoStartWorld
      = (.ok demoStartedLocal, demoLocalStart.2) := by
  obtain ⟨a, ha⟩ := isSome_ok demoLocalStart demo_local_start_ok
  have hp : demoStartedLocal = a := by
    unfold demoStartedLocal
    rw [ha]
  rw [hp]
  exact ha

set_option maxRecDepth 100000 in
/-- The start of the AWS provider in production succeeds. -/
theorem demo_aws_start_ok : demoAwsStart.1.isReturnedOk = true := by
  decide

theorem isReturnedOk_eq {ε α : Type} (x : Outcome (Except ε α)) (h : x.isReturnedOk = true) :
    ∃ a, x = .returned (.ok a) := by
  cases x with
  | panicked msg => cases h
  | returned r =>
    cases r with
    | error err => cases h
    | ok a => exact ⟨a, rfl⟩

theorem fst_eta {α β : Type} (x : α × β) (a : α) (h : x.1 = a) : x = (a, x.2) := by
  obtain ⟨x1, x2⟩ := x
  cases h
  rfl

/-- The start of the AWS provider in production returns the provider
`demoStartedAws`. -/
theorem demo_aws_started :
    AwsKmsProvider.Init keyLib demoBackends (demoConfigMgr "aws_kms" "localdb")
        (demoProductionWorld [48, 130, 1, 5, 5])
      = (.returned (.ok demoStartedAws), demoAwsStart.2) := by
  obtain ⟨a, ha⟩ := isReturnedOk_eq demoAwsStart.1 demo_aws_start_ok
  have hp : demoStartedAws = a := by
    unfold demoStartedAws
    rw [ha]
  rw [hp]
  exact fst_eta demoAwsStart _ ha

set_option maxRecDepth 100000 in
/-- Claim C23 fails for the tenant id `SharedTenantSigningKey`, in both
providers. After the first start of the local provider the store holds the
common signing entry; the RPC `DeleteTenantSigningCertificate` for the tenant
id `SharedTenantSigningKey`, which is not empty, answers OK; afterwards the
store holds no entry under `SharedTenantSigningKey`. The same holds after a
start of the AWS provider in production. -/
theorem common_entry_deleted_by_tenant_id :
    demoLocalStart.1.toOption.isSome = true ∧
    (LocalDbProvider.GetCertificate demoLocalStart.2.store
        "SharedTenantSigningKey").1.toOption.isSome = true ∧
    (CertificateAuthorityServer.DeleteTenantSigningCertificate
        { kmsProvider := demoStartedLocal.toKmsProvider keyLib }
        (demoDeleteRequestFor "SharedTenantSigningKey") demoLocalStart.2).1.Header.Status
      = codesOK ∧
    bucketGet
        (CertificateAuthorityServer.DeleteTenantSigningCertificate
          { kmsProvider := demoStartedLocal.toKmsProvider keyLib }
          (demoDeleteRequestFor "SharedTenantSigningKey") demoLocalStart.2).2.store.bucket
        (stringBytes "SharedTenantSigningKey") = none ∧
    (LocalDbProvider.GetCertificate
        (CertificateAuthorityServer.DeleteTenantSigningCertificate
          { kmsProvider := demoStartedLocal.toKmsProvider keyLib }
          (demoDeleteRequestFor "SharedTenantSigningKey") demoLocalStart.2).2.store
        "SharedTenantSigningKey").1.toOption = none ∧
    demoAwsStart.1.isReturnedOk = true ∧
    (LocalDbProvider.GetCertificate demoAwsStart.2.store
        "SharedTenantSigningKey").1.toOption.isSome = true ∧
    (CertificateAuthorityServer.DeleteTenantSigningCertificate
        { kmsProvider := demoStartedAws.toKmsProvider keyLib }
        (demoDeleteRequestFor "SharedTenantSigningKey") demoAwsStart.2).1.Header.Status
      = codesOK ∧
    (LocalDbProvider.GetCertificate
        (CertificateAuthorityServer.DeleteTenantSigningCertificate
          { kmsProvider := demoStartedAws.toKmsProvider keyLib }
          (demoDeleteRequestFor "SharedTenantSigningKey") demoAwsStart.2).2.store
        "SharedTenantSigningKey").1.toOption = none := by
  decide

/-- Operations for other tenants keep the common entry, shown over the
embedded store. After a successful `Init` of
the local provider the store returns the common signing entry, whose
certificate the provider caches, under the id `SharedTenantSigningKey`; after
a successful `Init` of the AWS provider it returns the entry that the provider
caches. After every sequence of public operations whose tenant ids all differ
from `SharedTenantSigningKey`, the store still returns that same entry: no
such operation deletes or replaces it. -/
theorem common_entry_kept (lib : Lib) (b : Backends BoltDB κ) (cfgMgr : ConfigMgr)
    (w w1 : World BoltDB κ) (ops : List PublicOp)
    (hstore : (certstore.Init b cfgMgr.GetCertStoreProvider w).1
      = .ok LocalDbProvider.toCertStore)
    (hops : ∀ op ∈ ops, op.tenantID ≠ "SharedTenantSigningKey") :
    (∀ p : LocalProvider BoltDB, LocalProvider.Init lib b cfgMgr w = (.ok p, w1) →
      ∃ e : SigningCertificate,
        (LocalDbProvider.GetCertificate w1.store "SharedTenantSigningKey").1 = .ok e ∧
        lib.ParseCertificate e.Certificate = .ok p.commonSigningCert ∧
        (LocalDbProvider.GetCertificate
          ((@LocalProvider.toKmsProvider _ κ lib p).performAll ops w1).store
          "SharedTenantSigningKey").1 = .ok e) ∧
    (∀ p : AwsKmsProvider BoltDB κ,
      AwsKmsProvider.Init lib b cfgMgr w = (.returned (.ok p), w1) →
      (LocalDbProvider.GetCertificate w1.store "SharedTenantSigningKey").1
        = .ok p.commonSigningCert ∧
      (LocalDbProvider.GetCertificate ((p.toKmsProvider lib).performAll ops w1).store
        "SharedTenantSigningKey").1 = .ok p.commonSigningCert) := by
  constructor
  · intro p h
    obtain ⟨store, w2, w3, p0, p1, e, hst, hp0, hg, hc, hparse, _, hps, _⟩ :=
      local_init_ok lib b cfgMgr w w1 p h
    have hs : p.store = LocalDbProvider.toCertStore := by
      rw [hst] at hstore
      simp only [Except.ok.injEq] at hstore
      rw [hps, (generateLocalCACertificate_ok lib p0 p1 w2 w3 hg).1, hp0, hstore]
    obtain ⟨w0, hget⟩ := local_common_ok lib p1 w3 w1 e hc
    rw [← hps, hs] at hget
    have hnow := localdb_get_again CommonSigningKeyId w0 w1 e hget
    exact ⟨e, hnow, hparse, (localdb_get_congr _ _ "SharedTenantSigningKey"
      (local_performAll_keeps lib p "SharedTenantSigningKey" hs ops w1 hops)).trans hnow⟩
  · intro p h
    obtain ⟨store, w2, w0, hst, hps, hget⟩ := aws_init_ok lib b cfgMgr w w1 p h
    have hs : p.store = LocalDbProvider.toCertStore := by
      rw [hst] at hstore
      simp only [Except.ok.injEq] at hstore
      rw [hps, hstore]
    rw [hs] at hget
    have hnow := localdb_get_again CommonSigningKeyId w0 w1 _ hget
    exact ⟨hnow, (localdb_get_congr _ _ "SharedTenantSigningKey"
      (aws_performAll_keeps lib p "SharedTenantSigningKey" hs ops w1 hops)).trans hnow⟩

set_option maxRecDepth 100000 in
/-- The tenant ids of the operations in `demoOps` differ from the reserved
ids. -/
theorem demoOps_tenants :
    (∀ op ∈ demoOps, op.tenantID ≠ "SharedTenantSigningKey") ∧
    (∀ op ∈ demoOps, op.tenantID ≠ "CAKey" ∧ op.tenantID ≠ "alias/CAKey") := by
  decide

/-- The common entry at the first start of the local provider and at a
start of the AWS provider in production, each followed by the life of tenant
`t2`: the store returns the same common signing entry before and after. -/
theorem demo_common_entry_kept :
    (∃ e : SigningCertificate,
      (LocalDbProvider.GetCertificate demoLocalStart.2.store "SharedTenantSigningKey").1
        = .ok e ∧
      (LocalDbProvider.GetCertificate
        ((demoStartedLocal.toKmsProvider keyLib).performAll demoOps demoLocalStart.2).store
        "SharedTenantSigningKey").1 = .ok e) ∧
    (LocalDbProvider.GetCertificate
        ((demoStartedAws.toKmsProvider keyLib).performAll demoOps demoAwsStart.2).store
        "SharedTenantSigningKey").1 = .ok demoStartedAws.commonSigningCert :=
  ⟨((common_entry_kept keyLib demoBackends (demoConfigMgr "local_kms" "localdb")
      demoStartWorld demoLocalStart.2 demoOps rfl demoOps_tenants.1).1 demoStartedLocal
      demo_local_started).imp (fun _ he => ⟨he.1, he.2.2⟩),
    ((common_entry_kept keyLib demoBackends (demoConfigMgr "aws_kms" "localdb")
      (demoProductionWorld [48, 130, 1, 5, 5]) demoAwsStart.2 demoOps rfl
      demoOps_tenants.1).2 demoStartedAws demo_aws_started).2⟩

/-! ## The root certificate and the root key under sequences of operations -/

/-- Tenant ids that differ have aliases that differ. -/
theorem keyAliasFormat_injective (a b : String) (h : keyAliasFormat a = keyAliasFormat b) :
    a = b := by
  unfold keyAliasFormat at h
  have h2 := congrArg String.data h
  rw [String.data_append, String.data_append] at h2
  exact String.ext (List.append_cancel_left h2)

/-- Only the tenant id `CAKey` has the alias of the root key. -/
theorem keyAliasFormat_ne_root (tenantID : String) (h : tenantID ≠ "CAKey") :
    keyAliasFormat tenantID ≠ awsKmsCAKeyAlias :=
  fun ha => h (keyAliasFormat_injective tenantID "CAKey" ha)

/-- A call of the KMS made for a tenant other than `CAKey` does the root key no
harm, over a KMS in which no other alias resolves to the root key. -/
theorem tenantKmsCall_harmless (client : KMSClient κ) (caKeyId tenantID : String)
    (c : KmsCall)
    (hk : ∀ k a keyId k1, client.DescribeKey k a = (.ok keyId, k1) → a ≠ awsKmsCAKeyAlias →
      keyId ≠ caKeyId)
    (ht : tenantID ≠ "CAKey") (hc : TenantKmsCall client tenantID c) :
    c.harmsRootKey caKeyId = false := by
  rcases hc with hc | hc | ⟨k, k1, keyId, hd, hc⟩
  · cases c <;> first | rfl | cases hc
  · rw [hc]
    show (keyAliasFormat tenantID == awsKmsCAKeyAlias) = false
    exact beq_eq_false_iff_ne.mpr (keyAliasFormat_ne_root tenantID ht)
  · rw [hc]
    show (keyId == caKeyId) = false
    exact beq_eq_false_iff_ne.mpr (hk k _ keyId k1 hd (keyAliasFormat_ne_root tenantID ht))

/-- Operations of the AWS provider for tenants other than `CAKey` make no call
that harms the root key. -/
theorem aws_performAll_kms (lib : Lib) (p : AwsKmsProvider σ κ) (caKeyId : String)
    (hk : ∀ k a keyId k1, p.client.DescribeKey k a = (.ok keyId, k1) → a ≠ awsKmsCAKeyAlias →
      keyId ≠ caKeyId)
    (ops : List PublicOp) (w : World σ κ) (hops : ∀ op ∈ ops, op.tenantID ≠ "CAKey") :
    KmsAdded (fun c => c.harmsRootKey caKeyId = false) w
      ((p.toKmsProvider lib).performAll ops w) := by
  induction ops generalizing w with
  | nil => exact KmsAdded.refl _ _ _ rfl
  | cons op ops ih =>
    rw [performAll_cons]
    refine KmsAdded.trans ?_ (ih _ (fun o ho => hops o (List.mem_cons_of_mem _ ho)))
    exact (aws_perform_effect lib p op w).2.mono
      (fun c hc => tenantKmsCall_harmless p.client caKeyId op.tenantID c hk
        (hops op (List.mem_cons_self _ _)) hc)

set_option maxRecDepth 100000 in
/-- Claim C24 fails for the tenant ids `CAKey` and `alias/CAKey`, after a start
of the AWS provider in production over a KMS whose alias `alias/CAKey` stands
for the key `key-ca`. The RPC `DeleteTenantSigningCertificate` for the tenant
`CAKey` answers OK, and on its way the provider scheduled the deletion of
`key-ca` and removed the alias `alias/CAKey`, which the KMS resolves no more.
The operation `CreateTenantSigningCertificate` for the tenant `alias/CAKey`
succeeds and replaces the entry that the store held under `alias/CAKey`. -/
theorem root_material_removed_by_tenant_id :
    demoAwsStart.1.isReturnedOk = true ∧
    (CertificateAuthorityServer.DeleteTenantSigningCertificate
        { kmsProvider := demoStartedAws.toKmsProvider keyLib }
        (demoDeleteRequestFor "CAKey") demoAwsStart.2).1.Header.Status = codesOK ∧
    (CertificateAuthorityServer.DeleteTenantSigningCertificate
        { kmsProvider := demoStartedAws.toKmsProvider keyLib }
        (demoDeleteRequestFor "CAKey") demoAwsStart.2).2.kmsCalls
      = demoAwsStart.2.kmsCalls ++
        [.DescribeKey "alias/CAKey", .ScheduleKeyDeletion "key-ca" 7,
          .DeleteAlias "alias/CAKey"] ∧
    (memKms.DescribeKey demoAwsStart.2.kms "alias/CAKey").1.toOption = some "key-ca" ∧
    (memKms.DescribeKey
        (CertificateAuthorityServer.DeleteTenantSigningCertificate
          { kmsProvider := demoStartedAws.toKmsProvider keyLib }
          (demoDeleteRequestFor "CAKey") demoAwsStart.2).2.kms "alias/CAKey").1.toOption
      = none ∧
    (LocalDbProvider.GetCertificate demoAwsStart.2.store "alias/CAKey").1.toOption
      = some { TenantID := "alias/CAKey", KmsKeyID := "key-ca",
               Certificate := [48, 130, 1, 5, 5] } ∧
    (demoStartedAws.CreateTenantSigningCertificate keyLib "alias/CAKey" "Mallory"
        demoAwsStart.2).1.toOption.isSome = true ∧
    (LocalDbProvider.GetCertificate
        (demoStartedAws.CreateTenantSigningCertificate keyLib "alias/CAKey" "Mallory"
          demoAwsStart.2).2.store "alias/CAKey").1.toOption
      = some { TenantID := "alias/CAKey", KmsKeyID := "key:Signing key: alias/CAKey",
               Certificate := [48, 130, 1, 5, 5] } := by
  decide

/-- Operations for other tenants leave the root material alone, shown over
the embedded store. For every sequence of public
operations of the AWS provider whose tenant ids are neither `CAKey` nor
`alias/CAKey`, the store holds under `alias/CAKey` after the sequence what it
held before, so the entry is neither overwritten nor removed; no call of the
KMS removes the alias `alias/CAKey`; and, over a KMS in which no alias other
than `alias/CAKey` resolves to the root key, no call schedules the deletion of
the root key. -/
theorem root_material_untouched (lib : Lib) (p : AwsKmsProvider BoltDB κ) (caKeyId : String)
    (ops : List PublicOp) (w : World BoltDB κ)
    (hs : p.store = LocalDbProvider.toCertStore)
    (hk : ∀ k a keyId k1, p.client.DescribeKey k a = (.ok keyId, k1) → a ≠ "alias/CAKey" →
      keyId ≠ caKeyId)
    (hops : ∀ op ∈ ops, op.tenantID ≠ "CAKey" ∧ op.tenantID ≠ "alias/CAKey") :
    bucketGet ((p.toKmsProvider lib).performAll ops w).store.bucket (stringBytes "alias/CAKey")
      = bucketGet w.store.bucket (stringBytes "alias/CAKey") ∧
    (LocalDbProvider.GetCertificate ((p.toKmsProvider lib).performAll ops w).store
        "alias/CAKey").1
      = (LocalDbProvider.GetCertificate w.store "alias/CAKey").1 ∧
    ∃ new, ((p.toKmsProvider lib).performAll ops w).kmsCalls = w.kmsCalls ++ new ∧
      ∀ c ∈ new, c ≠ .DeleteAlias "alias/CAKey" ∧
        (∀ days, c ≠ .ScheduleKeyDeletion caKeyId days) ∧ c.harmsRootKey caKeyId = false := by
  have hkeep := aws_performAll_keeps lib p "alias/CAKey" hs ops w (fun op ho => (hops op ho).2)
  refine ⟨hkeep, localdb_get_congr _ _ _ hkeep, ?_⟩
  obtain ⟨new, hnew, hall⟩ := aws_performAll_kms lib p caKeyId hk ops w
    (fun op ho => (hops op ho).1)
  refine ⟨new, hnew, fun c hc => ⟨?_, ?_, hall c hc⟩⟩
  · intro heq
    have := hall c hc
    rw [heq] at this
    simp only [KmsCall.harmsRootKey, awsKmsCAKeyAlias, beq_self_eq_true] at this
    cases this
  · intro days heq
    have := hall c hc
    rw [heq] at this
    simp only [KmsCall.harmsRootKey, beq_self_eq_true] at this
    cases this

/-- In the naming KMS only the alias `alias/CAKey` resolves to the key
`key:alias/CAKey`. -/
theorem namingKms_root (k : List String) (a keyId : String) (k1 : List String)
    (h : namingKms.DescribeKey k a = (.ok keyId, k1)) (ha : a ≠ "alias/CAKey") :
    keyId ≠ "key:alias/CAKey" := by
  simp only [namingKms] at h
  split at h
  · simp only [Prod.mk.injEq, Except.ok.injEq] at h
    intro hc
    rw [← h.1] at hc
    have h2 := congrArg String.data hc
    rw [String.data_append] at h2
    exact ha (String.ext (@List.append_cancel_left _ "key:".data _ _ h2))
  · simp only [Prod.mk.injEq] at h
    cases h.1

set_option maxRecDepth 100000 in
/-- The life of tenant `t2` over the naming KMS: the provider made thirteen
calls of the KMS, among them the scheduled deletion of the key of `t2` and the
removal of its alias. -/
theorem demo_naming_run :
    ((demoNamingProvider.toKmsProvider keyLib).performAll demoOps demoNamingWorld).kmsCalls
      = [.DescribeKey "alias/t2", .CreateKey "Signing key: t2",
          .CreateAlias "key:alias/t2" "alias/t2", .GetPublicKey "alias/CAKey",
          .GetPublicKey "key:alias/t2", .Sign "alias/CAKey" [32, 1, 5],
          .GetPublicKey "key:alias/t2", .Sign "key:alias/t2" [32, 1, 3233],
          .GetPublicKey "key:alias/t2", .Sign "key:alias/t2" [32, 1, 3233],
          .DescribeKey "alias/t2", .ScheduleKeyDeletion "key:alias/t2" 7,
          .DeleteAlias "alias/t2"] := by
  decide

/-- The root material during the life of tenant `t2` over the naming KMS: the
store returns the root entry as before, and none of the calls of the KMS
removes the alias `alias/CAKey` or schedules the deletion of the root key. -/
theorem demo_root_material_untouched :
    (LocalDbProvider.GetCertificate
        ((demoNamingProvider.toKmsProvider keyLib).performAll demoOps demoNamingWorld).store
        "alias/CAKey").1
      = (LocalDbProvider.GetCertificate demoNamingWorld.store "alias/CAKey").1 ∧
    ∃ new,
      ((demoNamingProvider.toKmsProvider keyLib).performAll demoOps demoNamingWorld).kmsCalls
        = demoNamingWorld.kmsCalls ++ new ∧
      ∀ c ∈ new, c ≠ .DeleteAlias "alias/CAKey" ∧
        (∀ days, c ≠ .ScheduleKeyDeletion "key:alias/CAKey" days) ∧
        c.harmsRootKey "key:alias/CAKey" = false :=
  (root_material_untouched keyLib demoNamingProvider "key:alias/CAKey" demoOps demoNamingWorld
    rfl namingKms_root demoOps_tenants.2).2

/-! ## A restart of the local provider -/

set_option maxRecDepth 100000 in
/-- The two starts of the local provider, the second in the world that the
first left: each generates a root key of its own, and the second finds the
common signing certificate of the first in the store. -/
theorem demo_restart :
    demoLocalStart.1.toOption.isSome = true ∧
    demoLocalRestart.1.toOption.isSome = true ∧
    demoStartedLocal.caPrivateKey = { N := 2, E := 17, D := 1 } ∧
    demoRestartedLocal.caPrivateKey = { N := 38, E := 17, D := 1 } ∧
    demoRestartedLocal.caCertBytes = [48, 130, 1, 38, 38] ∧
    demoRestartedLocal.commonSigningCert.Raw = [48, 130, 1, 20, 2] ∧
    (LocalDbProvider.GetCertificate demoLocalStart.2.store "SharedTenantSigningKey").1.toOption
      = some { TenantID := "SharedTenantSigningKey", KmsKeyID := "",
               Certificate := [48, 130, 1, 20, 2] } ∧
    certificatePublicKey keyLib demoRestartedLocal.caCertBytes = some (.rsa 38 17) := by
  decide

set_option maxRecDepth 100000 in
/-- The device certificate that the restarted provider issues for tenant
`t1`. -/
theorem demo_restart_device :
    (demoRestartedLocal.CreateDeviceCertificate keyLib "t1" (some [48, 1])
        demoLocalRestart.2).1.err = none ∧
    (demoRestartedLocal.CreateDeviceCertificate keyLib "t1" (some [48, 1])
        demoLocalRestart.2).1.deviceCert = [48, 130, 1, 3233, 20] ∧
    (demoRestartedLocal.CreateDeviceCertificate keyLib "t1" (some [48, 1])
        demoLocalRestart.2).1.parentCerts
      = [48, 128, 48, 130, 1, 20, 2, 48, 130, 1, 38, 38] := by
  decide

/-- Claim C25 fails at a restart. The local provider is started over an empty
store, and started again in the world that the first run left, in which the
store holds the common signing entry of the first run. Both starts succeed.
The first run generated the root key `2` and signed the common signing
certificate `[48, 130, 1, 20, 2]` with it. The second run generates the root
key `38` and the root certificate `[48, 130, 1, 38, 38]`, and takes the common
signing certificate from the store. The device certificate that it then
issues for tenant `t1` comes with a parent bundle that holds this signing
certificate and the new root certificate; the signing certificate was signed
by the root key of the first run, and no certificate that the root key of the
second run signs has its bytes. -/
theorem restart_breaks_chain :
    demoLocalStart.1.toOption.isSome = true ∧
    demoLocalRestart.1.toOption.isSome = true ∧
    (demoRestartedLocal.CreateDeviceCertificate keyLib "t1" (some [48, 1])
        demoLocalRestart.2).1.err = none ∧
    keyLib.DegenerateCertificate
        (demoRestartedLocal.commonSigningCert.Raw ++ demoRestartedLocal.caCertBytes)
      = .ok (demoRestartedLocal.CreateDeviceCertificate keyLib "t1" (some [48, 1])
          demoLocalRestart.2).1.parentCerts ∧
    certificatePublicKey keyLib demoRestartedLocal.caCertBytes
      = some demoRestartedLocal.caPrivateKey.PublicKey ∧
    (∃ (tpl parent : Certificate) (pub : Option PublicKey),
      keyLib.CreateCertificate tpl parent pub demoStartedLocal.caPrivateKey
        = .ok demoRestartedLocal.commonSigningCert.Raw) ∧
    (∀ (tpl parent : Certificate) (pub : Option PublicKey),
      keyLib.CreateCertificate tpl parent pub demoRestartedLocal.caPrivateKey
        ≠ .ok demoRestartedLocal.commonSigningCert.Raw) := by
  obtain ⟨h1, h2, k1, k2, hca, hcommon, _, hpk⟩ := demo_restart
  obtain ⟨d1, _, d3⟩ := demo_restart_device
  refine ⟨h1, h2, d1, ?_, ?_, ?_, ?_⟩
  · rw [hcommon, hca, d3]
    rfl
  · rw [hpk, k2]
    rfl
  · refine ⟨{}, {}, some (.rsa 20 17), ?_⟩
    rw [k1, hcommon]
    rfl
  · intro tpl parent pub h
    rw [k2, hcommon] at h
    simp only [keyLib, Except.ok.injEq, List.cons.injEq, and_true] at h
    exact absurd h.2.2.2.2 (by decide)

/-! ## A store that fails after the key file was written -/

set_option maxRecDepth 100000 in
/-- Claim C28 fails in the local provider when the store refuses a write. The
started provider creates the signing certificate of tenant `t2`: the store
holds a certificate with the public key `38`, and the key file `t2.key` holds
the key `38`. The disk turns read-only and the certificate of `t2` is created
again: the operation returns an error, the store still holds the certificate
with the public key `38`, but the key file now holds the key `56`, which the
operation wrote before the store refused the entry. -/
theorem key_file_written_before_store_entry :
    (demoStartedLocal.CreateTenantSigningCertificate keyLib "t2" "Acme"
        demoLocalStart.2).1.toOption.isSome = true ∧
    entryPublicKey keyLib demoTenantReadOnlyWorld.store "t2" = some (.rsa 38 17) ∧
    keyFilePublicKey keyLib "t2" demoTenantReadOnlyWorld = some (.rsa 38 17) ∧
    (demoStartedLocal.CreateTenantSigningCertificate keyLib "t2" "Acme"
        demoTenantReadOnlyWorld).1.toOption = none ∧
    entryPublicKey keyLib
        (demoStartedLocal.CreateTenantSigningCertificate keyLib "t2" "Acme"
          demoTenantReadOnlyWorld).2.store "t2" = some (.rsa 38 17) ∧
    keyFilePublicKey keyLib "t2"
        (demoStartedLocal.CreateTenantSigningCertificate keyLib "t2" "Acme"
          demoTenantReadOnlyWorld).2 = some (.rsa 56 17) ∧
    entryPublicKey keyLib
        (demoStartedLocal.CreateTenantSigningCertificate keyLib "t2" "Acme"
          demoTenantReadOnlyWorld).2.store "t2"
      ≠ keyFilePublicKey keyLib "t2"
        (demoStartedLocal.CreateTenantSigningCertificate keyLib "t2" "Acme"
          demoTenantReadOnlyWorld).2 := by
  decide

/-! ## The parent bundle after each kind of start -/

theorem generateCACertificate_bytes (lib : Lib) (p p1 : AwsKmsProvider σ κ)
    (issuerName : String) (w w' : World σ κ)
    (h : p.generateCACertificate lib issuerName w = (.ok p1, w')) :
    ∃ caCert, lib.ParseCertificate p1.caCertBytes = .ok caCert := by
  unfold AwsKmsProvider.generateCACertificate at h
  split at h
  · cases h
  · dsimp only at h
    split at h
    · cases h
    · split at h
      · cases h
      · split at h
        · cases h
        · split at h
          · cases h
          · rename_i caCert hparse
            simp only [Prod.mk.injEq, Except.ok.injEq] at h
            rw [← h.1]
            exact ⟨caCert, hparse⟩

/-- What the field `caCertBytes` holds after a successful `Init` of the AWS
provider: in test mode the bytes of the root certificate that was generated,
in production nothing, because `getCACertificate` sets `caCert` only. -/
theorem aws_init_bytes (lib : Lib) (b : Backends σ κ) (cfgMgr : ConfigMgr) (w w' : World σ κ)
    (p : AwsKmsProvider σ κ) (h : AwsKmsProvider.Init lib b cfgMgr w = (.returned (.ok p), w')) :
    (cfgMgr.IsTestModeEnabled = true →
      ∃ caCert, lib.ParseCertificate p.caCertBytes = .ok caCert) ∧
    (cfgMgr.IsTestModeEnabled = false → p.caCertBytes = []) := by
  unfold AwsKmsProvider.Init at h
  split at h
  · cases h
  · split at h
    · cases h
    · rename_i store w1 hst
      dsimp only at h
      split at h
      · cases h
      · cases h
      · rename_i p1 w2 hca
        split at h
        · cases h
        · rename_i e w3 hc
          simp only [Prod.mk.injEq, Outcome.returned.injEq, Except.ok.injEq] at h
          obtain ⟨rfl, rfl⟩ := h
          split at hca
          · rename_i ht
            simp only [Prod.mk.injEq, Outcome.returned.injEq] at hca
            refine ⟨fun _ => ?_, fun hf => ?_⟩
            · exact generateCACertificate_bytes lib _ p1 _ w1 w2 (Prod.ext hca.1 hca.2)
            · rw [hf] at ht
              cases ht
          · rename_i hnt
            refine ⟨fun ht => absurd ht hnt, fun _ => ?_⟩
            obtain ⟨_, _, _, _, _, _, _, _, _, rfl⟩ := getCACertificate_ok lib _ p1 w1 w2 hca
            rfl

set_option maxRecDepth 100000 in
/-- The device certificate that the AWS provider issues after a start in
production: the bundle holds one certificate. -/
theorem demo_production_bundle :
    (demoStartedAws.CreateDeviceCertificate keyLib "t1" (some [48, 1]) demoAwsStart.2).1.err
      = none ∧
    (demoStartedAws.CreateDeviceCertificate keyLib "t1" (some [48, 1])
        demoAwsStart.2).1.parentCerts = [48, 128, 48, 130, 1, 5, 5] ∧
    (demoStartedAws.RenewDeviceCertificate keyLib "t1" "d1" (some [48, 1])
        demoAwsStart.2).1.parentCerts = [48, 128, 48, 130, 1, 5, 5] ∧
    demoStartedAws.commonSigningCert.Certificate = [48, 130, 1, 5, 5] ∧
    demoStartedAws.caCert.Raw = [48, 130, 1, 5, 5] ∧
    demoStartedAws.caCertBytes = [] := by
  decide

/-- Claim C12, as far as it holds, and where it fails. In each of the four
paths the bytes handed to `pkcs7.DegenerateCertificate` are the signing
certificate and the field `caCertBytes` of the provider, in the order that the
claim states. After a successful `Init` of the local provider, and of the AWS
provider in test mode, `caCertBytes` holds the bytes of the root certificate,
so the bundle holds the two certificates. After a successful `Init` of the AWS
provider in production `caCertBytes` is empty: in the create path and in the
renew path the bytes handed over are the signing certificate alone, and the
bundle holds no root certificate. -/
theorem parent_bundle_order (lib : Lib) (lp : LocalProvider σ) (ap : AwsKmsProvider σ κ)
    (tenantID deviceID : String) (deviceCSR : Option Bytes) (w : World σ κ) :
    (∀ r w', lp.CreateDeviceCertificate lib tenantID deviceCSR w = (r, w') → r.err = none →
      ∃ (parsedCSR : CertificateRequest) (tpl signing : Certificate) (key : RSAPrivateKey),
        lib.CreateCertificate tpl signing parsedCSR.PublicKey key = .ok r.deviceCert ∧
        lib.DegenerateCertificate (signing.Raw ++ lp.caCertBytes) = .ok r.parentCerts) ∧
    (∀ r w', lp.RenewDeviceCertificate lib tenantID deviceID deviceCSR w = (r, w') →
      r.err = none →
      ∃ (parsedCSR : CertificateRequest) (tpl signing : Certificate) (key : RSAPrivateKey),
        lib.CreateCertificate tpl signing parsedCSR.PublicKey key = .ok r.deviceCert ∧
        lib.DegenerateCertificate (signing.Raw ++ lp.caCertBytes) = .ok r.parentCerts) ∧
    (∀ r w', ap.RenewDeviceCertificate lib tenantID deviceID deviceCSR w = (r, w') →
      r.err = none →
      ∃ (parsedCSR : CertificateRequest) (tpl signing : Certificate) (signer : KMSSigner)
        (w3 w4 : World σ κ),
        createCertificateWithSigner lib ap.client tpl signing parsedCSR.PublicKey signer w3
          = (.ok r.deviceCert, w4) ∧
        lib.DegenerateCertificate (signing.Raw ++ ap.caCertBytes) = .ok r.parentCerts) ∧
    (∀ r w', ap.CreateDeviceCertificate lib tenantID deviceCSR w = (r, w') → r.err = none →
      ∃ (parsedCSR : CertificateRequest) (tpl signing : Certificate) (signer : KMSSigner)
        (w3 w4 : World σ κ),
        createCertificateWithSigner lib ap.client tpl signing parsedCSR.PublicKey signer w3
          = (.ok r.deviceCert, w4) ∧
        lib.DegenerateCertificate (ap.caCertBytes ++ signing.Raw) = .ok r.parentCerts) ∧
    (∀ (b : Backends σ κ) (cfgMgr : ConfigMgr) (w0 w1 : World σ κ),
      LocalProvider.Init lib b cfgMgr w0 = (.ok lp, w1) →
      lib.ParseCertificate lp.caCertBytes = .ok lp.caCert) ∧
    (∀ (b : Backends σ κ) (cfgMgr : ConfigMgr) (w0 w1 : World σ κ),
      cfgMgr.IsTestModeEnabled = true →
      AwsKmsProvider.Init lib b cfgMgr w0 = (.returned (.ok ap), w1) →
      ∃ caCert, lib.ParseCertificate ap.caCertBytes = .ok caCert) ∧
    (∀ (b : Backends σ κ) (cfgMgr : ConfigMgr) (w0 w1 : World σ κ),
      cfgMgr.IsTestModeEnabled = false →
      AwsKmsProvider.Init lib b cfgMgr w0 = (.returned (.ok ap), w1) →
      ap.caCertBytes = [] ∧
      (∀ r w', ap.RenewDeviceCertificate lib tenantID deviceID deviceCSR w = (r, w') →
        r.err = none →
        ∃ (parsedCSR : CertificateRequest) (tpl signing : Certificate) (signer : KMSSigner)
          (w3 w4 : World σ κ),
          createCertificateWithSigner lib ap.client tpl signing parsedCSR.PublicKey signer w3
            = (.ok r.deviceCert, w4) ∧
          lib.DegenerateCertificate signing.Raw = .ok r.parentCerts) ∧
      (∀ r w', ap.CreateDeviceCertificate lib tenantID deviceCSR w = (r, w') → r.err = none →
        ∃ (parsedCSR : CertificateRequest) (tpl signing : Certificate) (signer : KMSSigner)
          (w3 w4 : World σ κ),
          createCertificateWithSigner lib ap.client tpl signing parsedCSR.PublicKey signer w3
            = (.ok r.deviceCert, w4) ∧
          lib.DegenerateCertificate signing.Raw = .ok r.parentCerts)) := by
  obtain ⟨h1, h2, h3, h4⟩ := parent_bundle_bytes lib lp ap tenantID deviceID deviceCSR w
  refine ⟨h1, h2, h3, h4, ?_, ?_, ?_⟩
  · intro b cfgMgr w0 w1 hinit
    obtain ⟨store, wa, wb, p0, p1, e, _, _, hgen, _, _, _, _, _, hcert, hbytes, _⟩ :=
      local_init_ok lib b cfgMgr w0 w1 lp hinit
    obtain ⟨_, _, tpl, wc, _, _, hparse⟩ := generateLocalCACertificate_ok lib p0 p1 wa wb hgen
    rw [hbytes, hcert]
    exact hparse
  · intro b cfgMgr w0 w1 ht hinit
    exact (aws_init_bytes lib b cfgMgr w0 w1 ap hinit).1 ht
  · intro b cfgMgr w0 w1 hf hinit
    have hb : ap.caCertBytes = [] := (aws_init_bytes lib b cfgMgr w0 w1 ap hinit).2 hf
    refine ⟨hb, ?_, ?_⟩
    · intro r w' h hok
      obtain ⟨parsedCSR, tpl, signing, signer, w3, w4, hc, hd⟩ := h3 r w' h hok
      rw [hb, List.append_nil] at hd
      exact ⟨parsedCSR, tpl, signing, signer, w3, w4, hc, hd⟩
    · intro r w' h hok
      obtain ⟨parsedCSR, tpl, signing, signer, w3, w4, hc, hd⟩ := h4 r w' h hok
      rw [hb, List.nil_append] at hd
      exact ⟨parsedCSR, tpl, signing, signer, w3, w4, hc, hd⟩

/-- Claim C12 after a start of the AWS provider in production, over a store
that holds the root certificate `[48, 130, 1, 5, 5]`: the provider holds no
root certificate bytes, and the bundle that comes with a device certificate
for tenant `t1` is the mark `[48, 128]` of the demonstration library followed
by one certificate of five bytes, the signing certificate. -/
theorem parent_bundle_order_witness :
    demoStartedAws.caCertBytes = [] ∧
    (demoStartedAws.CreateDeviceCertificate keyLib "t1" (some [48, 1])
        demoAwsStart.2).1.parentCerts = [48, 128, 48, 130, 1, 5, 5] ∧
    (∃ (parsedCSR : CertificateRequest) (tpl signing : Certificate) (signer : KMSSigner)
      (w3 w4 : World BoltDB (List (String × String))),
      createCertificateWithSigner keyLib demoStartedAws.client tpl signing
          parsedCSR.PublicKey signer w3
        = (.ok (demoStartedAws.CreateDeviceCertificate keyLib "t1" (some [48, 1])
            demoAwsStart.2).1.deviceCert, w4) ∧
      keyLib.DegenerateCertificate signing.Raw
        = .ok (demoStartedAws.CreateDeviceCertificate keyLib "t1" (some [48, 1])
            demoAwsStart.2).1.parentCerts) :=
  have h := (parent_bundle_order keyLib demoStartedLocal demoStartedAws "t1" "d1" (some [48, 1])
    demoAwsStart.2).2.2.2.2.2.2 demoBackends (demoConfigMgr "aws_kms" "localdb")
    (demoProductionWorld [48, 130, 1, 5, 5]) demoAwsStart.2 rfl demo_aws_started
  ⟨h.1, demo_production_bundle.2.1, h.2.2 _ _ (pair_eta _) demo_production_bundle.1⟩

end KryptonCA
